import Mathlib

/-!
# TeamsACS: CWMP codec, device registry and session dispatcher

A shallow embedding of `common/cwmp/Parser.go`, `app/cwmp.go` and
`tr069/handlers.go`, with theorems about the embedded functions.

Conventions of the embedding.

* A Go `(value, error)` result is an `Except String _`; a nil value with a nil
  error is `.ok none`.
* A Go panic is the constructor `Outcome.panicked`.
* A buffered channel is a capacity together with the list of buffered values,
  oldest first.  A single call of `RecvCwmpEventData` or `SendCwmpEventData`
  is modelled on the channel as it stands, and the time budget of a `select`
  is positive (every call site passes a positive constant), so that a ready
  channel operation is always the branch taken and a blocked one always ends
  in the timeout branch.  Where a handler starts a goroutine that sends on a
  queue which the handler then polls (`processInform`), the messages that
  arrive during the poll are a parameter of the handler.
* Logging, metrics and the observer bus (`events.PubEvent...`) have no effect
  on the values studied here and are left out.
-/

namespace TeamsACS

/-! ## The xmlx document tree -/

/-- Node kinds of package xmlx (`NT_ROOT` ... `NT_ELEMENT`). -/
inductive NodeType where
  | NT_ROOT
  | NT_DIRECTIVE
  | NT_PROCINST
  | NT_COMMENT
  | NT_TEXT
  | NT_ELEMENT
  deriving DecidableEq

/-- An XML name, as `encoding/xml.Name`: namespace and local part. -/
structure XmlName where
  Space : String
  Local : String
  deriving DecidableEq

/-- Modelled from the spec: package `common/xmlx` is not among the sources.
A node of the parsed document with the fields `ParseXML` reads: `Type`
(here `Typ`), `Name` and `Children`. -/
inductive Node where
  | mk (Typ : NodeType) (Name : XmlName) (Value : String) (Children : List Node)

/-- Field `Type` of a node. -/
def Node.Typ : Node → NodeType
  | .mk t _ _ _ => t

/-- Field `Name` of a node. -/
def Node.Name : Node → XmlName
  | .mk _ n _ _ => n

/-- Field `Children` of a node. -/
def Node.Children : Node → List Node
  | .mk _ _ _ cs => cs

mutual
/-- Modelled from the spec: package `common/xmlx` is not among the sources.
`SelectNode(namespace, name)` is the first node in document order (the node
itself included) whose namespace and local name match, `"*"` matching
anything; the spec has `ParseXML` look inside the SOAP `Body`. -/
def Node.SelectNode (ns name : String) : Node → Option Node
  | .mk t n v cs =>
    if (ns == "*" || n.Space == ns) && (name == "*" || n.Local == name) then
      some (.mk t n v cs)
    else
      selectNodeList ns name cs
/-- The search of `SelectNode` through a list of children, in order. -/
def selectNodeList (ns name : String) : List Node → Option Node
  | [] => none
  | c :: cs =>
    match Node.SelectNode ns name c with
    | some r => some r
    | none => selectNodeList ns name cs
end

/-! ## CWMP messages -/

/-- The dynamic type of a `cwmp.Message`: the message types that the sources
construct, parse or switch on. -/
inductive MsgKind where
  | Inform
  | InformResponse
  | GetParameterValues
  | GetParameterValuesResponse
  | SetParameterValues
  | SetParameterValuesResponse
  | GetParameterNames
  | GetParameterNamesResponse
  | Download
  | DownloadResponse
  | Upload
  | UploadResponse
  | TransferComplete
  | TransferCompleteResponse
  | GetRPCMethods
  | GetRPCMethodsResponse
  | Reboot
  | RebootResponse
  | FactoryReset
  | FactoryResetResponse
  | ScheduleInform
  | ScheduleInformResponse
  deriving DecidableEq

/-- Modelled from the spec: the message types of package `cwmp` are not among
the sources. `GetName()` of a message is the name of its variant. -/
def MsgKind.GetName : MsgKind → String
  | .Inform => "Inform"
  | .InformResponse => "InformResponse"
  | .GetParameterValues => "GetParameterValues"
  | .GetParameterValuesResponse => "GetParameterValuesResponse"
  | .SetParameterValues => "SetParameterValues"
  | .SetParameterValuesResponse => "SetParameterValuesResponse"
  | .GetParameterNames => "GetParameterNames"
  | .GetParameterNamesResponse => "GetParameterNamesResponse"
  | .Download => "Download"
  | .DownloadResponse => "DownloadResponse"
  | .Upload => "Upload"
  | .UploadResponse => "UploadResponse"
  | .TransferComplete => "TransferComplete"
  | .TransferCompleteResponse => "TransferCompleteResponse"
  | .GetRPCMethods => "GetRPCMethods"
  | .GetRPCMethodsResponse => "GetRPCMethodsResponse"
  | .Reboot => "Reboot"
  | .RebootResponse => "RebootResponse"
  | .FactoryReset => "FactoryReset"
  | .FactoryResetResponse => "FactoryResetResponse"
  | .ScheduleInform => "ScheduleInform"
  | .ScheduleInformResponse => "ScheduleInformResponse"

/-- A typed parameter value, `cwmp.ValueStruct`. -/
structure ValueStruct where
  Typ : String
  Value : String
  deriving DecidableEq

/-- A Go `map[string]V`: a list of key/value pairs with pairwise distinct
keys; the order of the list carries no meaning. -/
abbrev GoMap (V : Type) := List (String × V)

/-- Modelled from the spec: type `cwmp.Inform` is not among the sources. The
fields are the ones the sources read: envelope ID, identification, event
codes, counters and the parameter map. -/
structure Inform where
  ID : String
  Sn : String
  Manufacturer : String
  OUI : String
  ProductClass : String
  CommandKey : String
  Events : List String
  MaxEnvelopes : Int
  RetryCount : Int
  Params : GoMap String
  deriving DecidableEq

/-- The reply to an Inform, `cwmp.InformResponse`. -/
structure InformResponse where
  ID : String
  MaxEnvelopes : Int
  deriving DecidableEq

/-- The RPC `cwmp.GetParameterValues`. -/
structure GetParameterValues where
  ID : String
  Name : String
  NoMore : Int
  ParameterNames : List String
  deriving DecidableEq

/-- The RPC `cwmp.SetParameterValues`. -/
structure SetParameterValues where
  ID : String
  Name : String
  NoMore : Int
  Params : GoMap ValueStruct
  deriving DecidableEq

/-- The response `cwmp.GetParameterValuesResponse`. -/
structure GetParameterValuesResponse where
  ID : String
  Values : GoMap String
  deriving DecidableEq

/-- An entry of a `GetParameterNamesResponse`: parameter name and writable
flag. -/
structure ParameterInfoStruct where
  Name : String
  Writable : String
  deriving DecidableEq

/-- The response `cwmp.GetParameterNamesResponse`. -/
structure GetParameterNamesResponse where
  ID : String
  Params : List ParameterInfoStruct
  deriving DecidableEq

/-- The request `cwmp.TransferComplete`, with its command key. -/
structure TransferComplete where
  ID : String
  CommandKey : String
  deriving DecidableEq

/-- A message of which the sources read the envelope ID only. -/
structure Envelope where
  ID : String
  deriving DecidableEq

/-- The fields carried by each message variant. -/
def Payload : MsgKind → Type
  | .Inform => Inform
  | .InformResponse => InformResponse
  | .GetParameterValues => GetParameterValues
  | .SetParameterValues => SetParameterValues
  | .GetParameterValuesResponse => GetParameterValuesResponse
  | .GetParameterNamesResponse => GetParameterNamesResponse
  | .TransferComplete => TransferComplete
  | _ => Envelope

/-- A `cwmp.Message`: a variant and the fields of that variant. -/
structure Message where
  kind : MsgKind
  payload : Payload kind

/-- Method `GetName()` of a message. -/
def Message.GetName (m : Message) : String :=
  m.kind.GetName

/-- Method `GetID()` of a message. -/
def Message.GetID : Message → String
  | ⟨.Inform, p⟩ => Inform.ID p
  | ⟨.InformResponse, p⟩ => InformResponse.ID p
  | ⟨.GetParameterValues, p⟩ => GetParameterValues.ID p
  | ⟨.SetParameterValues, p⟩ => SetParameterValues.ID p
  | ⟨.GetParameterValuesResponse, p⟩ => GetParameterValuesResponse.ID p
  | ⟨.GetParameterNames, p⟩ => Envelope.ID p
  | ⟨.GetParameterNamesResponse, p⟩ => GetParameterNamesResponse.ID p
  | ⟨.SetParameterValuesResponse, p⟩ => Envelope.ID p
  | ⟨.Download, p⟩ => Envelope.ID p
  | ⟨.DownloadResponse, p⟩ => Envelope.ID p
  | ⟨.Upload, p⟩ => Envelope.ID p
  | ⟨.UploadResponse, p⟩ => Envelope.ID p
  | ⟨.TransferComplete, p⟩ => TransferComplete.ID p
  | ⟨.TransferCompleteResponse, p⟩ => Envelope.ID p
  | ⟨.GetRPCMethods, p⟩ => Envelope.ID p
  | ⟨.GetRPCMethodsResponse, p⟩ => Envelope.ID p
  | ⟨.Reboot, p⟩ => Envelope.ID p
  | ⟨.RebootResponse, p⟩ => Envelope.ID p
  | ⟨.FactoryReset, p⟩ => Envelope.ID p
  | ⟨.FactoryResetResponse, p⟩ => Envelope.ID p
  | ⟨.ScheduleInform, p⟩ => Envelope.ID p
  | ⟨.ScheduleInformResponse, p⟩ => Envelope.ID p

/-- The parts of the codec whose code is not among the sources, taken as
parameters: the XML reader `xmlx.Document.LoadBytes` and the method
`Parse(doc)` of each message type, which fills the fields of a fresh message
of that type from the document. -/
structure Codec where
  LoadBytes : List Nat → Except String Node
  Parse : (k : MsgKind) → Node → Payload k

/-! ## `ParseXML` (common/cwmp/Parser.go) -/

/-- The loop of `ParseXML` over `bodyNode.Children`: the local name of the
first child that is an element with a non-empty local name, `""` when there
is none. -/
def firstElementName : List Node → String
  | [] => ""
  | child :: rest =>
    if child.Typ = NodeType.NT_ELEMENT ∧ child.Name.Local ≠ "" then
      child.Name.Local
    else
      firstElementName rest

/-- The `switch name` of `ParseXML`: the fresh message chosen for an element
name, `none` for the `default` branch. -/
def messageForName (name : String) : Option MsgKind :=
  if name = "Inform" then some .Inform
  else if name = "GetParameterValuesResponse" then some .GetParameterValuesResponse
  else if name = "SetParameterValuesResponse" then some .SetParameterValuesResponse
  else if name = "GetParameterNames" then some .GetParameterNames
  else if name = "GetParameterNamesResponse" then some .GetParameterNamesResponse
  else if name = "DownloadResponse" then some .DownloadResponse
  else if name = "UploadResponse" then some .UploadResponse
  else if name = "TransferComplete" then some .TransferComplete
  else if name = "GetRPCMethodsResponse" then some .GetRPCMethodsResponse
  else if name = "RebootResponse" then some .RebootResponse
  else if name = "FactoryResetResponse" then some .FactoryResetResponse
  else if name = "ScheduleInform" then some .ScheduleInform
  else if name = "ScheduleInformResponse" then some .ScheduleInformResponse
  else none

/-- The part of `ParseXML` after the document is loaded (Parser.go lines
16-63). -/
def parseDoc (cd : Codec) (doc : Node) : Except String (Option Message) :=
  match doc.SelectNode "*" "Body" with
  | some bodyNode =>
    let name := firstElementName bodyNode.Children
    if name = "" then
      .error "no element found in SOAP Body"
    else
      match messageForName name with
      | some k => .ok (some ⟨k, cd.Parse k doc⟩)
      | none => .error ("no msg type match: " ++ name)
  | none => .ok none

/-- The function `ParseXML(data)`. -/
def ParseXML (cd : Codec) (data : List Nat) : Except String (Option Message) :=
  match cd.LoadBytes data with
  | .error err => .error err
  | .ok doc => parseDoc cd doc

/-! ## Go strings, maps, time and channels -/

/-- The function `strings.HasPrefix`. -/
def HasPrefix (s pre : String) : Bool :=
  pre.toList.isPrefixOf s.toList

/-- The function `strings.Contains`. -/
def Contains (s substr : String) : Bool :=
  s.toList.tails.any (fun t => substr.toList.isPrefixOf t)

/-- The rune map of `unicode.ToLower` as far as it can produce an ASCII
letter: `A`..`Z`, the Kelvin sign (to `k`) and the dotted capital I (to `i`).
Every other rune is kept: its lower case is not an ASCII letter, and where
this map is used the sources only search the result for ASCII words. -/
def toLowerRune (c : Char) : Char :=
  if c.val = 0x212A then 'k'
  else if c.val = 0x130 then 'i'
  else c.toLower

/-- The function `strings.ToLower`, for the callers that search the result for
ASCII words (`detectDeviceType` and the vendor tests): there a rune whose
lower case is not an ASCII letter may be kept as it is. Where the result is
compared as a whole, as the key of the join in `parseHostDevices`, the
function is a parameter instead. -/
def ToLower (s : String) : String :=
  String.mk (s.toList.map toLowerRune)

/-- Read `m[k]` with the comma-ok form. -/
def mapGet {V : Type} (m : GoMap V) (k : String) : Option V :=
  match m with
  | [] => none
  | (k1, v) :: rest => if k1 = k then some v else mapGet rest k

/-- Assign `m[k] = v`: replace the value of an existing key, add a new key. -/
def mapSet {V : Type} (m : GoMap V) (k : String) (v : V) : GoMap V :=
  match m with
  | [] => [(k, v)]
  | (k1, v1) :: rest => if k1 = k then (k1, v) :: rest else (k1, v1) :: mapSet rest k v

/-- The builtin `delete(m, k)`. -/
def mapDelete {V : Type} (m : GoMap V) (k : String) : GoMap V :=
  m.filter (fun e => e.1 ≠ k)

/-- The keys of a map. -/
def mapKeys {V : Type} (m : GoMap V) : List String :=
  m.map Prod.fst

/-- A `time.Time`, as nanoseconds since an epoch. -/
abbrev Time := Int

/-- The largest `time.Duration`, `1<<63 - 1` nanoseconds. -/
def maxDuration : Int := 9223372036854775807

/-- The smallest `time.Duration`, `-1 << 63` nanoseconds. -/
def minDuration : Int := -9223372036854775808

/-- The method `t.Sub(u)`: the duration `t - u` in nanoseconds, saturated at
the ends of the `int64` range. -/
def Time.Sub (t u : Time) : Int :=
  if t - u > maxDuration then maxDuration
  else if t - u < minDuration then minDuration
  else t - u

/-- The method `Duration.Seconds()`: whole seconds plus the remaining
nanoseconds over `1e9`, Go's `/` and `%` truncating towards zero. The
`float64` sum is taken as the exact rational; the comparison with `300` made
by the caller is the same, since `300` is a `float64` and rounding is
monotone and exact there, while `300 + 1e-9` rounds to a larger `float64`. -/
def Seconds (d : Int) : ℚ :=
  ((Int.tdiv d 1000000000 : Int) : ℚ) + ((Int.tmod d 1000000000 : Int) : ℚ) / 1000000000

/-- A buffered channel `chan T`: capacity and the buffered values, oldest
first. -/
structure Chan (α : Type) where
  cap : Nat
  buf : List α

/-- The builtin `make(chan T, n)`. -/
def Chan.make {α : Type} (n : Nat) : Chan α :=
  ⟨n, []⟩

/-- Modelled from the spec: `models.CwmpEventData` is not among the sources.
The outbound unit of work: session id, target SN and the RPC message. -/
structure CwmpEventData where
  Session : String
  Sn : String
  Message : Message

/-- The result of a function that may panic. -/
inductive Outcome (α : Type) where
  | done (a : α)
  | panicked (reason : String)

/-! ## The persistence interface and other collaborators -/

/-- A value stored in a `map[string]interface{}` of column updates: the
sources store strings and `time.Time` values. -/
inductive Value where
  | str (s : String)
  | time (t : Time)
  deriving DecidableEq

/-- Modelled from the spec: `models.CwmpPresetTask` is not among the sources.
The persisted counterpart of an event record; the dispatcher reads its name
and its RPC XML (`Request`). -/
structure CwmpPresetTask where
  Name : String
  Request : String
  deriving DecidableEq

/-- The row that `CheckRegister` creates, `models.NetCpe` with the fields set
there. -/
structure NetCpe where
  ID : Int
  NodeId : Int
  Sn : String
  Name : String
  Model : String
  Oui : String
  Manufacturer : String
  ProductClass : String
  DeviceType : String
  Status : String
  Remark : String
  CwmpUrl : String
  CreatedAt : Time
  UpdatedAt : Time
  deriving DecidableEq

/-- Modelled from the spec: the event tags of preset tasks (`app.BootStrapEvent`,
`app.BootEvent`, `app.PeriodicEvent`) are not among the sources. -/
inductive PresetEvent where
  | BootStrapEvent
  | BootEvent
  | PeriodicEvent
  deriving DecidableEq

/-- A write sent to the database, or a call of a database routine whose code
is not among the sources (the preset-task engine). The dispatcher's effects
on the store are recorded as a list of these, oldest first. -/
inductive DbOp where
  | Updates (sn : String) (valmap : GoMap Value)
  | Create (row : NetCpe)
  | OnParamsUpdate (sn : String) (manufacturer : String) (params : GoMap String)
  | UpdateWritable (sn : String) (name : String) (writable : String)
  | UpdateCwmpPresetTaskStatus (id : String)
  | UpdateCwmpConfigSessionStatus (id : String)
  | CreateCwmpPresetEventTask (sn : String) (event : PresetEvent) (pid : String)
  | ActiveCwmpSchedEventTask (sn : String)
  | CreateCwmpSchedEventTask (sn : String) (key : String)
  deriving DecidableEq

/-- The collaborators whose code is not among the sources, taken as
parameters: the helper `common.IsEmptyOrNA`, the constant
`timeutil.EmptyTime`, the settings table, the row count of `net_cpe` for a
serial number, whether creating a device row fails, the id generator, the
constant `AutoRegisterPopNodeId`, the Inform accessor `GetSoftwareVersion`
and the preset-task query `GetLatestCwmpPresetTask` with its `(task, err)`
result for a serial number. -/
structure Env where
  IsEmptyOrNA : String → Bool
  EmptyTime : Time
  GetTr069SettingsStringValue : String → String
  netCpeCount : String → Int
  createFails : NetCpe → Bool
  UUIDint64 : Int
  AutoRegisterPopNodeId : Int
  GetSoftwareVersion : Inform → String
  GetLatestCwmpPresetTask : String → Option CwmpPresetTask × Option String

/-! ## The device registry (app/cwmp.go) -/

/-- The runtime entry `CwmpCpe`. A nil `taskTags` slice is `none`. -/
structure CwmpCpe where
  Sn : String
  OUI : String
  taskTags : Option (List String)
  SoftwareVersion : String
  Manufacturer : String
  ProductClass : String
  cwmpQueueMap : Chan CwmpEventData
  cwmpHPQueueMap : Chan CwmpEventData
  LastInform : Option Inform
  LastUpdate : Time
  LastDataNotify : Time
  IsRegister : Bool

/-- The registry `CwmpEventTable`: the map from serial number to runtime
entry. The entries are pointers in Go; here the table holds the entry values,
and a caller that changes an entry writes it back with `setCpe`. -/
structure CwmpEventTable where
  cpeTable : GoMap CwmpCpe

/-- The constructor `NewCwmpEventTable`. -/
def NewCwmpEventTable : CwmpEventTable :=
  ⟨[]⟩

/-- The method `Size`. -/
def CwmpEventTable.Size (c : CwmpEventTable) : Nat :=
  c.cpeTable.length

/-- The method `ListSn`. -/
def CwmpEventTable.ListSn (c : CwmpEventTable) : List String :=
  mapKeys c.cpeTable

/-- The effect on the table of a change made through the pointer to the entry
of `key`. -/
def CwmpEventTable.setCpe (c : CwmpEventTable) (key : String) (cpe : CwmpCpe) : CwmpEventTable :=
  ⟨mapSet c.cpeTable key cpe⟩

/-- The method `GetCwmpCpe(key)`: the entry returned and the table after the
call; a panic when the key is empty or N/A. -/
def CwmpEventTable.GetCwmpCpe (env : Env) (c : CwmpEventTable) (key : String) :
    Outcome (CwmpCpe × CwmpEventTable) :=
  if env.IsEmptyOrNA key then
    .panicked "key is empty"
  else
    match mapGet c.cpeTable key with
    | some cpe => .done (cpe, c)
    | none =>
      let count := env.netCpeCount key
      let cpe : CwmpCpe :=
        { Sn := key
          OUI := ""
          taskTags := none
          SoftwareVersion := ""
          Manufacturer := ""
          ProductClass := ""
          cwmpQueueMap := Chan.make 512
          cwmpHPQueueMap := Chan.make 1
          LastInform := none
          LastUpdate := env.EmptyTime
          LastDataNotify := env.EmptyTime
          IsRegister := decide (count > 0) }
      .done (cpe, ⟨mapSet c.cpeTable key cpe⟩)

/-- The method `ClearCwmpCpe(key)`. -/
def CwmpEventTable.ClearCwmpCpe (c : CwmpEventTable) (key : String) : CwmpEventTable :=
  ⟨mapDelete c.cpeTable key⟩

/-- The method `ClearCwmpCpeCache(key)`. -/
def CwmpEventTable.ClearCwmpCpeCache (env : Env) (c : CwmpEventTable) (key : String) :
    Outcome CwmpEventTable :=
  match c.GetCwmpCpe env key with
  | .panicked r => .panicked r
  | .done (cpe, c1) => .done (c1.setCpe key { cpe with taskTags := none })

/-- The method `getQueue(hp)`. -/
def CwmpCpe.getQueue (c : CwmpCpe) (hp : Bool) : Chan CwmpEventData :=
  if hp then c.cwmpHPQueueMap else c.cwmpQueueMap

/-- The entry after the channel chosen by `getQueue(hp)` has changed to `q`. -/
def CwmpCpe.setQueue (c : CwmpCpe) (hp : Bool) (q : Chan CwmpEventData) : CwmpCpe :=
  if hp then { c with cwmpHPQueueMap := q } else { c with cwmpQueueMap := q }

/-- The method `RecvCwmpEventData(timeoutMsec, hp)`: the `(data, err)` result
and the entry after the call. A buffered value is received at once; on an
empty channel the timeout branch is taken. -/
def CwmpCpe.RecvCwmpEventData (c : CwmpCpe) (_timeoutMsec : Int) (hp : Bool) :
    Except String CwmpEventData × CwmpCpe :=
  match (c.getQueue hp).buf with
  | data :: rest => (.ok data, c.setQueue hp ⟨(c.getQueue hp).cap, rest⟩)
  | [] => (.error "read cwmp event channel timeout", c)

/-- The method `SendCwmpEventData(data, timeoutMsec, hp)`: the error (`none`
for nil) and the entry after the call. The value is buffered when the channel
has room; on a full channel the timeout branch is taken. -/
def CwmpCpe.SendCwmpEventData (c : CwmpCpe) (data : CwmpEventData) (_timeoutMsec : Int)
    (hp : Bool) : Option String × CwmpCpe :=
  if (c.getQueue hp).buf.length < (c.getQueue hp).cap then
    (none, c.setQueue hp ⟨(c.getQueue hp).cap, (c.getQueue hp).buf ++ [data]⟩)
  else
    (some "cwmp event channel full, write timeout", c)

/-! ## The Inform processor (app/cwmp.go) -/

/-- Modelled from the spec: the accessor `GetParam(name)` of an Inform is not
among the sources. The value of the named parameter, `""` when the Inform
does not carry it. -/
def Inform.GetParam (msg : Inform) (name : String) : String :=
  (mapGet msg.Params name).getD ""

/-- Modelled from the spec: the accessor `IsEvent(code)` of an Inform is not
among the sources. Whether the Inform bears the event code. -/
def Inform.IsEvent (msg : Inform) (code : String) : Bool :=
  decide (code ∈ msg.Events)

/-- Modelled from the spec: the event code `cwmp.EventBootStrap`. -/
def EventBootStrap : String := "0 BOOTSTRAP"

/-- Modelled from the spec: the event code `cwmp.EventBoot`. -/
def EventBoot : String := "1 BOOT"

/-- Modelled from the spec: the event code `cwmp.EventPeriodic`. -/
def EventPeriodic : String := "2 PERIODIC"

/-- Modelled from the spec: the event code `cwmp.EventScheduled`. -/
def EventScheduled : String := "3 SCHEDULED"

/-- Modelled from the spec: the event code `cwmp.EventValueChange`. -/
def EventValueChange : String := "4 VALUE CHANGE"

/-- The constant `ConfigCpeAutoRegister`. -/
def ConfigCpeAutoRegister : String := "CpeAutoRegister"

/-- The constant `DeviceTypeRouter`. -/
def DeviceTypeRouter : String := "router"

/-- The constant `DeviceTypeONT`. -/
def DeviceTypeONT : String := "ont"

/-- The constant `DeviceTypeGateway`. -/
def DeviceTypeGateway : String := "gateway"

/-- The function `setMapValue`. -/
def setMapValue (vmap : GoMap Value) (name : String) (value : Value) : GoMap Value :=
  if name ≠ "" ∧ value ≠ Value.str "" then mapSet vmap name value else vmap

/-- The function `detectDeviceType`. -/
def detectDeviceType (manufacturer productClass _oui : String) : String :=
  let m := ToLower manufacturer
  let p := ToLower productClass
  if Contains m "zte" then DeviceTypeONT
  else if Contains m "huawei" && (Contains p "ont" || Contains p "hg" || Contains p "eg") then
    DeviceTypeONT
  else if Contains m "fiberhome" || Contains m "an5506" then DeviceTypeONT
  else if Contains m "nokia" || Contains m "alcatel" then DeviceTypeONT
  else if Contains m "bdcom" then DeviceTypeONT
  else if Contains m "cdtc" then DeviceTypeONT
  else if Contains p "ont" || Contains p "onu" || Contains p "gpon" || Contains p "epon" then
    DeviceTypeONT
  else if Contains m "mikrotik" then DeviceTypeRouter
  else DeviceTypeRouter

/-- The method `CheckRegister(ip, msg)`, `ctime` being the reading of
`time.Now()`: the entry after the call and the database writes. -/
def CwmpCpe.CheckRegister (env : Env) (c : CwmpCpe) (ip : String) (msg : Inform)
    (ctime : Time) : CwmpCpe × List DbOp :=
  if env.GetTr069SettingsStringValue ConfigCpeAutoRegister ≠ "enabled" then
    (c, [])
  else if !c.IsRegister then
    let deviceType := detectDeviceType msg.Manufacturer msg.ProductClass msg.OUI
    let row : NetCpe :=
      { ID := env.UUIDint64
        NodeId := env.AutoRegisterPopNodeId
        Sn := msg.Sn
        Name := "Device-" ++ msg.Sn
        Model := msg.ProductClass
        Oui := msg.OUI
        Manufacturer := msg.Manufacturer
        ProductClass := msg.ProductClass
        DeviceType := deviceType
        Status := ""
        Remark := "first register from " ++ ip
        CwmpUrl := msg.GetParam "Device.ManagementServer.ConnectionRequestURL"
        CreatedAt := ctime
        UpdatedAt := ctime }
    if env.createFails row then (c, [])
    else ({ c with IsRegister := true }, [DbOp.Create row])
  else
    (c, [])

/-- The method `UpdateStatus(msg)`, `now` being the reading of `time.Now()`. -/
def CwmpCpe.UpdateStatus (env : Env) (c : CwmpCpe) (msg : Inform) (now : Time) : CwmpCpe :=
  let c := { c with LastInform := some msg, LastUpdate := now }
  let c := if msg.ProductClass ≠ "" then { c with ProductClass := msg.ProductClass } else c
  let c := if msg.OUI ≠ "" then { c with OUI := msg.OUI } else c
  let c := if msg.Manufacturer ≠ "" then { c with Manufacturer := msg.Manufacturer } else c
  if env.GetSoftwareVersion msg ≠ "" then
    { c with SoftwareVersion := env.GetSoftwareVersion msg }
  else c

/-- The function `getInformParam`. -/
def getInformParam (msg : Inform) (tr181Path tr098Path : String) : String :=
  let v := msg.GetParam tr181Path
  if v = "" ∧ tr098Path ≠ "" then msg.GetParam tr098Path else v

/-- The `default` branch of `applyVendorSpecificParams`: ONT and generic
parameters. -/
def applyGenericParams (valmap : GoMap Value) (msg : Inform) : GoMap Value :=
  let valmap := setMapValue valmap "system_name" (.str (getInformParam msg
    "Device.DeviceInfo.ModelName"
    "InternetGatewayDevice.DeviceInfo.ModelName"))
  let rxPower := getInformParam msg
    "Device.Optical.Interface.1.RxPower"
    "InternetGatewayDevice.DeviceInfo.XponInterface.RXPower"
  let valmap := setMapValue valmap "fiber_rx_power" (.str rxPower)
  let txPower := getInformParam msg
    "Device.Optical.Interface.1.TxPower"
    "InternetGatewayDevice.DeviceInfo.XponInterface.TXPower"
  let valmap := setMapValue valmap "fiber_tx_power" (.str txPower)
  let valmap := setMapValue valmap "pon_sn_hex" (.str (getInformParam msg
    "Device.DeviceInfo.SerialNumber"
    "InternetGatewayDevice.DeviceInfo.SerialNumber"))
  let valmap := setMapValue valmap "olt_uplink" (.str (getInformParam msg
    "Device.Optical.Interface.1.UpperLayers"
    "InternetGatewayDevice.DeviceInfo.XponInterface.OLTInfo"))
  let rxPower2 := if rxPower = "" then getInformParam msg
    "InternetGatewayDevice.WANDevice.1.X_ZTE-COM_WANPONInterfaceConfig.RXPower"
    "InternetGatewayDevice.WANDevice.2.X_ZTE-COM_WANPONInterfaceConfig.RXPower" else rxPower
  let valmap := if rxPower = "" then setMapValue valmap "fiber_rx_power" (.str rxPower2) else valmap
  let txPower2 := if txPower = "" then getInformParam msg
    "InternetGatewayDevice.WANDevice.1.X_ZTE-COM_WANPONInterfaceConfig.TXPower"
    "InternetGatewayDevice.WANDevice.2.X_ZTE-COM_WANPONInterfaceConfig.TXPower" else txPower
  let valmap := if txPower = "" then setMapValue valmap "fiber_tx_power" (.str txPower2) else valmap
  if rxPower2 ≠ "" ∨ txPower2 ≠ "" then
    setMapValue valmap "device_type" (.str DeviceTypeONT)
  else valmap

/-- The method `applyVendorSpecificParams(valmap, msg)`. -/
def CwmpCpe.applyVendorSpecificParams (c : CwmpCpe) (valmap : GoMap Value) (msg : Inform) :
    GoMap Value :=
  let m := ToLower c.Manufacturer
  if Contains m "mikrotik" then
    let valmap := setMapValue valmap "arch_name"
      (.str (msg.GetParam "Device.DeviceInfo.X_MIKROTIK_ArchName"))
    setMapValue valmap "system_name"
      (.str (msg.GetParam "Device.DeviceInfo.X_MIKROTIK_SystemIdentity"))
  else
    applyGenericParams valmap msg

/-- The column map that `OnInformUpdate` builds for the Inform `msg`, `now`
being the reading of `time.Now()`. -/
def CwmpCpe.informValmap (c : CwmpCpe) (msg : Inform) (now : Time) : GoMap Value :=
  let valmap : GoMap Value := []
  let valmap := setMapValue valmap "manufacturer" (.str msg.Manufacturer)
  let valmap := setMapValue valmap "product_class" (.str msg.ProductClass)
  let valmap := setMapValue valmap "oui" (.str msg.OUI)
  let valmap := setMapValue valmap "cwmp_status" (.str "online")
  let valmap := setMapValue valmap "cwmp_last_inform" (.time now)
  let valmap := setMapValue valmap "cwmp_url" (.str (getInformParam msg
    "Device.ManagementServer.ConnectionRequestURL"
    "InternetGatewayDevice.ManagementServer.ConnectionRequestURL"))
  let valmap := setMapValue valmap "software_version" (.str (getInformParam msg
    "Device.DeviceInfo.SoftwareVersion"
    "InternetGatewayDevice.DeviceInfo.SoftwareVersion"))
  let valmap := setMapValue valmap "hardware_version" (.str (getInformParam msg
    "Device.DeviceInfo.HardwareVersion"
    "InternetGatewayDevice.DeviceInfo.HardwareVersion"))
  let valmap := setMapValue valmap "model" (.str (getInformParam msg
    "Device.DeviceInfo.ModelName"
    "InternetGatewayDevice.DeviceInfo.ModelName"))
  let valmap := setMapValue valmap "uptime" (.str (getInformParam msg
    "Device.DeviceInfo.UpTime"
    "InternetGatewayDevice.DeviceInfo.UpTime"))
  let valmap := setMapValue valmap "cpu_usage" (.str (getInformParam msg
    "Device.DeviceInfo.ProcessStatus.CPUUsage"
    "InternetGatewayDevice.DeviceInfo.ProcessStatus.CPUUsage"))
  let valmap := setMapValue valmap "memory_total" (.str (getInformParam msg
    "Device.DeviceInfo.MemoryStatus.Free"
    "InternetGatewayDevice.DeviceInfo.MemoryStatus.Free"))
  let valmap := setMapValue valmap "memory_free" (.str (getInformParam msg
    "Device.DeviceInfo.MemoryStatus.Total"
    "InternetGatewayDevice.DeviceInfo.MemoryStatus.Total"))
  let valmap := c.applyVendorSpecificParams valmap msg
  if (mapGet valmap "pon_sn_hex").isNone ∧ c.Sn ≠ "" then
    mapSet valmap "pon_sn_hex" (.str c.Sn)
  else valmap

/-- The method `OnInformUpdate()`, the full parameter normalizer: the database
writes; a panic when the entry has no Inform (`msg` is nil). -/
def CwmpCpe.OnInformUpdate (c : CwmpCpe) (now : Time) : Outcome (List DbOp) :=
  match c.LastInform with
  | none => .panicked "invalid memory address or nil pointer dereference"
  | some msg =>
    let valmap := c.informValmap msg now
    if valmap.length > 0 then .done [DbOp.Updates c.Sn valmap] else .done []

/-- The method `OnInformUpdateOnline()`: the database writes. -/
def CwmpCpe.OnInformUpdateOnline (c : CwmpCpe) (now : Time) : List DbOp :=
  [DbOp.Updates c.Sn [("cwmp_status", .str "online"), ("cwmp_last_inform", .time now)]]

/-- The method `NotifyDataUpdate(force)`. The readings of `time.Now()` are
`ctime` at entry, `tUpdate` inside the update routine and `tNotify` for the
new `LastDataNotify`. The entry after the call and the database writes. -/
def CwmpCpe.NotifyDataUpdate (c : CwmpCpe) (force : Bool) (ctime tUpdate tNotify : Time) :
    Outcome (CwmpCpe × List DbOp) :=
  let updateFlag : Bool := decide (Seconds (Time.Sub ctime c.LastDataNotify) > 300)
  let updateFlag : Bool := if force then true else updateFlag
  if updateFlag then
    match c.OnInformUpdate tUpdate with
    | .panicked r => .panicked r
    | .done ops => .done ({ c with LastDataNotify := tNotify }, ops)
  else
    .done (c, c.OnInformUpdateOnline tUpdate)

/-- The method `UpdateManagementAuthInfo(session, timeout, hp)`: the error and
the entry after the call. -/
def CwmpCpe.UpdateManagementAuthInfo (env : Env) (c : CwmpCpe) (session : String)
    (timeout : Int) (hp : Bool) : Option String × CwmpCpe :=
  let pre :=
    match c.LastInform with
    | some inform =>
      if inform.Params.any (fun kv => HasPrefix kv.1 "InternetGatewayDevice.") then
        "InternetGatewayDevice.ManagementServer."
      else "Device.ManagementServer."
    | none => "Device.ManagementServer."
  let interval :=
    if env.GetTr069SettingsStringValue "CpePeriodicInformInterval" = "" then "60"
    else env.GetTr069SettingsStringValue "CpePeriodicInformInterval"
  let params : GoMap ValueStruct :=
    [ (pre ++ "ConnectionRequestUsername", ⟨"xsd:string", c.Sn⟩),
      (pre ++ "ConnectionRequestPassword",
        ⟨"xsd:string", env.GetTr069SettingsStringValue "CpeConnectionRequestPassword"⟩),
      (pre ++ "PeriodicInformEnable", ⟨"xsd:boolean", "true"⟩),
      (pre ++ "PeriodicInformInterval", ⟨"xsd:unsignedInt", interval⟩) ]
  c.SendCwmpEventData
    { Session := session
      Sn := c.Sn
      Message := ⟨.SetParameterValues,
        ({ ID := session, Name := "", NoMore := 0, Params := params } : SetParameterValues)⟩ }
    timeout hp

/-! ## The session dispatcher (tr069/handlers.go) -/

/-- The body of an XML reply: the encoding `CreateXML()` of a message (the
encoder is not among the sources, the message stands for its encoding) or the
stored RPC XML of a preset task. -/
inductive XmlBody where
  | created (m : Message)
  | raw (s : String)

/-- What the handler writes to the client: `c.String(code, s)`,
`c.XMLBlob(code, body)` or `c.NoContent(code)`. -/
inductive Response where
  | String (code : Nat) (s : String)
  | XMLBlob (code : Nat) (body : XmlBody)
  | NoContent (code : Nat)

/-- The HTTP status of a response. -/
def Response.code : Response → Nat
  | .String code _ => code
  | .XMLBlob code _ => code
  | .NoContent code => code

/-- The function `xmlCwmpMessage`. -/
def xmlCwmpMessage (response : XmlBody) : Response :=
  .XMLBlob 200 response

/-- The function `noContentResp`. -/
def noContentResp : Response :=
  .NoContent 204

/-- The request as the handler reads it: the value of the `tr069-session`
cookie if any, the body, a failure of reading the body, and the peer
address. -/
structure Request where
  Cookie : Option String
  Body : List Nat
  ReadErr : Option String
  RealIP : String

/-- Modelled from the spec: `GetLatestCookieSn` is not among the sources. The
session cookie carries the serial number; without a cookie the result is
`""`. -/
def GetLatestCookieSn (req : Request) : String :=
  req.Cookie.getD ""

/-- A goroutine started by a handler with `go`; it runs after, or along with,
the rest of the handler and is not part of the handler's own result. -/
inductive Goroutine where
  | processInformEvent (realIP : String) (lastInform : Inform)
  | transferCompleteUpdates (tc : TransferComplete)
  | ProcessParameterNamesResponse (sn : String) (gm : GetParameterNamesResponse)
  | autoFetch (lastInform : Inform)

/-- The result of a handler: the response, the session cookie it sets, the
registry and the database writes after the call, and the goroutines it
started. -/
structure Handled where
  response : Response
  cookie : Option String
  table : CwmpEventTable
  db : List DbOp
  spawned : List Goroutine

/-- The queue poll of the dispatcher, written out at four places of
handlers.go (lines 206-209, 236-239, 293-296, 360-363):
`qmsg, qerr := cpe.RecvCwmpEventData(t, true)` and, if `qerr != nil`,
`qmsg, _ = cpe.RecvCwmpEventData(t, false)`. The message (nil is `none`) and
the entry after the poll. -/
def pollQueues (cpe : CwmpCpe) (timeoutMsec : Int) : Option CwmpEventData × CwmpCpe :=
  match cpe.RecvCwmpEventData timeoutMsec true with
  | (.ok qmsg, cpe1) => (some qmsg, cpe1)
  | (.error _, cpe1) =>
    match cpe1.RecvCwmpEventData timeoutMsec false with
    | (.ok qmsg, cpe2) => (some qmsg, cpe2)
    | (.error _, cpe2) => (none, cpe2)

/-- The function `processTransferComplete`. -/
def processTransferComplete (table : CwmpEventTable) (tc : TransferComplete) : Handled :=
  { response := xmlCwmpMessage (.created ⟨.TransferCompleteResponse, (⟨tc.ID⟩ : Envelope)⟩)
    cookie := none
    table := table
    db := []
    spawned := [.transferCompleteUpdates tc] }

/-- The entry after the messages `arrived` have been sent on its normal queue,
oldest first, each by a call `SendCwmpEventData(data, t, false)`; the timeout
`t` plays no part in the result. -/
def CwmpCpe.sendAll (c : CwmpCpe) (arrived : List CwmpEventData) : CwmpCpe :=
  arrived.foldl (fun c1 data => (c1.SendCwmpEventData data 1000 false).2) c

/-- The function `processInform`. The goroutine `processInformEvent` is
started (handlers.go line 355) before the poll (lines 359-363) and runs along
with it; it and the goroutine it starts in turn (lines 436-472) send on the
normal queue of the same entry (lines 399, 412 and 461). `arrived` holds the
messages they have sent by the time the handler's receive on the normal queue
ends, oldest first: the poll finds them behind what the queue held before.
Modelled from the spec: `SetLatestInformByCookie` is not among the sources; it
issues the session cookie whose value is the SN. -/
def processInform (env : Env) (table : CwmpEventTable) (req : Request) (lastInform : Inform)
    (arrived : List CwmpEventData) : Outcome Handled :=
  let resp : InformResponse := { ID := lastInform.ID, MaxEnvelopes := lastInform.MaxEnvelopes }
  let response := XmlBody.created ⟨.InformResponse, resp⟩
  match table.GetCwmpCpe env lastInform.Sn with
  | .panicked r => .panicked r
  | .done (cpe, table1) =>
    match pollQueues (cpe.sendAll arrived) 100 with
    | (some qmsg, cpe1) =>
      .done
        { response := xmlCwmpMessage (.created qmsg.Message)
          cookie := some lastInform.Sn
          table := table1.setCpe lastInform.Sn cpe1
          db := []
          spawned := [.processInformEvent req.RealIP lastInform] }
    | (none, cpe1) =>
      .done
        { response := xmlCwmpMessage response
          cookie := some lastInform.Sn
          table := table1.setCpe lastInform.Sn cpe1
          db := []
          spawned := [.processInformEvent req.RealIP lastInform] }

/-- The readings of `time.Now()` during one run of `processInformEvent`, in
the order of the calls: in `CheckRegister`, in `UpdateStatus`, three in
`NotifyDataUpdate(false)` and three in `NotifyDataUpdate(true)`. -/
structure InformClock where
  tRegister : Time
  tStatus : Time
  ctime1 : Time
  tUpdate1 : Time
  tNotify1 : Time
  ctime2 : Time
  tUpdate2 : Time
  tNotify2 : Time

/-- The `switch` of `processInformEvent` (handlers.go lines 392-432) on the
entry `cpe`; `uuid` is the result of `common.UUID()`. The entry after the
branch taken and its database calls; a panic is passed on. -/
def informEventSwitch (env : Env) (cpe : CwmpCpe) (lastInform : Inform) (clk : InformClock)
    (uuid : String) : Outcome (CwmpCpe × List DbOp) :=
  if lastInform.IsEvent EventBootStrap && decide (lastInform.RetryCount = 0) then
    .done ((cpe.UpdateManagementAuthInfo env ("bootstrap-session-" ++ uuid) 1000 false).2,
      [DbOp.CreateCwmpPresetEventTask cpe.Sn .BootStrapEvent ""])
  else if lastInform.IsEvent EventBoot && decide (lastInform.RetryCount = 0) then
    .done ((cpe.UpdateManagementAuthInfo env ("bootstrap-session-" ++ uuid) 1000 false).2,
      [DbOp.ActiveCwmpSchedEventTask cpe.Sn,
       DbOp.CreateCwmpPresetEventTask cpe.Sn .BootEvent ""])
  else if lastInform.IsEvent EventPeriodic && decide (lastInform.RetryCount = 0) then
    .done (cpe, [DbOp.CreateCwmpPresetEventTask cpe.Sn .PeriodicEvent ""])
  else if lastInform.IsEvent EventScheduled && decide (lastInform.RetryCount = 0) then
    .done (cpe, [DbOp.CreateCwmpSchedEventTask cpe.Sn lastInform.CommandKey])
  else if lastInform.IsEvent EventValueChange && decide (lastInform.RetryCount = 0) then
    cpe.NotifyDataUpdate true clk.ctime2 clk.tUpdate2 clk.tNotify2
  else
    .done (cpe, [])

/-- The function `processInformEvent`: the registry and the database writes
after the run, and the goroutine it starts. A panic is recovered by the
deferred function: the run ends there and what was done before stays. -/
def processInformEvent (env : Env) (table : CwmpEventTable) (realIP : String)
    (lastInform : Inform) (clk : InformClock) (uuid : String) :
    CwmpEventTable × List DbOp × List Goroutine :=
  match table.GetCwmpCpe env lastInform.Sn with
  | .panicked _ => (table, [], [])
  | .done (cpe, table1) =>
    let (cpe1, ops1) := cpe.CheckRegister env realIP lastInform clk.tRegister
    let cpe2 := cpe1.UpdateStatus env lastInform clk.tStatus
    match cpe2.NotifyDataUpdate false clk.ctime1 clk.tUpdate1 clk.tNotify1 with
    | .panicked _ => (table1.setCpe lastInform.Sn cpe2, ops1, [])
    | .done (cpe3, ops3) =>
      match informEventSwitch env cpe3 lastInform clk uuid with
      | .panicked _ => (table1.setCpe lastInform.Sn cpe3, ops1 ++ ops3, [])
      | .done (cpe4, ops4) =>
        (table1.setCpe lastInform.Sn cpe4, ops1 ++ ops3 ++ ops4, [.autoFetch lastInform])

/-- The loop of the auto-fetch goroutine over `lastInform.Params`: the names
chosen at the first parameter, in the order of the visit, that begins with
one of the two data-model roots. The list order stands for the order in which
`range` visits the map. -/
def autoFetchParamNames : GoMap String → List String
  | [] => []
  | (paramName, _) :: rest =>
    if HasPrefix paramName "InternetGatewayDevice." then
      [ "InternetGatewayDevice.DeviceInfo.",
        "InternetGatewayDevice.LANDevice.1.WLANConfiguration.",
        "InternetGatewayDevice.LANDevice.1.Hosts.",
        "InternetGatewayDevice.WANDevice." ]
    else if HasPrefix paramName "Device." then
      [ "Device.WiFi.", "Device.IP.", "Device.PPP." ]
    else autoFetchParamNames rest

/-- The goroutine started at the end of `processInformEvent` (handlers.go
lines 436-472), acting on the entry `cpe`; `uuid` is the result of
`common.UUID()`. -/
def autoFetch (cpe : CwmpCpe) (lastInform : Inform) (uuid : String) : CwmpCpe :=
  let paramNames := autoFetchParamNames lastInform.Params
  if paramNames.length = 0 then cpe
  else
    let session := "auto-fetch-" ++ uuid
    (cpe.SendCwmpEventData
      { Session := session
        Sn := lastInform.Sn
        Message := ⟨.GetParameterValues,
          ({ ID := session, Name := "AutoFetchParams", NoMore := 0,
             ParameterNames := paramNames } : GetParameterValues)⟩ }
      3000 false).2

/-- The method `ProcessParameterNamesResponse(msg)`: the database writes. -/
def CwmpCpe.ProcessParameterNamesResponse (c : CwmpCpe) (msg : GetParameterNamesResponse) :
    List DbOp :=
  (msg.Params.filter (fun param => param.Writable ≠ "")).map
    (fun param => DbOp.UpdateWritable c.Sn param.Name param.Writable)

/-- The search for the next piece of work, written out at three places of
`Tr069Index` (handlers.go lines 198-216 with a budget of 500 ms, 228-247 with
100 ms, 282-304 with 1000 ms): fetch the entry, reply with the request of the
latest pending preset task if there is one with a non-empty request, else
poll the queues and reply with the message found, else fall through to
`noContentResp`. `db` holds the database calls the handler made before. -/
def nextWork (env : Env) (table : CwmpEventTable) (lastestSn : String) (timeoutMsec : Int)
    (db : List DbOp) : Outcome Handled :=
  match table.GetCwmpCpe env lastestSn with
  | .panicked r => .panicked r
  | .done (cpe, table1) =>
    match env.GetLatestCwmpPresetTask lastestSn with
    | (some ptask, none) =>
      if ptask.Request.length > 0 then
        .done
          { response := xmlCwmpMessage (.raw ptask.Request)
            cookie := none, table := table1, db := db, spawned := [] }
      else
        match pollQueues cpe timeoutMsec with
        | (some qmsg, cpe1) =>
          .done
            { response := xmlCwmpMessage (.created qmsg.Message)
              cookie := none, table := table1.setCpe lastestSn cpe1, db := db, spawned := [] }
        | (none, cpe1) =>
          .done
            { response := noContentResp
              cookie := none, table := table1.setCpe lastestSn cpe1, db := db, spawned := [] }
    | _ =>
      match pollQueues cpe timeoutMsec with
      | (some qmsg, cpe1) =>
        .done
          { response := xmlCwmpMessage (.created qmsg.Message)
            cookie := none, table := table1.setCpe lastestSn cpe1, db := db, spawned := [] }
      | (none, cpe1) =>
        .done
          { response := noContentResp
            cookie := none, table := table1.setCpe lastestSn cpe1, db := db, spawned := [] }

/-- The `switch msg.GetName()` of `Tr069Index` (handlers.go lines 169-273)
with the final `noContentResp`, for a message that passed the session
check. `arrived` is passed on to `processInform`. -/
def dispatchMessage (env : Env) (table : CwmpEventTable) (req : Request)
    (arrived : List CwmpEventData) : Message → Outcome Handled
  | ⟨.Inform, lastInform⟩ => processInform env table req lastInform arrived
  | ⟨.TransferComplete, tc⟩ => .done (processTransferComplete table tc)
  | ⟨.GetRPCMethods, gm⟩ =>
    .done
      { response := xmlCwmpMessage
          (.created ⟨.GetRPCMethodsResponse, (⟨Envelope.ID gm⟩ : Envelope)⟩)
        cookie := none, table := table, db := [], spawned := [] }
  | ⟨.GetParameterValuesResponse, gm⟩ =>
    let lastestSn := GetLatestCookieSn req
    if lastestSn ≠ "" then
      match table.GetCwmpCpe env lastestSn with
      | .panicked r => .panicked r
      | .done (cpe, table1) =>
        nextWork env table1 lastestSn 500
          [DbOp.OnParamsUpdate cpe.Sn cpe.Manufacturer (GetParameterValuesResponse.Values gm)]
    else
      .done { response := noContentResp, cookie := none, table := table, db := [], spawned := [] }
  | ⟨.SetParameterValuesResponse, m⟩ =>
    let lastestSn := GetLatestCookieSn req
    if lastestSn ≠ "" then
      nextWork env table lastestSn 100 [DbOp.UpdateCwmpPresetTaskStatus (Envelope.ID m)]
    else
      .done { response := noContentResp, cookie := none, table := table, db := [], spawned := [] }
  | ⟨.GetParameterNamesResponse, gm⟩ =>
    let lastestSn := GetLatestCookieSn req
    if lastestSn ≠ "" ∧ GetParameterNamesResponse.ID gm ≠ "" ∧
        HasPrefix (GetParameterNamesResponse.ID gm) "bootstrap-session" = true then
      .done
        { response := noContentResp, cookie := none, table := table, db := []
          spawned := [.ProcessParameterNamesResponse lastestSn gm] }
    else
      .done { response := noContentResp, cookie := none, table := table, db := [], spawned := [] }
  | _ =>
    .done { response := noContentResp, cookie := none, table := table, db := [], spawned := [] }

/-- The session check of `Tr069Index` for a parsed message (handlers.go lines
147-157): `none` when the message goes on to the switch, with the registry
after the check, else the reply that ends the request. -/
def sessionCheck (env : Env) (table : CwmpEventTable) (req : Request) (msg : Message) :
    Outcome (Option Response × CwmpEventTable) :=
  if msg.GetName ≠ "Inform" then
    let lastestSn := GetLatestCookieSn req
    if lastestSn = "" then
      .done (some (.String 401 "no cookie sn"), table)
    else
      match table.GetCwmpCpe env lastestSn with
      | .panicked r => .panicked r
      | .done (cpe, table1) =>
        if cpe.LastInform.isNone then
          .done (some (.String 401 "no cookie cpe data"), table1)
        else
          .done (none, table1)
  else
    .done (none, table)

/-- The handler `Tr069Index`, the CWMP endpoint. `arrived` is passed on to
`processInform`: the messages that the goroutine started there has sent on
the normal queue by the end of the handler's poll. -/
def Tr069Index (env : Env) (cd : Codec) (table : CwmpEventTable) (req : Request)
    (arrived : List CwmpEventData) : Outcome Handled :=
  match req.ReadErr with
  | some err =>
    .done
      { response := .String 400 ("cwmp read error " ++ err)
        cookie := none, table := table, db := [], spawned := [] }
  | none =>
    if req.Body.length > 0 then
      match ParseXML cd req.Body with
      | .error err =>
        .done
          { response := .String 400 ("cwmp read xml error " ++ err)
            cookie := none, table := table, db := [], spawned := [] }
      | .ok none =>
        -- `msg.GetName()` on the nil interface value
        .panicked "invalid memory address or nil pointer dereference"
      | .ok (some msg) =>
        match sessionCheck env table req msg with
        | .panicked r => .panicked r
        | .done (some reply, table1) =>
          .done { response := reply, cookie := none, table := table1, db := [], spawned := [] }
        | .done (none, table1) => dispatchMessage env table1 req arrived msg
    else
      let lastestSn := GetLatestCookieSn req
      if lastestSn = "" then
        .done
          { response := noContentResp, cookie := none, table := table, db := [], spawned := [] }
      else
        nextWork env table lastestSn 1000 []

/-! ## Sample values -/

/-- The zero value of each message type, as `&T{}`. -/
def zeroPayload : (k : MsgKind) → Payload k
  | .Inform => (⟨"", "", "", "", "", "", [], 0, 0, []⟩ : Inform)
  | .InformResponse => ({ ID := "", MaxEnvelopes := 0 } : InformResponse)
  | .GetParameterValues =>
    ({ ID := "", Name := "", NoMore := 0, ParameterNames := [] } : GetParameterValues)
  | .SetParameterValues => ({ ID := "", Name := "", NoMore := 0, Params := [] } : SetParameterValues)
  | .GetParameterValuesResponse => ({ ID := "", Values := [] } : GetParameterValuesResponse)
  | .GetParameterNamesResponse => ({ ID := "", Params := [] } : GetParameterNamesResponse)
  | .TransferComplete => ({ ID := "", CommandKey := "" } : TransferComplete)
  | .SetParameterValuesResponse => ({ ID := "" } : Envelope)
  | .GetParameterNames => ({ ID := "" } : Envelope)
  | .Download => ({ ID := "" } : Envelope)
  | .DownloadResponse => ({ ID := "" } : Envelope)
  | .Upload => ({ ID := "" } : Envelope)
  | .UploadResponse => ({ ID := "" } : Envelope)
  | .TransferCompleteResponse => ({ ID := "" } : Envelope)
  | .GetRPCMethods => ({ ID := "" } : Envelope)
  | .GetRPCMethodsResponse => ({ ID := "" } : Envelope)
  | .Reboot => ({ ID := "" } : Envelope)
  | .RebootResponse => ({ ID := "" } : Envelope)
  | .FactoryReset => ({ ID := "" } : Envelope)
  | .FactoryResetResponse => ({ ID := "" } : Envelope)
  | .ScheduleInform => ({ ID := "" } : Envelope)
  | .ScheduleInformResponse => ({ ID := "" } : Envelope)

/-- An element node without namespace. -/
def sampleElement (name : String) (children : List Node) : Node :=
  .mk .NT_ELEMENT ⟨"", name⟩ "" children

/-- A text node. -/
def sampleText (value : String) : Node :=
  .mk .NT_TEXT ⟨"", ""⟩ value []

/-- The document `<Envelope><Header/><Body> <name/></Body></Envelope>`: a SOAP
envelope whose Body holds white space and then one element. -/
def sampleEnvelope (name : String) : Node :=
  .mk .NT_ROOT ⟨"", ""⟩ ""
    [sampleElement "Envelope"
      [sampleElement "Header" [],
       sampleElement "Body" [sampleText " ", sampleElement name []]]]

/-- The document `<html/>`: well-formed XML without a SOAP Body. -/
def sampleNoBody : Node :=
  .mk .NT_ROOT ⟨"", ""⟩ "" [sampleElement "html" []]

/-- A codec that reads every input as the document `doc` and leaves the
fields of the message at their zero values. -/
def sampleCodec (doc : Node) : Codec :=
  { LoadBytes := fun _ => .ok doc
    Parse := fun k _ => zeroPayload k }

/-- A collaborator set: only the empty string and `N/A` count as empty keys,
no device is registered, auto-registration is off and no preset task is
pending. -/
def sampleEnv : Env :=
  { IsEmptyOrNA := fun s => decide (s = "" ∨ s = "N/A")
    EmptyTime := 0
    GetTr069SettingsStringValue := fun _ => ""
    netCpeCount := fun _ => 0
    createFails := fun _ => false
    UUIDint64 := 1
    AutoRegisterPopNodeId := 0
    GetSoftwareVersion := fun _ => ""
    GetLatestCwmpPresetTask := fun _ => (none, none) }

/-- The fourteen message names listed by the specification for the codec. -/
def listedNames : List String :=
  [ "Inform", "GetParameterValuesResponse", "SetParameterValuesResponse", "GetParameterNames",
    "GetParameterNamesResponse", "DownloadResponse", "UploadResponse", "TransferComplete",
    "GetRPCMethods", "GetRPCMethodsResponse", "RebootResponse", "FactoryResetResponse",
    "ScheduleInform", "ScheduleInformResponse" ]

/-- The invariant of the registry: the keys of the map are pairwise distinct,
as in every Go map, and the entry stored under a key has that key as its
`Sn` (the field is set when the entry is made and never assigned again). -/
def CwmpEventTable.WF (c : CwmpEventTable) : Prop :=
  (mapKeys c.cpeTable).Nodup ∧ ∀ e ∈ c.cpeTable, e.2.Sn = e.1

/-- An event record carrying a `Reboot` RPC with the given session id. -/
def sampleEvent (session : String) : CwmpEventData :=
  { Session := session, Sn := "ABC123", Message := ⟨.Reboot, (⟨session⟩ : Envelope)⟩ }

/-- A runtime entry for `ABC123` as `GetCwmpCpe` makes it, with the given
queue contents. -/
def sampleCpe (normal high : List CwmpEventData) : CwmpCpe :=
  { Sn := "ABC123"
    OUI := ""
    taskTags := none
    SoftwareVersion := ""
    Manufacturer := ""
    ProductClass := ""
    cwmpQueueMap := ⟨512, normal⟩
    cwmpHPQueueMap := ⟨1, high⟩
    LastInform := none
    LastUpdate := 0
    LastDataNotify := 0
    IsRegister := false }

/-- An Inform of the device `ABC123` (a ZTE ONT) with envelope ID `X1`,
bearing the given event codes and retry count. -/
def sampleInform (events : List String) (retry : Int) : Inform :=
  { ID := "X1"
    Sn := "ABC123"
    Manufacturer := "ZTE"
    OUI := "00259E"
    ProductClass := "F660"
    CommandKey := ""
    Events := events
    MaxEnvelopes := 1
    RetryCount := retry
    Params := [("InternetGatewayDevice.DeviceInfo.SoftwareVersion", "V1.0")] }

/-- The runtime entry of `ABC123` with empty queues, holding a periodic Inform
and last notified at the given instant. -/
def sampleInformedCpe (lastNotify : Time) : CwmpCpe :=
  { Sn := "ABC123"
    OUI := "00259E"
    taskTags := none
    SoftwareVersion := ""
    Manufacturer := "ZTE"
    ProductClass := "F660"
    cwmpQueueMap := ⟨512, []⟩
    cwmpHPQueueMap := ⟨1, []⟩
    LastInform := some (sampleInform ["2 PERIODIC"] 0)
    LastUpdate := lastNotify
    LastDataNotify := lastNotify
    IsRegister := true }

/-- The collaborators of `sampleEnv`, but with a pending preset task for every
serial number: a `Reboot` RPC. -/
def sampleEnvTask : Env :=
  { sampleEnv with
    GetLatestCwmpPresetTask := fun _ => (some ⟨"Reboot", "<Reboot/>"⟩, none) }

/-- The registry that holds only the entry `sampleInformedCpe` of `ABC123`. -/
def sampleTable (lastNotify : Time) : CwmpEventTable :=
  ⟨[("ABC123", sampleInformedCpe lastNotify)]⟩

/-- Clock readings that are all the same instant. -/
def sampleClock (t : Time) : InformClock :=
  ⟨t, t, t, t, t, t, t, t⟩

/-! ## The OLT SNMP driver (snmp/zte_driver.go) -/

/-- The rune map of `unicode.ToUpper` as far as it can produce an ASCII
letter: `a`..`z`, the dotless i (to `I`) and the long s (to `S`). Every other
rune is kept: its upper case is not an ASCII letter, and the sources only
search the result for ASCII words. -/
def toUpperRune (c : Char) : Char :=
  if c.val = 0x131 then 'I'
  else if c.val = 0x17F then 'S'
  else c.toUpper

/-- The function `strings.ToUpper`. -/
def ToUpper (s : String) : String :=
  String.mk (s.toList.map toUpperRune)

/-- The set of OIDs of one OLT platform, `oidSet`. -/
structure oidSet where
  onuSerialNumber : String
  onuType : String
  onuName : String
  onuRxPower : String
  onuPhaseState : String
  onuLastOnlineTime : String
  onuLastOfflineTime : String
  deriving DecidableEq

/-- The OIDs of the C3xx family (`oidC3xx...`). -/
def oidC3xx : oidSet :=
  { onuSerialNumber := ".1.3.6.1.4.1.3902.1012.3.28.1.1.5"
    onuType := ".1.3.6.1.4.1.3902.1012.3.28.1.1.1"
    onuName := ".1.3.6.1.4.1.3902.1012.3.28.1.1.3"
    onuRxPower := ".1.3.6.1.4.1.3902.1012.3.50.12.1.1.10"
    onuPhaseState := ".1.3.6.1.4.1.3902.1012.3.28.2.1.4"
    onuLastOnlineTime := ".1.3.6.1.4.1.3902.1012.3.28.2.1.8"
    onuLastOfflineTime := ".1.3.6.1.4.1.3902.1012.3.28.2.1.9" }

/-- The OIDs of the C6xx family (`oidC6xx...`). -/
def oidC6xx : oidSet :=
  { onuSerialNumber := ".1.3.6.1.4.1.3902.1082.500.10.2.3.3.1.6"
    onuType := ".1.3.6.1.4.1.3902.1082.500.10.2.3.3.1.1"
    onuName := ".1.3.6.1.4.1.3902.1082.500.10.2.3.3.1.2"
    onuRxPower := ".1.3.6.1.4.1.3902.1082.500.20.2.2.2.1.10"
    onuPhaseState := ".1.3.6.1.4.1.3902.1082.500.10.2.3.8.1.4"
    onuLastOnlineTime := ".1.3.6.1.4.1.3902.1082.500.10.2.3.8.1.5"
    onuLastOfflineTime := ".1.3.6.1.4.1.3902.1082.500.10.2.3.8.1.6" }

/-- The driver `ZTEDriver`; the port is a `uint16`. -/
structure ZTEDriver where
  target : String
  port : Nat
  community : String
  model : String

/-- The constructor `NewZTEDriver`. -/
def NewZTEDriver (ip : String) (port : Int) (community : String) : ZTEDriver :=
  { target := ip, port := (port % 65536).toNat, community := community, model := "" }

/-- The constructor `NewZTEDriverWithModel`. -/
def NewZTEDriverWithModel (ip : String) (port : Int) (community : String) (model : String) :
    ZTEDriver :=
  { target := ip, port := (port % 65536).toNat, community := community, model := ToUpper model }

/-- The method `isC3xx`. -/
def ZTEDriver.isC3xx (d : ZTEDriver) : Bool :=
  let m := ToUpper d.model
  Contains m "C300" || Contains m "C320"

/-- The method `getOIDs`. -/
def ZTEDriver.getOIDs (d : ZTEDriver) : oidSet :=
  if d.isC3xx then oidC3xx else oidC6xx

/-- The RX power conversion of `PollONUs` (zte_driver.go lines 286-293) for the
raw reading `raw`, an `int64`. The `float64` arithmetic is taken as exact
rational arithmetic, `0.002` being the rational `2/1000`. -/
def rxPowerFromRaw (raw : Int) : ℚ :=
  if raw ≥ 0 ∧ raw ≤ 32767 then (raw : ℚ) * 0.002 - 30
  else if raw > 32767 then ((raw - 65536 : Int) : ℚ) * 0.002 - 30
  else -40

/-- The value of an SNMP variable as the helpers switch on it: a byte string,
a string, or a value of another type. A byte is a number below 256. -/
inductive PduValue where
  | bytes (v : List Nat)
  | str (s : String)
  | other

/-- The predicate `unicode.IsSpace`. -/
def isSpace (c : Char) : Bool :=
  c.val = 0x09 || c.val = 0x0A || c.val = 0x0B || c.val = 0x0C || c.val = 0x0D ||
  c.val = 0x20 || c.val = 0x85 || c.val = 0xA0 || c.val = 0x1680 ||
  (0x2000 ≤ c.val && c.val ≤ 0x200A) || c.val = 0x2028 || c.val = 0x2029 ||
  c.val = 0x202F || c.val = 0x205F || c.val = 0x3000

/-- The function `strings.TrimSpace`. -/
def TrimSpace (s : String) : String :=
  String.mk ((s.toList.dropWhile isSpace).reverse.dropWhile isSpace).reverse

/-- The conversion `string(v)` of a byte slice: a Go string is a byte string,
and the byte `b` is written here as the character with code `b`. -/
def bytesToString (v : List Nat) : String :=
  String.mk (v.map Char.ofNat)

/-- One upper-case hexadecimal digit. -/
def hexDigitUpper (n : Nat) : Char :=
  if n < 10 then Char.ofNat (48 + n) else Char.ofNat (55 + n)

/-- The formatting `fmt.Sprintf("%X", v)` of a byte slice: two upper-case
hexadecimal digits for each byte. -/
def hexUpper (v : List Nat) : String :=
  String.mk (v.flatMap fun b => [hexDigitUpper (b / 16), hexDigitUpper (b % 16)])

/-- The function `pduToHexSN`. -/
def pduToHexSN : PduValue → String
  | .bytes v =>
    if v.length = 0 then ""
    else if v.all (fun b => !(decide (b < 32) || decide (b > 126))) then
      TrimSpace (bytesToString v)
    else if v.length ≥ 8 then
      bytesToString (v.take 4) ++ hexUpper (v.drop 4)
    else
      hexUpper v
  | .str s => TrimSpace s
  | .other => ""

/-- The rule of the specification for the device type `ont`: the manufacturer
contains zte, or contains huawei while the product class contains ont, hg or
eg, or the manufacturer contains fiberhome, nokia, alcatel, bdcom or cdtc, or
the product class contains ont, onu, gpon or epon, letter case ignored. -/
def specOntRule (manufacturer productClass : String) : Bool :=
  let m := ToLower manufacturer
  let p := ToLower productClass
  Contains m "zte" ||
  (Contains m "huawei" && (Contains p "ont" || Contains p "hg" || Contains p "eg")) ||
  Contains m "fiberhome" || Contains m "nokia" || Contains m "alcatel" ||
  Contains m "bdcom" || Contains m "cdtc" ||
  Contains p "ont" || Contains p "onu" || Contains p "gpon" || Contains p "epon"

/-- The root of the management-server parameters that
`UpdateManagementAuthInfo` chooses for an entry whose last Inform is
`inform`: the TR-098 root when a parameter of the Inform begins with
`InternetGatewayDevice.`, else the TR-181 root. -/
def managementPrefix (inform : Inform) : String :=
  if inform.Params.any (fun kv => HasPrefix kv.1 "InternetGatewayDevice.") then
    "InternetGatewayDevice.ManagementServer."
  else "Device.ManagementServer."

/-- The event that the specification expects `UpdateManagementAuthInfo` to
enqueue for the serial number `sn` and the last Inform `inform`: a
`SetParameterValues` with the connection-request credentials and the
periodic-inform settings. -/
def managementAuthEvent (env : Env) (sn : String) (inform : Inform) (session : String) :
    CwmpEventData :=
  { Session := session
    Sn := sn
    Message := ⟨.SetParameterValues,
      ({ ID := session
         Name := ""
         NoMore := 0
         Params :=
           [ (managementPrefix inform ++ "ConnectionRequestUsername", ⟨"xsd:string", sn⟩),
             (managementPrefix inform ++ "ConnectionRequestPassword",
               ⟨"xsd:string", env.GetTr069SettingsStringValue "CpeConnectionRequestPassword"⟩),
             (managementPrefix inform ++ "PeriodicInformEnable", ⟨"xsd:boolean", "true"⟩),
             (managementPrefix inform ++ "PeriodicInformInterval",
               ⟨"xsd:unsignedInt",
                 if env.GetTr069SettingsStringValue "CpePeriodicInformInterval" = "" then "60"
                 else env.GetTr069SettingsStringValue "CpePeriodicInformInterval"⟩) ] } :
        SetParameterValues)⟩ }

/-! ## The parameter aggregators (app/cwmp.go) -/

/-- The slice `name[len(pre):]` taken after the test `strings.HasPrefix(name,
pre)`: `none` when `name` does not begin with `pre`. -/
def cutPrefix (name pre : String) : Option String :=
  if HasPrefix name pre then some (String.mk (name.toList.drop pre.toList.length)) else none

/-- The cut of a character list at the first occurrence of `sep`; `none` when
`sep` does not occur. -/
def splitFirst (sep : Char) : List Char → Option (List Char × List Char)
  | [] => none
  | c :: cs =>
    if c = sep then some ([], cs)
    else
      match splitFirst sep cs with
      | some (a, b) => some (c :: a, b)
      | none => none

/-- The call `strings.SplitN(s, sep, 2)` followed by the test
`len(parts) != 2`: the two parts, `none` when `sep` does not occur in `s`. -/
def SplitN2 (s : String) (sep : Char) : Option (String × String) :=
  match splitFirst sep s.toList with
  | some (a, b) => some (String.mk a, String.mk b)
  | none => none

/-- The value of a run of decimal digits read after `acc`; `none` when a
character is not a digit. -/
def parseDigits (acc : Nat) : List Char → Option Nat
  | [] => some acc
  | c :: cs =>
    if '0' ≤ c ∧ c ≤ '9' then parseDigits (acc * 10 + (c.toNat - 48)) cs else none

/-- The digits of `strconv.Atoi` after the sign: at least one digit, and a
value in the range of a 64-bit `int`. -/
def atoiDigits (neg : Bool) (ds : List Char) : Option Int :=
  if ds = [] then none
  else
    match parseDigits 0 ds with
    | none => none
    | some n =>
      let v : Int := if neg then -(n : Int) else (n : Int)
      if -9223372036854775808 ≤ v ∧ v ≤ 9223372036854775807 then some v else none

/-- The function `strconv.Atoi`: `none` stands for a non-nil error. -/
def Atoi (s : String) : Option Int :=
  match s.toList with
  | '+' :: ds => atoiDigits false ds
  | '-' :: ds => atoiDigits true ds
  | ds => atoiDigits false ds

/-- The idiom that opens each block of the aggregators:
`if strings.HasPrefix(name, pre)`, then `rest := name[len(pre):]`,
`parts := strings.SplitN(rest, ".", 2)` with `continue` when
`len(parts) != 2`, and `idx, err := strconv.Atoi(parts[0])` with `continue`
on error. The result is `none` when the name does not begin with `pre`,
`some none` for `continue`, and `some (some (idx, parts[1]))` otherwise. -/
def indexedField (name pre : String) : Option (Option (Int × String)) :=
  match cutPrefix name pre with
  | none => none
  | some rest =>
    match SplitN2 rest '.' with
    | none => some none
    | some (a, field) =>
      match Atoi a with
      | none => some none
      | some idx => some (some (idx, field))

/-- A Go `map[int]V`: pairs with pairwise distinct keys. -/
abbrev IntMap (V : Type) := List (Int × V)

/-- Read `m[k]` of a `map[int]V` with the comma-ok form. -/
def imGet {V : Type} (m : IntMap V) (k : Int) : Option V :=
  match m with
  | [] => none
  | (k1, v) :: rest => if k1 = k then some v else imGet rest k

/-- Assign `m[k] = v` in a `map[int]V`. -/
def imSet {V : Type} (m : IntMap V) (k : Int) (v : V) : IntMap V :=
  match m with
  | [] => [(k, v)]
  | (k1, v1) :: rest => if k1 = k then (k1, v) :: rest else (k1, v1) :: imSet rest k v

/-- The idiom `if _, ok := m[k]; !ok { m[k] = &T{} }` followed by a change `f`
of the entry `m[k]`, `zero` being `T{}`. -/
def imModify {V : Type} (zero : V) (m : IntMap V) (k : Int) (f : V → V) : IntMap V :=
  imSet m k (f ((imGet m k).getD zero))

/-- The local type `wifiEntry` of `parseWifiSsids`. -/
structure wifiEntry where
  Idx : Int
  SSID : String
  Password : String
  Enable : String
  Channel : String
  deriving DecidableEq

/-- The value `wifiEntry{}`. -/
def wifiEntry.zero : wifiEntry :=
  ⟨0, "", "", "", ""⟩

/-- The constant `tr098Prefix` of `parseWifiSsids`. -/
def tr098Prefix : String := "InternetGatewayDevice.LANDevice.1.WLANConfiguration."

/-- The constant `tr181SsidPrefix` of `parseWifiSsids`. -/
def tr181SsidPrefix : String := "Device.WiFi.SSID."

/-- The constant `tr181ApPrefix` of `parseWifiSsids`. -/
def tr181ApPrefix : String := "Device.WiFi.AccessPoint."

/-- The `switch field` of the TR-098 block of `parseWifiSsids`, acting on the
entry `entries[idx]`. -/
def wifiTr098Field (field value : String) (e : wifiEntry) : wifiEntry :=
  if field = "SSID" then { e with SSID := value }
  else if field = "KeyPassphrase" then { e with Password := value }
  else if field = "Enable" then { e with Enable := value }
  else if field = "PreSharedKey.1.KeyPassphrase" then
    if e.Password = "" then { e with Password := value } else e
  else if field = "Channel" then { e with Channel := value }
  else if field = "ChannelsInUse" then
    if e.Channel = "" ∨ e.Channel = "0" then { e with Channel := value } else e
  else e

/-- The `switch field` of the TR-181 SSID block of `parseWifiSsids`. -/
def wifiTr181Field (field value : String) (e : wifiEntry) : wifiEntry :=
  if field = "SSID" then { e with SSID := value }
  else if field = "Enable" then { e with Enable := value }
  else e

/-- The body of the loop `for name, value := range params` of
`parseWifiSsids`: the map `entries` after the visit of one parameter. -/
def wifiVisit (entries : IntMap wifiEntry) (kv : String × String) : IntMap wifiEntry :=
  match indexedField kv.1 tr098Prefix with
  | some none => entries
  | r1 =>
    let entries1 :=
      match r1 with
      | some (some (idx, field)) =>
        imModify wifiEntry.zero entries idx (wifiTr098Field field kv.2)
      | _ => entries
    match indexedField kv.1 tr181SsidPrefix with
    | some none => entries1
    | r2 =>
      let entries2 :=
        match r2 with
        | some (some (idx, field)) =>
          imModify wifiEntry.zero entries1 idx (wifiTr181Field field kv.2)
        | _ => entries1
      match indexedField kv.1 tr181ApPrefix with
      | some (some (idx, field)) =>
        if field = "Security.KeyPassphrase" then
          imModify wifiEntry.zero entries2 idx (fun e => { e with Password := kv.2 })
        else entries2
      | _ => entries2

/-- The loop `for i := 1; i <= 16; i++` of `parseWifiSsids` that builds
`result` from `entries`. -/
def wifiResult (entries : IntMap wifiEntry) : List wifiEntry :=
  (List.range' 1 16).filterMap fun (i : Nat) =>
    match imGet entries (i : Int) with
    | some e => if e.SSID ≠ "" then some { e with Idx := (i : Int) } else none
    | none => none

/-- The list `result` that `parseWifiSsids` encodes for the parameters
`params`, visited in the order of the list. -/
def wifiList (params : GoMap String) : List wifiEntry :=
  wifiResult (params.foldl wifiVisit [])

/-- The function `parseWifiSsids`; `marshal` stands for `json.Marshal` on a
list of entries, and the order of `params` for the order in which `range`
visits the map. -/
def parseWifiSsids (marshal : List wifiEntry → String) (params : GoMap String) : String :=
  let entries := params.foldl wifiVisit []
  if entries.length = 0 then ""
  else
    let result := wifiResult entries
    if result.length = 0 then "" else marshal result

/-- Whether `name` is an SSID parameter of the index `N` for
`parseWifiSsids`: `InternetGatewayDevice.LANDevice.1.WLANConfiguration.N.SSID`
or `Device.WiFi.SSID.N.SSID`, the index being read with `strconv.Atoi`. -/
def isSsidParam (N : Int) (name : String) : Bool :=
  decide (indexedField name tr098Prefix = some (some (N, "SSID"))) ||
  decide (indexedField name tr181SsidPrefix = some (some (N, "SSID")))

/-- Whether `name` is the parameter
`InternetGatewayDevice.LANDevice.1.WLANConfiguration.N.Channel`, the index
being read with `strconv.Atoi`. -/
def isChannelParam (N : Int) (name : String) : Bool :=
  decide (indexedField name tr098Prefix = some (some (N, "Channel")))

/-- The value of the field `g` of `entries[N]`, the zero entry standing for
an absent one. -/
def wifiFieldAt (g : wifiEntry → String) (entries : IntMap wifiEntry) (N : Int) : String :=
  g ((imGet entries N).getD wifiEntry.zero)

/-- A parameter map with the SSID of WLANConfiguration 1 and its two channel
parameters: `Channel` with the value `channel`, visited first, and
`ChannelsInUse` with the value `inUse`. -/
def sampleWifiParams (channel inUse : String) : GoMap String :=
  [ ("InternetGatewayDevice.LANDevice.1.WLANConfiguration.1.SSID", "home"),
    ("InternetGatewayDevice.LANDevice.1.WLANConfiguration.1.Channel", channel),
    ("InternetGatewayDevice.LANDevice.1.WLANConfiguration.1.ChannelsInUse", inUse) ]

/-- The order `<` of Go strings, byte by byte; on UTF-8 it is the order of the
code points, character by character. -/
def strLess : List Char → List Char → Bool
  | [], [] => false
  | [], _ :: _ => true
  | _ :: _, [] => false
  | x :: xs, y :: ys =>
    if x.toNat < y.toNat then true
    else if y.toNat < x.toNat then false
    else strLess xs ys

/-- Insert a string into a list that is in increasing order. -/
def insertString (k : String) : List String → List String
  | [] => [k]
  | x :: xs => if strLess k.toList x.toList then k :: x :: xs else x :: insertString k xs

/-- The function `sort.Strings`: the strings in increasing order. -/
def sortStrings (l : List String) : List String :=
  l.foldr insertString []

/-- The local type `wanEntry` of `parseWanConnections`. -/
structure wanEntry where
  Name : String
  Service : String
  IP : String
  Username : String
  Password : String
  ConnType : String
  Enable : String
  VlanID : String
  IPv6Status : String
  IPv6IP : String
  IPMode : String
  DevIdx : String
  ConnIdx : String
  deriving DecidableEq

/-- The constant `wanPrefix` of `parseWanConnections`. -/
def wanPrefix : String := "InternetGatewayDevice.WANDevice.1.WANConnectionDevice."

/-- The head of the first loop of `parseWanConnections` (app/cwmp.go lines
563-597): device index, connection index, connection type and field read from
a parameter name, `none` where the loop does `continue`. -/
def wanClassify (name : String) : Option (String × String × String × String) :=
  match cutPrefix name wanPrefix with
  | none => none
  | some rest =>
    match SplitN2 rest '.' with
    | none => none
    | some (devIdx, remaining) =>
      match cutPrefix remaining "WANPPPConnection." with
      | some sub =>
        match SplitN2 sub '.' with
        | none => none
        | some (connIdx, field) => some (devIdx, connIdx, "PPPoE", field)
      | none =>
        match cutPrefix remaining "WANIPConnection." with
        | some sub =>
          match SplitN2 sub '.' with
          | none => none
          | some (connIdx, field) => some (devIdx, connIdx, "IPoE", field)
        | none => none

/-- The `switch field` of the first loop of `parseWanConnections`, acting on
the entry `e`. -/
def wanField (field value : String) (e : wanEntry) : wanEntry :=
  if field = "Name" then { e with Name := value }
  else if field = "X_CT-COM_ServiceList" ∨ field = "X_HW_SERVICELIST" ∨
      field = "X_ZTE-COM_ServiceList" ∨ field = "X_CMCC_ServiceList" ∨
      field = "ServiceList" ∨ field = "X_FH_ServiceList" ∨ field = "X_CU_ServiceList" then
    if value ≠ "" ∧ e.Service = "" then { e with Service := value } else e
  else if field = "ExternalIPAddress" then { e with IP := value }
  else if field = "Username" then { e with Username := value }
  else if field = "ConnectionType" then
    if value = "IP_Routed" then e
    else if value = "PPPoE_Bridged" ∨ value = "IP_Bridged" then { e with ConnType := "Bridge" }
    else e
  else if field = "Enable" then { e with Enable := value }
  else if field = "Password" then { e with Password := value }
  else if field = "X_ZTE-COM_VLANID" ∨ field = "X_HW_VLAN" ∨ field = "X_CT-COM_VLANIDMark" ∨
      field = "X_CMCC_VLANIDMark" ∨ field = "VLANID" ∨ field = "VLAN_ID" ∨
      field = "X_CT-COM_VLAN" then
    if value ≠ "" ∧ e.VlanID = "" then { e with VlanID := value } else e
  else if field = "X_CT-COM_IPv6ConnStatus" then { e with IPv6Status := value }
  else if field = "X_CT-COM_IPv6IPAddress" then { e with IPv6IP := value }
  else if field = "X_CT-COM_IPMode" then
    if value = "1" then { e with IPMode := "IPv4" }
    else if value = "2" then { e with IPMode := "IPv6" }
    else if value = "3" then { e with IPMode := "Dual Stack" }
    else { e with IPMode := value }
  else e

/-- The body of the first loop of `parseWanConnections`: the map `entries`
and the slice `keys` after the visit of one parameter. -/
def wanVisit (st : GoMap wanEntry × List String) (kv : String × String) :
    GoMap wanEntry × List String :=
  match wanClassify kv.1 with
  | none => st
  | some (devIdx, connIdx, connType, field) =>
    let key := devIdx ++ "-" ++ connIdx ++ "-" ++ connType
    match mapGet st.1 key with
    | some e => (mapSet st.1 key (wanField field kv.2 e), st.2)
    | none =>
      let e : wanEntry :=
        { Name := "", Service := "", IP := "", Username := "", Password := ""
          ConnType := connType, Enable := "", VlanID := "", IPv6Status := ""
          IPv6IP := "", IPMode := "", DevIdx := devIdx, ConnIdx := connIdx }
      (mapSet st.1 key (wanField field kv.2 e), st.2 ++ [key])

/-- The body of the second loop of `parseWanConnections` (app/cwmp.go lines
647-666): the device-level VLAN of a WANConnectionDevice is given to its
connections that have none. -/
def wanVlanVisit (entries : GoMap wanEntry) (kv : String × String) : GoMap wanEntry :=
  if !HasPrefix kv.1 wanPrefix || decide (kv.2 = "") then entries
  else
    match SplitN2 (String.mk (kv.1.toList.drop wanPrefix.toList.length)) '.' with
    | none => entries
    | some (devIdx, field) =>
      if field = "X_CT-COM_WANGponLinkConfig.VLANIDMark" ∨
          field = "X_CT-COM_WANEponLinkConfig.VLANIDMark" then
        entries.map fun ke =>
          if HasPrefix ke.1 (devIdx ++ "-") = true ∧ ke.2.VlanID = "" then
            (ke.1, { ke.2 with VlanID := kv.2 })
          else ke
      else entries

/-- The IP mode that the last loop of `parseWanConnections` derives for an
entry whose `IPMode` is empty. -/
def wanDeriveIPMode (e : wanEntry) : wanEntry :=
  if e.IPMode = "" then
    let hasIPv4 : Bool := decide (e.IP ≠ "" ∧ e.IP ≠ "0.0.0.0")
    let hasIPv6 : Bool :=
      decide (e.IPv6Status = "Connected" ∨ (e.IPv6IP ≠ "" ∧ e.IPv6IP ≠ "::"))
    if hasIPv4 && hasIPv6 then { e with IPMode := "Dual Stack" }
    else if hasIPv6 then { e with IPMode := "IPv6" }
    else if hasIPv4 then { e with IPMode := "IPv4" }
    else { e with IPMode := "-" }
  else e

/-- The last loop of `parseWanConnections`: `result` built from the sorted
keys. Every key of `keys` has an entry in `entries`. -/
def wanResult (entries : GoMap wanEntry) (keys : List String) : List wanEntry :=
  (sortStrings keys).filterMap fun k =>
    match mapGet entries k with
    | some e =>
      if e.Name ≠ "" ∨ e.IP ≠ "" ∨ e.Service ≠ "" then some (wanDeriveIPMode e) else none
    | none => none

/-- The list `result` that `parseWanConnections` encodes. The first loop
visits the parameters in the order of `params`, the second loop in the order
of `params2`, which lists the same map. -/
def wanList (params params2 : GoMap String) : List wanEntry :=
  let st := params.foldl wanVisit ([], [])
  wanResult (params2.foldl wanVlanVisit st.1) st.2

/-- The function `parseWanConnections`; `marshal` stands for `json.Marshal` on
a list of entries; `params` and `params2` list the same map, in the orders in
which the first and the second `range` visit it. -/
def parseWanConnections (marshal : List wanEntry → String) (params params2 : GoMap String) :
    String :=
  let st := params.foldl wanVisit ([], [])
  let entries := params2.foldl wanVlanVisit st.1
  if entries.length = 0 then ""
  else
    let result := wanResult entries st.2
    if result.length = 0 then "" else marshal result

/-- A parameter map with one PPPoE connection, named `wan2`, under
WANConnectionDevice 2 and one, named `wan10`, under WANConnectionDevice 10. -/
def sampleWanParams : GoMap String :=
  [ ("InternetGatewayDevice.WANDevice.1.WANConnectionDevice.2.WANPPPConnection.1.Name", "wan2"),
    ("InternetGatewayDevice.WANDevice.1.WANConnectionDevice.10.WANPPPConnection.1.Name",
      "wan10") ]

/-- The local type `hostEntry` of `parseHostDevices`. -/
structure hostEntry where
  Hostname : String
  IP : String
  MAC : String
  Interface : String
  RSSI : String
  SSID : String
  deriving DecidableEq

/-- The value `hostEntry{}`. -/
def hostEntry.zero : hostEntry :=
  ⟨"", "", "", "", "", ""⟩

/-- The local type `wifiInfo` of `parseHostDevices`. -/
structure wifiInfo where
  RSSI : String
  Hostname : String
  SSID : String
  deriving DecidableEq

/-- The constant `hostsPrefix` of `parseHostDevices`. -/
def hostsPrefix : String := "InternetGatewayDevice.LANDevice.1.Hosts.Host."

/-- The constant `wlanPrefix` of `parseHostDevices`. -/
def wlanPrefix : String := "InternetGatewayDevice.LANDevice.1.WLANConfiguration."

/-- The `switch parts[1]` of the hosts block of `parseHostDevices`. -/
def hostField (field value : String) (e : hostEntry) : hostEntry :=
  if field = "HostName" then { e with Hostname := value }
  else if field = "IPAddress" then { e with IP := value }
  else if field = "MACAddress" then { e with MAC := value }
  else if field = "InterfaceType" then { e with Interface := value }
  else e

/-- The head of the WLAN block of `parseHostDevices` (app/cwmp.go lines
758-776): SSID index, device index and field read from a parameter name
`<wlanPrefix>N.AssociatedDevice.M.Field`; `none` when the name does not begin
with the prefix and where the block does `continue`. -/
def assocClassify (name : String) : Option (String × String × String) :=
  match cutPrefix name wlanPrefix with
  | none => none
  | some rest =>
    match SplitN2 rest '.' with
    | none => none
    | some (ssidIdx, p1) =>
      match cutPrefix p1 "AssociatedDevice." with
      | none => none
      | some adRest =>
        match SplitN2 adRest '.' with
        | none => none
        | some (dev, field) => some (ssidIdx, dev, field)

/-- The `switch field` of the WLAN block of `parseHostDevices`, acting on the
record `wi`. -/
def wifiInfoField (ssidIdx field value : String) (wi : wifiInfo) : wifiInfo :=
  if field = "AssociatedDeviceMACAddress" then { wi with SSID := ssidIdx }
  else if field = "AssociatedDeviceRssi" ∨ field = "X_HW_RSSI" ∨ field = "SignalStrength" ∨
      field = "X_ZTE-COM_Rssi" then
    if value ≠ "" ∧ wi.RSSI = "" then { wi with RSSI := value } else wi
  else if field = "X_ZTE-COM_AssociatedDeviceName" ∨
      field = "X_HW_AssociatedDevicedescriptions" then
    if value ≠ "" then { wi with Hostname := value } else wi
  else wi

/-- The body of the first loop of `parseHostDevices`: the maps `entries` and
`wifiByMAC` after the visit of one parameter. -/
def hostVisit (st : IntMap hostEntry × GoMap wifiInfo) (kv : String × String) :
    IntMap hostEntry × GoMap wifiInfo :=
  match indexedField kv.1 hostsPrefix with
  | some none => st
  | some (some (idx, field)) => (imModify hostEntry.zero st.1 idx (hostField field kv.2), st.2)
  | none =>
    match assocClassify kv.1 with
    | none => st
    | some (ssidIdx, dev, field) =>
      let devKey := ssidIdx ++ "-" ++ dev
      let wi := (mapGet st.2 devKey).getD { RSSI := "", Hostname := "", SSID := ssidIdx }
      (st.1, mapSet st.2 devKey (wifiInfoField ssidIdx field kv.2 wi))

/-- The name of the parameter that gives the MAC address of the associated
device `b` of WLANConfiguration `a` (`macParam`). -/
def macParamName (a b : String) : String :=
  wlanPrefix ++ a ++ ".AssociatedDevice." ++ b ++ ".AssociatedDeviceMACAddress"

/-- The name of the parameter that gives the IP address of the associated
device `b` of WLANConfiguration `a` (`ipParam`). -/
def ipParamName (a b : String) : String :=
  wlanPrefix ++ a ++ ".AssociatedDevice." ++ b ++ ".AssociatedDeviceIPAddress"

/-- The key under which the loop that builds `macToWifi` stores the record of
`devKey`: the lower-case MAC address of the record, `none` when the loop
stores nothing for it. `lower` stands for `strings.ToLower`, which lowers
every Unicode letter; its result is the key of the join, so it is taken as a
parameter here and in the functions below. -/
def macKeyOf (lower : String → String) (params : GoMap String) (devKey : String) :
    Option String :=
  match SplitN2 devKey '-' with
  | none => none
  | some (a, b) =>
    match mapGet params (macParamName a b) with
    | some mac => if mac ≠ "" then some (lower mac) else none
    | none => none

/-- The body of the loop `for devKey, wi := range wifiByMAC` that builds
`macToWifi`. -/
def macVisit (lower : String → String) (params : GoMap String) (macToWifi : GoMap wifiInfo)
    (kw : String × wifiInfo) : GoMap wifiInfo :=
  match macKeyOf lower params kw.1 with
  | some key => mapSet macToWifi key kw.2
  | none => macToWifi

/-- The merge of a host with the record of its MAC address (app/cwmp.go lines
867-876). -/
def hostMerge (lower : String → String) (macToWifi : GoMap wifiInfo) (e : hostEntry) :
    hostEntry :=
  if e.MAC ≠ "" then
    match mapGet macToWifi (lower e.MAC) with
    | some wi =>
      if e.Hostname = "" ∧ wi.Hostname ≠ "" then
        { e with RSSI := wi.RSSI, SSID := wi.SSID, Hostname := wi.Hostname }
      else { e with RSSI := wi.RSSI, SSID := wi.SSID }
    | none => e
  else e

/-- The loop `for i := 1; i <= 64; i++` of `parseHostDevices` that builds
`result` from the hosts. -/
def hostResult (lower : String → String) (entries : IntMap hostEntry)
    (macToWifi : GoMap wifiInfo) : List hostEntry :=
  (List.range' 1 64).filterMap fun (i : Nat) =>
    match imGet entries (i : Int) with
    | some e => if e.IP = "" ∧ e.MAC = "" then none else some (hostMerge lower macToWifi e)
    | none => none

/-- The search for the IP address of the device with the lower-case MAC
address `mac` in the fallback of `parseHostDevices`, through the keys of
`wifiByMAC` in the order of the visit, ended by `break` at the first record
with that MAC address. -/
def fallbackIP (lower : String → String) (params : GoMap String) (mac : String) :
    List String → String
  | [] => ""
  | devKey :: rest =>
    match SplitN2 devKey '-' with
    | none => fallbackIP lower params mac rest
    | some (a, b) =>
      match mapGet params (macParamName a b) with
      | some m =>
        if lower m = mac then (mapGet params (ipParamName a b)).getD ""
        else fallbackIP lower params mac rest
      | none => fallbackIP lower params mac rest

/-- The fallback of `parseHostDevices` when there is no host (app/cwmp.go
lines 813-856): one entry for each MAC address of `macToWifi`, in increasing
order; `scan2 mac` gives the order in which `wifiByMAC` is visited in the
search for the IP address of `mac`. -/
def hostFallback (lower : String → String) (params : GoMap String)
    (wifiByMAC macToWifi : GoMap wifiInfo)
    (scan2 : String → GoMap wifiInfo → GoMap wifiInfo) : List hostEntry :=
  (sortStrings (mapKeys macToWifi)).filterMap fun mac =>
    match mapGet macToWifi mac with
    | some wi =>
      some
        { Hostname := wi.Hostname
          IP := fallbackIP lower params mac (mapKeys (scan2 mac wifiByMAC))
          MAC := mac
          Interface := "802.11"
          RSSI := wi.RSSI
          SSID := wi.SSID }
    | none => none

/-- The list `result` that `parseHostDevices` encodes for the parameters
`params`, visited in the order of the list. The map `wifiByMAC` is visited in
the order `scan1` when `macToWifi` is built and in the orders `scan2` in the
fallback; each is a rearrangement of the entries of the map. -/
def hostList (lower : String → String) (scan1 : GoMap wifiInfo → GoMap wifiInfo)
    (scan2 : String → GoMap wifiInfo → GoMap wifiInfo) (params : GoMap String) :
    List hostEntry :=
  let st := params.foldl hostVisit ([], [])
  let macToWifi := (scan1 st.2).foldl (macVisit lower params) []
  if st.1.length = 0 then
    if macToWifi.length = 0 then [] else hostFallback lower params st.2 macToWifi scan2
  else hostResult lower st.1 macToWifi

/-- The function `parseHostDevices`; `lower` stands for `strings.ToLower` and
`marshal` for `json.Marshal` on a list of entries. -/
def parseHostDevices (lower : String → String) (marshal : List hostEntry → String)
    (scan1 : GoMap wifiInfo → GoMap wifiInfo)
    (scan2 : String → GoMap wifiInfo → GoMap wifiInfo) (params : GoMap String) : String :=
  let st := params.foldl hostVisit ([], [])
  let macToWifi := (scan1 st.2).foldl (macVisit lower params) []
  if st.1.length = 0 then
    if macToWifi.length = 0 then ""
    else
      let result := hostFallback lower params st.2 macToWifi scan2
      if result.length = 0 then "" else marshal result
  else
    let result := hostResult lower st.1 macToWifi
    if result.length = 0 then "" else marshal result

/-- An instance index of a parameter path: a non-empty run of decimal
digits. -/
def isIndex (s : String) : Prop :=
  s.toList ≠ [] ∧ ∀ c ∈ s.toList, c.isDigit = true

/-- The name of the parameter `field` of the associated device `M` of
WLANConfiguration `N`. -/
def assocParamName (N M field : String) : String :=
  wlanPrefix ++ N ++ ".AssociatedDevice." ++ M ++ "." ++ field

/-- Whether `name` is one of the four RSSI parameters of the associated device
`M` of WLANConfiguration `N`. -/
def isRssiParamOf (N M name : String) : Bool :=
  decide (name = assocParamName N M "AssociatedDeviceRssi" ∨
    name = assocParamName N M "X_HW_RSSI" ∨
    name = assocParamName N M "SignalStrength" ∨
    name = assocParamName N M "X_ZTE-COM_Rssi")

/-- The RSSI of the record of the associated device `M` of WLANConfiguration
`N`, in the words of the specification: the first non-empty value, in the
order of the visit, among the RSSI parameters of the device; empty when there
is none. -/
def recordRssi (params : GoMap String) (N M : String) : String :=
  match params.filter (fun kv => isRssiParamOf N M kv.1 && decide (kv.2 ≠ "")) with
  | [] => ""
  | kv :: _ => kv.2

/-- A parameter map with two hosts and one associated WiFi device: host 1 has
the MAC address of the associated device 1 of WLANConfiguration 2, in another
letter case; host 2 is not associated. -/
def sampleHostParams : GoMap String :=
  [ ("InternetGatewayDevice.LANDevice.1.Hosts.Host.1.MACAddress", "AA:BB:CC:00:11:22"),
    ("InternetGatewayDevice.LANDevice.1.Hosts.Host.1.IPAddress", "192.168.1.10"),
    ("InternetGatewayDevice.LANDevice.1.Hosts.Host.2.MACAddress", "AA:BB:CC:00:11:33"),
    ("InternetGatewayDevice.LANDevice.1.WLANConfiguration.2.AssociatedDevice.1.AssociatedDeviceMACAddress",
      "aa:bb:cc:00:11:22"),
    ("InternetGatewayDevice.LANDevice.1.WLANConfiguration.2.AssociatedDevice.1.AssociatedDeviceRssi",
      "-61") ]

/-- The RSSI of the record stored under `devKey` in `wifiByMAC`, empty when
there is no record. -/
def wifiRssiAt (wifiByMAC : GoMap wifiInfo) (devKey : String) : String :=
  match mapGet wifiByMAC devKey with
  | some wi => wi.RSSI
  | none => ""

/-- A parameter map with one host whose MAC address is empty and one
associated WiFi device whose `AssociatedDeviceMACAddress` is empty too. -/
def sampleEmptyMacParams : GoMap String :=
  [ ("InternetGatewayDevice.LANDevice.1.Hosts.Host.1.MACAddress", ""),
    ("InternetGatewayDevice.LANDevice.1.Hosts.Host.1.IPAddress", "192.168.1.10"),
    ("InternetGatewayDevice.LANDevice.1.WLANConfiguration.2.AssociatedDevice.1.AssociatedDeviceMACAddress",
      ""),
    ("InternetGatewayDevice.LANDevice.1.WLANConfiguration.2.AssociatedDevice.1.AssociatedDeviceRssi",
      "-61") ]

/-- Whether `name` is a parameter `Hosts.Host.N.<field>` that the hosts block
of `parseHostDevices` stores: the name begins with `hostsPrefix`, has a field
after the index, and the index is read by `strconv.Atoi`. -/
def isHostParam (name : String) : Bool :=
  match indexedField name hostsPrefix with
  | some (some _) => true
  | _ => false

/-! ## The normalizer of a parameter map (app/cwmp.go) -/

/-- The closure `getParam` of `OnParamsUpdate` and of
`applyVendorSpecificParamsFromMap`: the value of the named parameter, `""`
when the map does not hold it. -/
def getParam (params : GoMap String) (name : String) : String :=
  match mapGet params name with
  | some v => v
  | none => ""

/-- What `applyVendorSpecificParamsFromMap` needs from outside the sources to
call the aggregators: the function `strings.ToLower` on the MAC addresses
that `parseHostDevices` joins on, the encoder `json.Marshal` for each kind of
list, and the orders in which the `range` loops of the aggregators visit the
parameter map and the map `wifiByMAC`; each order is a rearrangement of the
entries of the map. -/
structure ParamScan where
  lowerMAC : String → String
  marshalWifi : List wifiEntry → String
  marshalWan : List wanEntry → String
  marshalHosts : List hostEntry → String
  wifiOrder : GoMap String → GoMap String
  wanOrder : GoMap String → GoMap String
  wanVlanOrder : GoMap String → GoMap String
  hostOrder : GoMap String → GoMap String
  scan1 : GoMap wifiInfo → GoMap wifiInfo
  scan2 : String → GoMap wifiInfo → GoMap wifiInfo

/-- The test `valmap[name] == nil || valmap[name] == ""` of
`applyVendorSpecificParamsFromMap`. -/
def valmapEmpty (valmap : GoMap Value) (name : String) : Bool :=
  match mapGet valmap name with
  | none => true
  | some v => decide (v = Value.str "")

/-- The first five lines of the `default` branch of
`applyVendorSpecificParamsFromMap` (app/cwmp.go lines 948-952): the system
name and the ONT columns read at their TR-181 paths. -/
def fromMapOnt (valmap : GoMap Value) (params : GoMap String) : GoMap Value :=
  let valmap := setMapValue valmap "system_name"
    (.str (getParam params "Device.DeviceInfo.ModelName"))
  let valmap := setMapValue valmap "fiber_rx_power"
    (.str (getParam params "Device.Optical.Interface.1.RxPower"))
  let valmap := setMapValue valmap "fiber_tx_power"
    (.str (getParam params "Device.Optical.Interface.1.TxPower"))
  let valmap := setMapValue valmap "pon_sn_hex"
    (.str (getParam params "Device.DeviceInfo.SerialNumber"))
  setMapValue valmap "olt_uplink"
    (.str (getParam params "Device.Optical.Interface.1.UpperLayers"))

/-- The block `Uptime & CPU (TR-098 fallback)` of
`applyVendorSpecificParamsFromMap` (app/cwmp.go lines 953-964). -/
def fromMapUptimeCpu (valmap : GoMap Value) (params : GoMap String) : GoMap Value :=
  let uptime := getParam params "InternetGatewayDevice.DeviceInfo.UpTime"
  let valmap := if uptime ≠ "" then setMapValue valmap "uptime" (.str uptime) else valmap
  let cpuUsage := getParam params "InternetGatewayDevice.DeviceInfo.ProcessStatus.CPUUsage"
  let cpuUsage :=
    if cpuUsage = "" then getParam params "InternetGatewayDevice.DeviceInfo.X_CMS_CPUUsage"
    else cpuUsage
  if cpuUsage ≠ "" then setMapValue valmap "cpu_usage" (.str cpuUsage) else valmap

/-- The block `TR-098 fallbacks` of `applyVendorSpecificParamsFromMap`
(app/cwmp.go lines 965-971). -/
def fromMapTr098 (valmap : GoMap Value) (params : GoMap String) : GoMap Value :=
  let valmap :=
    if valmapEmpty valmap "fiber_rx_power" then
      setMapValue valmap "fiber_rx_power"
        (.str (getParam params "InternetGatewayDevice.DeviceInfo.XponInterface.RXPower"))
    else valmap
  if valmapEmpty valmap "fiber_tx_power" then
    setMapValue valmap "fiber_tx_power"
      (.str (getParam params "InternetGatewayDevice.DeviceInfo.XponInterface.TXPower"))
  else valmap

/-- The block `ZTE fallback` of `applyVendorSpecificParamsFromMap`
(app/cwmp.go lines 972-986). -/
def fromMapZte (valmap : GoMap Value) (params : GoMap String) : GoMap Value :=
  let valmap :=
    if valmapEmpty valmap "fiber_rx_power" then
      let rx := getParam params
        "InternetGatewayDevice.WANDevice.1.X_ZTE-COM_WANPONInterfaceConfig.RXPower"
      let rx :=
        if rx = "" then getParam params
          "InternetGatewayDevice.WANDevice.2.X_ZTE-COM_WANPONInterfaceConfig.RXPower"
        else rx
      setMapValue valmap "fiber_rx_power" (.str rx)
    else valmap
  if valmapEmpty valmap "fiber_tx_power" then
    let tx := getParam params
      "InternetGatewayDevice.WANDevice.1.X_ZTE-COM_WANPONInterfaceConfig.TXPower"
    let tx :=
      if tx = "" then getParam params
        "InternetGatewayDevice.WANDevice.2.X_ZTE-COM_WANPONInterfaceConfig.TXPower"
      else tx
    setMapValue valmap "fiber_tx_power" (.str tx)
  else valmap

/-- The last three blocks of `applyVendorSpecificParamsFromMap` (app/cwmp.go
lines 987-1001): the WiFi, WAN and LAN-client summaries. -/
def fromMapSummaries (ps : ParamScan) (valmap : GoMap Value) (params : GoMap String) :
    GoMap Value :=
  let wifiJson := parseWifiSsids ps.marshalWifi (ps.wifiOrder params)
  let valmap := if wifiJson ≠ "" then setMapValue valmap "wifi_ssid" (.str wifiJson) else valmap
  let wanJson := parseWanConnections ps.marshalWan (ps.wanOrder params) (ps.wanVlanOrder params)
  let valmap := if wanJson ≠ "" then setMapValue valmap "wan_info" (.str wanJson) else valmap
  let hostsJson :=
    parseHostDevices ps.lowerMAC ps.marshalHosts ps.scan1 ps.scan2 (ps.hostOrder params)
  if hostsJson ≠ "" then setMapValue valmap "lan_clients" (.str hostsJson) else valmap

/-- The `default` branch of `applyVendorSpecificParamsFromMap`: its blocks,
one after the other. -/
def applyGenericParamsFromMap (ps : ParamScan) (valmap : GoMap Value) (params : GoMap String) :
    GoMap Value :=
  let valmap := fromMapOnt valmap params
  let valmap := fromMapUptimeCpu valmap params
  let valmap := fromMapTr098 valmap params
  let valmap := fromMapZte valmap params
  fromMapSummaries ps valmap params

/-- The method `applyVendorSpecificParamsFromMap(valmap, params)`. -/
def CwmpCpe.applyVendorSpecificParamsFromMap (ps : ParamScan) (c : CwmpCpe)
    (valmap : GoMap Value) (params : GoMap String) : GoMap Value :=
  let m := ToLower c.Manufacturer
  if Contains m "mikrotik" then
    let valmap := setMapValue valmap "arch_name"
      (.str (getParam params "Device.DeviceInfo.X_MIKROTIK_ArchName"))
    setMapValue valmap "system_name"
      (.str (getParam params "Device.DeviceInfo.X_MIKROTIK_SystemIdentity"))
  else
    applyGenericParamsFromMap ps valmap params

/-- The column map that `OnParamsUpdate` builds for the parameter map
`params`, `now` being the reading of `time.Now()`. -/
def CwmpCpe.paramsValmap (ps : ParamScan) (c : CwmpCpe) (params : GoMap String) (now : Time) :
    GoMap Value :=
  let valmap : GoMap Value := []
  let valmap := setMapValue valmap "cwmp_last_inform" (.time now)
  let valmap := setMapValue valmap "cwmp_status" (.str "online")
  let valmap := setMapValue valmap "cwmp_url"
    (.str (getParam params "Device.ManagementServer.ConnectionRequestURL"))
  let valmap := setMapValue valmap "software_version"
    (.str (getParam params "Device.DeviceInfo.SoftwareVersion"))
  let valmap := setMapValue valmap "hardware_version"
    (.str (getParam params "Device.DeviceInfo.HardwareVersion"))
  let valmap := setMapValue valmap "model" (.str (getParam params "Device.DeviceInfo.ModelName"))
  let valmap := setMapValue valmap "uptime" (.str (getParam params "Device.DeviceInfo.UpTime"))
  let valmap := setMapValue valmap "cpu_usage"
    (.str (getParam params "Device.DeviceInfo.ProcessStatus.CPUUsage"))
  let valmap := setMapValue valmap "memory_total"
    (.str (getParam params "Device.DeviceInfo.MemoryStatus.Free"))
  let valmap := setMapValue valmap "memory_free"
    (.str (getParam params "Device.DeviceInfo.MemoryStatus.Total"))
  c.applyVendorSpecificParamsFromMap ps valmap params

/-- The row that `UpdateCwmpCpeRundata` builds, `models.NetCpeParam` with the
fields set there. -/
structure NetCpeParam where
  ID : String
  Sn : String
  Tag : String
  Name : String
  Value : String
  UpdatedAt : Time
  deriving DecidableEq

/-- Modelled from the spec: `common.InSlice` is not among the sources. Whether
the string is an element of the slice. -/
def InSlice (pid : String) (pids : List String) : Bool :=
  decide (pid ∈ pids)

/-- The `switch` of `UpdateCwmpCpeRundata` that gives the tag of the path
`k`. -/
def rundataTag (k : String) : String :=
  if Contains k "Device.DeviceInfo." then "Device.DeviceInfo."
  else if Contains k "Device.ManagementServer." then "Device.ManagementServer."
  else if Contains k "Device.InterfaceStack." then "Device.InterfaceStack."
  else if Contains k "Device.Cellular." then "Device.Cellular."
  else if Contains k "Device.Ethernet." then "Device.Ethernet."
  else if Contains k "Device.WiFi." then "Device.WiFi."
  else if Contains k "Device.PPP." then "Device.PPP."
  else if Contains k "Device.IP." then "Device.IP."
  else if Contains k "Device.Routing." then "Device.Routing."
  else if Contains k "Device.Hosts." then "Device.Hosts."
  else if Contains k "Device.DNS." then "Device.DNS."
  else if Contains k "Device.DHCPv4." then "Device.DHCPv4."
  else if Contains k "Device.Firewall." then "Device.Firewall."
  else if Contains k "Device.X_MIKROTIK_Interface." then "Device.X_MIKROTIK_Interface."
  else if Contains k "Device.Optical." then "Device.Optical."
  else if Contains k "Device.DSL." then "Device.DSL."
  else ""

/-- The body of the loop of `UpdateCwmpCpeRundata`: the slices `pids` and
`params` after the visit of one entry of the map. `Md5Hash` stands for
`common.Md5Hash`, which is not among the sources, and `now k` for the reading
of `time.Now()` at the visit of the path `k`. -/
def rundataVisit (Md5Hash : String → String) (now : String → Time) (sn : String)
    (st : List String × List NetCpeParam) (kv : String × String) :
    List String × List NetCpeParam :=
  let pid := Md5Hash (sn ++ kv.1)
  if InSlice pid st.1 then st
  else
    (st.1 ++ [pid],
      st.2 ++ [{ ID := pid, Sn := sn, Tag := rundataTag kv.1, Name := kv.1, Value := kv.2
                 UpdatedAt := now kv.1 }])

/-- The method `UpdateCwmpCpeRundata(sn, vmap)`: the rows handed to `Save`,
for the map visited in the order of the list `vmap`. -/
def UpdateCwmpCpeRundata (Md5Hash : String → String) (now : String → Time) (sn : String)
    (vmap : GoMap String) : List NetCpeParam :=
  (vmap.foldl (rundataVisit Md5Hash now sn) ([], [])).2

/-- The method `OnParamsUpdate(params)`: the update of the device record and
the parameter rows saved. `rows` lists the parameter map in the order in which
`UpdateCwmpCpeRundata` visits it. -/
def CwmpCpe.OnParamsUpdate (ps : ParamScan) (Md5Hash : String → String) (c : CwmpCpe)
    (params rows : GoMap String) (now : Time) (rowNow : String → Time) :
    List DbOp × List NetCpeParam :=
  let valmap := c.paramsValmap ps params now
  (if valmap.length > 0 then [DbOp.Updates c.Sn valmap] else [],
    UpdateCwmpCpeRundata Md5Hash rowNow c.Sn rows)

/-- An Inform of a device with 1000 units of memory in all, 400 of them
free. -/
def sampleMemoryParams : GoMap String :=
  [ ("Device.DeviceInfo.MemoryStatus.Total", "1000"),
    ("Device.DeviceInfo.MemoryStatus.Free", "400") ]

/-- The aggregators with encoders that give a fixed text, orders that keep
the list, and `ToLower` for the MAC addresses, which are ASCII text in the
examples. -/
def sampleScan : ParamScan :=
  { lowerMAC := ToLower
    marshalWifi := fun _ => "wifi"
    marshalWan := fun _ => "wan"
    marshalHosts := fun _ => "hosts"
    wifiOrder := id
    wanOrder := id
    wanVlanOrder := id
    hostOrder := id
    scan1 := id
    scan2 := fun _ => id }

/-- A parameter map of the TR-181 data model: no path begins with
`InternetGatewayDevice.`. -/
def isTr181Map (params : GoMap String) : Prop :=
  ∀ kv ∈ params, HasPrefix kv.1 "InternetGatewayDevice." = false

/-- The columns that both normalizers write from the parameter map alone. -/
def commonColumns : List String :=
  ["cwmp_status", "cwmp_url", "software_version", "hardware_version", "model", "uptime",
    "cpu_usage", "memory_total", "memory_free", "arch_name", "system_name", "fiber_rx_power",
    "fiber_tx_power", "olt_uplink"]

/-- The paths at which `applyVendorSpecificParams` looks for an optical RX or
TX power. -/
def opticalPowerPaths : List String :=
  ["Device.Optical.Interface.1.RxPower",
    "InternetGatewayDevice.DeviceInfo.XponInterface.RXPower",
    "InternetGatewayDevice.WANDevice.1.X_ZTE-COM_WANPONInterfaceConfig.RXPower",
    "InternetGatewayDevice.WANDevice.2.X_ZTE-COM_WANPONInterfaceConfig.RXPower",
    "Device.Optical.Interface.1.TxPower",
    "InternetGatewayDevice.DeviceInfo.XponInterface.TXPower",
    "InternetGatewayDevice.WANDevice.1.X_ZTE-COM_WANPONInterfaceConfig.TXPower",
    "InternetGatewayDevice.WANDevice.2.X_ZTE-COM_WANPONInterfaceConfig.TXPower"]

/-- Modelled from the spec: gorm is not among the sources. The column
`device_type` of a device record after `Updates(valmap)`: the text that the
map holds for the column, the stored one when the map does not hold the
column. -/
def updatedDeviceType (stored : String) (valmap : GoMap Value) : String :=
  match mapGet valmap "device_type" with
  | some (.str s) => s
  | _ => stored

/-- The runtime entry of a Mikrotik router with the serial number `ABC123`
and the given last Inform. -/
def sampleMikrotikCpe (msg : Inform) : CwmpCpe :=
  { Sn := "ABC123"
    OUI := ""
    taskTags := none
    SoftwareVersion := ""
    Manufacturer := "MikroTik"
    ProductClass := ""
    cwmpQueueMap := ⟨512, []⟩
    cwmpHPQueueMap := ⟨1, []⟩
    LastInform := some msg
    LastUpdate := 0
    LastDataNotify := 0
    IsRegister := true }

/-- An Inform of the device `ABC123` with the given manufacturer and parameter
map, and no event. -/
def sampleInformOf (manufacturer : String) (params : GoMap String) : Inform :=
  { ID := "X1"
    Sn := "ABC123"
    Manufacturer := manufacturer
    OUI := ""
    ProductClass := ""
    CommandKey := ""
    Events := []
    MaxEnvelopes := 1
    RetryCount := 0
    Params := params }

/-- The groups of the `switch` of `UpdateCwmpCpeRundata`, in the order of its
cases. -/
def rundataGroups : List String :=
  ["Device.DeviceInfo.", "Device.ManagementServer.", "Device.InterfaceStack.",
    "Device.Cellular.", "Device.Ethernet.", "Device.WiFi.", "Device.PPP.", "Device.IP.",
    "Device.Routing.", "Device.Hosts.", "Device.DNS.", "Device.DHCPv4.", "Device.Firewall.",
    "Device.X_MIKROTIK_Interface.", "Device.Optical.", "Device.DSL."]

/-- The parameter map of a `GetParameterValuesResponse` with three
parameters. -/
def sampleRundataParams : GoMap String :=
  [ ("Device.DeviceInfo.UpTime", "42"),
    ("Device.DeviceInfo.ModelName", "X"),
    ("Device.WiFi.SSID.1.SSID", "home") ]

/-- A parameter map with one PPPoE connection that carries two service-list
fields and two VLAN-id fields with different values. -/
def sampleWanAliasParams : GoMap String :=
  [ ("InternetGatewayDevice.WANDevice.1.WANConnectionDevice.1.WANPPPConnection.1.Name", "wan1"),
    ("InternetGatewayDevice.WANDevice.1.WANConnectionDevice.1.WANPPPConnection.1.X_HW_SERVICELIST",
      "INTERNET"),
    ("InternetGatewayDevice.WANDevice.1.WANConnectionDevice.1.WANPPPConnection.1.X_HW_VLAN",
      "100"),
    ("InternetGatewayDevice.WANDevice.1.WANConnectionDevice.1.WANPPPConnection.1.VLANID",
      "200"),
    ("InternetGatewayDevice.WANDevice.1.WANConnectionDevice.1.WANPPPConnection.1.X_CT-COM_ServiceList",
      "TR069") ]

/-! ## The file routes (tr069/handlers.go) -/

/-- The cut of a character list at every occurrence of `sep`, as
`strings.Split` cuts a string. -/
def splitAll (sep : Char) : List Char → List (List Char)
  | [] => [[]]
  | c :: cs =>
    if c = sep then [] :: splitAll sep cs
    else
      match splitAll sep cs with
      | [] => [[c]]
      | p :: ps => (c :: p) :: ps

/-- One element met by `path.Clean`, `stack` being the elements kept so far,
the last one first: an empty element and `.` are dropped; `..` removes the
element before it, is dropped at the root, and is kept at the beginning of a
path that is not rooted; any other element is kept. -/
def cleanStep (rooted : Bool) (stack : List String) (e : String) : List String :=
  if e = "" ∨ e = "." then stack
  else if e = ".." then
    match stack with
    | top :: below => if top = ".." then ".." :: stack else below
    | [] => if rooted then [] else [".."]
  else e :: stack

/-- The elements of a path written with `/` between them. -/
def joinElems : List String → String
  | [] => ""
  | [e] => e
  | e :: rest => e ++ "/" ++ joinElems rest

/-- The elements that `path.Clean` keeps of the path `p`, the last one
first. -/
def cleanStack (p : String) : List String :=
  ((splitAll '/' p.toList).map String.mk).foldl (cleanStep (HasPrefix p "/")) []

/-- The function `path.Clean`. -/
def pathClean (p : String) : String :=
  if p = "" then "."
  else
    let out := joinElems (cleanStack p).reverse
    if HasPrefix p "/" then "/" ++ out else if out = "" then "." else out

/-- The function `path.Join`: the elements from the first non-empty one on,
with `/` between them, cleaned; the empty path when every element is
empty. -/
def pathJoin (elem : List String) : String :=
  if elem.all (fun e => decide (e = "")) then ""
  else pathClean (joinElems (elem.dropWhile (fun e => decide (e = ""))))

/-- What the file routes take from outside the sources: the settings
`Tr069.Secret` and `System.Workdir`, the text of `time.Now().Format("20060102")`,
the helper `common.Md5Hash`, and the errors of `os.Create` on a path and of
`io.Copy` of a body to the file of a path (`none` for nil). -/
structure FileConfig where
  Secret : String
  Workdir : String
  Today : String
  Md5Hash : String → String
  createErr : String → Option String
  copyErr : String → List Nat → Option String

/-- A call that acts on the file system: `os.MkdirAll(path, 0777)`,
`os.Create(path)` and `io.Copy` of a body to the file created at a path. -/
inductive FileOp where
  | MkdirAll (path : String)
  | Create (path : String)
  | Copy (path : String) (body : List Nat)
  deriving DecidableEq

/-- What a file route writes to the client: `c.String(code, s)`,
`c.NoContent(code)` or `c.File(path)`. -/
inductive FileReply where
  | String (code : Nat) (s : String)
  | NoContent (code : Nat)
  | File (path : String)
  deriving DecidableEq

/-- The result of a file route: the reply, the header `Content-Disposition`
if set, and the calls made on the file system, oldest first. -/
structure FileHandled where
  reply : FileReply
  disposition : Option String
  files : List FileOp
  deriving DecidableEq

/-- The handler `Tr069Upload`, for the route parameters `session`, `token`
and `filename` and the request body. -/
def Tr069Upload (cfg : FileConfig) (session token filename : String) (body : List Nat) :
    FileHandled :=
  if session = "" ∨ token = "" then ⟨.String 400 "bad request", none, []⟩
  else if token ≠ cfg.Md5Hash (session ++ cfg.Secret ++ cfg.Today) then
    ⟨.String 400 "bad token", none, []⟩
  else
    let dir := pathJoin [cfg.Workdir, "cwmp"]
    let dst := pathJoin [cfg.Workdir, "cwmp/" ++ filename]
    match cfg.createErr dst with
    | some err => ⟨.String 500 err, none, [.MkdirAll dir]⟩
    | none =>
      match cfg.copyErr dst body with
      | some err => ⟨.String 500 err, none, [.MkdirAll dir, .Create dst]⟩
      | none => ⟨.NoContent 200, none, [.MkdirAll dir, .Create dst, .Copy dst body]⟩

/-- The handler `Tr069FirmwareDownload`, for the route parameter
`filename`. -/
def Tr069FirmwareDownload (cfg : FileConfig) (filename : String) : FileHandled :=
  if Contains filename ".." || Contains filename "/" then
    ⟨.String 400 "bad request", none, []⟩
  else
    ⟨.File (pathJoin [cfg.Workdir, "cwmp", filename]),
      some ("attachment;filename=" ++ filename), []⟩

/-- Whether the path `p` lies under the directory `dir`. -/
def isUnder (dir p : String) : Bool :=
  HasPrefix p (dir ++ "/")

/-- The settings of a server with the work directory `/var/teamsacs` on the
day 20261104, a stand-in for the hash, and a file system on which every file
can be created and written. -/
def sampleFileConfig : FileConfig :=
  { Secret := "secret"
    Workdir := "/var/teamsacs"
    Today := "20261104"
    Md5Hash := fun s => "md5(" ++ s ++ ")"
    createErr := fun _ => none
    copyErr := fun _ _ => none }

/-! ## The connection-request client (common/cwmp/auth_client.go) -/

/-- The function `strings.Split(s, sep)` for a separator of one character. -/
def Split (s : String) (sep : Char) : List String :=
  (splitAll sep s.toList).map String.mk

/-- The function `strings.Join`. -/
def Join : List String → String → String
  | [], _ => ""
  | [e], _ => e
  | e :: rest, sep => e ++ sep ++ Join rest sep

/-- Whether a character belongs to the cutset `"\" "` of `DigestAuthParams`:
the double quote and the space. -/
def isCut (c : Char) : Bool :=
  c = Char.ofNat 34 || c = ' '

/-- The call `strings.Trim(s, "\" ")` of `DigestAuthParams`. -/
def TrimCut (s : String) : String :=
  String.mk ((s.toList.dropWhile isCut).reverse.dropWhile isCut).reverse

/-- The body of the loop of `DigestAuthParams`: the map `result` after the
visit of one part of the challenge. -/
def digestVisit (result : GoMap String) (kv : String) : GoMap String :=
  match SplitN2 kv '=' with
  | none => result
  | some (a, b) => mapSet result (TrimCut a) (TrimCut b)

/-- The function `DigestAuthParams`, on the value of the header
`Www-Authenticate` of the response; `none` is the nil map. -/
def DigestAuthParams (header : String) : Option (GoMap String) :=
  match SplitN2 header ' ' with
  | none => none
  | some (s0, s1) =>
    if s0 ≠ "Digest" then none else some ((Split s1 ',').foldl digestVisit [])

/-- The read `authorization[name]` of `ConnectionRequestAuth`, on a map that
may be nil. -/
def digestField (authorization : Option (GoMap String)) (name : String) : String :=
  match authorization with
  | none => ""
  | some m => getParam m name

/-- What `ConnectionRequestAuth` reads of a response: the status code and the
value of the header `Www-Authenticate`. -/
structure HttpResponse where
  StatusCode : Nat
  WwwAuthenticate : String
  deriving DecidableEq

/-- What `ConnectionRequestAuth` reads of the type `url.URL` of the standard
library: the scheme, the opaque part, the host, the result of the method
`EscapedPath()`, and the query with the flag of an empty query after a `?`. -/
structure URL where
  Scheme : String
  Opaque : String
  Host : String
  EscapedPath : String
  ForceQuery : Bool
  RawQuery : String
  deriving DecidableEq

/-- The method `RequestURI()` of `url.URL`: the opaque part, with the scheme
in front when it begins with `//`, or else the escaped path, `/` when that is
empty; then `?` and the query when there is one. -/
def URL.RequestURI (u : URL) : String :=
  let result :=
    if u.Opaque = "" then
      if u.EscapedPath = "" then "/" else u.EscapedPath
    else if HasPrefix u.Opaque "//" then u.Scheme ++ ":" ++ u.Opaque
    else u.Opaque
  if u.ForceQuery = true ∨ u.RawQuery ≠ "" then result ++ "?" ++ u.RawQuery else result

/-- The request path of a URL: its escaped path, `/` when that is empty. -/
def URL.requestPath (u : URL) : String :=
  if u.EscapedPath = "" then "/" else u.EscapedPath

/-- A character that may follow the first letter of a scheme (`getScheme` of
net/url): an ASCII letter or digit, `+`, `-` or `.`. -/
def isSchemeChar (c : Char) : Bool :=
  c.isAlpha || c.isDigit || c = '+' || c = '-' || c = '.'

/-- A character of a host name that `url.Parse` takes as it stands: an ASCII
letter or digit, `.` or `-`. -/
def isHostChar (c : Char) : Bool :=
  c.isAlpha || c.isDigit || c = '.' || c = '-'

/-- A character of a path that `url.Parse` takes and `EscapedPath()` gives
back as it stands: an ASCII letter or digit or one of `-_.~$&+,/:;=@`. -/
def isPathChar (c : Char) : Bool :=
  c.isAlpha || c.isDigit || "-_.~$&+,/:;=@".toList.contains c

/-- The function `url.Parse` on a URL of the plain form
`scheme://host[:port][path][?query]`: no fragment and no control character, a
scheme of a letter and scheme characters, a non-empty host of letters, digits,
`.` and `-`, a port of digits, and a path of characters that need no escape.
As `url.Parse` does, the text is cut at the first `:` for the scheme, then at
the first `?` for the query, then after `//` at the first `/` for the
authority. `none` for a text that is not of this form. -/
def plainURL (rawURL : String) : Option URL :=
  if rawURL.toList.any (fun c => c = '#' || decide (c.val < 0x20) || c.val = 0x7f) then none
  else
    match splitFirst ':' rawURL.toList with
    | none => none
    | some (scheme, rest) =>
      if scheme.head?.any Char.isAlpha && scheme.all isSchemeChar then
        let cut : List Char × Option (List Char) :=
          match splitFirst '?' rest with
          | none => (rest, none)
          | some (a, b) => (a, some b)
        match cut.1 with
        | '/' :: '/' :: auth =>
          let authority := auth.takeWhile (fun c => c ≠ '/')
          let path := auth.dropWhile (fun c => c ≠ '/')
          let hostPort : List Char × List Char :=
            match splitFirst ':' authority with
            | none => (authority, [])
            | some (h, p) => (h, p)
          if !hostPort.1.isEmpty && hostPort.1.all isHostChar && hostPort.2.all Char.isDigit &&
              path.all isPathChar then
            some
              { Scheme := ToLower (String.mk scheme)
                Opaque := ""
                Host := String.mk authority
                EscapedPath := String.mk path
                ForceQuery := decide (cut.2 = some [])
                RawQuery := String.mk (cut.2.getD []) }
          else none
        | _ => none
      else none

/-- The function `url.Parse`: computed by `plainURL` for a URL of the plain
form; for any other text the result is the parameter `other`. -/
def urlParse (other : String → Except String URL) (rawURL : String) : Except String URL :=
  match plainURL rawURL with
  | some u => .ok u
  | none => other rawURL

/-- What `ConnectionRequestAuth` takes from outside the sources: the result
of `url.Parse` for a URL that is not of the plain form, the error of
`http.NewRequest("GET", uri, nil)` (`none` for nil), the exchange `client.Do`
for a GET of a URL with an `Authorization` header or without one, the text
that `RandomKey` draws, and the lower-case hexadecimal MD5 digest of a
text. -/
structure HttpClient where
  Parse : String → Except String URL
  NewRequest : String → Option String
  Do : String → Option String → Except String HttpResponse
  RandomKey : String
  Md5Hex : String → String

/-- The function `H`. -/
def H (cl : HttpClient) (data : String) : String :=
  cl.Md5Hex data

/-- The text that `ConnectionRequestAuth` formats as the value of the header
`Authorization`. -/
def digestAuthHeader (username realmHeader nonceHeader uriPath cnonce qopHeader response
    opaqueHeader : String) : String :=
  "Digest username=\"" ++ username ++ "\", realm=\"" ++ realmHeader ++ "\", nonce=\"" ++
    nonceHeader ++ "\", uri=\"" ++ uriPath ++ "\", cnonce=\"" ++ cnonce ++
    "\", nc=00000001, qop=" ++ qopHeader ++ ", response=\"" ++ response ++ "\", opaque=\"" ++
    opaqueHeader ++ "\", algorithm=MD5"

/-- The result of `ConnectionRequestAuth`: the `Authorization` header of each
request sent (`none` for a request without one), oldest first, and the
`(bool, error)` result. -/
structure AuthResult where
  sent : List (Option String)
  result : Except String Bool

/-- The function `ConnectionRequestAuth`. -/
def ConnectionRequestAuth (cl : HttpClient) (username password uri : String) : AuthResult :=
  match urlParse cl.Parse uri with
  | .error e => ⟨[], .error e⟩
  | .ok parsedUrl =>
    let uriPath := parsedUrl.RequestURI
    match cl.NewRequest uri with
    | some e => ⟨[], .error e⟩
    | none =>
      match cl.Do uri none with
      | .error e => ⟨[none], .error e⟩
      | .ok resp =>
        if resp.StatusCode = 401 then
          let authorization := DigestAuthParams resp.WwwAuthenticate
          let realmHeader := digestField authorization "realm"
          let qopHeader := digestField authorization "qop"
          let nonceHeader := digestField authorization "nonce"
          let opaqueHeader := digestField authorization "opaque"
          let realm := realmHeader
          let A1 := username ++ ":" ++ realm ++ ":" ++ password
          let HA1 := cl.Md5Hex A1
          let A2 := "GET:" ++ uriPath
          let HA2 := cl.Md5Hex A2
          let cnonce := cl.RandomKey
          let response :=
            H cl (Join [HA1, nonceHeader, "00000001", cnonce, qopHeader, HA2] ":")
          match cl.NewRequest uri with
          | some e => ⟨[none], .error e⟩
          | none =>
            let AuthHeader := digestAuthHeader username realmHeader nonceHeader uriPath cnonce
              qopHeader response opaqueHeader
            match cl.Do uri (some AuthHeader) with
            | .error e => ⟨[none, some AuthHeader], .error e⟩
            | .ok resp2 => ⟨[none, some AuthHeader], .ok (decide (resp2.StatusCode = 200))⟩
        else
          ⟨[none],
            .error ("response status code should have been 401, it was " ++
              toString resp.StatusCode)⟩

/-- The challenge `Digest realm="R", nonce="N", qop=auth, opaque="O"`. -/
def digestChallenge (R N O : String) : String :=
  "Digest realm=\"" ++ R ++ "\", nonce=\"" ++ N ++ "\", qop=auth, opaque=\"" ++ O ++ "\""

/-- A value that `DigestAuthParams` reads back as it stands in the challenge:
it holds no comma and neither begins nor ends with a double quote or a
space. -/
def isPlainValue (v : String) : Bool :=
  !(v.toList.contains ',') && !(v.toList.head?.any isCut) && !(v.toList.getLast?.any isCut)

/-- A CPE that answers the first request with the challenge of the realm
`acs`, the nonce `N` and the opaque `O`, and a request that carries an
`Authorization` header with 200. A URL that is not of the plain form is
refused; the digest and the random text are stand-ins. -/
def sampleHttpClient : HttpClient :=
  { Parse := fun _ => .error "parse: not a plain URL"
    NewRequest := fun _ => none
    Do := fun _ auth =>
      match auth with
      | none => .ok ⟨401, digestChallenge "acs" "N" "O"⟩
      | some _ => .ok ⟨200, ""⟩
    RandomKey := "c2FtcGxlY25vbmNl"
    Md5Hex := fun s => "md5(" ++ s ++ ")" }

/-- The request that the goroutine started at the end of `processInformEvent`
sends on the normal queue for an Inform of `ABC123` with a parameter under
`InternetGatewayDevice.`, when `common.UUID()` gives `u1`. -/
def sampleAutoFetch : CwmpEventData :=
  { Session := "auto-fetch-u1"
    Sn := "ABC123"
    Message := ⟨.GetParameterValues,
      ({ ID := "auto-fetch-u1", Name := "AutoFetchParams", NoMore := 0,
         ParameterNames :=
           [ "InternetGatewayDevice.DeviceInfo.",
             "InternetGatewayDevice.LANDevice.1.WLANConfiguration.",
             "InternetGatewayDevice.LANDevice.1.Hosts.",
             "InternetGatewayDevice.WANDevice." ] } : GetParameterValues)⟩ }

/-- A hash with collisions, for the examples: the text after the first twenty
characters, so all texts of at most twenty characters have the same hash. -/
def sampleHash (s : String) : String :=
  String.mk (s.toList.drop 20)

/-! ## Theorems: the codec -/

/-- The `switch` of `ParseXML` knows every listed name but `GetRPCMethods`, and
the message it makes has that name. -/
theorem messageForName_listed (name : String) (hin : name ∈ listedNames)
    (hne : name ≠ "GetRPCMethods") :
    ∃ k, messageForName name = some k ∧ k.GetName = name := by
  simp only [listedNames, List.mem_cons, List.mem_singleton, List.mem_nil_iff, or_false] at hin
  rcases hin with h | h | h | h | h | h | h | h | h | h | h | h | h | h
  all_goals first
    | exact absurd h hne
    | (subst h; exact ⟨_, rfl, rfl⟩)

/-- For every listed name other than `GetRPCMethods`, `ParseXML` returns a
message of that name for an envelope whose Body starts with that element. -/
theorem ParseXML_listed (cd : Codec) (data : List Nat) (doc body : Node) (name : String)
    (hload : cd.LoadBytes data = .ok doc)
    (hbody : doc.SelectNode "*" "Body" = some body)
    (hname : firstElementName body.Children = name)
    (hin : name ∈ listedNames) (hne : name ≠ "GetRPCMethods") :
    ∃ msg, ParseXML cd data = .ok (some msg) ∧ msg.GetName = name := by
  obtain ⟨k, hk, hkn⟩ := messageForName_listed name hin hne
  have hnz : name ≠ "" := by
    intro h0
    rw [h0] at hk
    simp [messageForName] at hk
  refine ⟨⟨k, cd.Parse k doc⟩, ?_, hkn⟩
  simp only [ParseXML, hload, parseDoc, hbody, hname]
  simp [hnz, hk]

/-- The `switch` of `ParseXML` has no branch for a name outside the listed
ones. -/
theorem messageForName_unlisted (name : String) (hout : name ∉ listedNames) :
    messageForName name = none := by
  simp only [listedNames, List.mem_cons, List.mem_singleton, List.mem_nil_iff, or_false,
    not_or] at hout
  obtain ⟨h1, h2, h3, h4, h5, h6, h7, h8, _, h10, h11, h12, h13, h14⟩ := hout
  simp [messageForName, h1, h2, h3, h4, h5, h6, h7, h8, h10, h11, h12, h13, h14]

/-- C1 (the code at the failing input): for an envelope whose Body starts with
the element `GetRPCMethods`, a name the specification lists, `ParseXML`
returns no message but the error of the `default` branch. -/
theorem ParseXML_GetRPCMethods_unmatched (cd : Codec) (data : List Nat) (doc body : Node)
    (hload : cd.LoadBytes data = .ok doc)
    (hbody : doc.SelectNode "*" "Body" = some body)
    (hname : firstElementName body.Children = "GetRPCMethods") :
    ParseXML cd data = .error "no msg type match: GetRPCMethods" := by
  simp only [ParseXML, hload, parseDoc, hbody, hname]
  rfl

/-- C1, at the envelope `<Envelope><Header/><Body> <GetRPCMethods/></Body></Envelope>`. -/
theorem ParseXML_GetRPCMethods_unmatched_witness :
    ParseXML (sampleCodec (sampleEnvelope "GetRPCMethods")) [60] =
      .error "no msg type match: GetRPCMethods" :=
  ParseXML_GetRPCMethods_unmatched (sampleCodec (sampleEnvelope "GetRPCMethods")) [60]
    (sampleEnvelope "GetRPCMethods")
    (sampleElement "Body" [sampleText " ", sampleElement "GetRPCMethods" []])
    rfl rfl rfl

/-- A non-empty request body that does not load as XML, whose Body has no
element child, or whose first Body element has a name unknown to `ParseXML`,
is answered with status 400. -/
theorem Tr069Index_bad_request (env : Env) (cd : Codec) (table : CwmpEventTable) (req : Request)
    (arrived : List CwmpEventData)
    (hread : req.ReadErr = none) (hlen : 0 < req.Body.length)
    (hbad : (∃ err, cd.LoadBytes req.Body = .error err) ∨
      (∃ doc body, cd.LoadBytes req.Body = .ok doc ∧ doc.SelectNode "*" "Body" = some body ∧
        (firstElementName body.Children = "" ∨
          messageForName (firstElementName body.Children) = none))) :
    ∃ h, Tr069Index env cd table req arrived = .done h ∧ h.response.code = 400 ∧ h.table = table := by
  rcases hbad with ⟨err, herr⟩ | ⟨doc, body, hload, hbody, hcase⟩
  · have h : Tr069Index env cd table req arrived = .done
        { response := .String 400 ("cwmp read xml error " ++ err)
          cookie := none, table := table, db := [], spawned := [] } := by
      simp only [Tr069Index, hread, hlen, if_true, ParseXML, herr]
    exact ⟨_, h, rfl, rfl⟩
  · by_cases h0 : firstElementName body.Children = ""
    · have h : Tr069Index env cd table req arrived = .done
          { response := .String 400 ("cwmp read xml error " ++ "no element found in SOAP Body")
            cookie := none, table := table, db := [], spawned := [] } := by
        simp only [Tr069Index, hread, hlen, if_true, ParseXML, hload, parseDoc, hbody, h0]
      exact ⟨_, h, rfl, rfl⟩
    · have hnone : messageForName (firstElementName body.Children) = none := by
        rcases hcase with h | h
        · exact absurd h h0
        · exact h
      have h : Tr069Index env cd table req arrived = .done
          { response := .String 400 ("cwmp read xml error " ++
              ("no msg type match: " ++ firstElementName body.Children))
            cookie := none, table := table, db := [], spawned := [] } := by
        simp only [Tr069Index, hread, hlen, if_true, ParseXML, hload, parseDoc, hbody, h0,
          if_false, hnone]
      exact ⟨_, h, rfl, rfl⟩

/-- C2 (the code at the failing input): for a non-empty request body that is
well-formed XML without a Body node, `ParseXML` returns neither a message nor
an error and `Tr069Index` panics on the nil message instead of answering
400. -/
theorem Tr069Index_no_body_panics (env : Env) (cd : Codec) (table : CwmpEventTable)
    (req : Request) (arrived : List CwmpEventData) (doc : Node)
    (hread : req.ReadErr = none) (hlen : 0 < req.Body.length)
    (hload : cd.LoadBytes req.Body = .ok doc)
    (hbody : doc.SelectNode "*" "Body" = none) :
    ParseXML cd req.Body = .ok none ∧
      Tr069Index env cd table req arrived =
        .panicked "invalid memory address or nil pointer dereference" := by
  have hparse : ParseXML cd req.Body = .ok none := by
    simp only [ParseXML, hload, parseDoc, hbody]
  refine ⟨hparse, ?_⟩
  simp only [Tr069Index, hread, hlen, if_true, hparse]

/-- C2, at the request body `<html/>` (read as `sampleNoBody`). -/
theorem Tr069Index_no_body_panics_witness :
    ParseXML (sampleCodec sampleNoBody) [60, 104, 116, 109, 108, 47, 62] = .ok none ∧
      Tr069Index sampleEnv (sampleCodec sampleNoBody) NewCwmpEventTable
          ⟨none, [60, 104, 116, 109, 108, 47, 62], none, "10.0.0.5"⟩ [] =
        .panicked "invalid memory address or nil pointer dereference" :=
  Tr069Index_no_body_panics sampleEnv (sampleCodec sampleNoBody) NewCwmpEventTable
    ⟨none, [60, 104, 116, 109, 108, 47, 62], none, "10.0.0.5"⟩ [] sampleNoBody
    rfl (by decide) rfl rfl

/-- C3 (counterexample): for the envelope whose Body starts with the element
`Foo`, a name outside the listed set, the error of `ParseXML` reads
`no msg type match: Foo`, not `no message type match: Foo`. -/
theorem ParseXML_unlisted_text_counterexample :
    "Foo" ∉ listedNames ∧
      ParseXML (sampleCodec (sampleEnvelope "Foo")) [60] = .error "no msg type match: Foo" ∧
      ParseXML (sampleCodec (sampleEnvelope "Foo")) [60] ≠
        .error ("no message type match: " ++ "Foo") := by
  refine ⟨by decide, rfl, ?_⟩
  have h : ParseXML (sampleCodec (sampleEnvelope "Foo")) [60] =
      .error "no msg type match: Foo" := rfl
  rw [h]
  intro hc
  injection hc with hc
  revert hc
  decide

/-- C3 (amended): for every envelope whose first Body element has a name
outside the listed set, `ParseXML` returns no message and fails with the error
text `no msg type match: ` followed by that name. -/
theorem ParseXML_unlisted (cd : Codec) (data : List Nat) (doc body : Node) (name : String)
    (hload : cd.LoadBytes data = .ok doc)
    (hbody : doc.SelectNode "*" "Body" = some body)
    (hname : firstElementName body.Children = name)
    (hne : name ≠ "") (hout : name ∉ listedNames) :
    ParseXML cd data = .error ("no msg type match: " ++ name) := by
  have hnone := messageForName_unlisted name hout
  simp only [ParseXML, hload, parseDoc, hbody, hname]
  simp [hne, hnone]

/-- C3 (amended), at the envelope whose Body starts with the element `Foo`. -/
theorem ParseXML_unlisted_witness :
    ParseXML (sampleCodec (sampleEnvelope "Foo")) [60] =
      .error ("no msg type match: " ++ "Foo") :=
  ParseXML_unlisted (sampleCodec (sampleEnvelope "Foo")) [60] (sampleEnvelope "Foo")
    (sampleElement "Body" [sampleText " ", sampleElement "Foo" []]) "Foo"
    rfl rfl rfl (by decide) (by decide)

/-! ## Theorems: the queues -/

/-- C4: when the high-priority queue and the normal queue of an entry are both
non-empty, the queue poll of the dispatcher emits the head of the
high-priority queue, takes it off that queue and leaves the normal queue as it
is. -/
theorem pollQueues_high_first (cpe : CwmpCpe) (t : Int)
    (hhp : cpe.cwmpHPQueueMap.buf ≠ []) (hq : cpe.cwmpQueueMap.buf ≠ []) :
    (pollQueues cpe t).1 = some (cpe.cwmpHPQueueMap.buf.head hhp) ∧
      (pollQueues cpe t).2.cwmpHPQueueMap.buf = cpe.cwmpHPQueueMap.buf.tail ∧
      (pollQueues cpe t).2.cwmpQueueMap = cpe.cwmpQueueMap ∧
      (pollQueues cpe t).2.cwmpQueueMap.buf ≠ [] := by
  obtain ⟨Sn, OUI, tags, sv, mf, pc, q, ⟨hcap, hbuf⟩, li, lu, ldn, reg⟩ := cpe
  cases hbuf with
  | nil => exact absurd rfl hhp
  | cons h rest =>
    refine ⟨rfl, rfl, rfl, ?_⟩
    exact hq

/-- C4, at an entry with two events in the normal queue and one in the
high-priority queue. -/
theorem pollQueues_high_first_witness :
    (pollQueues (sampleCpe [sampleEvent "n1", sampleEvent "n2"] [sampleEvent "h1"]) 100).1 =
        some ([sampleEvent "h1"].head (by simp)) ∧
      (pollQueues (sampleCpe [sampleEvent "n1", sampleEvent "n2"]
          [sampleEvent "h1"]) 100).2.cwmpHPQueueMap.buf = [sampleEvent "h1"].tail ∧
      (pollQueues (sampleCpe [sampleEvent "n1", sampleEvent "n2"]
          [sampleEvent "h1"]) 100).2.cwmpQueueMap =
        (sampleCpe [sampleEvent "n1", sampleEvent "n2"] [sampleEvent "h1"]).cwmpQueueMap ∧
      (pollQueues (sampleCpe [sampleEvent "n1", sampleEvent "n2"]
          [sampleEvent "h1"]) 100).2.cwmpQueueMap.buf ≠ [] :=
  pollQueues_high_first (sampleCpe [sampleEvent "n1", sampleEvent "n2"] [sampleEvent "h1"]) 100
    (by simp [sampleCpe]) (by simp [sampleCpe])

/-- C5: on an entry whose high-priority queue (capacity 1) holds one event,
sending with `hp = true` returns the timeout error and leaves the entry, so
both queues, as it was; a following send with `hp = false` succeeds and
appends the event when the normal queue (capacity 512) holds fewer than 512
events. -/
theorem SendCwmpEventData_full_high (cpe : CwmpCpe) (event event2 : CwmpEventData) (t t2 : Int)
    (hcap : cpe.cwmpHPQueueMap.cap = 1) (hlen : cpe.cwmpHPQueueMap.buf.length = 1)
    (hqcap : cpe.cwmpQueueMap.cap = 512) (hqlen : cpe.cwmpQueueMap.buf.length < 512) :
    cpe.SendCwmpEventData event t true =
        (some "cwmp event channel full, write timeout", cpe) ∧
      ((cpe.SendCwmpEventData event t true).2.SendCwmpEventData event2 t2 false).1 = none ∧
      ((cpe.SendCwmpEventData event t true).2.SendCwmpEventData event2 t2 false).2.cwmpQueueMap.buf
        = cpe.cwmpQueueMap.buf ++ [event2] ∧
      ((cpe.SendCwmpEventData event t true).2.SendCwmpEventData event2 t2
        false).2.cwmpHPQueueMap = cpe.cwmpHPQueueMap := by
  have h1 : cpe.SendCwmpEventData event t true =
      (some "cwmp event channel full, write timeout", cpe) := by
    simp [CwmpCpe.SendCwmpEventData, CwmpCpe.getQueue, hcap, hlen]
  rw [h1]
  refine ⟨rfl, ?_, ?_, ?_⟩ <;>
    simp [CwmpCpe.SendCwmpEventData, CwmpCpe.getQueue, CwmpCpe.setQueue, hqcap, hqlen]

/-- C5, at an entry with one event in each queue. -/
theorem SendCwmpEventData_full_high_witness :
    (sampleCpe [sampleEvent "n1"] [sampleEvent "h1"]).SendCwmpEventData
        (sampleEvent "h2") 5000 true =
        (some "cwmp event channel full, write timeout",
          sampleCpe [sampleEvent "n1"] [sampleEvent "h1"]) ∧
      (((sampleCpe [sampleEvent "n1"] [sampleEvent "h1"]).SendCwmpEventData
        (sampleEvent "h2") 5000 true).2.SendCwmpEventData (sampleEvent "n2") 5000 false).1
        = none ∧
      (((sampleCpe [sampleEvent "n1"] [sampleEvent "h1"]).SendCwmpEventData
        (sampleEvent "h2") 5000 true).2.SendCwmpEventData (sampleEvent "n2") 5000
        false).2.cwmpQueueMap.buf
        = (sampleCpe [sampleEvent "n1"] [sampleEvent "h1"]).cwmpQueueMap.buf
          ++ [sampleEvent "n2"] ∧
      (((sampleCpe [sampleEvent "n1"] [sampleEvent "h1"]).SendCwmpEventData
        (sampleEvent "h2") 5000 true).2.SendCwmpEventData (sampleEvent "n2") 5000
        false).2.cwmpHPQueueMap
        = (sampleCpe [sampleEvent "n1"] [sampleEvent "h1"]).cwmpHPQueueMap :=
  SendCwmpEventData_full_high (sampleCpe [sampleEvent "n1"] [sampleEvent "h1"])
    (sampleEvent "h2") (sampleEvent "n2") 5000 5000 rfl rfl rfl (by decide)

/-! ## Theorems: the registry -/

/-- Reading a key right after assigning it gives the assigned value. -/
theorem mapGet_mapSet_self {V : Type} (m : GoMap V) (k : String) (v : V) :
    mapGet (mapSet m k v) k = some v := by
  induction m with
  | nil => simp [mapSet, mapGet]
  | cons e rest ih =>
    obtain ⟨k1, v1⟩ := e
    by_cases h : k1 = k
    · simp [mapSet, mapGet, h]
    · simp [mapSet, mapGet, h, ih]

/-- Assigning a key does not change what is read at another key. -/
theorem mapGet_mapSet_ne {V : Type} (m : GoMap V) (k k2 : String) (v : V) (hne : k2 ≠ k) :
    mapGet (mapSet m k v) k2 = mapGet m k2 := by
  induction m with
  | nil => simp [mapSet, mapGet, Ne.symm hne]
  | cons e rest ih =>
    obtain ⟨k1, v1⟩ := e
    by_cases h : k1 = k
    · subst h
      simp [mapSet, mapGet, Ne.symm hne]
    · by_cases h2 : k1 = k2
      · subst h2
        simp [mapSet, mapGet, h]
      · simp [mapSet, mapGet, h, h2, ih]

/-- A key that reads as absent is not among the keys. -/
theorem not_mem_mapKeys_of_mapGet_none {V : Type} (m : GoMap V) (k : String)
    (h : mapGet m k = none) : k ∉ mapKeys m := by
  induction m with
  | nil => simp [mapKeys]
  | cons e rest ih =>
    obtain ⟨k1, v1⟩ := e
    by_cases h1 : k1 = k
    · simp [mapGet, h1] at h
    · simp only [mapGet, h1, if_false] at h
      simp only [mapKeys, List.map_cons, List.mem_cons, not_or]
      exact ⟨Ne.symm h1, ih h⟩

/-- A key that reads as present belongs to an entry of the map. -/
theorem mem_of_mapGet_some {V : Type} (m : GoMap V) (k : String) (v : V)
    (h : mapGet m k = some v) : (k, v) ∈ m := by
  induction m with
  | nil => simp [mapGet] at h
  | cons e rest ih =>
    obtain ⟨k1, v1⟩ := e
    by_cases h1 : k1 = k
    · simp only [mapGet, h1, if_true, Option.some.injEq] at h
      simp [h1, h]
    · simp only [mapGet, h1, if_false] at h
      exact List.mem_cons_of_mem _ (ih h)

/-- Assigning an absent key adds it after the other keys. -/
theorem mapKeys_mapSet_absent {V : Type} (m : GoMap V) (k : String) (v : V)
    (h : mapGet m k = none) : mapKeys (mapSet m k v) = mapKeys m ++ [k] := by
  induction m with
  | nil => simp [mapSet, mapKeys]
  | cons e rest ih =>
    obtain ⟨k1, v1⟩ := e
    by_cases h1 : k1 = k
    · simp [mapGet, h1] at h
    · simp only [mapGet, h1, if_false] at h
      have ih2 := ih h
      simp only [mapKeys] at ih2
      simp [mapSet, h1, mapKeys, ih2]

/-- The entries of a map after assigning an absent key. -/
theorem mapSet_absent {V : Type} (m : GoMap V) (k : String) (v : V)
    (h : mapGet m k = none) : mapSet m k v = m ++ [(k, v)] := by
  induction m with
  | nil => simp [mapSet]
  | cons e rest ih =>
    obtain ⟨k1, v1⟩ := e
    by_cases h1 : k1 = k
    · simp [mapGet, h1] at h
    · simp only [mapGet, h1, if_false] at h
      simp [mapSet, h1, ih h]

/-- The empty registry made by `NewCwmpEventTable` satisfies the invariant. -/
theorem NewCwmpEventTable_WF : NewCwmpEventTable.WF := by
  simp [NewCwmpEventTable, CwmpEventTable.WF, mapKeys]

/-- The method `GetCwmpCpe` keeps the invariant of the registry. -/
theorem GetCwmpCpe_WF (env : Env) (c c1 : CwmpEventTable) (key : String) (cpe : CwmpCpe)
    (hwf : c.WF) (hget : c.GetCwmpCpe env key = .done (cpe, c1)) : c1.WF := by
  unfold CwmpEventTable.GetCwmpCpe at hget
  by_cases hk : env.IsEmptyOrNA key = true
  · simp [hk] at hget
  · simp only [Bool.not_eq_true] at hk
    simp only [hk] at hget
    cases hm : mapGet c.cpeTable key with
    | some e =>
      simp only [hm, Bool.false_eq_true, if_false, Outcome.done.injEq, Prod.mk.injEq] at hget
      rw [← hget.2]
      exact hwf
    | none =>
      simp only [hm, Bool.false_eq_true, if_false, Outcome.done.injEq, Prod.mk.injEq] at hget
      rw [← hget.2]
      obtain ⟨hnd, hsn⟩ := hwf
      constructor
      · simp only [mapKeys_mapSet_absent _ _ _ hm]
        rw [List.nodup_append]
        refine ⟨hnd, List.nodup_singleton _, ?_⟩
        intro a ha hb
        simp only [List.mem_singleton] at hb
        subst hb
        exact not_mem_mapKeys_of_mapGet_none _ _ hm ha
      · intro e he
        simp only [mapSet_absent _ _ _ hm, List.mem_append, List.mem_singleton] at he
        rcases he with he | he
        · exact hsn e he
        · subst he
          rfl

/-- The method `ClearCwmpCpe` keeps the invariant of the registry. -/
theorem ClearCwmpCpe_WF (c : CwmpEventTable) (key : String) (hwf : c.WF) :
    (c.ClearCwmpCpe key).WF := by
  obtain ⟨hnd, hsn⟩ := hwf
  constructor
  · simp only [CwmpEventTable.ClearCwmpCpe, mapDelete, mapKeys] at *
    exact (hnd.sublist (List.Sublist.map _ (List.filter_sublist _)))
  · intro e he
    simp only [CwmpEventTable.ClearCwmpCpe, mapDelete, List.mem_filter] at he
    exact hsn e he.1

/-- C6 (amended): for a registry that satisfies the invariant and a serial
number that passes the guard `common.IsEmptyOrNA` of `GetCwmpCpe`, one that is
neither empty nor `N/A`, the call returns an entry whose `Sn` is the serial
number; afterwards the registry lists the serial number exactly once and
stores that entry under it; a second call returns the same entry and the same
registry; and what is stored under every other serial number is as before. -/
theorem GetCwmpCpe_one_entry (env : Env) (c : CwmpEventTable) (sn : String)
    (hwf : c.WF) (hsn : env.IsEmptyOrNA sn = false) :
    ∃ cpe c1, c.GetCwmpCpe env sn = .done (cpe, c1) ∧ cpe.Sn = sn ∧
      c1.ListSn.count sn = 1 ∧ mapGet c1.cpeTable sn = some cpe ∧
      c1.GetCwmpCpe env sn = .done (cpe, c1) ∧
      ∀ k, k ≠ sn → mapGet c1.cpeTable k = mapGet c.cpeTable k := by
  obtain ⟨hnd, hkey⟩ := hwf
  cases hm : mapGet c.cpeTable sn with
  | some e =>
    have hget : c.GetCwmpCpe env sn = .done (e, c) := by
      simp [CwmpEventTable.GetCwmpCpe, hsn, hm]
    have hmem := mem_of_mapGet_some _ _ _ hm
    refine ⟨e, c, hget, hkey _ hmem, ?_, hm, hget, fun _ _ => rfl⟩
    apply List.count_eq_one_of_mem hnd
    exact List.mem_map.mpr ⟨_, hmem, rfl⟩
  | none =>
    refine ⟨_, _, by simp only [CwmpEventTable.GetCwmpCpe, hsn, hm]; rfl, rfl, ?_,
      mapGet_mapSet_self _ _ _, ?_, fun k hk => mapGet_mapSet_ne _ _ _ _ hk⟩
    · simp only [CwmpEventTable.ListSn, mapKeys_mapSet_absent _ _ _ hm, List.count_append]
      have h0 : List.count sn (mapKeys c.cpeTable) = 0 :=
        List.count_eq_zero_of_not_mem (not_mem_mapKeys_of_mapGet_none _ _ hm)
      simp [h0]
    · simp [CwmpEventTable.GetCwmpCpe, hsn, mapGet_mapSet_self]

/-- C6 (amended), at the empty registry and the serial number `ABC123`. -/
theorem GetCwmpCpe_one_entry_witness :
    ∃ cpe c1, NewCwmpEventTable.GetCwmpCpe sampleEnv "ABC123" = .done (cpe, c1) ∧
      cpe.Sn = "ABC123" ∧
      c1.ListSn.count "ABC123" = 1 ∧ mapGet c1.cpeTable "ABC123" = some cpe ∧
      c1.GetCwmpCpe sampleEnv "ABC123" = .done (cpe, c1) ∧
      ∀ k, k ≠ "ABC123" → mapGet c1.cpeTable k = mapGet NewCwmpEventTable.cpeTable k :=
  GetCwmpCpe_one_entry sampleEnv NewCwmpEventTable "ABC123" NewCwmpEventTable_WF (by decide)

/-! ## Theorems: the dispatcher -/

/-- The entry returned by `GetCwmpCpe` is the one the registry stores under
the key after the call. -/
theorem GetCwmpCpe_stored (env : Env) (c c1 : CwmpEventTable) (key : String) (cpe : CwmpCpe)
    (hget : c.GetCwmpCpe env key = .done (cpe, c1)) : mapGet c1.cpeTable key = some cpe := by
  unfold CwmpEventTable.GetCwmpCpe at hget
  by_cases hk : env.IsEmptyOrNA key = true
  · simp [hk] at hget
  · simp only [Bool.not_eq_true] at hk
    simp only [hk] at hget
    cases hm : mapGet c.cpeTable key with
    | some e =>
      simp only [hm, Bool.false_eq_true, if_false, Outcome.done.injEq, Prod.mk.injEq] at hget
      rw [← hget.1, ← hget.2]
      exact hm
    | none =>
      simp only [hm, Bool.false_eq_true, if_false, Outcome.done.injEq, Prod.mk.injEq] at hget
      rw [← hget.1, ← hget.2]
      exact mapGet_mapSet_self _ _ _

/-- The poll of two empty queues finds nothing and leaves the entry as it
is. -/
theorem pollQueues_empty (cpe : CwmpCpe) (t : Int)
    (hhp : cpe.cwmpHPQueueMap.buf = []) (hq : cpe.cwmpQueueMap.buf = []) :
    pollQueues cpe t = (none, cpe) := by
  simp [pollQueues, CwmpCpe.RecvCwmpEventData, CwmpCpe.getQueue, hhp, hq]

/-- The poll of a non-empty high-priority queue finds its head. -/
theorem pollQueues_high (cpe : CwmpCpe) (t : Int) (qmsg : CwmpEventData)
    (rest : List CwmpEventData) (hhp : cpe.cwmpHPQueueMap.buf = qmsg :: rest) :
    (pollQueues cpe t).1 = some qmsg := by
  simp [pollQueues, CwmpCpe.RecvCwmpEventData, CwmpCpe.getQueue, hhp]

/-- The poll finds the head of the normal queue when the high-priority queue
is empty. -/
theorem pollQueues_normal (cpe : CwmpCpe) (t : Int) (qmsg : CwmpEventData)
    (rest : List CwmpEventData) (hhp : cpe.cwmpHPQueueMap.buf = [])
    (hq : cpe.cwmpQueueMap.buf = qmsg :: rest) :
    (pollQueues cpe t).1 = some qmsg := by
  simp [pollQueues, CwmpCpe.RecvCwmpEventData, CwmpCpe.getQueue, hhp, hq]

/-- A Go string has positive length exactly when it is not `""`. -/
theorem length_pos_iff_ne_empty (s : String) : 0 < s.length ↔ s ≠ "" := by
  obtain ⟨data⟩ := s
  cases data with
  | nil => simp [String.length]
  | cons a l =>
    simp only [String.length, List.length_cons, Nat.zero_lt_succ, true_iff]
    intro h
    have h2 := congrArg String.data h
    simp at h2

/-- The search for the next piece of work when a preset task with a non-empty
request is pending. -/
theorem nextWork_preset (env : Env) (table table1 : CwmpEventTable) (sn : String) (t : Int)
    (db : List DbOp) (cpe : CwmpCpe) (ptask : CwmpPresetTask)
    (hget : table.GetCwmpCpe env sn = .done (cpe, table1))
    (htask : env.GetLatestCwmpPresetTask sn = (some ptask, none))
    (hreq : ptask.Request ≠ "") :
    nextWork env table sn t db = .done
      { response := .XMLBlob 200 (.raw ptask.Request)
        cookie := none, table := table1, db := db, spawned := [] } := by
  have hlen : 0 < ptask.Request.length := (length_pos_iff_ne_empty _).mpr hreq
  simp only [nextWork, hget, htask, hlen, gt_iff_lt, if_true, xmlCwmpMessage]

/-- The search for the next piece of work when no preset task with a non-empty
request is pending: the queues are polled. -/
theorem nextWork_queues (env : Env) (table table1 : CwmpEventTable) (sn : String) (t : Int)
    (db : List DbOp) (cpe : CwmpCpe)
    (hget : table.GetCwmpCpe env sn = .done (cpe, table1))
    (hnone : ∀ ptask, env.GetLatestCwmpPresetTask sn = (some ptask, none) →
      ptask.Request = "") :
    nextWork env table sn t db = .done
      { response :=
          match (pollQueues cpe t).1 with
          | some qmsg => .XMLBlob 200 (.created qmsg.Message)
          | none => .NoContent 204
        cookie := none, table := table1.setCpe sn (pollQueues cpe t).2, db := db
        spawned := [] } := by
  have hsplit : ∀ (r : Option CwmpEventData × CwmpCpe),
      (match r with
        | (some qmsg, cpe1) => Outcome.done
            ({ response := xmlCwmpMessage (.created qmsg.Message)
               cookie := none, table := table1.setCpe sn cpe1, db := db, spawned := [] } : Handled)
        | (none, cpe1) => Outcome.done
            ({ response := noContentResp
               cookie := none, table := table1.setCpe sn cpe1, db := db, spawned := [] } : Handled))
      = .done
        { response :=
            match r.1 with
            | some qmsg => .XMLBlob 200 (.created qmsg.Message)
            | none => .NoContent 204
          cookie := none, table := table1.setCpe sn r.2, db := db, spawned := [] } := by
    rintro ⟨_ | qmsg, cpe1⟩ <;> rfl
  simp only [nextWork, hget]
  rcases htask : env.GetLatestCwmpPresetTask sn with ⟨_ | ptask, _ | err⟩
  · exact hsplit _
  · exact hsplit _
  · have h0 := hnone ptask htask
    have hlen : ¬ 0 < ptask.Request.length := by
      rw [length_pos_iff_ne_empty]
      exact fun h => h h0
    simp only [gt_iff_lt, hlen, if_false]
    exact hsplit _
  · exact hsplit _

/-! ## Theorems: the throttle -/

/-- The seconds of a duration are its nanoseconds over `1e9`. -/
theorem Seconds_eq (d : Int) : Seconds d = (d : ℚ) / 1000000000 := by
  unfold Seconds
  have h := Int.tdiv_add_tmod d 1000000000
  have h2 : (d : ℚ) =
      1000000000 * ((Int.tdiv d 1000000000 : Int) : ℚ) + ((Int.tmod d 1000000000 : Int) : ℚ) := by
    exact_mod_cast h.symm
  rw [h2]
  field_simp
  ring

/-- The test `Seconds() > 300` of `NotifyDataUpdate` holds exactly for a
duration of more than 300 000 000 000 ns. -/
theorem Seconds_gt_300 (d : Int) : Seconds d > 300 ↔ d > 300000000000 := by
  rw [Seconds_eq, gt_iff_lt, lt_div_iff₀ (by norm_num)]
  constructor
  · intro h
    have : ((300000000000 : Int) : ℚ) < (d : ℚ) := by push_cast; linarith
    exact_mod_cast this
  · intro h
    have : ((300000000000 : Int) : ℚ) < (d : ℚ) := by exact_mod_cast h
    push_cast at this; linarith

/-- Assigning a key never gives the empty map. -/
theorem mapSet_ne_nil {V : Type} (m : GoMap V) (k : String) (v : V) : mapSet m k v ≠ [] := by
  cases m with
  | nil => simp [mapSet]
  | cons e rest =>
    obtain ⟨k1, v1⟩ := e
    by_cases h : k1 = k <;> simp [mapSet, h]

/-- The function `setMapValue` keeps a non-empty map non-empty. -/
theorem setMapValue_ne_nil (m : GoMap Value) (k : String) (v : Value) (h : m ≠ []) :
    setMapValue m k v ≠ [] := by
  unfold setMapValue
  split
  · exact mapSet_ne_nil _ _ _
  · exact h

/-- The branch of `applyVendorSpecificParams` for other vendors keeps a
non-empty map non-empty. -/
theorem applyGenericParams_ne_nil (m : GoMap Value) (msg : Inform) (h : m ≠ []) :
    applyGenericParams m msg ≠ [] := by
  unfold applyGenericParams
  simp only
  repeat' (first | exact h | apply setMapValue_ne_nil | split)

/-- The column map built by `OnInformUpdate` is never empty: it always holds
`cwmp_status`. -/
theorem informValmap_ne_nil (c : CwmpCpe) (msg : Inform) (now : Time) :
    c.informValmap msg now ≠ [] := by
  have hstatus : ∀ m : GoMap Value, setMapValue m "cwmp_status" (.str "online") ≠ [] := by
    intro m
    have hc : ("cwmp_status" ≠ "" ∧ Value.str "online" ≠ Value.str "") := by decide
    simp only [setMapValue, hc, and_self, if_true]
    exact mapSet_ne_nil _ _ _
  unfold CwmpCpe.informValmap CwmpCpe.applyVendorSpecificParams
  simp only
  repeat' (first
    | exact hstatus _
    | exact mapSet_ne_nil _ _ _
    | apply applyGenericParams_ne_nil
    | apply setMapValue_ne_nil
    | split)

/-- The method `OnInformUpdate` of an entry that holds an Inform writes the
column map of that Inform. -/
theorem OnInformUpdate_some (c : CwmpCpe) (msg : Inform) (now : Time)
    (hmsg : c.LastInform = some msg) :
    c.OnInformUpdate now = .done [DbOp.Updates c.Sn (c.informValmap msg now)] := by
  have hpos : (c.informValmap msg now).length > 0 :=
    List.length_pos.mpr (informValmap_ne_nil c msg now)
  simp only [CwmpCpe.OnInformUpdate, hmsg, hpos, if_true]

/-- The method `NotifyDataUpdate` runs the full normalizer and resets
`LastDataNotify` when it is forced or more than 300 s have passed. -/
theorem NotifyDataUpdate_full (c : CwmpCpe) (msg : Inform) (force : Bool)
    (ctime tUpdate tNotify : Time) (hmsg : c.LastInform = some msg)
    (h : force = true ∨ Seconds (Time.Sub ctime c.LastDataNotify) > 300) :
    c.NotifyDataUpdate force ctime tUpdate tNotify =
      .done ({ c with LastDataNotify := tNotify },
        [DbOp.Updates c.Sn (c.informValmap msg tUpdate)]) := by
  have hflag : (if force = true then true
      else decide (Seconds (Time.Sub ctime c.LastDataNotify) > 300)) = true := by
    rcases h with h | h
    · simp [h]
    · simp [h]
  simp only [CwmpCpe.NotifyDataUpdate, hflag, if_true, OnInformUpdate_some c msg tUpdate hmsg]

/-- The method `NotifyDataUpdate(false)` only marks the device online when
no more than 300 s have passed. -/
theorem NotifyDataUpdate_online (c : CwmpCpe) (ctime tUpdate tNotify : Time)
    (h : ¬ Seconds (Time.Sub ctime c.LastDataNotify) > 300) :
    c.NotifyDataUpdate false ctime tUpdate tNotify =
      .done (c, [DbOp.Updates c.Sn
        [("cwmp_status", .str "online"), ("cwmp_last_inform", .time tUpdate)]]) := by
  simp [CwmpCpe.NotifyDataUpdate, h, CwmpCpe.OnInformUpdateOnline]

/-- C9 (counterexample): exactly 300 s after the last notify,
`NotifyDataUpdate(false)` does not run the full normalizer: it writes only
`cwmp_status` and `cwmp_last_inform` and leaves the last-notify instant as it
was. And on an entry that holds no Inform yet, 301 s after the last notify,
the full normalizer panics and the last-notify instant is not reset. -/
theorem NotifyDataUpdate_at_300_counterexample :
    Seconds (Time.Sub 300000000000 (sampleInformedCpe 0).LastDataNotify) ≥ 300 ∧
      (sampleInformedCpe 0).NotifyDataUpdate false 300000000000 300000000001 300000000002 =
        .done (sampleInformedCpe 0, [DbOp.Updates "ABC123"
          [("cwmp_status", .str "online"), ("cwmp_last_inform", .time 300000000001)]]) ∧
      (sampleCpe [] []).NotifyDataUpdate false 301000000000 301000000001 301000000002 =
        .panicked "invalid memory address or nil pointer dereference" := by
  refine ⟨?_, ?_, ?_⟩
  · rw [Seconds_eq]
    norm_num [sampleInformedCpe, Time.Sub, maxDuration, minDuration]
  · apply NotifyDataUpdate_online
    rw [Seconds_gt_300]
    simp [sampleInformedCpe, Time.Sub, maxDuration, minDuration]
  · have h : Seconds (Time.Sub 301000000000 (sampleCpe [] []).LastDataNotify) > 300 := by
      rw [Seconds_gt_300]
      simp [sampleCpe, Time.Sub, maxDuration, minDuration]
    simp only [CwmpCpe.NotifyDataUpdate, h, decide_True, Bool.false_eq_true, if_false, if_true]
    rfl

/-- C9 (amended): for an entry that holds an Inform, `NotifyDataUpdate(false)`
runs the full normalizer `OnInformUpdate` and resets the last-notify instant
exactly when more than 300 s have passed since the last notify; otherwise, so
also at exactly 300 s, it performs only the online update, which writes
exactly `cwmp_status = online` and `cwmp_last_inform`, and leaves the
last-notify instant unchanged. -/
theorem NotifyDataUpdate_throttle (c : CwmpCpe) (msg : Inform) (ctime tUpdate tNotify : Time)
    (hmsg : c.LastInform = some msg) :
    (Seconds (Time.Sub ctime c.LastDataNotify) > 300 →
      c.OnInformUpdate tUpdate = .done [DbOp.Updates c.Sn (c.informValmap msg tUpdate)] ∧
      c.NotifyDataUpdate false ctime tUpdate tNotify =
        .done ({ c with LastDataNotify := tNotify },
          [DbOp.Updates c.Sn (c.informValmap msg tUpdate)])) ∧
    (Seconds (Time.Sub ctime c.LastDataNotify) ≤ 300 →
      c.NotifyDataUpdate false ctime tUpdate tNotify =
        .done (c, [DbOp.Updates c.Sn
          [("cwmp_status", .str "online"), ("cwmp_last_inform", .time tUpdate)]])) := by
  constructor
  · intro h
    exact ⟨OnInformUpdate_some c msg tUpdate hmsg,
      NotifyDataUpdate_full c msg false ctime tUpdate tNotify hmsg (Or.inr h)⟩
  · intro h
    exact NotifyDataUpdate_online c ctime tUpdate tNotify (not_lt.mpr h)

/-- C9 (amended), at an entry notified at instant 0: a call 30 s later only
marks the device online. -/
theorem NotifyDataUpdate_throttle_witness :
    (sampleInformedCpe 0).NotifyDataUpdate false 30000000000 30000000001 30000000002 =
      .done (sampleInformedCpe 0, [DbOp.Updates (sampleInformedCpe 0).Sn
        [("cwmp_status", .str "online"), ("cwmp_last_inform", .time 30000000001)]]) :=
  (NotifyDataUpdate_throttle (sampleInformedCpe 0) (sampleInform ["2 PERIODIC"] 0)
    30000000000 30000000001 30000000002 rfl).2
    (by rw [Seconds_eq]; norm_num [sampleInformedCpe, Time.Sub, maxDuration, minDuration])

/-! ## Theorems: the Inform events -/

/-- The method `UpdateStatus` records the Inform as the last one. -/
theorem UpdateStatus_LastInform (env : Env) (c : CwmpCpe) (msg : Inform) (now : Time) :
    (c.UpdateStatus env msg now).LastInform = some msg := by
  unfold CwmpCpe.UpdateStatus
  simp only
  repeat' split
  all_goals rfl

/-- The method `NotifyDataUpdate(false)` of an entry that holds an Inform ends
without panic and keeps the Inform and the serial number. -/
theorem NotifyDataUpdate_false_done (c : CwmpCpe) (msg : Inform) (ctime tUpdate tNotify : Time)
    (hmsg : c.LastInform = some msg) :
    ∃ c3 ops, c.NotifyDataUpdate false ctime tUpdate tNotify = .done (c3, ops) ∧
      c3.LastInform = some msg ∧ c3.Sn = c.Sn := by
  by_cases h : Seconds (Time.Sub ctime c.LastDataNotify) > 300
  · exact ⟨_, _, NotifyDataUpdate_full c msg false ctime tUpdate tNotify hmsg (Or.inr h),
      hmsg, rfl⟩
  · exact ⟨_, _, NotifyDataUpdate_online c ctime tUpdate tNotify h, hmsg, rfl⟩

/-- C10 (counterexample): an Inform that bears `2 PERIODIC` and
`4 VALUE CHANGE`, 30 s after the last notify, takes the periodic branch of
`processInformEvent`, and an Inform that bears only `4 VALUE CHANGE` with
RetryCount 1 takes no branch: in both runs the only write to the device record
is the online update and the last-notify instant stays where it was. -/
theorem processInformEvent_value_change_counterexample :
    (sampleInform ["2 PERIODIC", "4 VALUE CHANGE"] 0).IsEvent EventValueChange = true ∧
      (processInformEvent sampleEnv (sampleTable 1000000000000) "10.0.0.5"
        (sampleInform ["2 PERIODIC", "4 VALUE CHANGE"] 0) (sampleClock 1030000000000) "u").2.1 =
        [DbOp.Updates "ABC123"
          [("cwmp_status", .str "online"), ("cwmp_last_inform", .time 1030000000000)],
         DbOp.CreateCwmpPresetEventTask "ABC123" .PeriodicEvent ""] ∧
      (mapGet (processInformEvent sampleEnv (sampleTable 1000000000000) "10.0.0.5"
        (sampleInform ["2 PERIODIC", "4 VALUE CHANGE"] 0)
        (sampleClock 1030000000000) "u").1.cpeTable "ABC123").map CwmpCpe.LastDataNotify =
        some 1000000000000 ∧
      (sampleInform ["4 VALUE CHANGE"] 1).IsEvent EventValueChange = true ∧
      (processInformEvent sampleEnv (sampleTable 1000000000000) "10.0.0.5"
        (sampleInform ["4 VALUE CHANGE"] 1) (sampleClock 1030000000000) "u").2.1 =
        [DbOp.Updates "ABC123"
          [("cwmp_status", .str "online"), ("cwmp_last_inform", .time 1030000000000)]] ∧
      (mapGet (processInformEvent sampleEnv (sampleTable 1000000000000) "10.0.0.5"
        (sampleInform ["4 VALUE CHANGE"] 1)
        (sampleClock 1030000000000) "u").1.cpeTable "ABC123").map CwmpCpe.LastDataNotify =
        some 1000000000000 := by
  have hget : (sampleTable 1000000000000).GetCwmpCpe sampleEnv "ABC123" =
      .done (sampleInformedCpe 1000000000000, sampleTable 1000000000000) := rfl
  have hnot : ∀ (c : CwmpCpe), c.LastDataNotify = 1000000000000 →
      ¬ Seconds (Time.Sub 1030000000000 c.LastDataNotify) > 300 := by
    intro c hc
    rw [Seconds_gt_300, hc]
    simp [Time.Sub, maxDuration, minDuration]
  have hrun : ∀ (events : List String) (retry : Int),
      (((sampleInformedCpe 1000000000000).CheckRegister sampleEnv "10.0.0.5"
        (sampleInform events retry) 1030000000000).1.UpdateStatus sampleEnv
        (sampleInform events retry) 1030000000000).NotifyDataUpdate false
        1030000000000 1030000000000 1030000000000 =
      .done ({ sampleInformedCpe 1000000000000 with
          LastInform := some (sampleInform events retry), LastUpdate := 1030000000000 },
        [DbOp.Updates "ABC123"
          [("cwmp_status", .str "online"), ("cwmp_last_inform", .time 1030000000000)]]) := by
    intro events retry
    rw [NotifyDataUpdate_online _ _ _ _ (hnot _ rfl)]
    rfl
  have hsn : ∀ (events : List String) (retry : Int),
      (sampleInform events retry).Sn = "ABC123" := fun _ _ => rfl
  refine ⟨by decide, ?_, ?_, by decide, ?_, ?_⟩
  all_goals
    simp only [processInformEvent, hsn, hget, sampleClock]
    rw [hrun]
    rfl

/-- The `switch` of `processInformEvent` reaches its last branch, the forced
`NotifyDataUpdate`, for an Inform with RetryCount 0 that bears `4 VALUE CHANGE`
and none of the four events tested before it. -/
theorem informEventSwitch_value_change (env : Env) (cpe : CwmpCpe) (lastInform : Inform)
    (clk : InformClock) (uuid : String)
    (hvc : lastInform.IsEvent EventValueChange = true)
    (hbs : lastInform.IsEvent EventBootStrap = false)
    (hb : lastInform.IsEvent EventBoot = false)
    (hp : lastInform.IsEvent EventPeriodic = false)
    (hs : lastInform.IsEvent EventScheduled = false)
    (hretry : lastInform.RetryCount = 0) :
    informEventSwitch env cpe lastInform clk uuid =
      cpe.NotifyDataUpdate true clk.ctime2 clk.tUpdate2 clk.tNotify2 := by
  simp [informEventSwitch, hvc, hbs, hb, hp, hs, hretry]

/-- C10 (amended): for an Inform with RetryCount 0 that bears `4 VALUE CHANGE`
and none of `0 BOOTSTRAP`, `1 BOOT`, `2 PERIODIC` and `3 SCHEDULED`, and whose
serial number resolves to a runtime entry, `processInformEvent` runs the forced
`NotifyDataUpdate` whatever the last-notify instant and the clock are: its
last database write is the full column map of the Inform and the last-notify
instant of the entry is reset. -/
theorem processInformEvent_value_change (env : Env) (table table1 : CwmpEventTable)
    (realIP : String) (lastInform : Inform) (clk : InformClock) (uuid : String) (cpe : CwmpCpe)
    (hget : table.GetCwmpCpe env lastInform.Sn = .done (cpe, table1))
    (hvc : lastInform.IsEvent EventValueChange = true)
    (hbs : lastInform.IsEvent EventBootStrap = false)
    (hb : lastInform.IsEvent EventBoot = false)
    (hp : lastInform.IsEvent EventPeriodic = false)
    (hs : lastInform.IsEvent EventScheduled = false)
    (hretry : lastInform.RetryCount = 0) :
    ∃ cpe3 ops, cpe3.LastInform = some lastInform ∧
      informEventSwitch env cpe3 lastInform clk uuid =
        cpe3.NotifyDataUpdate true clk.ctime2 clk.tUpdate2 clk.tNotify2 ∧
      cpe3.NotifyDataUpdate true clk.ctime2 clk.tUpdate2 clk.tNotify2 =
        .done ({ cpe3 with LastDataNotify := clk.tNotify2 },
          [DbOp.Updates cpe3.Sn (cpe3.informValmap lastInform clk.tUpdate2)]) ∧
      processInformEvent env table realIP lastInform clk uuid =
        (table1.setCpe lastInform.Sn { cpe3 with LastDataNotify := clk.tNotify2 },
          ops ++ [DbOp.Updates cpe3.Sn (cpe3.informValmap lastInform clk.tUpdate2)],
          [.autoFetch lastInform]) := by
  rcases hcr : cpe.CheckRegister env realIP lastInform clk.tRegister with ⟨cpe1, ops1⟩
  have h2 := UpdateStatus_LastInform env cpe1 lastInform clk.tStatus
  obtain ⟨cpe3, ops3, h3, h3i, _⟩ := NotifyDataUpdate_false_done
    (cpe1.UpdateStatus env lastInform clk.tStatus) lastInform clk.ctime1 clk.tUpdate1
    clk.tNotify1 h2
  have hsw := informEventSwitch_value_change env cpe3 lastInform clk uuid hvc hbs hb hp hs hretry
  have hfull := NotifyDataUpdate_full cpe3 lastInform true clk.ctime2 clk.tUpdate2 clk.tNotify2
    h3i (Or.inl rfl)
  refine ⟨cpe3, ops1 ++ ops3, h3i, hsw, hfull, ?_⟩
  simp only [processInformEvent, hget, hcr, h3, hsw, hfull]

/-- C10 (amended), at an Inform of `ABC123` that bears only `4 VALUE CHANGE`,
30 s after the last notify. -/
theorem processInformEvent_value_change_witness :
    ∃ cpe3 ops, cpe3.LastInform = some (sampleInform ["4 VALUE CHANGE"] 0) ∧
      informEventSwitch sampleEnv cpe3 (sampleInform ["4 VALUE CHANGE"] 0)
          (sampleClock 1030000000000) "u" =
        cpe3.NotifyDataUpdate true (sampleClock 1030000000000).ctime2
          (sampleClock 1030000000000).tUpdate2 (sampleClock 1030000000000).tNotify2 ∧
      cpe3.NotifyDataUpdate true (sampleClock 1030000000000).ctime2
          (sampleClock 1030000000000).tUpdate2 (sampleClock 1030000000000).tNotify2 =
        .done ({ cpe3 with LastDataNotify := (sampleClock 1030000000000).tNotify2 },
          [DbOp.Updates cpe3.Sn (cpe3.informValmap (sampleInform ["4 VALUE CHANGE"] 0)
            (sampleClock 1030000000000).tUpdate2)]) ∧
      processInformEvent sampleEnv (sampleTable 1000000000000) "10.0.0.5"
          (sampleInform ["4 VALUE CHANGE"] 0) (sampleClock 1030000000000) "u" =
        ((sampleTable 1000000000000).setCpe (sampleInform ["4 VALUE CHANGE"] 0).Sn
            { cpe3 with LastDataNotify := (sampleClock 1030000000000).tNotify2 },
          ops ++ [DbOp.Updates cpe3.Sn (cpe3.informValmap (sampleInform ["4 VALUE CHANGE"] 0)
            (sampleClock 1030000000000).tUpdate2)],
          [.autoFetch (sampleInform ["4 VALUE CHANGE"] 0)]) :=
  processInformEvent_value_change sampleEnv (sampleTable 1000000000000)
    (sampleTable 1000000000000) "10.0.0.5" (sampleInform ["4 VALUE CHANGE"] 0)
    (sampleClock 1030000000000) "u" (sampleInformedCpe 1000000000000)
    rfl (by decide) (by decide) (by decide) (by decide) (by decide) rfl

/-! ## Theorems: device type -/

/-- The function `detectDeviceType` returns `ont` when the rule of the
specification holds or the manufacturer contains an5506, and `router`
otherwise. -/
theorem detectDeviceType_eq (manufacturer productClass oui : String) :
    detectDeviceType manufacturer productClass oui =
      if specOntRule manufacturer productClass ||
          Contains (ToLower manufacturer) "an5506" then DeviceTypeONT
      else DeviceTypeRouter := by
  unfold detectDeviceType specOntRule
  simp only [DeviceTypeONT, DeviceTypeRouter]
  split_ifs <;> simp_all

/-- C12 (counterexample): the manufacturer `AN5506-04-F` with an empty product
class meets none of the conditions listed for `ont`, yet `detectDeviceType`
returns `ont`. -/
theorem detectDeviceType_an5506_counterexample :
    specOntRule "AN5506-04-F" "" = false ∧
      detectDeviceType "AN5506-04-F" "" "" = DeviceTypeONT ∧
      detectDeviceType "AN5506-04-F" "" "" ≠ DeviceTypeRouter := by
  decide

/-- C12 (amended): `detectDeviceType` returns `ont` exactly when, letter case
ignored, the manufacturer contains zte, or contains huawei while the product
class contains ont, hg or eg, or the manufacturer contains fiberhome, an5506,
nokia, alcatel, bdcom or cdtc, or the product class contains ont, onu, gpon or
epon; in every other case it returns `router`; and the result does not depend
on the OUI. -/
theorem detectDeviceType_ont_iff (manufacturer productClass oui : String) :
    (detectDeviceType manufacturer productClass oui = DeviceTypeONT ↔
      (specOntRule manufacturer productClass = true ∨
        Contains (ToLower manufacturer) "an5506" = true)) ∧
    (¬ (specOntRule manufacturer productClass = true ∨
        Contains (ToLower manufacturer) "an5506" = true) →
      detectDeviceType manufacturer productClass oui = DeviceTypeRouter) ∧
    (∀ oui2, detectDeviceType manufacturer productClass oui2 =
      detectDeviceType manufacturer productClass oui) ∧
    detectDeviceType "ZTE" productClass oui = DeviceTypeONT := by
  have hne : DeviceTypeRouter ≠ DeviceTypeONT := by decide
  refine ⟨?_, ?_, ?_, ?_⟩
  · rw [detectDeviceType_eq]
    by_cases h : (specOntRule manufacturer productClass ||
        Contains (ToLower manufacturer) "an5506") = true
    · simp only [h, if_true, true_iff]
      simpa [Bool.or_eq_true] using h
    · simp only [h, if_false]
      constructor
      · intro hc
        exact absurd hc hne
      · intro hc
        exact absurd (by simpa [Bool.or_eq_true] using hc) h
  · intro h
    rw [detectDeviceType_eq]
    have h2 : ¬ (specOntRule manufacturer productClass ||
        Contains (ToLower manufacturer) "an5506") = true := by
      simpa [Bool.or_eq_true] using h
    simp [h2]
  · intro oui2
    rw [detectDeviceType_eq, detectDeviceType_eq]
  · rw [detectDeviceType_eq]
    have hz : specOntRule "ZTE" productClass = true := by
      have hc : Contains (ToLower "ZTE") "zte" = true := by decide
      simp [specOntRule, hc]
    simp [hz]

/-- C13 (counterexample): for the manufacturer `MikroTik` and the product class
`GPON`, `detectDeviceType` returns `ont`, not `router`. -/
theorem detectDeviceType_mikrotik_counterexample :
    Contains (ToLower "MikroTik") "mikrotik" = true ∧
      detectDeviceType "MikroTik" "GPON" "" = DeviceTypeONT ∧
      detectDeviceType "MikroTik" "GPON" "" ≠ DeviceTypeRouter := by
  decide

/-- C13 (amended): for every manufacturer that contains mikrotik, letter case
ignored, and every product class and OUI, `detectDeviceType` returns `router`
unless one of the `ont` rules applies, which are tested first: the
manufacturer contains zte, fiberhome, an5506, nokia, alcatel, bdcom or cdtc,
or contains huawei while the product class contains ont, hg or eg, or the
product class contains ont, onu, gpon or epon. -/
theorem detectDeviceType_mikrotik (manufacturer productClass oui : String)
    (_hm : Contains (ToLower manufacturer) "mikrotik" = true)
    (hrule : specOntRule manufacturer productClass = false)
    (han : Contains (ToLower manufacturer) "an5506" = false) :
    detectDeviceType manufacturer productClass oui = DeviceTypeRouter := by
  rw [detectDeviceType_eq]
  simp [hrule, han]

/-- C13 (amended), at the manufacturer `MikroTik` and the product class
`hAP ac`. -/
theorem detectDeviceType_mikrotik_witness :
    detectDeviceType "MikroTik" "hAP ac" "4C5E0C" = DeviceTypeRouter :=
  detectDeviceType_mikrotik "MikroTik" "hAP ac" "4C5E0C" (by decide) (by decide) (by decide)

/-! ## Theorems: the OLT driver -/

/-- C18: for a raw reading `r` with `0 ≤ r ≤ 65535` the dBm value of
`PollONUs`, in exact rational arithmetic, is `r * 0.002 - 30` when
`r ≤ 32767` and `(r - 65536) * 0.002 - 30` otherwise; and the readings 12500,
40000 and 0 give -5, -81.072 and -30. -/
theorem rxPowerFromRaw_formula (r : Int) (h0 : 0 ≤ r) (_h1 : r ≤ 65535) :
    rxPowerFromRaw r =
        (if r ≤ 32767 then (r : ℚ) * 0.002 - 30 else ((r : ℚ) - 65536) * 0.002 - 30) ∧
      rxPowerFromRaw 12500 = -5 ∧ rxPowerFromRaw 40000 = -81.072 ∧ rxPowerFromRaw 0 = -30 := by
  refine ⟨?_, ?_, ?_, ?_⟩
  · unfold rxPowerFromRaw
    by_cases h : r ≤ 32767
    · simp [h, h0]
    · have h2 : r > 32767 := not_le.mp h
      simp [h, h2]
  · norm_num [rxPowerFromRaw]
  · norm_num [rxPowerFromRaw]
  · norm_num [rxPowerFromRaw]

/-- C18, at the raw reading 40000. -/
theorem rxPowerFromRaw_formula_witness :
    rxPowerFromRaw 40000 =
        (if (40000 : Int) ≤ 32767 then ((40000 : Int) : ℚ) * 0.002 - 30
          else (((40000 : Int) : ℚ) - 65536) * 0.002 - 30) ∧
      rxPowerFromRaw 12500 = -5 ∧ rxPowerFromRaw 40000 = -81.072 ∧ rxPowerFromRaw 0 = -30 :=
  rxPowerFromRaw_formula 40000 (by decide) (by decide)

/-- C19 (counterexample): the five bytes `ZTEG` and 0x01, one of them not
printable, are returned as the hexadecimal of all five bytes, not as `ZTEG`
followed by the hexadecimal of the last byte. -/
theorem pduToHexSN_short_counterexample :
    pduToHexSN (.bytes [90, 84, 69, 71, 1]) = "5A54454701" ∧
      bytesToString ([90, 84, 69, 71, 1].take 4) ++ hexUpper ([90, 84, 69, 71, 1].drop 4) =
        "ZTEG01" ∧
      pduToHexSN (.bytes [90, 84, 69, 71, 1]) ≠
        bytesToString ([90, 84, 69, 71, 1].take 4) ++ hexUpper ([90, 84, 69, 71, 1].drop 4) := by
  decide

/-- C19 (amended): for every byte string of at least 8 bytes that contains a
byte outside printable ASCII (32..126), `pduToHexSN` returns the first 4 bytes
as characters followed by the upper-case hexadecimal of the remaining bytes;
for the zero-length byte string it returns the empty string. -/
theorem pduToHexSN_vendor_hex (v : List Nat) (hlen : 8 ≤ v.length)
    (hnp : ∃ b ∈ v, b < 32 ∨ 126 < b) :
    pduToHexSN (.bytes v) = bytesToString (v.take 4) ++ hexUpper (v.drop 4) ∧
      pduToHexSN (.bytes []) = "" := by
  refine ⟨?_, rfl⟩
  have h0 : ¬ v.length = 0 := by omega
  have hall : ¬ (v.all (fun b => !(decide (b < 32) || decide (b > 126)))) = true := by
    intro hall
    rw [List.all_eq_true] at hall
    obtain ⟨b, hb, hbad⟩ := hnp
    have := hall b hb
    simp only [Bool.not_eq_true', Bool.or_eq_false_iff, decide_eq_false_iff_not, not_lt,
      gt_iff_lt] at this
    omega
  show (if v.length = 0 then "" else
      if (v.all fun b => !(decide (b < 32) || decide (b > 126))) = true then
        TrimSpace (bytesToString v)
      else if v.length ≥ 8 then bytesToString (v.take 4) ++ hexUpper (v.drop 4)
      else hexUpper v) = _
  rw [if_neg h0, if_neg hall, if_pos hlen]

/-- C19 (amended), at the eight bytes `ZTEG` 0x01 0x02 0xAB 0xFF. -/
theorem pduToHexSN_vendor_hex_witness :
    pduToHexSN (.bytes [90, 84, 69, 71, 1, 2, 171, 255]) =
        bytesToString ([90, 84, 69, 71, 1, 2, 171, 255].take 4) ++
          hexUpper ([90, 84, 69, 71, 1, 2, 171, 255].drop 4) ∧
      pduToHexSN (.bytes []) = "" :=
  pduToHexSN_vendor_hex [90, 84, 69, 71, 1, 2, 171, 255] (by decide) ⟨1, by decide, by decide⟩

/-- The value returned for the eight bytes `ZTEG` 0x01 0x02 0xAB 0xFF. -/
theorem pduToHexSN_sample :
    pduToHexSN (.bytes [90, 84, 69, 71, 1, 2, 171, 255]) = "ZTEG0102ABFF" := by
  decide

/-- The method `getOIDs` selects the C3xx family exactly when the model, in
upper case, contains C300 or C320, and the C6xx family otherwise. -/
theorem getOIDs_eq (d : ZTEDriver) :
    d.getOIDs =
      if Contains (ToUpper d.model) "C300" = true ∨ Contains (ToUpper d.model) "C320" = true
      then oidC3xx else oidC6xx := by
  unfold ZTEDriver.getOIDs ZTEDriver.isC3xx
  by_cases h1 : Contains (ToUpper d.model) "C300" = true <;>
    by_cases h2 : Contains (ToUpper d.model) "C320" = true <;> simp [h1, h2]

/-- C20 (counterexample): the model `ZXA10 C320` does not begin with C300 or
C320, yet the driver selects the C3xx family for it. -/
theorem getOIDs_substring_counterexample :
    HasPrefix (ToUpper "ZXA10 C320") "C300" = false ∧
      HasPrefix (ToUpper "ZXA10 C320") "C320" = false ∧
      (NewZTEDriverWithModel "10.0.0.1" 161 "public" "ZXA10 C320").isC3xx = true ∧
      (NewZTEDriverWithModel "10.0.0.1" 161 "public" "ZXA10 C320").getOIDs = oidC3xx ∧
      oidC3xx ≠ oidC6xx := by
  decide

/-- C20 (amended): for every OLT model string the driver selects the C3xx OID
family exactly when the model, letter case ignored, contains C300 or C320
(anywhere, not only at its beginning), and the C6xx family for every other
model, the empty model included. -/
theorem getOIDs_family (d : ZTEDriver) :
    (d.isC3xx = true ↔
      (Contains (ToUpper d.model) "C300" = true ∨ Contains (ToUpper d.model) "C320" = true)) ∧
    (d.getOIDs = oidC3xx ↔ d.isC3xx = true) ∧
    (d.getOIDs = oidC6xx ↔ d.isC3xx = false) ∧
    (d.model = "" → d.getOIDs = oidC6xx) := by
  have hne : oidC3xx ≠ oidC6xx := by decide
  refine ⟨?_, ?_, ?_, ?_⟩
  · simp [ZTEDriver.isC3xx, Bool.or_eq_true]
  · unfold ZTEDriver.getOIDs
    cases h : d.isC3xx
    · simp [Ne.symm hne]
    · simp
  · unfold ZTEDriver.getOIDs
    cases h : d.isC3xx
    · simp
    · simp [hne]
  · intro hm
    have hc : d.isC3xx = false := by
      simp only [ZTEDriver.isC3xx, hm]
      decide
    simp [ZTEDriver.getOIDs, hc]

/-! ## Theorems: the management-auth event -/

/-- In a registry that satisfies the invariant, the entry returned by
`GetCwmpCpe` has the key as its `Sn`. -/
theorem GetCwmpCpe_Sn (env : Env) (c c1 : CwmpEventTable) (key : String) (cpe : CwmpCpe)
    (hwf : c.WF) (hget : c.GetCwmpCpe env key = .done (cpe, c1)) : cpe.Sn = key := by
  have hwf1 := GetCwmpCpe_WF env c c1 key cpe hwf hget
  have hst := GetCwmpCpe_stored env c c1 key cpe hget
  exact hwf1.2 _ (mem_of_mapGet_some _ _ _ hst)

/-- The method `CheckRegister` leaves the serial number and the queues of the
entry as they are. -/
theorem CheckRegister_keeps (env : Env) (c : CwmpCpe) (ip : String) (msg : Inform) (t : Time) :
    (c.CheckRegister env ip msg t).1.Sn = c.Sn ∧
      (c.CheckRegister env ip msg t).1.cwmpQueueMap = c.cwmpQueueMap ∧
      (c.CheckRegister env ip msg t).1.cwmpHPQueueMap = c.cwmpHPQueueMap := by
  unfold CwmpCpe.CheckRegister
  simp only
  repeat' split
  all_goals exact ⟨rfl, rfl, rfl⟩

/-- The method `UpdateStatus` leaves the serial number and the queues of the
entry as they are. -/
theorem UpdateStatus_keeps (env : Env) (c : CwmpCpe) (msg : Inform) (now : Time) :
    (c.UpdateStatus env msg now).Sn = c.Sn ∧
      (c.UpdateStatus env msg now).cwmpQueueMap = c.cwmpQueueMap ∧
      (c.UpdateStatus env msg now).cwmpHPQueueMap = c.cwmpHPQueueMap := by
  unfold CwmpCpe.UpdateStatus
  simp only
  repeat' split
  all_goals exact ⟨rfl, rfl, rfl⟩

/-- The method `NotifyDataUpdate(false)` of an entry that holds an Inform ends
without panic and keeps the Inform, the serial number and the queues. -/
theorem NotifyDataUpdate_false_keeps (c : CwmpCpe) (msg : Inform) (ctime tUpdate tNotify : Time)
    (hmsg : c.LastInform = some msg) :
    ∃ c3 ops, c.NotifyDataUpdate false ctime tUpdate tNotify = .done (c3, ops) ∧
      c3.LastInform = some msg ∧ c3.Sn = c.Sn ∧ c3.cwmpQueueMap = c.cwmpQueueMap ∧
      c3.cwmpHPQueueMap = c.cwmpHPQueueMap := by
  by_cases h : Seconds (Time.Sub ctime c.LastDataNotify) > 300
  · exact ⟨_, _, NotifyDataUpdate_full c msg false ctime tUpdate tNotify hmsg (Or.inr h),
      hmsg, rfl, rfl, rfl⟩
  · exact ⟨_, _, NotifyDataUpdate_online c ctime tUpdate tNotify h, hmsg, rfl, rfl, rfl⟩

/-- A string begins with each string it was built from by appending. -/
theorem HasPrefix_append (p u : String) : HasPrefix (p ++ u) p = true := by
  simp [HasPrefix, List.isPrefixOf_iff_prefix]

/-- For an Inform with RetryCount 0 that bears `0 BOOTSTRAP` or `1 BOOT`, the
`switch` of `processInformEvent` ends with the entry left by
`UpdateManagementAuthInfo`. -/
theorem informEventSwitch_boot (env : Env) (cpe : CwmpCpe) (lastInform : Inform)
    (clk : InformClock) (uuid : String)
    (hev : lastInform.IsEvent EventBootStrap = true ∨ lastInform.IsEvent EventBoot = true)
    (hretry : lastInform.RetryCount = 0) :
    ∃ ops, informEventSwitch env cpe lastInform clk uuid =
      .done ((cpe.UpdateManagementAuthInfo env ("bootstrap-session-" ++ uuid) 1000 false).2,
        ops) := by
  by_cases hbs : lastInform.IsEvent EventBootStrap = true
  · exact ⟨[DbOp.CreateCwmpPresetEventTask cpe.Sn .BootStrapEvent ""],
      by simp [informEventSwitch, hbs, hretry]⟩
  · have hb : lastInform.IsEvent EventBoot = true := by
      rcases hev with h | h
      · exact absurd h hbs
      · exact h
    exact ⟨[DbOp.ActiveCwmpSchedEventTask cpe.Sn,
      DbOp.CreateCwmpPresetEventTask cpe.Sn .BootEvent ""],
      by simp [informEventSwitch, hbs, hb, hretry]⟩

/-- The method `UpdateManagementAuthInfo` on the normal queue with room left
appends the `SetParameterValues` event for the management server. -/
theorem UpdateManagementAuthInfo_enqueues (env : Env) (c : CwmpCpe) (msg : Inform)
    (session : String) (timeout : Int)
    (hmsg : c.LastInform = some msg)
    (hroom : c.cwmpQueueMap.buf.length < c.cwmpQueueMap.cap) :
    (c.UpdateManagementAuthInfo env session timeout false).2.cwmpQueueMap.buf =
      c.cwmpQueueMap.buf ++ [managementAuthEvent env c.Sn msg session] := by
  simp [CwmpCpe.UpdateManagementAuthInfo, hmsg, CwmpCpe.SendCwmpEventData, CwmpCpe.getQueue,
    CwmpCpe.setQueue, hroom, managementAuthEvent, managementPrefix]

/-- C11 (counterexample): an Inform that bears `1 BOOT` with RetryCount 1,
received while the normal queue of its entry is empty, takes no branch of the
`switch` of `processInformEvent`: no event is enqueued. -/
theorem processInformEvent_boot_retry_counterexample :
    (sampleInform ["1 BOOT"] 1).IsEvent EventBoot = true ∧
      (sampleInformedCpe 1000000000000).cwmpQueueMap.buf = [] ∧
      (mapGet (processInformEvent sampleEnv (sampleTable 1000000000000) "10.0.0.5"
        (sampleInform ["1 BOOT"] 1) (sampleClock 1030000000000) "u").1.cpeTable "ABC123").map
          (fun c => c.cwmpQueueMap.buf.length) = some 0 := by
  have hget : (sampleTable 1000000000000).GetCwmpCpe sampleEnv "ABC123" =
      .done (sampleInformedCpe 1000000000000, sampleTable 1000000000000) := rfl
  have hnot : ∀ (c : CwmpCpe), c.LastDataNotify = 1000000000000 →
      ¬ Seconds (Time.Sub 1030000000000 c.LastDataNotify) > 300 := by
    intro c hc
    rw [Seconds_gt_300, hc]
    simp [Time.Sub, maxDuration, minDuration]
  have hrun :
      (((sampleInformedCpe 1000000000000).CheckRegister sampleEnv "10.0.0.5"
        (sampleInform ["1 BOOT"] 1) 1030000000000).1.UpdateStatus sampleEnv
        (sampleInform ["1 BOOT"] 1) 1030000000000).NotifyDataUpdate false
        1030000000000 1030000000000 1030000000000 =
      .done ({ sampleInformedCpe 1000000000000 with
          LastInform := some (sampleInform ["1 BOOT"] 1), LastUpdate := 1030000000000 },
        [DbOp.Updates "ABC123"
          [("cwmp_status", .str "online"), ("cwmp_last_inform", .time 1030000000000)]]) := by
    rw [NotifyDataUpdate_online _ _ _ _ (hnot _ rfl)]
    rfl
  have hsn : (sampleInform ["1 BOOT"] 1).Sn = "ABC123" := rfl
  refine ⟨by decide, rfl, ?_⟩
  simp only [processInformEvent, hsn, hget, sampleClock]
  rw [hrun]
  rfl

/-- C11 (amended): for an Inform with RetryCount 0 that bears `0 BOOTSTRAP` or
`1 BOOT` and whose serial number resolves to a runtime entry of a well-formed
registry, received while the normal queue of the entry is not full,
`processInformEvent` appends to that queue a `SetParameterValues` event whose
session begins with `bootstrap-session-` and whose parameters, under the
management-server root of the Inform's data model, set
ConnectionRequestUsername to the SN, ConnectionRequestPassword to the
configured password, PeriodicInformEnable to true and PeriodicInformInterval
to the configured value, or 60 when none is configured. -/
theorem processInformEvent_management_auth (env : Env) (table table1 : CwmpEventTable)
    (realIP : String) (lastInform : Inform) (clk : InformClock) (uuid : String) (cpe : CwmpCpe)
    (hwf : table.WF)
    (hget : table.GetCwmpCpe env lastInform.Sn = .done (cpe, table1))
    (hev : lastInform.IsEvent EventBootStrap = true ∨ lastInform.IsEvent EventBoot = true)
    (hretry : lastInform.RetryCount = 0)
    (hroom : cpe.cwmpQueueMap.buf.length < cpe.cwmpQueueMap.cap) :
    ∃ cpe4,
      mapGet (processInformEvent env table realIP lastInform clk uuid).1.cpeTable
        lastInform.Sn = some cpe4 ∧
      cpe4.cwmpQueueMap.buf = cpe.cwmpQueueMap.buf ++
        [{ Session := "bootstrap-session-" ++ uuid
           Sn := lastInform.Sn
           Message := ⟨.SetParameterValues,
             ({ ID := "bootstrap-session-" ++ uuid
                Name := ""
                NoMore := 0
                Params :=
                  [ (managementPrefix lastInform ++ "ConnectionRequestUsername",
                      ⟨"xsd:string", lastInform.Sn⟩),
                    (managementPrefix lastInform ++ "ConnectionRequestPassword",
                      ⟨"xsd:string",
                        env.GetTr069SettingsStringValue "CpeConnectionRequestPassword"⟩),
                    (managementPrefix lastInform ++ "PeriodicInformEnable",
                      ⟨"xsd:boolean", "true"⟩),
                    (managementPrefix lastInform ++ "PeriodicInformInterval",
                      ⟨"xsd:unsignedInt",
                        if env.GetTr069SettingsStringValue "CpePeriodicInformInterval" = ""
                        then "60"
                        else env.GetTr069SettingsStringValue
                          "CpePeriodicInformInterval"⟩) ] } : SetParameterValues)⟩ }] ∧
      HasPrefix ("bootstrap-session-" ++ uuid) "bootstrap-session-" = true := by
  have hsn := GetCwmpCpe_Sn env table table1 lastInform.Sn cpe hwf hget
  rcases hcr : cpe.CheckRegister env realIP lastInform clk.tRegister with ⟨cpe1, ops1⟩
  have hk1 := CheckRegister_keeps env cpe realIP lastInform clk.tRegister
  rw [hcr] at hk1
  have hk2 := UpdateStatus_keeps env cpe1 lastInform clk.tStatus
  have h2 := UpdateStatus_LastInform env cpe1 lastInform clk.tStatus
  obtain ⟨cpe3, ops3, h3, h3i, h3s, h3q, _⟩ := NotifyDataUpdate_false_keeps
    (cpe1.UpdateStatus env lastInform clk.tStatus) lastInform clk.ctime1 clk.tUpdate1
    clk.tNotify1 h2
  obtain ⟨ops4, hsw⟩ := informEventSwitch_boot env cpe3 lastInform clk uuid hev hretry
  have hq3 : cpe3.cwmpQueueMap = cpe.cwmpQueueMap := by
    rw [h3q, hk2.2.1, hk1.2.1]
  have hs3 : cpe3.Sn = lastInform.Sn := by
    rw [h3s, hk2.1, hk1.1, hsn]
  have hroom3 : cpe3.cwmpQueueMap.buf.length < cpe3.cwmpQueueMap.cap := by
    rw [hq3]
    exact hroom
  have hsend := UpdateManagementAuthInfo_enqueues env cpe3 lastInform
    ("bootstrap-session-" ++ uuid) 1000 h3i hroom3
  refine ⟨(cpe3.UpdateManagementAuthInfo env ("bootstrap-session-" ++ uuid) 1000 false).2,
    ?_, ?_, HasPrefix_append _ _⟩
  · simp only [processInformEvent, hget, hcr, h3, hsw]
    exact mapGet_mapSet_self _ _ _
  · rw [hsend, hq3, hs3]
    rfl

/-- C11 (amended), at the Inform of `ABC123` that bears `1 BOOT` with RetryCount
0, on the registry that holds the entry of `ABC123` with empty queues. -/
theorem processInformEvent_management_auth_witness :
    ∃ cpe4,
      mapGet (processInformEvent sampleEnv (sampleTable 1000000000000) "10.0.0.5"
        (sampleInform ["1 BOOT"] 0) (sampleClock 1030000000000) "u").1.cpeTable
        (sampleInform ["1 BOOT"] 0).Sn = some cpe4 ∧
      cpe4.cwmpQueueMap.buf = (sampleInformedCpe 1000000000000).cwmpQueueMap.buf ++
        [{ Session := "bootstrap-session-" ++ "u"
           Sn := (sampleInform ["1 BOOT"] 0).Sn
           Message := ⟨.SetParameterValues,
             ({ ID := "bootstrap-session-" ++ "u"
                Name := ""
                NoMore := 0
                Params :=
                  [ (managementPrefix (sampleInform ["1 BOOT"] 0) ++ "ConnectionRequestUsername",
                      ⟨"xsd:string", (sampleInform ["1 BOOT"] 0).Sn⟩),
                    (managementPrefix (sampleInform ["1 BOOT"] 0) ++ "ConnectionRequestPassword",
                      ⟨"xsd:string",
                        sampleEnv.GetTr069SettingsStringValue "CpeConnectionRequestPassword"⟩),
                    (managementPrefix (sampleInform ["1 BOOT"] 0) ++ "PeriodicInformEnable",
                      ⟨"xsd:boolean", "true"⟩),
                    (managementPrefix (sampleInform ["1 BOOT"] 0) ++ "PeriodicInformInterval",
                      ⟨"xsd:unsignedInt",
                        if sampleEnv.GetTr069SettingsStringValue "CpePeriodicInformInterval" = ""
                        then "60"
                        else sampleEnv.GetTr069SettingsStringValue
                          "CpePeriodicInformInterval"⟩) ] } : SetParameterValues)⟩ }] ∧
      HasPrefix ("bootstrap-session-" ++ "u") "bootstrap-session-" = true :=
  processInformEvent_management_auth sampleEnv (sampleTable 1000000000000)
    (sampleTable 1000000000000) "10.0.0.5" (sampleInform ["1 BOOT"] 0)
    (sampleClock 1030000000000) "u" (sampleInformedCpe 1000000000000)
    (by
      constructor
      · simp [sampleTable, mapKeys]
      · intro e he
        simp only [sampleTable, List.mem_singleton] at he
        subst he
        rfl)
    rfl (Or.inr (by decide)) rfl (by decide)

/-! ## Theorems: the WiFi aggregation -/

/-- Reading a key of a `map[int]V` right after assigning it gives the
assigned value. -/
theorem imGet_imSet_self {V : Type} (m : IntMap V) (k : Int) (v : V) :
    imGet (imSet m k v) k = some v := by
  induction m with
  | nil => simp [imSet, imGet]
  | cons e rest ih =>
    obtain ⟨k1, v1⟩ := e
    by_cases h : k1 = k
    · simp [imSet, imGet, h]
    · simp [imSet, imGet, h, ih]

/-- Assigning a key of a `map[int]V` does not change what is read at another
key. -/
theorem imGet_imSet_ne {V : Type} (m : IntMap V) (k k2 : Int) (v : V) (hne : k ≠ k2) :
    imGet (imSet m k v) k2 = imGet m k2 := by
  induction m with
  | nil => simp [imSet, imGet, hne]
  | cons e rest ih =>
    obtain ⟨k1, v1⟩ := e
    by_cases h : k1 = k
    · subst h
      simp [imSet, imGet, hne]
    · by_cases h2 : k1 = k2
      · subst h2
        simp [imSet, imGet, h]
      · simp [imSet, imGet, h, h2, ih]

/-- A field of an entry after the entry of `k` was made, if absent, and
changed by `f`. -/
theorem wifiFieldAt_imModify (g : wifiEntry → String) (m : IntMap wifiEntry) (k N : Int)
    (f : wifiEntry → wifiEntry) :
    wifiFieldAt g (imModify wifiEntry.zero m k f) N =
      if k = N then g (f ((imGet m k).getD wifiEntry.zero)) else wifiFieldAt g m N := by
  by_cases h : k = N
  · subst h
    simp [wifiFieldAt, imModify, imGet_imSet_self]
  · simp [wifiFieldAt, imModify, imGet_imSet_ne _ _ _ _ h, h]

/-- A name cannot begin with two strings of which neither begins with the
other. -/
theorem HasPrefix_disjoint (name p q : String) (hpq : ¬ p.toList <+: q.toList)
    (hqp : ¬ q.toList <+: p.toList) (h : HasPrefix name p = true) :
    HasPrefix name q = false := by
  cases hq : HasPrefix name q with
  | false => rfl
  | true =>
    simp only [HasPrefix, List.isPrefixOf_iff_prefix] at h hq
    rcases List.prefix_or_prefix_of_prefix h hq with h1 | h1
    · exact absurd h1 hpq
    · exact absurd h1 hqp

/-- The opening idiom finds nothing for a name that does not begin with the
prefix. -/
theorem indexedField_eq_none_iff (name pre : String) :
    indexedField name pre = none ↔ HasPrefix name pre = false := by
  unfold indexedField cutPrefix
  cases h : HasPrefix name pre
  · simp
  · simp only [if_true]
    split
    · simp
    · split <;> simp

/-- A name that the opening idiom accepts for one prefix is not accepted for a
prefix that is incomparable with it. -/
theorem indexedField_disjoint (name p q : String) (hpq : ¬ p.toList <+: q.toList)
    (hqp : ¬ q.toList <+: p.toList) (r : Option (Int × String))
    (h : indexedField name p = some r) : indexedField name q = none := by
  rw [indexedField_eq_none_iff]
  apply HasPrefix_disjoint name p q hpq hqp
  cases hp : HasPrefix name p with
  | true => rfl
  | false =>
    rw [(indexedField_eq_none_iff name p).mpr hp] at h
    exact absurd h (by simp)

/-- The three prefixes of `parseWifiSsids` are pairwise incomparable. -/
theorem wifi_prefixes_incomparable :
    (¬ tr098Prefix.toList <+: tr181SsidPrefix.toList) ∧
    (¬ tr181SsidPrefix.toList <+: tr098Prefix.toList) ∧
    (¬ tr098Prefix.toList <+: tr181ApPrefix.toList) ∧
    (¬ tr181ApPrefix.toList <+: tr098Prefix.toList) ∧
    (¬ tr181SsidPrefix.toList <+: tr181ApPrefix.toList) ∧
    (¬ tr181ApPrefix.toList <+: tr181SsidPrefix.toList) := by
  decide

/-- The visit of a parameter of the TR-098 block. -/
theorem wifiVisit_tr098 (entries : IntMap wifiEntry) (name value : String)
    (r : Option (Int × String)) (h : indexedField name tr098Prefix = some r) :
    wifiVisit entries (name, value) =
      match r with
      | none => entries
      | some (idx, field) => imModify wifiEntry.zero entries idx (wifiTr098Field field value) := by
  obtain ⟨h1, h2, h3, h4, h5, h6⟩ := wifi_prefixes_incomparable
  have hs := indexedField_disjoint name _ _ h1 h2 r h
  have ha := indexedField_disjoint name _ _ h3 h4 r h
  rcases r with _ | ⟨idx, field⟩
  · simp [wifiVisit, h]
  · simp [wifiVisit, h, hs, ha]

/-- The visit of a parameter of the TR-181 SSID block. -/
theorem wifiVisit_tr181Ssid (entries : IntMap wifiEntry) (name value : String)
    (r : Option (Int × String)) (h : indexedField name tr181SsidPrefix = some r) :
    wifiVisit entries (name, value) =
      match r with
      | none => entries
      | some (idx, field) => imModify wifiEntry.zero entries idx (wifiTr181Field field value) := by
  obtain ⟨h1, h2, h3, h4, h5, h6⟩ := wifi_prefixes_incomparable
  have hs := indexedField_disjoint name _ _ h2 h1 r h
  have ha := indexedField_disjoint name _ _ h5 h6 r h
  rcases r with _ | ⟨idx, field⟩
  · simp [wifiVisit, h, hs]
  · simp [wifiVisit, h, hs, ha]

/-- The visit of a parameter of the TR-181 access-point block. -/
theorem wifiVisit_tr181Ap (entries : IntMap wifiEntry) (name value : String)
    (r : Option (Int × String)) (h : indexedField name tr181ApPrefix = some r) :
    wifiVisit entries (name, value) =
      match r with
      | none => entries
      | some (idx, field) =>
        if field = "Security.KeyPassphrase" then
          imModify wifiEntry.zero entries idx (fun e => { e with Password := value })
        else entries := by
  obtain ⟨h1, h2, h3, h4, h5, h6⟩ := wifi_prefixes_incomparable
  have hs := indexedField_disjoint name _ _ h4 h3 r h
  have ha := indexedField_disjoint name _ _ h6 h5 r h
  rcases r with _ | ⟨idx, field⟩
  · simp [wifiVisit, h, hs, ha]
  · simp [wifiVisit, h, hs, ha]

/-- The visit of a parameter that belongs to none of the three blocks. -/
theorem wifiVisit_other (entries : IntMap wifiEntry) (name value : String)
    (h1 : indexedField name tr098Prefix = none) (h2 : indexedField name tr181SsidPrefix = none)
    (h3 : indexedField name tr181ApPrefix = none) :
    wifiVisit entries (name, value) = entries := by
  simp [wifiVisit, h1, h2, h3]

/-- The SSID of an entry after the `switch` of the TR-098 block. -/
theorem wifiTr098Field_SSID (field value : String) (e : wifiEntry) :
    (wifiTr098Field field value e).SSID = if field = "SSID" then value else e.SSID := by
  unfold wifiTr098Field
  split_ifs <;> rfl

/-- The SSID of an entry after the `switch` of the TR-181 SSID block. -/
theorem wifiTr181Field_SSID (field value : String) (e : wifiEntry) :
    (wifiTr181Field field value e).SSID = if field = "SSID" then value else e.SSID := by
  unfold wifiTr181Field
  split_ifs <;> rfl

/-- The channel of an entry after the `switch` of the TR-098 block. -/
theorem wifiTr098Field_Channel (field value : String) (e : wifiEntry) :
    (wifiTr098Field field value e).Channel =
      if field = "Channel" then value
      else if field = "ChannelsInUse" ∧ (e.Channel = "" ∨ e.Channel = "0") then value
      else e.Channel := by
  unfold wifiTr098Field
  split_ifs <;> first | rfl | simp_all

/-- The `switch` of the TR-181 SSID block leaves the channel as it is. -/
theorem wifiTr181Field_Channel (field value : String) (e : wifiEntry) :
    (wifiTr181Field field value e).Channel = e.Channel := by
  unfold wifiTr181Field
  split_ifs <;> rfl

/-- The SSID of the index `N` after the visit of one parameter: the value of
the parameter when it is an SSID parameter of `N`, else the SSID before. -/
theorem wifiVisit_SSID (entries : IntMap wifiEntry) (name value : String) (N : Int) :
    wifiFieldAt wifiEntry.SSID (wifiVisit entries (name, value)) N =
      if isSsidParam N name = true then value else wifiFieldAt wifiEntry.SSID entries N := by
  obtain ⟨h1, h2, h3, h4, h5, h6⟩ := wifi_prefixes_incomparable
  rcases hr1 : indexedField name tr098Prefix with _ | r1
  · rcases hr2 : indexedField name tr181SsidPrefix with _ | r2
    · rcases hr3 : indexedField name tr181ApPrefix with _ | r3
      · rw [wifiVisit_other entries name value hr1 hr2 hr3]
        simp [isSsidParam, hr1, hr2]
      · rw [wifiVisit_tr181Ap entries name value r3 hr3]
        rcases r3 with _ | ⟨idx, field⟩
        · simp [isSsidParam, hr1, hr2]
        · by_cases hf : field = "Security.KeyPassphrase"
          · simp only [hf, if_true, wifiFieldAt_imModify]
            by_cases hk : idx = N
            · subst hk
              simp [isSsidParam, hr1, hr2, wifiFieldAt]
            · simp [isSsidParam, hr1, hr2, hk]
          · simp [hf, isSsidParam, hr1, hr2]
    · rw [wifiVisit_tr181Ssid entries name value r2 hr2]
      rcases r2 with _ | ⟨idx, field⟩
      · simp [isSsidParam, hr1, hr2]
      · simp only [wifiFieldAt_imModify, wifiTr181Field_SSID]
        by_cases hk : idx = N
        · subst hk
          by_cases hf : field = "SSID"
          · simp [isSsidParam, hr1, hr2, hf]
          · simp [isSsidParam, hr1, hr2, hf, wifiFieldAt]
        · simp [isSsidParam, hr1, hr2, hk]
  · have hr2 := indexedField_disjoint name _ _ h1 h2 r1 hr1
    rw [wifiVisit_tr098 entries name value r1 hr1]
    rcases r1 with _ | ⟨idx, field⟩
    · simp [isSsidParam, hr1, hr2]
    · simp only [wifiFieldAt_imModify, wifiTr098Field_SSID]
      by_cases hk : idx = N
      · subst hk
        by_cases hf : field = "SSID"
        · simp [isSsidParam, hr1, hr2, hf]
        · simp [isSsidParam, hr1, hr2, hf, wifiFieldAt]
      · simp [isSsidParam, hr1, hr2, hk]

/-- The channel of the index `N` after the visit of its `Channel`
parameter is the value of that parameter. -/
theorem wifiVisit_Channel_set (entries : IntMap wifiEntry) (name value : String) (N : Int)
    (h : isChannelParam N name = true) :
    wifiFieldAt wifiEntry.Channel (wifiVisit entries (name, value)) N = value := by
  simp only [isChannelParam, decide_eq_true_eq] at h
  rw [wifiVisit_tr098 entries name value _ h]
  simp [wifiFieldAt_imModify, wifiTr098Field_Channel]

/-- A channel that is neither empty nor `0` stays at the index `N` through the
visit of every parameter other than the `Channel` parameter of `N`. -/
theorem wifiVisit_Channel_keep (entries : IntMap wifiEntry) (name value : String) (N : Int)
    (c : String) (h : isChannelParam N name = false)
    (hc : wifiFieldAt wifiEntry.Channel entries N = c) (hne : c ≠ "") (hn0 : c ≠ "0") :
    wifiFieldAt wifiEntry.Channel (wifiVisit entries (name, value)) N = c := by
  obtain ⟨h1, h2, h3, h4, h5, h6⟩ := wifi_prefixes_incomparable
  simp only [isChannelParam, decide_eq_false_iff_not] at h
  rcases hr1 : indexedField name tr098Prefix with _ | r1
  · rcases hr2 : indexedField name tr181SsidPrefix with _ | r2
    · rcases hr3 : indexedField name tr181ApPrefix with _ | r3
      · rw [wifiVisit_other entries name value hr1 hr2 hr3]
        exact hc
      · rw [wifiVisit_tr181Ap entries name value r3 hr3]
        rcases r3 with _ | ⟨idx, field⟩
        · exact hc
        · by_cases hf : field = "Security.KeyPassphrase"
          · simp only [hf, if_true, wifiFieldAt_imModify]
            by_cases hk : idx = N
            · subst hk
              simpa [wifiFieldAt] using hc
            · simpa [hk] using hc
          · simpa [hf] using hc
    · rw [wifiVisit_tr181Ssid entries name value r2 hr2]
      rcases r2 with _ | ⟨idx, field⟩
      · exact hc
      · simp only [wifiFieldAt_imModify, wifiTr181Field_Channel]
        by_cases hk : idx = N
        · subst hk
          simpa [wifiFieldAt] using hc
        · simpa [hk] using hc
  · rw [wifiVisit_tr098 entries name value r1 hr1]
    rcases r1 with _ | ⟨idx, field⟩
    · exact hc
    · simp only [wifiFieldAt_imModify, wifiTr098Field_Channel]
      by_cases hk : idx = N
      · subst hk
        have hf : field ≠ "Channel" := by
          intro hf
          subst hf
          exact h hr1
        have hc2 : (Option.getD (imGet entries idx) wifiEntry.zero).Channel = c := hc
        simp [hf, hc2, hne, hn0]
      · simpa [hk] using hc

/-- The SSID of the index `N` is not changed by a run of visits that meets no
SSID parameter of `N`. -/
theorem wifiFold_SSID_none (l : GoMap String) (entries : IntMap wifiEntry) (N : Int)
    (h : l.filter (fun kv => isSsidParam N kv.1) = []) :
    wifiFieldAt wifiEntry.SSID (l.foldl wifiVisit entries) N =
      wifiFieldAt wifiEntry.SSID entries N := by
  induction l generalizing entries with
  | nil => rfl
  | cons kv rest ih =>
    obtain ⟨name, value⟩ := kv
    have hk : isSsidParam N name = false := by
      cases hb : isSsidParam N name with
      | false => rfl
      | true => simp [List.filter, hb] at h
    have hrest : rest.filter (fun kv => isSsidParam N kv.1) = [] := by
      simpa [List.filter, hk] using h
    rw [List.foldl_cons, ih _ hrest, wifiVisit_SSID, hk]
    simp

/-- The SSID of the index `N` after a run of visits that meets exactly one SSID
parameter of `N` is the value of that parameter. -/
theorem wifiFold_SSID_one (l : GoMap String) (entries : IntMap wifiEntry) (N : Int)
    (nm v : String) (h : l.filter (fun kv => isSsidParam N kv.1) = [(nm, v)]) :
    wifiFieldAt wifiEntry.SSID (l.foldl wifiVisit entries) N = v := by
  induction l generalizing entries with
  | nil => simp at h
  | cons kv rest ih =>
    obtain ⟨name, value⟩ := kv
    cases hb : isSsidParam N name with
    | false =>
      have hrest : rest.filter (fun kv => isSsidParam N kv.1) = [(nm, v)] := by
        simpa [List.filter, hb] using h
      rw [List.foldl_cons]
      exact ih _ hrest
    | true =>
      simp only [List.filter, hb, List.cons.injEq, Prod.mk.injEq] at h
      obtain ⟨⟨_, hv⟩, hrest⟩ := h
      rw [List.foldl_cons, wifiFold_SSID_none rest _ N hrest, wifiVisit_SSID, hb, hv]
      simp

/-- A channel that is neither empty nor `0` stays at the index `N` through a
run of visits that meets no `Channel` parameter of `N`. -/
theorem wifiFold_Channel_keep (l : GoMap String) (entries : IntMap wifiEntry) (N : Int)
    (c : String) (h : l.filter (fun kv => isChannelParam N kv.1) = [])
    (hc : wifiFieldAt wifiEntry.Channel entries N = c) (hne : c ≠ "") (hn0 : c ≠ "0") :
    wifiFieldAt wifiEntry.Channel (l.foldl wifiVisit entries) N = c := by
  induction l generalizing entries with
  | nil => exact hc
  | cons kv rest ih =>
    obtain ⟨name, value⟩ := kv
    have hk : isChannelParam N name = false := by
      cases hb : isChannelParam N name with
      | false => rfl
      | true => simp [List.filter, hb] at h
    have hrest : rest.filter (fun kv => isChannelParam N kv.1) = [] := by
      simpa [List.filter, hk] using h
    rw [List.foldl_cons]
    exact ih _ hrest (wifiVisit_Channel_keep entries name value N c hk hc hne hn0)

/-- The channel of the index `N` after a run of visits that meets exactly one
`Channel` parameter of `N`, with a value that is neither empty nor `0`, is
that value. -/
theorem wifiFold_Channel_one (l : GoMap String) (entries : IntMap wifiEntry) (N : Int)
    (nm c : String) (h : l.filter (fun kv => isChannelParam N kv.1) = [(nm, c)])
    (hne : c ≠ "") (hn0 : c ≠ "0") :
    wifiFieldAt wifiEntry.Channel (l.foldl wifiVisit entries) N = c := by
  induction l generalizing entries with
  | nil => simp at h
  | cons kv rest ih =>
    obtain ⟨name, value⟩ := kv
    cases hb : isChannelParam N name with
    | false =>
      have hrest : rest.filter (fun kv => isChannelParam N kv.1) = [(nm, c)] := by
        simpa [List.filter, hb] using h
      rw [List.foldl_cons]
      exact ih _ hrest
    | true =>
      simp only [List.filter, hb, List.cons.injEq, Prod.mk.injEq] at h
      obtain ⟨⟨_, hv⟩, hrest⟩ := h
      rw [List.foldl_cons]
      apply wifiFold_Channel_keep rest _ N c hrest _ hne hn0
      rw [wifiVisit_Channel_set entries name value N hb, hv]

/-- The entries of `result`: one for each index from 1 to 16 whose entry has a
non-empty SSID, with `Idx` set to the index. -/
theorem mem_wifiResult (entries : IntMap wifiEntry) (e : wifiEntry) :
    e ∈ wifiResult entries ↔
      ∃ i : Nat, 1 ≤ i ∧ i ≤ 16 ∧ ∃ e0, imGet entries (i : Int) = some e0 ∧ e0.SSID ≠ "" ∧
        e = { e0 with Idx := (i : Int) } := by
  unfold wifiResult
  rw [List.mem_filterMap]
  constructor
  · rintro ⟨i, hi, hf⟩
    rw [List.mem_range'_1] at hi
    cases hg : imGet entries (i : Int) with
    | none => simp [hg] at hf
    | some e0 =>
      by_cases hs : e0.SSID = ""
      · simp [hg, hs] at hf
      · simp only [hg, ne_eq, hs, not_false_eq_true, if_true, Option.some.injEq] at hf
        exact ⟨i, hi.1, by omega, e0, hg, hs, hf.symm⟩
  · rintro ⟨i, h1, h16, e0, hg, hs, he⟩
    refine ⟨i, ?_, ?_⟩
    · rw [List.mem_range'_1]
      omega
    · simp [hg, hs, he]

/-- The list `result` is in strictly ascending order of `Idx`. -/
theorem wifiResult_sorted (entries : IntMap wifiEntry) :
    List.Pairwise (fun a b : wifiEntry => a.Idx < b.Idx) (wifiResult entries) := by
  unfold wifiResult
  apply List.Pairwise.filterMap _ _ (List.pairwise_lt_range' 1 16)
  intro a a2 hlt b hb b2 hb2
  cases hg : imGet entries (a : Int) with
  | none => simp [hg] at hb
  | some e0 =>
    cases hg2 : imGet entries (a2 : Int) with
    | none => simp [hg2] at hb2
    | some e2 =>
      by_cases hs : e0.SSID = ""
      · simp [hg, hs] at hb
      · by_cases hs2 : e2.SSID = ""
        · simp [hg2, hs2] at hb2
        · simp only [hg, ne_eq, hs, not_false_eq_true, if_true, Option.mem_def,
            Option.some.injEq] at hb
          simp only [hg2, ne_eq, hs2, not_false_eq_true, if_true, Option.mem_def,
            Option.some.injEq] at hb2
          rw [← hb, ← hb2]
          show (a : Int) < (a2 : Int)
          exact_mod_cast hlt

/-- An entry of `result` carries the fields of `entries` at its index. -/
theorem wifiResult_field (entries : IntMap wifiEntry) (e : wifiEntry)
    (he : e ∈ wifiResult entries) :
    e.SSID = wifiFieldAt wifiEntry.SSID entries e.Idx ∧
      e.Channel = wifiFieldAt wifiEntry.Channel entries e.Idx := by
  obtain ⟨i, _, _, e0, hg, _, heq⟩ := (mem_wifiResult entries e).mp he
  subst heq
  simp [wifiFieldAt, hg]

/-- An index from 1 to 16 with a non-empty SSID in `entries` has an entry in
`result`. -/
theorem wifiResult_complete (entries : IntMap wifiEntry) (N : Int) (v : String)
    (h1 : 1 ≤ N) (h16 : N ≤ 16) (hv : wifiFieldAt wifiEntry.SSID entries N = v)
    (hne : v ≠ "") :
    ∃ e ∈ wifiResult entries, e.Idx = N ∧ e.SSID = v := by
  have hN : ((N.toNat : Nat) : Int) = N := Int.toNat_of_nonneg (by omega)
  cases hg : imGet entries N with
  | none =>
    simp only [wifiFieldAt, hg, Option.getD_none, wifiEntry.zero] at hv
    exact absurd hv.symm hne
  | some e0 =>
    simp only [wifiFieldAt, hg, Option.getD_some] at hv
    refine ⟨{ e0 with Idx := N }, ?_, rfl, hv⟩
    rw [mem_wifiResult]
    refine ⟨N.toNat, by omega, by omega, e0, by rw [hN]; exact hg, ?_, by rw [hN]⟩
    rw [hv]
    exact hne

/-- The result of `parseWifiSsids` is the encoding of the list `wifiList`, and
the empty string when that list is empty. -/
theorem parseWifiSsids_eq (marshal : List wifiEntry → String) (params : GoMap String) :
    parseWifiSsids marshal params =
      if wifiList params = [] then "" else marshal (wifiList params) := by
  unfold parseWifiSsids wifiList
  simp only
  by_cases he : (List.foldl wifiVisit [] params).length = 0
  · have h0 : List.foldl wifiVisit [] params = [] := List.length_eq_zero.mp he
    simp [h0, wifiResult, imGet]
  · by_cases hr : wifiResult (List.foldl wifiVisit [] params) = []
    · simp [he, hr]
    · have hl : ¬ (wifiResult (List.foldl wifiVisit [] params)).length = 0 := by
        rw [List.length_eq_zero]
        exact hr
      simp [he, hr, hl]

/-- C14: the list encoded by `parseWifiSsids` is in strictly ascending order of
idx; every entry has an idx from 1 to 16 and a non-empty ssid; every index `N`
from 1 to 16 whose only SSID parameter in the map has a non-empty value has an
entry with that ssid; and the result is the empty string when the list is
empty, the encoding of the list otherwise. -/
theorem parseWifiSsids_list (marshal : List wifiEntry → String) (params : GoMap String) :
    List.Pairwise (fun a b : wifiEntry => a.Idx < b.Idx) (wifiList params) ∧
      (∀ e ∈ wifiList params, 1 ≤ e.Idx ∧ e.Idx ≤ 16 ∧ e.SSID ≠ "") ∧
      (∀ (N : Int) (nm v : String), 1 ≤ N → N ≤ 16 →
        params.filter (fun kv => isSsidParam N kv.1) = [(nm, v)] → v ≠ "" →
        ∃ e ∈ wifiList params, e.Idx = N ∧ e.SSID = v) ∧
      parseWifiSsids marshal params =
        (if wifiList params = [] then "" else marshal (wifiList params)) ∧
      parseWifiSsids marshal [] = "" := by
  refine ⟨wifiResult_sorted _, ?_, ?_, parseWifiSsids_eq marshal params, rfl⟩
  · intro e he
    obtain ⟨i, hi1, hi16, e0, _, hs, heq⟩ := (mem_wifiResult _ e).mp he
    subst heq
    exact ⟨by simp only; omega, by simp only; omega, hs⟩
  · intro N nm v h1 h16 hone hv
    exact wifiResult_complete _ N v h1 h16 (wifiFold_SSID_one params [] N nm v hone) hv

/-- C14, at the parameter map with the single parameter
`Device.WiFi.SSID.1.SSID` of value `home`: index 1 has an entry with the ssid
`home`. -/
theorem parseWifiSsids_list_witness :
    ∃ e ∈ wifiList [("Device.WiFi.SSID.1.SSID", "home")], e.Idx = 1 ∧ e.SSID = "home" :=
  (parseWifiSsids_list (fun l => toString l.length)
    [("Device.WiFi.SSID.1.SSID", "home")]).2.2.1 1
    "Device.WiFi.SSID.1.SSID" "home" (by decide) (by decide) (by decide) (by decide)

/-- The list encoded for the parameter map with the single parameter
`Device.WiFi.SSID.1.SSID` of value `home`: one entry with idx 1 and ssid
`home`. -/
theorem wifiList_home :
    wifiList [("Device.WiFi.SSID.1.SSID", "home")] = [⟨1, "home", "", "", ""⟩] := by
  decide

/-- C15 (counterexample): with `Channel` = `0` and `ChannelsInUse` = `6` for
WLANConfiguration 1, visited in this order, the emitted channel is `6`, not
the value of `Channel`; visited in the other order it is `0`. -/
theorem parseWifiSsids_channel_counterexample :
    wifiList (sampleWifiParams "0" "6") = [⟨1, "home", "", "", "6"⟩] ∧
      wifiList (sampleWifiParams "0" "6").reverse = [⟨1, "home", "", "", "0"⟩] := by
  decide

/-- C15 (amended): when the map gives for a WLANConfiguration index `N` a
`Channel` whose value is neither empty nor `0`, the entry emitted for `N` has
that value as its channel, whatever else the map holds (a `ChannelsInUse` of
any value included) and in whatever order the entries are visited. -/
theorem parseWifiSsids_channel (params : GoMap String) (N : Int) (nm c : String)
    (hone : params.filter (fun kv => isChannelParam N kv.1) = [(nm, c)])
    (hne : c ≠ "") (hn0 : c ≠ "0") :
    ∀ params2 : GoMap String, List.Perm params2 params →
      ∀ e ∈ wifiList params2, e.Idx = N → e.Channel = c := by
  intro params2 hperm e he hidx
  have hf : params2.filter (fun kv => isChannelParam N kv.1) = [(nm, c)] := by
    have hp := List.Perm.filter (fun kv : String × String => isChannelParam N kv.1) hperm
    rw [hone] at hp
    exact List.perm_singleton.mp hp
  have hfield := (wifiResult_field _ e he).2
  rw [hfield, hidx]
  exact wifiFold_Channel_one params2 [] N nm c hf hne hn0

/-- C15 (amended), at the map with `Channel` = `6` and `ChannelsInUse` =
`1,6,11` for WLANConfiguration 1, visited in the reverse order. -/
theorem parseWifiSsids_channel_witness :
    ∃ e ∈ wifiList (sampleWifiParams "6" "1,6,11").reverse, e.Idx = 1 ∧ e.Channel = "6" :=
  ⟨⟨1, "home", "", "", "6"⟩, by decide, rfl,
    parseWifiSsids_channel (sampleWifiParams "6" "1,6,11") 1
      "InternetGatewayDevice.LANDevice.1.WLANConfiguration.1.Channel" "6"
      (by decide) (by decide) (by decide) (sampleWifiParams "6" "1,6,11").reverse
      (List.reverse_perm _) ⟨1, "home", "", "", "6"⟩ (by decide) rfl⟩

/-! ## Theorems: the WAN aggregation -/

/-- C16 (the code at the failing input): for a map with one connection under
WANConnectionDevice 2 and one under WANConnectionDevice 10, the list encoded
by `parseWanConnections` has the connection of device 10 first, in every
order of visit: the keys `10-1-PPPoE` and `2-1-PPPoE` are sorted as strings,
not with the indices compared as numbers. -/
theorem parseWanConnections_string_order :
    (wanList sampleWanParams sampleWanParams).map
        (fun e => (e.DevIdx, e.ConnIdx, e.ConnType, e.Name)) =
        [("10", "1", "PPPoE", "wan10"), ("2", "1", "PPPoE", "wan2")] ∧
      (wanList sampleWanParams.reverse sampleWanParams.reverse).map
        (fun e => (e.DevIdx, e.ConnIdx, e.ConnType, e.Name)) =
        [("10", "1", "PPPoE", "wan10"), ("2", "1", "PPPoE", "wan2")] ∧
      sortStrings ["2-1-PPPoE", "10-1-PPPoE"] = ["10-1-PPPoE", "2-1-PPPoE"] := by
  decide

/-! ## Theorems: parameter names -/

/-- A name cut after a prefix is the prefix followed by the rest. -/
theorem cutPrefix_some (name pre rest : String) (h : cutPrefix name pre = some rest) :
    name = pre ++ rest := by
  unfold cutPrefix at h
  by_cases hp : HasPrefix name pre = true
  · simp only [hp, if_true, Option.some.injEq] at h
    simp only [HasPrefix, List.isPrefixOf_iff_prefix] at hp
    obtain ⟨t, ht⟩ := hp
    apply String.ext
    rw [← h]
    simp only [String.data_append]
    show name.toList = pre.toList ++ List.drop pre.toList.length name.toList
    rw [← ht]
    simp
  · simp [hp] at h

/-- The cut of a prefix from a name built with it gives back the rest. -/
theorem cutPrefix_append (pre rest : String) : cutPrefix (pre ++ rest) pre = some rest := by
  unfold cutPrefix
  rw [HasPrefix_append]
  simp only [if_true, Option.some.injEq]
  apply String.ext
  show List.drop pre.toList.length (pre ++ rest).data = rest.data
  rw [String.data_append]
  show List.drop pre.data.length (pre.data ++ rest.data) = rest.data
  simp

/-- The two parts of a cut at the first separator give back the list, and the
first part holds no separator. -/
theorem splitFirst_some (c : Char) (l a b : List Char) (h : splitFirst c l = some (a, b)) :
    l = a ++ c :: b ∧ c ∉ a := by
  induction l generalizing a with
  | nil => simp [splitFirst] at h
  | cons x xs ih =>
    by_cases hx : x = c
    · simp only [splitFirst, hx, if_true, Option.some.injEq, Prod.mk.injEq] at h
      obtain ⟨ha, hb⟩ := h
      subst ha hb
      simp [hx]
    · simp only [splitFirst, hx, if_false] at h
      cases hr : splitFirst c xs with
      | none => simp [hr] at h
      | some r =>
        obtain ⟨a1, b1⟩ := r
        simp only [hr, Option.some.injEq, Prod.mk.injEq] at h
        obtain ⟨ha, hb⟩ := h
        subst ha hb
        obtain ⟨h1, h2⟩ := ih a1 hr
        refine ⟨by rw [h1]; rfl, ?_⟩
        simp only [List.mem_cons, not_or]
        exact ⟨fun hc => hx hc.symm, h2⟩

/-- A list built from a part without separator, a separator and a rest is cut
into that part and that rest. -/
theorem splitFirst_append (c : Char) (a b : List Char) (h : c ∉ a) :
    splitFirst c (a ++ c :: b) = some (a, b) := by
  induction a with
  | nil => simp [splitFirst]
  | cons x xs ih =>
    simp only [List.mem_cons, not_or] at h
    have hx : ¬ x = c := fun hc => h.1 hc.symm
    simp [splitFirst, hx, ih h.2]

/-- A list with a single separator is cut in one way only. -/
theorem split_unique (c : Char) (a b N M : List Char) (h : a ++ c :: b = N ++ c :: M)
    (hN : c ∉ N) (hM : c ∉ M) : a = N ∧ b = M := by
  induction a generalizing N with
  | nil =>
    cases N with
    | nil =>
      simp only [List.nil_append, List.cons.injEq, true_and] at h
      exact ⟨rfl, h⟩
    | cons n ns =>
      simp only [List.nil_append, List.cons_append, List.cons.injEq] at h
      exact absurd (by rw [h.1]; exact List.mem_cons_self _ _) hN
  | cons x xs ih =>
    cases N with
    | nil =>
      simp only [List.cons_append, List.nil_append, List.cons.injEq] at h
      have : c ∈ M := by
        rw [← h.2]
        simp
      exact absurd this hM
    | cons n ns =>
      simp only [List.cons_append, List.cons.injEq] at h
      simp only [List.mem_cons, not_or] at hN
      obtain ⟨h1, h2⟩ := ih ns h.2 hN.2
      exact ⟨by rw [h.1, h1], h2⟩

/-- The two parts of `SplitN2` give back the string, and the first part holds
no separator. -/
theorem SplitN2_some (s : String) (c : Char) (a b : String) (h : SplitN2 s c = some (a, b)) :
    s = a ++ String.singleton c ++ b ∧ c ∉ a.toList := by
  unfold SplitN2 at h
  cases hr : splitFirst c s.data with
  | none => simp [String.toList, hr] at h
  | some r =>
    obtain ⟨a1, b1⟩ := r
    simp only [String.toList, hr, Option.some.injEq, Prod.mk.injEq] at h
    obtain ⟨ha, hb⟩ := h
    subst ha hb
    obtain ⟨h1, h2⟩ := splitFirst_some c _ _ _ hr
    refine ⟨?_, h2⟩
    apply String.ext
    simp only [String.data_append, String.singleton]
    rw [h1]
    simp

/-- A string built from a part without separator, the separator and a rest is
split into that part and that rest. -/
theorem SplitN2_append (c : Char) (a b : String) (h : c ∉ a.toList) :
    SplitN2 (a ++ String.singleton c ++ b) c = some (a, b) := by
  unfold SplitN2
  have hl : (a ++ String.singleton c ++ b).toList = a.toList ++ c :: b.toList := by
    show (a ++ String.singleton c ++ b).data = a.data ++ c :: b.data
    simp [String.singleton]
  rw [hl, splitFirst_append c _ _ h]
  rfl

/-- A digit is neither a dot nor a hyphen, so an instance index holds
neither. -/
theorem isIndex_no_sep (s : String) (h : isIndex s) : '.' ∉ s.toList ∧ '-' ∉ s.toList := by
  constructor
  · intro hc
    have := h.2 _ hc
    revert this
    decide
  · intro hc
    have := h.2 _ hc
    revert this
    decide

/-- The string `"-"` is the singleton of the hyphen, and `"."` of the dot. -/
theorem singleton_literals : String.singleton '-' = "-" ∧ String.singleton '.' = "." := by
  decide

/-- The head of the WLAN block reads back the indices and the field of a name
built from them. -/
theorem assocClassify_assocParamName (N M field : String) (hN : '.' ∉ N.toList)
    (hM : '.' ∉ M.toList) :
    assocClassify (assocParamName N M field) = some (N, M, field) := by
  have e1 : assocParamName N M field =
      wlanPrefix ++ (N ++ String.singleton '.' ++ ("AssociatedDevice." ++
        (M ++ String.singleton '.' ++ field))) := by
    apply String.ext
    simp [assocParamName, String.singleton]
  unfold assocClassify
  rw [e1, cutPrefix_append]
  simp only
  rw [SplitN2_append '.' N _ hN]
  simp only
  rw [cutPrefix_append]
  simp only
  rw [SplitN2_append '.' M _ hM]

/-- A name that the head of the WLAN block accepts is built from the indices
and the field that it reads. -/
theorem assocClassify_some (name a b field : String)
    (h : assocClassify name = some (a, b, field)) : name = assocParamName a b field := by
  unfold assocClassify at h
  cases h1 : cutPrefix name wlanPrefix with
  | none => simp [h1] at h
  | some rest =>
    simp only [h1] at h
    cases h2 : SplitN2 rest '.' with
    | none => simp [h2] at h
    | some r2 =>
      obtain ⟨s, p1⟩ := r2
      simp only [h2] at h
      cases h3 : cutPrefix p1 "AssociatedDevice." with
      | none => simp [h3] at h
      | some adRest =>
        simp only [h3] at h
        cases h4 : SplitN2 adRest '.' with
        | none => simp [h4] at h
        | some r4 =>
          obtain ⟨d, f⟩ := r4
          simp only [h4, Option.some.injEq, Prod.mk.injEq] at h
          obtain ⟨hs, hd, hf⟩ := h
          subst hs hd hf
          have e1 := cutPrefix_some _ _ _ h1
          have e2 := (SplitN2_some _ _ _ _ h2).1
          have e3 := cutPrefix_some _ _ _ h3
          have e4 := (SplitN2_some _ _ _ _ h4).1
          rw [e1, e2, e3, e4]
          apply String.ext
          simp [assocParamName, String.singleton]

/-- The prefixes of the hosts and of the WLAN configurations are
incomparable. -/
theorem host_prefixes_incomparable :
    (¬ hostsPrefix.toList <+: wlanPrefix.toList) ∧
    (¬ wlanPrefix.toList <+: hostsPrefix.toList) := by
  decide

/-- A name that the head of the WLAN block accepts is not a host parameter. -/
theorem assocClassify_not_host (name : String) (r : String × String × String)
    (h : assocClassify name = some r) : indexedField name hostsPrefix = none := by
  rw [indexedField_eq_none_iff]
  apply HasPrefix_disjoint name wlanPrefix hostsPrefix host_prefixes_incomparable.2
    host_prefixes_incomparable.1
  unfold assocClassify at h
  cases h1 : cutPrefix name wlanPrefix with
  | none => simp [h1] at h
  | some rest =>
    unfold cutPrefix at h1
    by_cases hp : HasPrefix name wlanPrefix = true
    · exact hp
    · simp [hp] at h1

/-- The function `strings.ToLower` gives the empty string only for the empty
string. -/
theorem ToLower_eq_empty (s : String) (h : ToLower s = "") : s = "" := by
  unfold ToLower at h
  have h2 := congrArg String.data h
  simp only [List.map_eq_nil_iff] at h2
  apply String.ext
  exact h2

/-! ## Theorems: the LAN-client aggregation -/

/-- Assigning a key that is present keeps the keys of the map. -/
theorem mapKeys_mapSet_present {V : Type} (m : GoMap V) (k : String) (v w : V)
    (h : mapGet m k = some w) : mapKeys (mapSet m k v) = mapKeys m := by
  induction m with
  | nil => simp [mapGet] at h
  | cons e rest ih =>
    obtain ⟨k1, v1⟩ := e
    by_cases h1 : k1 = k
    · simp [mapSet, mapKeys, h1]
    · simp only [mapGet, h1, if_false] at h
      have ih2 := ih h
      simp only [mapKeys] at ih2
      simp [mapSet, mapKeys, h1, ih2]

/-- Assigning a key keeps the keys of a map pairwise distinct. -/
theorem mapSet_nodup {V : Type} (m : GoMap V) (k : String) (v : V)
    (h : (mapKeys m).Nodup) : (mapKeys (mapSet m k v)).Nodup := by
  cases hg : mapGet m k with
  | some w =>
    rw [mapKeys_mapSet_present m k v w hg]
    exact h
  | none =>
    rw [mapKeys_mapSet_absent m k v hg, List.nodup_append]
    refine ⟨h, List.nodup_singleton _, ?_⟩
    intro a ha hb
    simp only [List.mem_singleton] at hb
    subst hb
    exact not_mem_mapKeys_of_mapGet_none _ _ hg ha

/-- In a map with pairwise distinct keys, an entry of the list is what is read
at its key. -/
theorem mapGet_of_mem {V : Type} (m : GoMap V) (k : String) (v : V)
    (hnd : (mapKeys m).Nodup) (h : (k, v) ∈ m) : mapGet m k = some v := by
  induction m with
  | nil => simp at h
  | cons e rest ih =>
    obtain ⟨k1, v1⟩ := e
    simp only [mapKeys, List.map_cons, List.nodup_cons] at hnd
    simp only [List.mem_cons, Prod.mk.injEq] at h
    rcases h with ⟨hk, hv⟩ | h
    · simp [mapGet, hk, hv]
    · have hne : k1 ≠ k := by
        intro hk
        apply hnd.1
        rw [hk]
        exact List.mem_map.mpr ⟨(k, v), h, rfl⟩
      simp only [mapGet, hne, if_false]
      exact ih hnd.2 h

/-- What is read in a `map[int]V` after the entry of `k` was made, if absent,
and changed by `f`. -/
theorem imGet_imModify {V : Type} (zero : V) (m : IntMap V) (k k2 : Int) (f : V → V) :
    imGet (imModify zero m k f) k2 =
      if k = k2 then some (f ((imGet m k).getD zero)) else imGet m k2 := by
  by_cases h : k = k2
  · subst h
    simp [imModify, imGet_imSet_self]
  · simp [imModify, imGet_imSet_ne _ _ _ _ h, h]

/-- The `switch` of the hosts block leaves RSSI and SSID of a host as they
are. -/
theorem hostField_clean (field value : String) (e : hostEntry) :
    (hostField field value e).RSSI = e.RSSI ∧ (hostField field value e).SSID = e.SSID := by
  unfold hostField
  split_ifs <;> exact ⟨rfl, rfl⟩

/-- No visit gives a host an RSSI or an SSID. -/
theorem hostVisit_clean (st : IntMap hostEntry × GoMap wifiInfo) (kv : String × String)
    (h : ∀ k e, imGet st.1 k = some e → e.RSSI = "" ∧ e.SSID = "") :
    ∀ k e, imGet (hostVisit st kv).1 k = some e → e.RSSI = "" ∧ e.SSID = "" := by
  intro k e hk
  unfold hostVisit at hk
  rcases hr : indexedField kv.1 hostsPrefix with _ | _ | ⟨idx, field⟩
  · simp only [hr] at hk
    cases ha : assocClassify kv.1 with
    | none =>
      simp only [ha] at hk
      exact h k e hk
    | some r =>
      obtain ⟨a, b, f⟩ := r
      simp only [ha] at hk
      exact h k e hk
  · simp only [hr] at hk
    exact h k e hk
  · simp only [hr, imGet_imModify] at hk
    by_cases hik : idx = k
    · simp only [hik, if_true, Option.some.injEq] at hk
      subst hk
      have hc := hostField_clean field kv.2 ((imGet st.1 k).getD hostEntry.zero)
      rw [hc.1, hc.2]
      cases hg : imGet st.1 k with
      | none => exact ⟨rfl, rfl⟩
      | some e0 => exact h k e0 hg
    · simp only [hik, if_false] at hk
      exact h k e hk

/-- After the first loop no host has an RSSI or an SSID. -/
theorem hostFold_clean (l : GoMap String) (st : IntMap hostEntry × GoMap wifiInfo)
    (h : ∀ k e, imGet st.1 k = some e → e.RSSI = "" ∧ e.SSID = "") :
    ∀ k e, imGet (l.foldl hostVisit st).1 k = some e → e.RSSI = "" ∧ e.SSID = "" := by
  induction l generalizing st with
  | nil => exact h
  | cons kv rest ih =>
    rw [List.foldl_cons]
    exact ih _ (hostVisit_clean st kv h)

/-- The map `wifiByMAC` after the visit of a parameter that the head of the
WLAN block accepts. -/
theorem hostVisit_assoc (st : IntMap hostEntry × GoMap wifiInfo) (name value : String)
    (a b f : String) (h : assocClassify name = some (a, b, f)) :
    hostVisit st (name, value) =
      (st.1, mapSet st.2 (a ++ "-" ++ b)
        (wifiInfoField a f value
          ((mapGet st.2 (a ++ "-" ++ b)).getD { RSSI := "", Hostname := "", SSID := a }))) := by
  have hh := assocClassify_not_host name _ h
  simp [hostVisit, hh, h]

/-- The map `wifiByMAC` is not changed by the visit of a parameter that the
head of the WLAN block does not accept. -/
theorem hostVisit_not_assoc (st : IntMap hostEntry × GoMap wifiInfo) (name value : String)
    (h : assocClassify name = none) : (hostVisit st (name, value)).2 = st.2 := by
  unfold hostVisit
  rcases hr : indexedField name hostsPrefix with _ | _ | ⟨idx, field⟩
  · simp [hr, h]
  · simp [hr]
  · simp [hr]


/-- What is read in a map after an assignment. -/
theorem mapGet_mapSet {V : Type} (m : GoMap V) (k k2 : String) (v : V) :
    mapGet (mapSet m k v) k2 = if k = k2 then some v else mapGet m k2 := by
  by_cases h : k = k2
  · subst h
    simp [mapGet_mapSet_self]
  · have h2 : k2 ≠ k := fun e => h e.symm
    simp [mapGet_mapSet_ne m k k2 v h2, h]

/-- A key `N-M` of `wifiByMAC` with indices `N` and `M` splits in one way
only. -/
theorem devKey_inj (a b N M : String) (hN : isIndex N) (hM : isIndex M)
    (h : a ++ "-" ++ b = N ++ "-" ++ M) : a = N ∧ b = M := by
  have h2 := congrArg String.data h
  simp only [String.data_append] at h2
  have h3 : a.data ++ '-' :: b.data = N.data ++ '-' :: M.data := by
    simpa using h2
  have h4 := split_unique '-' a.data b.data N.data M.data h3 (isIndex_no_sep N hN).2
    (isIndex_no_sep M hM).2
  exact ⟨String.ext h4.1, String.ext h4.2⟩

/-- The name of a parameter of an associated device gives the field. -/
theorem assocParamName_field_inj (N M f f2 : String)
    (h : assocParamName N M f = assocParamName N M f2) : f = f2 := by
  have h2 := congrArg String.data h
  simp only [assocParamName, String.data_append, List.append_assoc,
    List.append_cancel_left_eq] at h2
  exact String.ext h2

/-- The SSID of a record after the `switch field` is the one it had or the
SSID index of the parameter. -/
theorem wifiInfoField_SSID (a f v : String) (wi : wifiInfo) :
    (wifiInfoField a f v wi).SSID = wi.SSID ∨ (wifiInfoField a f v wi).SSID = a := by
  unfold wifiInfoField
  split_ifs <;> simp

/-- The RSSI of a record after the `switch field`: the value of an RSSI
parameter is taken when it is not empty and the record has no RSSI yet. -/
theorem wifiInfoField_RSSI (a f v : String) (wi : wifiInfo) :
    (wifiInfoField a f v wi).RSSI =
      if (f = "AssociatedDeviceRssi" ∨ f = "X_HW_RSSI" ∨ f = "SignalStrength" ∨
          f = "X_ZTE-COM_Rssi") ∧ v ≠ "" ∧ wi.RSSI = "" then v else wi.RSSI := by
  unfold wifiInfoField
  split_ifs <;> simp_all

/-- The keys of `wifiByMAC` stay pairwise distinct in a visit. -/
theorem hostVisit_nodup (st : IntMap hostEntry × GoMap wifiInfo) (kv : String × String)
    (h : (mapKeys st.2).Nodup) : (mapKeys (hostVisit st kv).2).Nodup := by
  obtain ⟨name, value⟩ := kv
  cases ha : assocClassify name with
  | none =>
    rw [hostVisit_not_assoc st name value ha]
    exact h
  | some r =>
    obtain ⟨a, b, f⟩ := r
    rw [hostVisit_assoc st name value a b f ha]
    exact mapSet_nodup _ _ _ h

/-- The keys of `wifiByMAC` are pairwise distinct after the first loop. -/
theorem hostFold_nodup (l : GoMap String) (st : IntMap hostEntry × GoMap wifiInfo)
    (h : (mapKeys st.2).Nodup) : (mapKeys (l.foldl hostVisit st).2).Nodup := by
  induction l generalizing st with
  | nil => exact h
  | cons kv rest ih =>
    rw [List.foldl_cons]
    exact ih _ (hostVisit_nodup st kv h)

/-- Each record of `wifiByMAC` keeps, in a visit, an SSID that begins its
key. -/
theorem hostVisit_ssid (st : IntMap hostEntry × GoMap wifiInfo) (kv : String × String)
    (h : ∀ k wi, mapGet st.2 k = some wi → ∃ dev, k = wi.SSID ++ "-" ++ dev) :
    ∀ k wi, mapGet (hostVisit st kv).2 k = some wi → ∃ dev, k = wi.SSID ++ "-" ++ dev := by
  obtain ⟨name, value⟩ := kv
  intro k wi hk
  cases ha : assocClassify name with
  | none =>
    rw [hostVisit_not_assoc st name value ha] at hk
    exact h k wi hk
  | some r =>
    obtain ⟨a, b, f⟩ := r
    rw [hostVisit_assoc st name value a b f ha] at hk
    simp only [mapGet_mapSet] at hk
    by_cases hkk : a ++ "-" ++ b = k
    · simp only [hkk, if_true, Option.some.injEq] at hk
      subst hk
      rcases wifiInfoField_SSID a f value
          ((mapGet st.2 k).getD { RSSI := "", Hostname := "", SSID := a }) with hs | hs
      · rw [hs]
        cases hg : mapGet st.2 k with
        | none => exact ⟨b, hkk.symm⟩
        | some w => exact h k w hg
      · rw [hs]
        exact ⟨b, hkk.symm⟩
    · simp only [hkk, if_false] at hk
      exact h k wi hk

/-- After the first loop the SSID of each record of `wifiByMAC` begins its
key. -/
theorem hostFold_ssid (l : GoMap String) (st : IntMap hostEntry × GoMap wifiInfo)
    (h : ∀ k wi, mapGet st.2 k = some wi → ∃ dev, k = wi.SSID ++ "-" ++ dev) :
    ∀ k wi, mapGet (l.foldl hostVisit st).2 k = some wi →
      ∃ dev, k = wi.SSID ++ "-" ++ dev := by
  induction l generalizing st with
  | nil => exact h
  | cons kv rest ih =>
    rw [List.foldl_cons]
    exact ih _ (hostVisit_ssid st kv h)

/-- A record of `wifiByMAC` is not removed by a visit. -/
theorem hostVisit_keeps_record (st : IntMap hostEntry × GoMap wifiInfo) (kv : String × String)
    (k : String) (h : mapGet st.2 k ≠ none) : mapGet (hostVisit st kv).2 k ≠ none := by
  obtain ⟨name, value⟩ := kv
  cases ha : assocClassify name with
  | none =>
    rw [hostVisit_not_assoc st name value ha]
    exact h
  | some r =>
    obtain ⟨a, b, f⟩ := r
    rw [hostVisit_assoc st name value a b f ha, mapGet_mapSet]
    split_ifs
    · simp
    · exact h

/-- A record of `wifiByMAC` is not removed by the first loop. -/
theorem hostFold_keeps_record (l : GoMap String) (st : IntMap hostEntry × GoMap wifiInfo)
    (k : String) (h : mapGet st.2 k ≠ none) : mapGet (l.foldl hostVisit st).2 k ≠ none := by
  induction l generalizing st with
  | nil => exact h
  | cons kv rest ih =>
    rw [List.foldl_cons]
    exact ih _ (hostVisit_keeps_record st kv k h)

/-- A parameter of an associated device leaves a record under the key of the
device. -/
theorem hostFold_record (l : GoMap String) (st : IntMap hostEntry × GoMap wifiInfo)
    (name value a b f : String) (hmem : (name, value) ∈ l)
    (ha : assocClassify name = some (a, b, f)) :
    mapGet (l.foldl hostVisit st).2 (a ++ "-" ++ b) ≠ none := by
  induction l generalizing st with
  | nil => simp at hmem
  | cons kv rest ih =>
    rw [List.foldl_cons]
    rcases List.mem_cons.mp hmem with h | h
    · apply hostFold_keeps_record
      rw [← h, hostVisit_assoc st name value a b f ha, mapGet_mapSet_self]
      simp
    · exact ih _ h

/-- The RSSI of the record of the device `M` of WLANConfiguration `N` after a
visit: the value of the parameter when it is a non-empty RSSI parameter of the
device and the record has no RSSI yet. -/
theorem hostVisit_rssi (st : IntMap hostEntry × GoMap wifiInfo) (kv : String × String)
    (N M : String) (hN : isIndex N) (hM : isIndex M) :
    wifiRssiAt (hostVisit st kv).2 (N ++ "-" ++ M) =
      if wifiRssiAt st.2 (N ++ "-" ++ M) = "" ∧
          (isRssiParamOf N M kv.1 && decide (kv.2 ≠ "")) = true then kv.2
      else wifiRssiAt st.2 (N ++ "-" ++ M) := by
  obtain ⟨name, value⟩ := kv
  have hcl : ∀ f, assocClassify (assocParamName N M f) = some (N, M, f) := fun f =>
    assocClassify_assocParamName N M f (isIndex_no_sep N hN).1 (isIndex_no_sep M hM).1
  cases ha : assocClassify name with
  | none =>
    rw [hostVisit_not_assoc st name value ha]
    have hr : isRssiParamOf N M name = false := by
      unfold isRssiParamOf
      rw [decide_eq_false_iff_not]
      intro h
      rcases h with h | h | h | h <;>
      · rw [h, hcl] at ha
        exact Option.noConfusion ha
    simp [hr]
  | some r =>
    obtain ⟨a, b, f⟩ := r
    have hname := assocClassify_some name a b f ha
    rw [hostVisit_assoc st name value a b f ha]
    by_cases hk : a ++ "-" ++ b = N ++ "-" ++ M
    · obtain ⟨haN, hbM⟩ := devKey_inj a b N M hN hM hk
      subst haN
      subst hbM
      have hr : isRssiParamOf a b name = decide (f = "AssociatedDeviceRssi" ∨ f = "X_HW_RSSI" ∨
          f = "SignalStrength" ∨ f = "X_ZTE-COM_Rssi") := by
        unfold isRssiParamOf
        rw [hname]
        apply decide_eq_decide.mpr
        constructor
        · intro h
          rcases h with h | h | h | h
          · exact Or.inl (assocParamName_field_inj _ _ _ _ h)
          · exact Or.inr (Or.inl (assocParamName_field_inj _ _ _ _ h))
          · exact Or.inr (Or.inr (Or.inl (assocParamName_field_inj _ _ _ _ h)))
          · exact Or.inr (Or.inr (Or.inr (assocParamName_field_inj _ _ _ _ h)))
        · intro h
          rcases h with h | h | h | h <;> simp [h]
      simp only [wifiRssiAt, mapGet_mapSet_self, wifiInfoField_RSSI, hr]
      cases hg : mapGet st.2 (a ++ "-" ++ b) with
      | none =>
        simp only [Option.getD_none]
        by_cases hf : (f = "AssociatedDeviceRssi" ∨ f = "X_HW_RSSI" ∨ f = "SignalStrength" ∨
            f = "X_ZTE-COM_Rssi")
        · by_cases hv : value = ""
          · simp [hf, hv]
          · simp [hf, hv]
        · simp [hf]
      | some w =>
        simp only [Option.getD_some]
        by_cases hf : (f = "AssociatedDeviceRssi" ∨ f = "X_HW_RSSI" ∨ f = "SignalStrength" ∨
            f = "X_ZTE-COM_Rssi")
        · by_cases hv : value = ""
          · simp [hf, hv]
          · by_cases hw : w.RSSI = ""
            · simp [hf, hv, hw]
            · simp [hf, hv, hw]
        · simp [hf]
    · have hr : isRssiParamOf N M name = false := by
        unfold isRssiParamOf
        rw [decide_eq_false_iff_not]
        intro h
        rcases h with h | h | h | h <;>
        · rw [h, hcl] at ha
          simp only [Option.some.injEq, Prod.mk.injEq] at ha
          apply hk
          rw [ha.1, ha.2.1]
      have hk2 : N ++ "-" ++ M ≠ a ++ "-" ++ b := fun e => hk e.symm
      simp [wifiRssiAt, mapGet_mapSet_ne _ _ _ _ hk2, hr]

/-- The value `recordRssi` on a list of parameters with one more at the
head. -/
theorem recordRssi_cons (kv : String × String) (rest : GoMap String) (N M : String) :
    recordRssi (kv :: rest) N M =
      if (isRssiParamOf N M kv.1 && decide (kv.2 ≠ "")) = true then kv.2
      else recordRssi rest N M := by
  unfold recordRssi
  simp only [List.filter_cons]
  split_ifs <;> rfl

/-- The RSSI of the record of the device `M` of WLANConfiguration `N` after
the first loop: the RSSI it had or, when it had none, the first non-empty value
among the RSSI parameters of the device. -/
theorem hostFold_rssi (l : GoMap String) (st : IntMap hostEntry × GoMap wifiInfo)
    (N M : String) (hN : isIndex N) (hM : isIndex M) :
    wifiRssiAt (l.foldl hostVisit st).2 (N ++ "-" ++ M) =
      if wifiRssiAt st.2 (N ++ "-" ++ M) = "" then recordRssi l N M
      else wifiRssiAt st.2 (N ++ "-" ++ M) := by
  induction l generalizing st with
  | nil =>
    simp only [List.foldl_nil, recordRssi, List.filter_nil]
    split_ifs with h
    · exact h
    · rfl
  | cons kv rest ih =>
    rw [List.foldl_cons, ih, hostVisit_rssi st kv N M hN hM, recordRssi_cons]
    by_cases h1 : wifiRssiAt st.2 (N ++ "-" ++ M) = ""
    · by_cases h2 : (isRssiParamOf N M kv.1 && decide (kv.2 ≠ "")) = true
      · have h3 : kv.2 ≠ "" := by
          simp only [Bool.and_eq_true, decide_eq_true_eq] at h2
          exact h2.2
        rw [if_pos (show wifiRssiAt st.2 (N ++ "-" ++ M) = "" ∧
          (isRssiParamOf N M kv.1 && decide (kv.2 ≠ "")) = true from ⟨h1, h2⟩),
          if_neg h3, if_pos h1, if_pos h2]
      · rw [if_neg (show ¬ (wifiRssiAt st.2 (N ++ "-" ++ M) = "" ∧
          (isRssiParamOf N M kv.1 && decide (kv.2 ≠ "")) = true) from fun h => h2 h.2),
          if_pos h1, if_neg h2, if_pos h1]
    · rw [if_neg (show ¬ (wifiRssiAt st.2 (N ++ "-" ++ M) = "" ∧
          (isRssiParamOf N M kv.1 && decide (kv.2 ≠ "")) = true) from fun h => h1 h.1),
          if_neg h1, if_neg h1]


/-- The indices that the head of the WLAN block reads hold no dot. -/
theorem assocClassify_no_dot (name a b field : String)
    (h : assocClassify name = some (a, b, field)) : '.' ∉ a.toList ∧ '.' ∉ b.toList := by
  unfold assocClassify at h
  cases h1 : cutPrefix name wlanPrefix with
  | none => simp [h1] at h
  | some rest =>
    simp only [h1] at h
    cases h2 : SplitN2 rest '.' with
    | none => simp [h2] at h
    | some r2 =>
      obtain ⟨s, p1⟩ := r2
      simp only [h2] at h
      cases h3 : cutPrefix p1 "AssociatedDevice." with
      | none => simp [h3] at h
      | some adRest =>
        simp only [h3] at h
        cases h4 : SplitN2 adRest '.' with
        | none => simp [h4] at h
        | some r4 =>
          obtain ⟨d, f⟩ := r4
          simp only [h4, Option.some.injEq, Prod.mk.injEq] at h
          obtain ⟨hs, hd, _⟩ := h
          subst hs hd
          exact ⟨(SplitN2_some _ _ _ _ h2).2, (SplitN2_some _ _ _ _ h4).2⟩

/-- The name of the MAC address parameter of an associated device is the name
of its parameter `AssociatedDeviceMACAddress`. -/
theorem macParamName_eq (a b : String) :
    macParamName a b = assocParamName a b "AssociatedDeviceMACAddress" := by
  apply String.ext
  simp [macParamName, assocParamName]

/-- No key of `wifiByMAC` gets a dot in a visit. -/
theorem hostVisit_no_dot (st : IntMap hostEntry × GoMap wifiInfo) (kv : String × String)
    (h : ∀ k wi, mapGet st.2 k = some wi → '.' ∉ k.toList) :
    ∀ k wi, mapGet (hostVisit st kv).2 k = some wi → '.' ∉ k.toList := by
  obtain ⟨name, value⟩ := kv
  intro k wi hk
  cases ha : assocClassify name with
  | none =>
    rw [hostVisit_not_assoc st name value ha] at hk
    exact h k wi hk
  | some r =>
    obtain ⟨a, b, f⟩ := r
    rw [hostVisit_assoc st name value a b f ha] at hk
    simp only [mapGet_mapSet] at hk
    by_cases hkk : a ++ "-" ++ b = k
    · obtain ⟨h1, h2⟩ := assocClassify_no_dot name a b f ha
      rw [← hkk]
      show '.' ∉ (a ++ "-" ++ b).data
      simp only [String.toList] at h1 h2
      simp [String.data_append, h1, h2]
    · simp only [hkk, if_false] at hk
      exact h k wi hk

/-- No key of `wifiByMAC` holds a dot after the first loop. -/
theorem hostFold_no_dot (l : GoMap String) (st : IntMap hostEntry × GoMap wifiInfo)
    (h : ∀ k wi, mapGet st.2 k = some wi → '.' ∉ k.toList) :
    ∀ k wi, mapGet (l.foldl hostVisit st).2 k = some wi → '.' ∉ k.toList := by
  induction l generalizing st with
  | nil => exact h
  | cons kv rest ih =>
    rw [List.foldl_cons]
    exact ih _ (hostVisit_no_dot st kv h)

/-- A key under which the second loop stores a record is the lower-case form
of a non-empty MAC address parameter, the one named by the two parts of the
key of the record. -/
theorem macKeyOf_some (lower : String → String) (params : GoMap String) (k key : String)
    (h : macKeyOf lower params k = some key) (hk : '.' ∉ k.toList) :
    ∃ a b mac, '.' ∉ a.toList ∧ '.' ∉ b.toList ∧ k = a ++ "-" ++ b ∧
      mapGet params (macParamName a b) = some mac ∧ mac ≠ "" ∧ key = lower mac := by
  unfold macKeyOf at h
  cases h1 : SplitN2 k '-' with
  | none => simp [h1] at h
  | some r =>
    obtain ⟨a, b⟩ := r
    simp only [h1] at h
    cases h2 : mapGet params (macParamName a b) with
    | none => simp [h2] at h
    | some mac =>
      simp only [h2] at h
      by_cases h3 : mac = ""
      · simp [h3] at h
      · simp only [ne_eq, h3, not_false_eq_true, if_true, Option.some.injEq] at h
        have e := (SplitN2_some _ _ _ _ h1).1
        rw [singleton_literals.1] at e
        have hd : k.toList = a.toList ++ '-' :: b.toList := by
          show k.data = a.data ++ '-' :: b.data
          rw [e]
          simp [String.data_append]
        rw [hd] at hk
        simp only [List.mem_append, List.mem_cons, not_or] at hk
        exact ⟨a, b, mac, hk.1, hk.2.2, e, h2, h3, h.symm⟩

/-- The second loop stores the record of the device `M` of WLANConfiguration
`N` under the lower-case form of its MAC address, when that is not empty. -/
theorem macKeyOf_devKey (lower : String → String) (params : GoMap String) (N M mac : String) (hN : isIndex N)
    (hg : mapGet params (macParamName N M) = some mac) (hne : mac ≠ "") :
    macKeyOf lower params (N ++ "-" ++ M) = some (lower mac) := by
  unfold macKeyOf
  have hs := SplitN2_append '-' N M (isIndex_no_sep N hN).2
  rw [singleton_literals.1] at hs
  rw [hs]
  simp only [hg]
  rw [if_pos hne]

/-- A key of `macToWifi` after the second loop was there before or was stored
for a record of the loop. -/
theorem macFold_keys (lower : String → String) (params : GoMap String) (l m : GoMap wifiInfo) (key : String)
    (h : mapGet (l.foldl (macVisit lower params) m) key ≠ none) :
    mapGet m key ≠ none ∨ ∃ kw ∈ l, macKeyOf lower params kw.1 = some key := by
  induction l generalizing m with
  | nil => exact Or.inl h
  | cons kw rest ih =>
    rw [List.foldl_cons] at h
    rcases ih _ h with h1 | ⟨kw2, hm, hk⟩
    · unfold macVisit at h1
      cases hk : macKeyOf lower params kw.1 with
      | none =>
        simp only [hk] at h1
        exact Or.inl h1
      | some k2 =>
        simp only [hk, mapGet_mapSet] at h1
        by_cases hkk : k2 = key
        · exact Or.inr ⟨kw, List.mem_cons_self _ _, by rw [hk, hkk]⟩
        · simp only [hkk, if_false] at h1
          exact Or.inl h1
    · exact Or.inr ⟨kw2, List.mem_cons_of_mem _ hm, hk⟩

/-- When every record that the second loop stores under `K` is `W`, and it
stores one or `W` was there before, `macToWifi` holds `W` under `K` after the
loop. -/
theorem macFold_value (lower : String → String) (params : GoMap String) (l m : GoMap wifiInfo) (K : String)
    (W : wifiInfo) (hall : ∀ kw ∈ l, macKeyOf lower params kw.1 = some K → kw.2 = W)
    (h : mapGet m K = some W ∨ ∃ kw ∈ l, macKeyOf lower params kw.1 = some K) :
    mapGet (l.foldl (macVisit lower params) m) K = some W := by
  induction l generalizing m with
  | nil =>
    rcases h with h | ⟨kw, hm, _⟩
    · exact h
    · simp at hm
  | cons kw rest ih =>
    rw [List.foldl_cons]
    apply ih _ (fun kw2 hm => hall kw2 (List.mem_cons_of_mem _ hm))
    by_cases hk : macKeyOf lower params kw.1 = some K
    · left
      unfold macVisit
      simp only [hk, mapGet_mapSet_self]
      rw [hall kw (List.mem_cons_self _ _) hk]
    · rcases h with h | ⟨kw2, hm, hk2⟩
      · left
        unfold macVisit
        cases hk3 : macKeyOf lower params kw.1 with
        | none => exact h
        | some k3 =>
          have hne : K ≠ k3 := by
            intro e
            apply hk
            rw [hk3, e]
          simp only [mapGet_mapSet_ne _ _ _ _ hne]
          exact h
      · rcases List.mem_cons.mp hm with e | hm2
        · rw [e] at hk2
          exact absurd hk2 hk
        · exact Or.inr ⟨kw2, hm2, hk2⟩

/-- The merge keeps the MAC address of the host. -/
theorem hostMerge_MAC (lower : String → String) (m : GoMap wifiInfo) (e : hostEntry) :
    (hostMerge lower m e).MAC = e.MAC := by
  unfold hostMerge
  split_ifs
  · cases mapGet m (lower e.MAC) with
    | none => rfl
    | some wi =>
      simp only
      split_ifs <;> rfl
  · rfl

/-- The merge leaves a host as it is when its MAC address is empty or is no
key of `macToWifi`. -/
theorem hostMerge_none (lower : String → String) (m : GoMap wifiInfo) (e : hostEntry)
    (h : e.MAC = "" ∨ mapGet m (lower e.MAC) = none) : hostMerge lower m e = e := by
  unfold hostMerge
  rcases h with h | h
  · simp [h]
  · simp [h]

/-- The merge gives a host with a MAC address the RSSI and the SSID of the
record that `macToWifi` holds for it. -/
theorem hostMerge_some (lower : String → String) (m : GoMap wifiInfo) (e : hostEntry) (wi : wifiInfo)
    (h1 : e.MAC ≠ "") (h2 : mapGet m (lower e.MAC) = some wi) :
    (hostMerge lower m e).RSSI = wi.RSSI ∧ (hostMerge lower m e).SSID = wi.SSID := by
  unfold hostMerge
  simp only [h2]
  rw [if_pos h1]
  split_ifs <;> exact ⟨rfl, rfl⟩

/-- Each entry of the result is the merge of a host of `entries`. -/
theorem mem_hostResult (lower : String → String) (entries : IntMap hostEntry) (m : GoMap wifiInfo) (e : hostEntry)
    (h : e ∈ hostResult lower entries m) :
    ∃ i e0, imGet entries i = some e0 ∧ e = hostMerge lower m e0 := by
  unfold hostResult at h
  obtain ⟨i, _, hi⟩ := List.mem_filterMap.mp h
  cases hg : imGet entries (i : Int) with
  | none => simp [hg] at hi
  | some e0 =>
    simp only [hg] at hi
    split_ifs at hi
    simp only [Option.some.injEq] at hi
    exact ⟨i, e0, hg, hi.symm⟩

/-- With at least one host the list to encode is the merge of the hosts. -/
theorem hostList_hosts (lower : String → String) (scan1 : GoMap wifiInfo → GoMap wifiInfo)
    (scan2 : String → GoMap wifiInfo → GoMap wifiInfo) (params : GoMap String)
    (h : (params.foldl hostVisit ([], [])).1 ≠ []) :
    hostList lower scan1 scan2 params =
      hostResult lower (params.foldl hostVisit ([], [])).1
        ((scan1 (params.foldl hostVisit ([], [])).2).foldl (macVisit lower params) []) := by
  unfold hostList
  have h2 : ¬ (params.foldl hostVisit ([], [])).1.length = 0 := by
    intro e
    exact h (List.length_eq_zero.mp e)
  simp only [h2, if_false]

/-- The string that `parseHostDevices` returns: empty when there is nothing to
encode, the encoding of the list otherwise. -/
theorem parseHostDevices_eq (lower : String → String) (marshal : List hostEntry → String)
    (scan1 : GoMap wifiInfo → GoMap wifiInfo)
    (scan2 : String → GoMap wifiInfo → GoMap wifiInfo) (params : GoMap String) :
    parseHostDevices lower marshal scan1 scan2 params =
      if hostList lower scan1 scan2 params = [] then ""
      else marshal (hostList lower scan1 scan2 params) := by
  unfold parseHostDevices hostList
  simp only [List.length_eq_zero]
  split_ifs <;> simp_all

/-- The record and the key of `macToWifi` of a host whose MAC address is, in
lower case, that of the associated device `M` of WLANConfiguration `N` and of
no other. -/
theorem hostJoin_record (lower : String → String) (scan1 : GoMap wifiInfo → GoMap wifiInfo)
    (params : GoMap String)
    (hscan : ∀ l, List.Perm (scan1 l) l) (N M mac K : String) (hN : isIndex N)
    (hM : isIndex M) (hmac : mapGet params (macParamName N M) = some mac) (hne : mac ≠ "")
    (hK : lower mac = K)
    (huniq : ∀ a b mac2, '.' ∉ a.toList → '.' ∉ b.toList →
      mapGet params (macParamName a b) = some mac2 → mac2 ≠ "" → lower mac2 = K →
      a = N ∧ b = M) :
    ∃ W, mapGet ((scan1 (params.foldl hostVisit ([], [])).2).foldl (macVisit lower params) []) K =
        some W ∧ W.SSID = N ∧ W.RSSI = recordRssi params N M := by
  have hdN := (isIndex_no_sep N hN).1
  have hdM := (isIndex_no_sep M hM).1
  have hmem := mem_of_mapGet_some _ _ _ hmac
  have hcl : assocClassify (macParamName N M) = some (N, M, "AssociatedDeviceMACAddress") := by
    rw [macParamName_eq]
    exact assocClassify_assocParamName N M _ hdN hdM
  have hrec := hostFold_record params ([], []) _ _ _ _ _ hmem hcl
  cases hg : mapGet (params.foldl hostVisit ([], [])).2 (N ++ "-" ++ M) with
  | none => exact absurd hg hrec
  | some W =>
    have hnd := hostFold_nodup params ([], []) (by simp [mapKeys])
    have hkey := macKeyOf_devKey lower params N M mac hN hmac hne
    rw [hK] at hkey
    have hin : (N ++ "-" ++ M, W) ∈ scan1 (params.foldl hostVisit ([], [])).2 :=
      (hscan _).mem_iff.mpr (mem_of_mapGet_some _ _ _ hg)
    refine ⟨W, ?_, ?_, ?_⟩
    · apply macFold_value
      · intro kw hkw hk
        have hkw2 := (hscan _).mem_iff.mp hkw
        have hget := mapGet_of_mem _ kw.1 kw.2 hnd hkw2
        have hdot := hostFold_no_dot params ([], []) (by simp [mapGet]) kw.1 kw.2 hget
        obtain ⟨a, b, mac2, ha, hb, hk1, hk2, hk3, hk4⟩ :=
          macKeyOf_some lower params kw.1 K hk hdot
        obtain ⟨e1, e2⟩ := huniq a b mac2 ha hb hk2 hk3 hk4.symm
        rw [hk1, e1, e2, hg] at hget
        simp only [Option.some.injEq] at hget
        exact hget.symm
      · exact Or.inr ⟨(N ++ "-" ++ M, W), hin, hkey⟩
    · obtain ⟨dev, hdev⟩ := hostFold_ssid params ([], []) (by simp [mapGet]) _ W hg
      exact (devKey_inj W.SSID dev N M hN hM hdev.symm).1
    · have hr := hostFold_rssi params ([], []) N M hN hM
      simp only [wifiRssiAt, hg] at hr
      rw [hr]
      simp [mapGet]

/-- The MAC address parameters of associated devices in `sampleHostParams`:
the one of the device 1 of WLANConfiguration 2. -/
theorem sampleHostParams_mac (a b mac2 : String) (ha : '.' ∉ a.toList) (hb : '.' ∉ b.toList)
    (h : mapGet sampleHostParams (macParamName a b) = some mac2) :
    a = "2" ∧ b = "1" ∧ mac2 = "aa:bb:cc:00:11:22" := by
  have hm := mem_of_mapGet_some _ _ _ h
  have hc := assocClassify_assocParamName a b "AssociatedDeviceMACAddress" ha hb
  rw [← macParamName_eq] at hc
  simp only [sampleHostParams, List.mem_cons, Prod.mk.injEq, List.mem_singleton] at hm
  rcases hm with ⟨hn, _⟩ | ⟨hn, _⟩ | ⟨hn, _⟩ | ⟨hn, hv⟩ | ⟨hn, _⟩ | hm
  · rw [hn] at hc
    have h2 : assocClassify "InternetGatewayDevice.LANDevice.1.Hosts.Host.1.MACAddress" =
        none := by decide
    rw [h2] at hc
    exact Option.noConfusion hc
  · rw [hn] at hc
    have h2 : assocClassify "InternetGatewayDevice.LANDevice.1.Hosts.Host.1.IPAddress" =
        none := by decide
    rw [h2] at hc
    exact Option.noConfusion hc
  · rw [hn] at hc
    have h2 : assocClassify "InternetGatewayDevice.LANDevice.1.Hosts.Host.2.MACAddress" =
        none := by decide
    rw [h2] at hc
    exact Option.noConfusion hc
  · rw [hn] at hc
    have h2 : assocClassify
        "InternetGatewayDevice.LANDevice.1.WLANConfiguration.2.AssociatedDevice.1.AssociatedDeviceMACAddress" =
        some ("2", "1", "AssociatedDeviceMACAddress") := by decide
    rw [h2] at hc
    simp only [Option.some.injEq, Prod.mk.injEq] at hc
    exact ⟨hc.1.symm, hc.2.1.symm, hv⟩
  · rw [hn] at hc
    have h2 : assocClassify
        "InternetGatewayDevice.LANDevice.1.WLANConfiguration.2.AssociatedDevice.1.AssociatedDeviceRssi" =
        some ("2", "1", "AssociatedDeviceRssi") := by decide
    rw [h2] at hc
    simp only [Option.some.injEq, Prod.mk.injEq] at hc
    exact absurd hc.2.2 (by decide)
  · exact absurd hm (List.not_mem_nil _)


/-- A host of `entries` is not removed by a visit. -/
theorem hostVisit_keeps_host (st : IntMap hostEntry × GoMap wifiInfo) (kv : String × String)
    (k : Int) (h : imGet st.1 k ≠ none) : imGet (hostVisit st kv).1 k ≠ none := by
  unfold hostVisit
  rcases hr : indexedField kv.1 hostsPrefix with _ | _ | ⟨idx, field⟩
  · simp only
    cases ha : assocClassify kv.1 with
    | none => exact h
    | some r => exact h
  · exact h
  · simp only [imGet_imModify]
    split_ifs
    · simp
    · exact h

/-- A host of `entries` is not removed by the first loop. -/
theorem hostFold_keeps_host (l : GoMap String) (st : IntMap hostEntry × GoMap wifiInfo)
    (k : Int) (h : imGet st.1 k ≠ none) : imGet (l.foldl hostVisit st).1 k ≠ none := by
  induction l generalizing st with
  | nil => exact h
  | cons kv rest ih =>
    rw [List.foldl_cons]
    exact ih _ (hostVisit_keeps_host st kv k h)

/-- With a parameter `Hosts.Host.N.<field>` in the map, `entries` is not empty
after the first loop. -/
theorem hostFold_entries (l : GoMap String) (st : IntMap hostEntry × GoMap wifiInfo)
    (h : ∃ kv ∈ l, isHostParam kv.1 = true) : (l.foldl hostVisit st).1 ≠ [] := by
  obtain ⟨kv, hm, hp⟩ := h
  induction l generalizing st with
  | nil => simp at hm
  | cons kv2 rest ih =>
    rw [List.foldl_cons]
    rcases List.mem_cons.mp hm with e | hm2
    · subst e
      unfold isHostParam at hp
      rcases hr : indexedField kv.1 hostsPrefix with _ | _ | ⟨idx, field⟩
      · simp [hr] at hp
      · simp [hr] at hp
      · have h1 : imGet (hostVisit st kv).1 idx ≠ none := by
          unfold hostVisit
          simp [hr, imGet_imModify]
        have h2 := hostFold_keeps_host rest _ idx h1
        intro e
        rw [e] at h2
        exact h2 rfl
    · exact ih _ hm2

/-- C17 (counterexample): a host with an empty MAC address and one associated
device whose `AssociatedDeviceMACAddress` is empty too, with the RSSI `-61` on
WLANConfiguration 2: the MAC addresses are equal, and the emitted host carries
no RSSI and no SSID. No letter is lowered in this run. -/
theorem parseHostDevices_empty_mac_counterexample :
    (∃ kv ∈ sampleEmptyMacParams, isHostParam kv.1 = true) ∧
      hostList ToLower id (fun _ => id) sampleEmptyMacParams =
        [⟨"", "192.168.1.10", "", "", "", ""⟩] ∧
      mapGet sampleEmptyMacParams (macParamName "2" "1") = some "" ∧
      recordRssi sampleEmptyMacParams "2" "1" = "-61" := by
  decide

/-- C17 (amended): for every parameter map with at least one parameter
`Hosts.Host.N.<field>`, whatever the order in which the maps are visited and
whatever function `lower` does the lower-casing of `strings.ToLower`: each
host emitted by `parseHostDevices` whose MAC address is not empty and equals
in lower case the non-empty `AssociatedDeviceMACAddress` of the associated
device `M` of WLANConfiguration `N`, and of no other with a non-empty address,
carries the SSID index `N` and the RSSI of that record; each emitted host whose
MAC address equals in lower case no non-empty `AssociatedDeviceMACAddress`
carries no RSSI and no SSID. -/
theorem parseHostDevices_join (lower : String → String) (marshal : List hostEntry → String)
    (scan1 : GoMap wifiInfo → GoMap wifiInfo)
    (scan2 : String → GoMap wifiInfo → GoMap wifiInfo) (params : GoMap String)
    (hscan : ∀ l, List.Perm (scan1 l) l)
    (hhosts : ∃ kv ∈ params, isHostParam kv.1 = true) :
    (parseHostDevices lower marshal scan1 scan2 params =
        if hostList lower scan1 scan2 params = [] then ""
        else marshal (hostList lower scan1 scan2 params)) ∧
      (∀ e ∈ hostList lower scan1 scan2 params, ∀ N M mac, isIndex N → isIndex M →
        mapGet params (macParamName N M) = some mac → mac ≠ "" → e.MAC ≠ "" →
        lower mac = lower e.MAC →
        (∀ a b mac2, '.' ∉ a.toList → '.' ∉ b.toList →
          mapGet params (macParamName a b) = some mac2 → mac2 ≠ "" →
          lower mac2 = lower e.MAC → a = N ∧ b = M) →
        e.SSID = N ∧ e.RSSI = recordRssi params N M) ∧
      (∀ e ∈ hostList lower scan1 scan2 params,
        (∀ a b mac2, '.' ∉ a.toList → '.' ∉ b.toList →
          mapGet params (macParamName a b) = some mac2 → mac2 ≠ "" →
          lower mac2 ≠ lower e.MAC) →
        e.RSSI = "" ∧ e.SSID = "") := by
  have hl := hostList_hosts lower scan1 scan2 params (hostFold_entries params ([], []) hhosts)
  have hclean := hostFold_clean params ([], []) (by simp [imGet])
  refine ⟨parseHostDevices_eq lower marshal scan1 scan2 params, ?_, ?_⟩
  · intro e he N M mac hN hM hmac hne hne0 hlow huniq
    rw [hl] at he
    obtain ⟨i, e0, hi, hm⟩ := mem_hostResult lower _ _ e he
    have hMAC : e.MAC = e0.MAC := by rw [hm, hostMerge_MAC]
    rw [hMAC] at hlow huniq hne0
    obtain ⟨W, hW, hS, hR⟩ :=
      hostJoin_record lower scan1 params hscan N M mac (lower e0.MAC) hN hM hmac hne hlow huniq
    obtain ⟨h1, h2⟩ := hostMerge_some lower _ e0 W hne0 hW
    rw [hm, h1, h2]
    exact ⟨hS, hR⟩
  · intro e he hno
    rw [hl] at he
    obtain ⟨i, e0, hi, hm⟩ := mem_hostResult lower _ _ e he
    have hMAC : e.MAC = e0.MAC := by rw [hm, hostMerge_MAC]
    have hsame : e = e0 := by
      rw [hm]
      apply hostMerge_none
      by_cases h0 : e0.MAC = ""
      · exact Or.inl h0
      · right
        by_contra hsome
        rcases macFold_keys lower params _ [] _ hsome with h1 | ⟨kw, hkw, hk⟩
        · exact h1 rfl
        · have hnd := hostFold_nodup params ([], []) (by simp [mapKeys])
          have hkw2 := (hscan _).mem_iff.mp hkw
          have hget := mapGet_of_mem _ kw.1 kw.2 hnd hkw2
          have hdot := hostFold_no_dot params ([], []) (by simp [mapGet]) kw.1 kw.2 hget
          obtain ⟨a, b, mac2, ha, hb, _, hk2, hk3, hk4⟩ :=
            macKeyOf_some lower params kw.1 _ hk hdot
          apply hno a b mac2 ha hb hk2 hk3
          rw [hMAC, hk4]
    rw [hsame]
    exact hclean i e0 hi

/-- C17 (witness): in `sampleHostParams`, ASCII text that `ToLower` lowers as
`strings.ToLower` does, host 1 has, in another letter case, the MAC address of
the associated device 1 of WLANConfiguration 2 and carries its RSSI `-61` and
the SSID index `2`; host 2 matches no device and carries neither. -/
theorem parseHostDevices_join_witness :
    (∃ kv ∈ sampleHostParams, isHostParam kv.1 = true) ∧
      hostList ToLower id (fun _ => id) sampleHostParams =
        [⟨"", "192.168.1.10", "AA:BB:CC:00:11:22", "", "-61", "2"⟩,
          ⟨"", "", "AA:BB:CC:00:11:33", "", "", ""⟩] ∧
      ((⟨"", "192.168.1.10", "AA:BB:CC:00:11:22", "", "-61", "2"⟩ : hostEntry).SSID = "2" ∧
        (⟨"", "192.168.1.10", "AA:BB:CC:00:11:22", "", "-61", "2"⟩ : hostEntry).RSSI =
          recordRssi sampleHostParams "2" "1") ∧
      ((⟨"", "", "AA:BB:CC:00:11:33", "", "", ""⟩ : hostEntry).RSSI = "" ∧
        (⟨"", "", "AA:BB:CC:00:11:33", "", "", ""⟩ : hostEntry).SSID = "") := by
  have hh : ∃ kv ∈ sampleHostParams, isHostParam kv.1 = true := by decide
  have hlist : hostList ToLower id (fun _ => id) sampleHostParams =
      [⟨"", "192.168.1.10", "AA:BB:CC:00:11:22", "", "-61", "2"⟩,
        ⟨"", "", "AA:BB:CC:00:11:33", "", "", ""⟩] := by decide
  have T := parseHostDevices_join ToLower (fun _ => "") id (fun _ => id) sampleHostParams
    (fun l => List.Perm.refl l) hh
  refine ⟨hh, hlist, ?_, ?_⟩
  · apply T.2.1 _ (by rw [hlist]; simp) "2" "1" "aa:bb:cc:00:11:22"
      ⟨by decide, by decide⟩ ⟨by decide, by decide⟩ (by decide) (by decide) (by decide)
      (by decide)
    intro a b mac2 ha hb hg _ _
    have h := sampleHostParams_mac a b mac2 ha hb hg
    exact ⟨h.1, h.2.1⟩
  · apply T.2.2 _ (by rw [hlist]; simp)
    intro a b mac2 ha hb hg _
    have h := sampleHostParams_mac a b mac2 ha hb hg
    rw [h.2.2]
    decide

/-! ## Theorems: the normalizers -/

/-- What is read in a column map after `setMapValue`. -/
theorem mapGet_setMapValue (m : GoMap Value) (k k2 : String) (v : Value) :
    mapGet (setMapValue m k v) k2 =
      if k = k2 ∧ k ≠ "" ∧ v ≠ Value.str "" then some v else mapGet m k2 := by
  unfold setMapValue
  by_cases h : k ≠ "" ∧ v ≠ Value.str ""
  · rw [if_pos h, mapGet_mapSet]
    by_cases hk : k = k2
    · rw [if_pos hk, if_pos ⟨hk, h⟩]
    · rw [if_neg hk, if_neg (fun e => hk e.1)]
  · rw [if_neg h, if_neg (fun e => h e.2)]

/-- The function `setMapValue` does not change what is read at another
column. -/
theorem mapGet_setMapValue_ne (m : GoMap Value) (k k2 : String) (v : Value) (h : k2 ≠ k) :
    mapGet (setMapValue m k v) k2 = mapGet m k2 := by
  rw [mapGet_setMapValue, if_neg (fun e => h e.1.symm)]

/-- The function `setMapValue` stores nothing for the empty text. -/
theorem setMapValue_empty (m : GoMap Value) (k : String) : setMapValue m k (.str "") = m := by
  simp [setMapValue]

/-- What `setMapValue` leaves at its own column for a text: the text, or what
was there when the text is empty. -/
theorem mapGet_setMapValue_self (m : GoMap Value) (k : String) (s : String) (hk : k ≠ "") :
    mapGet (setMapValue m k (.str s)) k = if s = "" then mapGet m k else some (.str s) := by
  rw [mapGet_setMapValue]
  by_cases hs : s = ""
  · subst hs
    simp
  · have hv : Value.str s ≠ Value.str "" := by
      intro e
      exact hs (Value.str.inj e)
    rw [if_pos ⟨rfl, hk, hv⟩, if_neg hs]

/-- Two column maps that agree at a column still agree there after the same
`setMapValue`. -/
theorem setMapValue_congr (m1 m2 : GoMap Value) (k F : String) (v : Value)
    (h : mapGet m1 F = mapGet m2 F) :
    mapGet (setMapValue m1 k v) F = mapGet (setMapValue m2 k v) F := by
  rw [mapGet_setMapValue, mapGet_setMapValue, h]

/-- The accessor `GetParam` of an Inform reads its parameter map as the
closure `getParam` does. -/
theorem GetParam_eq_getParam (msg : Inform) (name : String) :
    msg.GetParam name = getParam msg.Params name := by
  unfold Inform.GetParam getParam
  cases mapGet msg.Params name <;> rfl

/-- The branch of `applyVendorSpecificParams` for other vendors only writes
its own six columns. -/
theorem applyGenericParams_other (m : GoMap Value) (msg : Inform) (k : String)
    (hk : k ∉ ["system_name", "fiber_rx_power", "fiber_tx_power", "pon_sn_hex", "olt_uplink",
      "device_type"]) :
    mapGet (applyGenericParams m msg) k = mapGet m k := by
  simp only [List.mem_cons, List.mem_singleton, List.not_mem_nil, or_false, not_or] at hk
  obtain ⟨h1, h2, h3, h4, h5, h6⟩ := hk
  unfold applyGenericParams
  simp only
  split_ifs <;> simp only [mapGet_setMapValue_ne _ _ _ _ h1, mapGet_setMapValue_ne _ _ _ _ h2,
    mapGet_setMapValue_ne _ _ _ _ h3, mapGet_setMapValue_ne _ _ _ _ h4,
    mapGet_setMapValue_ne _ _ _ _ h5, mapGet_setMapValue_ne _ _ _ _ h6]

/-- The first block of the branch for other vendors only writes its own five
columns. -/
theorem fromMapOnt_other (m : GoMap Value) (params : GoMap String) (k : String)
    (hk : k ∉ ["system_name", "fiber_rx_power", "fiber_tx_power", "pon_sn_hex",
      "olt_uplink"]) :
    mapGet (fromMapOnt m params) k = mapGet m k := by
  simp only [List.mem_cons, List.mem_singleton, List.not_mem_nil, or_false, not_or] at hk
  obtain ⟨h1, h2, h3, h4, h5⟩ := hk
  unfold fromMapOnt
  simp only [mapGet_setMapValue_ne _ _ _ _ h1, mapGet_setMapValue_ne _ _ _ _ h2,
    mapGet_setMapValue_ne _ _ _ _ h3, mapGet_setMapValue_ne _ _ _ _ h4,
    mapGet_setMapValue_ne _ _ _ _ h5]

/-- The block `Uptime & CPU` only writes `uptime` and `cpu_usage`. -/
theorem fromMapUptimeCpu_other (m : GoMap Value) (params : GoMap String) (k : String)
    (hk : k ∉ ["uptime", "cpu_usage"]) :
    mapGet (fromMapUptimeCpu m params) k = mapGet m k := by
  simp only [List.mem_cons, List.mem_singleton, List.not_mem_nil, or_false, not_or] at hk
  obtain ⟨h1, h2⟩ := hk
  unfold fromMapUptimeCpu
  simp only
  split_ifs <;> simp only [mapGet_setMapValue_ne _ _ _ _ h1, mapGet_setMapValue_ne _ _ _ _ h2]

/-- The block `TR-098 fallbacks` only writes the two power columns. -/
theorem fromMapTr098_other (m : GoMap Value) (params : GoMap String) (k : String)
    (hk : k ∉ ["fiber_rx_power", "fiber_tx_power"]) :
    mapGet (fromMapTr098 m params) k = mapGet m k := by
  simp only [List.mem_cons, List.mem_singleton, List.not_mem_nil, or_false, not_or] at hk
  obtain ⟨h1, h2⟩ := hk
  unfold fromMapTr098
  simp only
  split_ifs <;> simp only [mapGet_setMapValue_ne _ _ _ _ h1, mapGet_setMapValue_ne _ _ _ _ h2]

/-- The block `ZTE fallback` only writes the two power columns. -/
theorem fromMapZte_other (m : GoMap Value) (params : GoMap String) (k : String)
    (hk : k ∉ ["fiber_rx_power", "fiber_tx_power"]) :
    mapGet (fromMapZte m params) k = mapGet m k := by
  simp only [List.mem_cons, List.mem_singleton, List.not_mem_nil, or_false, not_or] at hk
  obtain ⟨h1, h2⟩ := hk
  unfold fromMapZte
  simp only
  split_ifs <;> simp only [mapGet_setMapValue_ne _ _ _ _ h1, mapGet_setMapValue_ne _ _ _ _ h2]

/-- The summaries only write their own three columns. -/
theorem fromMapSummaries_other (ps : ParamScan) (m : GoMap Value) (params : GoMap String)
    (k : String) (hk : k ∉ ["wifi_ssid", "wan_info", "lan_clients"]) :
    mapGet (fromMapSummaries ps m params) k = mapGet m k := by
  simp only [List.mem_cons, List.mem_singleton, List.not_mem_nil, or_false, not_or] at hk
  obtain ⟨h1, h2, h3⟩ := hk
  unfold fromMapSummaries
  simp only
  split_ifs <;> simp only [mapGet_setMapValue_ne _ _ _ _ h1, mapGet_setMapValue_ne _ _ _ _ h2,
    mapGet_setMapValue_ne _ _ _ _ h3]

/-- The branch of `applyVendorSpecificParamsFromMap` for other vendors only
writes its own ten columns. -/
theorem applyGenericParamsFromMap_other (ps : ParamScan) (m : GoMap Value)
    (params : GoMap String) (k : String)
    (hk : k ∉ ["system_name", "fiber_rx_power", "fiber_tx_power", "pon_sn_hex", "olt_uplink",
      "uptime", "cpu_usage", "wifi_ssid", "wan_info", "lan_clients"]) :
    mapGet (applyGenericParamsFromMap ps m params) k = mapGet m k := by
  simp only [List.mem_cons, List.mem_singleton, List.not_mem_nil, or_false, not_or] at hk
  obtain ⟨h1, h2, h3, h4, h5, h6, h7, h8, h9, h10⟩ := hk
  unfold applyGenericParamsFromMap
  simp only
  rw [fromMapSummaries_other _ _ _ _ (by simp [h8, h9, h10]),
    fromMapZte_other _ _ _ (by simp [h2, h3]), fromMapTr098_other _ _ _ (by simp [h2, h3]),
    fromMapUptimeCpu_other _ _ _ (by simp [h6, h7]),
    fromMapOnt_other _ _ _ (by simp [h1, h2, h3, h4, h5])]

/-- The method `applyVendorSpecificParams` writes none of the generic
columns. -/
theorem applyVendorSpecificParams_other (c : CwmpCpe) (m : GoMap Value) (msg : Inform)
    (k : String)
    (hk : k ∉ ["arch_name", "system_name", "fiber_rx_power", "fiber_tx_power", "pon_sn_hex",
      "olt_uplink", "device_type"]) :
    mapGet (c.applyVendorSpecificParams m msg) k = mapGet m k := by
  simp only [List.mem_cons, List.mem_singleton, List.not_mem_nil, or_false, not_or] at hk
  obtain ⟨h0, h1, h2, h3, h4, h5, h6⟩ := hk
  unfold CwmpCpe.applyVendorSpecificParams
  simp only
  split_ifs
  · rw [mapGet_setMapValue_ne _ _ _ _ h1, mapGet_setMapValue_ne _ _ _ _ h0]
  · apply applyGenericParams_other
    simp [h1, h2, h3, h4, h5, h6]

/-- The method `applyVendorSpecificParamsFromMap` writes none of the generic
columns but `uptime` and `cpu_usage`. -/
theorem applyVendorSpecificParamsFromMap_other (ps : ParamScan) (c : CwmpCpe)
    (m : GoMap Value) (params : GoMap String) (k : String)
    (hk : k ∉ ["arch_name", "system_name", "fiber_rx_power", "fiber_tx_power", "pon_sn_hex",
      "olt_uplink", "uptime", "cpu_usage", "wifi_ssid", "wan_info", "lan_clients"]) :
    mapGet (c.applyVendorSpecificParamsFromMap ps m params) k = mapGet m k := by
  simp only [List.mem_cons, List.mem_singleton, List.not_mem_nil, or_false, not_or] at hk
  obtain ⟨h0, h1, h2, h3, h4, h5, h6, h7, h8, h9, h10⟩ := hk
  unfold CwmpCpe.applyVendorSpecificParamsFromMap
  simp only
  split_ifs
  · rw [mapGet_setMapValue_ne _ _ _ _ h1, mapGet_setMapValue_ne _ _ _ _ h0]
  · apply applyGenericParamsFromMap_other
    simp [h1, h2, h3, h4, h5, h6, h7, h8, h9, h10]

/-- The column map of `OnInformUpdate` before the call of
`applyVendorSpecificParams` holds the two memory columns crossed. -/
theorem informValmap_memory (c : CwmpCpe) (msg : Inform) (now : Time) :
    mapGet (c.informValmap msg now) "memory_total" =
        (if getInformParam msg "Device.DeviceInfo.MemoryStatus.Free"
            "InternetGatewayDevice.DeviceInfo.MemoryStatus.Free" = "" then none
          else some (.str (getInformParam msg "Device.DeviceInfo.MemoryStatus.Free"
            "InternetGatewayDevice.DeviceInfo.MemoryStatus.Free"))) ∧
      mapGet (c.informValmap msg now) "memory_free" =
        (if getInformParam msg "Device.DeviceInfo.MemoryStatus.Total"
            "InternetGatewayDevice.DeviceInfo.MemoryStatus.Total" = "" then none
          else some (.str (getInformParam msg "Device.DeviceInfo.MemoryStatus.Total"
            "InternetGatewayDevice.DeviceInfo.MemoryStatus.Total"))) := by
  unfold CwmpCpe.informValmap
  simp only
  constructor
  · split_ifs <;>
      simp [mapGet_mapSet_ne, applyVendorSpecificParams_other, mapGet_setMapValue_self,
        mapGet_setMapValue_ne, mapGet, *]
  · split_ifs <;>
      simp [mapGet_mapSet_ne, applyVendorSpecificParams_other, mapGet_setMapValue_self,
        mapGet_setMapValue_ne, mapGet, *]

/-- The column map built by `OnParamsUpdate` holds the two memory columns
crossed. -/
theorem paramsValmap_memory (ps : ParamScan) (c : CwmpCpe) (params : GoMap String)
    (now : Time) :
    mapGet (c.paramsValmap ps params now) "memory_total" =
        (if getParam params "Device.DeviceInfo.MemoryStatus.Free" = "" then none
          else some (.str (getParam params "Device.DeviceInfo.MemoryStatus.Free"))) ∧
      mapGet (c.paramsValmap ps params now) "memory_free" =
        (if getParam params "Device.DeviceInfo.MemoryStatus.Total" = "" then none
          else some (.str (getParam params "Device.DeviceInfo.MemoryStatus.Total"))) := by
  unfold CwmpCpe.paramsValmap
  simp only
  constructor
  · split_ifs <;>
      simp [applyVendorSpecificParamsFromMap_other, mapGet_setMapValue_self,
        mapGet_setMapValue_ne, mapGet, *]
  · split_ifs <;>
      simp [applyVendorSpecificParamsFromMap_other, mapGet_setMapValue_self,
        mapGet_setMapValue_ne, mapGet, *]

/-- C24 (what the code does): for every Inform and every parameter map, both
normalizers write the column `memory_total` from the parameter
`DeviceInfo.MemoryStatus.Free` and the column `memory_free` from the parameter
`DeviceInfo.MemoryStatus.Total`: the two are crossed. -/
theorem normalizer_memory_crossed (ps : ParamScan) (c : CwmpCpe) (msg : Inform)
    (params : GoMap String) (now : Time) :
    (mapGet (c.informValmap msg now) "memory_total" =
        (if getInformParam msg "Device.DeviceInfo.MemoryStatus.Free"
            "InternetGatewayDevice.DeviceInfo.MemoryStatus.Free" = "" then none
          else some (.str (getInformParam msg "Device.DeviceInfo.MemoryStatus.Free"
            "InternetGatewayDevice.DeviceInfo.MemoryStatus.Free"))) ∧
      mapGet (c.informValmap msg now) "memory_free" =
        (if getInformParam msg "Device.DeviceInfo.MemoryStatus.Total"
            "InternetGatewayDevice.DeviceInfo.MemoryStatus.Total" = "" then none
          else some (.str (getInformParam msg "Device.DeviceInfo.MemoryStatus.Total"
            "InternetGatewayDevice.DeviceInfo.MemoryStatus.Total")))) ∧
    (mapGet (c.paramsValmap ps params now) "memory_total" =
        (if getParam params "Device.DeviceInfo.MemoryStatus.Free" = "" then none
          else some (.str (getParam params "Device.DeviceInfo.MemoryStatus.Free"))) ∧
      mapGet (c.paramsValmap ps params now) "memory_free" =
        (if getParam params "Device.DeviceInfo.MemoryStatus.Total" = "" then none
          else some (.str (getParam params "Device.DeviceInfo.MemoryStatus.Total")))) :=
  ⟨informValmap_memory c msg now, paramsValmap_memory ps c params now⟩

/-- For a device that reports 1000 units of memory in all and 400 free, both
normalizers write `memory_total` = 400 and `memory_free` = 1000. -/
theorem normalizer_memory_sample :
    mapGet ((sampleInformedCpe 0).informValmap (sampleInformOf "ZTE" sampleMemoryParams) 0)
        "memory_total" = some (.str "400") ∧
      mapGet ((sampleInformedCpe 0).informValmap (sampleInformOf "ZTE" sampleMemoryParams) 0)
        "memory_free" = some (.str "1000") ∧
      mapGet ((sampleInformedCpe 0).paramsValmap sampleScan sampleMemoryParams 0)
        "memory_total" = some (.str "400") ∧
      mapGet ((sampleInformedCpe 0).paramsValmap sampleScan sampleMemoryParams 0)
        "memory_free" = some (.str "1000") := by
  have h1 := informValmap_memory (sampleInformedCpe 0) (sampleInformOf "ZTE" sampleMemoryParams) 0
  have h2 := paramsValmap_memory sampleScan (sampleInformedCpe 0) sampleMemoryParams 0
  have e1 : getInformParam (sampleInformOf "ZTE" sampleMemoryParams)
      "Device.DeviceInfo.MemoryStatus.Free"
      "InternetGatewayDevice.DeviceInfo.MemoryStatus.Free" = "400" := by decide
  have e2 : getInformParam (sampleInformOf "ZTE" sampleMemoryParams)
      "Device.DeviceInfo.MemoryStatus.Total"
      "InternetGatewayDevice.DeviceInfo.MemoryStatus.Total" = "1000" := by decide
  have e3 : getParam sampleMemoryParams "Device.DeviceInfo.MemoryStatus.Free" = "400" := by
    decide
  have e4 : getParam sampleMemoryParams "Device.DeviceInfo.MemoryStatus.Total" = "1000" := by
    decide
  rw [e1, e2] at h1
  rw [e3, e4] at h2
  exact ⟨h1.1, h1.2, h2.1, h2.2⟩

/-- For a Mikrotik device `applyVendorSpecificParams` only writes `arch_name`
and `system_name`. -/
theorem applyVendorSpecificParams_mikrotik (c : CwmpCpe) (m : GoMap Value) (msg : Inform)
    (k : String) (hm : Contains (ToLower c.Manufacturer) "mikrotik" = true)
    (h0 : k ≠ "arch_name") (h1 : k ≠ "system_name") :
    mapGet (c.applyVendorSpecificParams m msg) k = mapGet m k := by
  unfold CwmpCpe.applyVendorSpecificParams
  simp only [hm, if_true]
  rw [mapGet_setMapValue_ne _ _ _ _ h1, mapGet_setMapValue_ne _ _ _ _ h0]

/-- The write of `OnInformUpdate` for an entry that holds an Inform. -/
theorem OnInformUpdate_done (c : CwmpCpe) (msg : Inform) (now : Time)
    (hmsg : c.LastInform = some msg) :
    c.OnInformUpdate now = .done [DbOp.Updates c.Sn (c.informValmap msg now)] := by
  unfold CwmpCpe.OnInformUpdate
  simp only [hmsg]
  have h := informValmap_ne_nil c msg now
  have hl : (c.informValmap msg now).length > 0 := List.length_pos.mpr h
  rw [if_pos hl]

/-- C25 (what the code does): for a Mikrotik device with a serial number, the
update built by `OnInformUpdate` holds the ONT column `pon_sn_hex`, set to the
serial number by the fallback after the vendor switch; the three other ONT
columns are not in the update. -/
theorem OnInformUpdate_mikrotik_pon_sn_hex (c : CwmpCpe) (msg : Inform) (now : Time)
    (hm : Contains (ToLower c.Manufacturer) "mikrotik" = true)
    (hmsg : c.LastInform = some msg) (hsn : c.Sn ≠ "") :
    ∃ valmap, c.OnInformUpdate now = .done [DbOp.Updates c.Sn valmap] ∧
      mapGet valmap "pon_sn_hex" = some (.str c.Sn) ∧
      mapGet valmap "fiber_rx_power" = none ∧ mapGet valmap "fiber_tx_power" = none ∧
      mapGet valmap "olt_uplink" = none := by
  refine ⟨_, OnInformUpdate_done c msg now hmsg, ?_⟩
  unfold CwmpCpe.informValmap
  simp only
  have hv : ∀ m k, k ≠ "arch_name" → k ≠ "system_name" →
      mapGet (c.applyVendorSpecificParams m msg) k = mapGet m k :=
    fun m k h0 h1 => applyVendorSpecificParams_mikrotik c m msg k hm h0 h1
  have hpon : ∀ m, mapGet (c.applyVendorSpecificParams m msg) "pon_sn_hex" =
      mapGet m "pon_sn_hex" := fun m => hv m _ (by decide) (by decide)
  have hrx : ∀ m, mapGet (c.applyVendorSpecificParams m msg) "fiber_rx_power" =
      mapGet m "fiber_rx_power" := fun m => hv m _ (by decide) (by decide)
  have htx : ∀ m, mapGet (c.applyVendorSpecificParams m msg) "fiber_tx_power" =
      mapGet m "fiber_tx_power" := fun m => hv m _ (by decide) (by decide)
  have holt : ∀ m, mapGet (c.applyVendorSpecificParams m msg) "olt_uplink" =
      mapGet m "olt_uplink" := fun m => hv m _ (by decide) (by decide)
  simp [hpon, hrx, htx, holt, mapGet_setMapValue, mapGet, hsn, mapGet_mapSet]

/-- C25, at a Mikrotik router with the serial number `ABC123` and an Inform
without parameters. -/
theorem OnInformUpdate_mikrotik_pon_sn_hex_witness :
    ∃ valmap, (sampleMikrotikCpe (sampleInformOf "MikroTik" [])).OnInformUpdate 0 =
        .done [DbOp.Updates "ABC123" valmap] ∧
      mapGet valmap "pon_sn_hex" = some (.str "ABC123") ∧
      mapGet valmap "fiber_rx_power" = none ∧ mapGet valmap "fiber_tx_power" = none ∧
      mapGet valmap "olt_uplink" = none :=
  OnInformUpdate_mikrotik_pon_sn_hex (sampleMikrotikCpe (sampleInformOf "MikroTik" []))
    (sampleInformOf "MikroTik" []) 0 (by decide) rfl (by decide)

/-- The function `getInformParam` gives a text when one of its two paths has
one. -/
theorem getInformParam_ne (msg : Inform) (a b : String) (hb : b ≠ "") :
    getInformParam msg a b ≠ "" ↔ msg.GetParam a ≠ "" ∨ msg.GetParam b ≠ "" := by
  unfold getInformParam
  by_cases ha : msg.GetParam a = ""
  · simp [ha, hb]
  · simp [ha]

/-- With an optical power in the Inform, the branch for other vendors writes
the device type `ont`. -/
theorem applyGenericParams_device_type (m : GoMap Value) (msg : Inform)
    (hopt : ∃ p ∈ opticalPowerPaths, msg.GetParam p ≠ "") :
    mapGet (applyGenericParams m msg) "device_type" = some (.str DeviceTypeONT) := by
  have hrx := getInformParam_ne msg "Device.Optical.Interface.1.RxPower"
    "InternetGatewayDevice.DeviceInfo.XponInterface.RXPower" (by decide)
  have htx := getInformParam_ne msg "Device.Optical.Interface.1.TxPower"
    "InternetGatewayDevice.DeviceInfo.XponInterface.TXPower" (by decide)
  have hzrx := getInformParam_ne msg
    "InternetGatewayDevice.WANDevice.1.X_ZTE-COM_WANPONInterfaceConfig.RXPower"
    "InternetGatewayDevice.WANDevice.2.X_ZTE-COM_WANPONInterfaceConfig.RXPower" (by decide)
  have hztx := getInformParam_ne msg
    "InternetGatewayDevice.WANDevice.1.X_ZTE-COM_WANPONInterfaceConfig.TXPower"
    "InternetGatewayDevice.WANDevice.2.X_ZTE-COM_WANPONInterfaceConfig.TXPower" (by decide)
  have hcond :
      (if getInformParam msg "Device.Optical.Interface.1.RxPower"
            "InternetGatewayDevice.DeviceInfo.XponInterface.RXPower" = "" then
          getInformParam msg
            "InternetGatewayDevice.WANDevice.1.X_ZTE-COM_WANPONInterfaceConfig.RXPower"
            "InternetGatewayDevice.WANDevice.2.X_ZTE-COM_WANPONInterfaceConfig.RXPower"
        else getInformParam msg "Device.Optical.Interface.1.RxPower"
            "InternetGatewayDevice.DeviceInfo.XponInterface.RXPower") ≠ "" ∨
      (if getInformParam msg "Device.Optical.Interface.1.TxPower"
            "InternetGatewayDevice.DeviceInfo.XponInterface.TXPower" = "" then
          getInformParam msg
            "InternetGatewayDevice.WANDevice.1.X_ZTE-COM_WANPONInterfaceConfig.TXPower"
            "InternetGatewayDevice.WANDevice.2.X_ZTE-COM_WANPONInterfaceConfig.TXPower"
        else getInformParam msg "Device.Optical.Interface.1.TxPower"
            "InternetGatewayDevice.DeviceInfo.XponInterface.TXPower") ≠ "" := by
    obtain ⟨p, hp, hne⟩ := hopt
    simp only [opticalPowerPaths, List.mem_cons, List.mem_singleton, List.not_mem_nil,
      or_false] at hp
    by_cases h1 : getInformParam msg "Device.Optical.Interface.1.RxPower"
        "InternetGatewayDevice.DeviceInfo.XponInterface.RXPower" = ""
    · by_cases h2 : getInformParam msg "Device.Optical.Interface.1.TxPower"
          "InternetGatewayDevice.DeviceInfo.XponInterface.TXPower" = ""
      · rw [if_pos h1, if_pos h2, hzrx, hztx]
        have h1n : ¬ (msg.GetParam "Device.Optical.Interface.1.RxPower" ≠ "" ∨
            msg.GetParam "InternetGatewayDevice.DeviceInfo.XponInterface.RXPower" ≠ "") :=
          fun h => (hrx.mpr h) h1
        have h2n : ¬ (msg.GetParam "Device.Optical.Interface.1.TxPower" ≠ "" ∨
            msg.GetParam "InternetGatewayDevice.DeviceInfo.XponInterface.TXPower" ≠ "") :=
          fun h => (htx.mpr h) h2
        rcases hp with e | e | e | e | e | e | e | e <;> rw [e] at hne
        · exact absurd (Or.inl hne) h1n
        · exact absurd (Or.inr hne) h1n
        · exact Or.inl (Or.inl hne)
        · exact Or.inl (Or.inr hne)
        · exact absurd (Or.inl hne) h2n
        · exact absurd (Or.inr hne) h2n
        · exact Or.inr (Or.inl hne)
        · exact Or.inr (Or.inr hne)
      · right
        rw [if_neg h2]
        exact h2
    · left
      rw [if_neg h1]
      exact h1
  unfold applyGenericParams
  simp only
  rw [if_pos hcond, mapGet_setMapValue_self _ _ _ (by decide)]
  rw [if_neg (by decide)]

/-- C26 (what the code does): for every device that is not a Mikrotik and
every Inform that carries an optical RX or TX power, the update built by
`OnInformUpdate` holds `device_type` = `ont`, whatever the type stored for the
device: a stored type `gateway` becomes `ont`. -/
theorem OnInformUpdate_optical_device_type (c : CwmpCpe) (msg : Inform) (now : Time)
    (hm : Contains (ToLower c.Manufacturer) "mikrotik" = false)
    (hmsg : c.LastInform = some msg)
    (hopt : ∃ p ∈ opticalPowerPaths, msg.GetParam p ≠ "") :
    ∃ valmap, c.OnInformUpdate now = .done [DbOp.Updates c.Sn valmap] ∧
      mapGet valmap "device_type" = some (.str DeviceTypeONT) ∧
      ∀ stored, updatedDeviceType stored valmap = DeviceTypeONT := by
  refine ⟨_, OnInformUpdate_done c msg now hmsg, ?_⟩
  have hget : mapGet (c.informValmap msg now) "device_type" = some (.str DeviceTypeONT) := by
    unfold CwmpCpe.informValmap
    simp only
    have hv : ∀ m, mapGet (c.applyVendorSpecificParams m msg) "device_type" =
        some (.str DeviceTypeONT) := by
      intro m
      unfold CwmpCpe.applyVendorSpecificParams
      simp only [hm, Bool.false_eq_true, if_false]
      exact applyGenericParams_device_type m msg hopt
    split_ifs
    · rw [mapGet_mapSet_ne _ _ _ _ (by decide)]
      exact hv _
    · exact hv _
  refine ⟨hget, ?_⟩
  intro stored
  unfold updatedDeviceType
  rw [hget]

/-- C26, at a ZTE device whose Inform carries the RX power `-20`: the update
sets the type to `ont`, also over a stored `gateway`. -/
theorem OnInformUpdate_optical_device_type_witness :
    ∃ valmap,
      ({ sampleInformedCpe 0 with
          LastInform := some (sampleInformOf "ZTE"
            [("Device.Optical.Interface.1.RxPower", "-20")]) }).OnInformUpdate 0 =
        .done [DbOp.Updates "ABC123" valmap] ∧
      mapGet valmap "device_type" = some (.str DeviceTypeONT) ∧
      updatedDeviceType DeviceTypeGateway valmap = DeviceTypeONT := by
  obtain ⟨valmap, h1, h2, h3⟩ := OnInformUpdate_optical_device_type
    { sampleInformedCpe 0 with
      LastInform := some (sampleInformOf "ZTE" [("Device.Optical.Interface.1.RxPower", "-20")]) }
    (sampleInformOf "ZTE" [("Device.Optical.Interface.1.RxPower", "-20")]) 0
    (by decide) rfl ⟨"Device.Optical.Interface.1.RxPower", by decide, by decide⟩
  exact ⟨valmap, h1, h2, h3 _⟩


/-- A map of the TR-181 data model gives the empty text at every path that
begins with `InternetGatewayDevice.`. -/
theorem getParam_tr098 (params : GoMap String) (h : isTr181Map params) (name : String)
    (hn : HasPrefix name "InternetGatewayDevice." = true) : getParam params name = "" := by
  unfold getParam
  cases hg : mapGet params name with
  | none => rfl
  | some v =>
    have hm := mem_of_mapGet_some _ _ _ hg
    have hf := h _ hm
    rw [hn] at hf
    exact Bool.noConfusion hf

/-- On an Inform of the TR-181 data model `getInformParam` reads the TR-181
path. -/
theorem getInformParam_tr181 (msg : Inform) (h : isTr181Map msg.Params) (a b : String)
    (hb : HasPrefix b "InternetGatewayDevice." = true) :
    getInformParam msg a b = getParam msg.Params a := by
  unfold getInformParam
  simp only [GetParam_eq_getParam, getParam_tr098 msg.Params h b hb]
  split_ifs with hc
  · exact hc.1.symm
  · rfl

/-- Two column maps that agree at a column still agree there after the first
block of the branch for other vendors. -/
theorem fromMapOnt_congr (m1 m2 : GoMap Value) (params : GoMap String) (F : String)
    (h : mapGet m1 F = mapGet m2 F) :
    mapGet (fromMapOnt m1 params) F = mapGet (fromMapOnt m2 params) F := by
  unfold fromMapOnt
  simp only
  exact setMapValue_congr _ _ _ _ _ (setMapValue_congr _ _ _ _ _ (setMapValue_congr _ _ _ _ _
    (setMapValue_congr _ _ _ _ _ (setMapValue_congr _ _ _ _ _ h))))

/-- On a map of the TR-181 data model the block `Uptime & CPU` writes
nothing. -/
theorem fromMapUptimeCpu_tr181 (m : GoMap Value) (params : GoMap String)
    (h : isTr181Map params) : fromMapUptimeCpu m params = m := by
  unfold fromMapUptimeCpu
  simp [getParam_tr098 params h "InternetGatewayDevice.DeviceInfo.UpTime" (by decide),
    getParam_tr098 params h "InternetGatewayDevice.DeviceInfo.ProcessStatus.CPUUsage"
      (by decide),
    getParam_tr098 params h "InternetGatewayDevice.DeviceInfo.X_CMS_CPUUsage" (by decide)]

/-- On a map of the TR-181 data model the block `TR-098 fallbacks` writes
nothing. -/
theorem fromMapTr098_tr181 (m : GoMap Value) (params : GoMap String)
    (h : isTr181Map params) : fromMapTr098 m params = m := by
  unfold fromMapTr098
  simp [getParam_tr098 params h "InternetGatewayDevice.DeviceInfo.XponInterface.RXPower"
      (by decide),
    getParam_tr098 params h "InternetGatewayDevice.DeviceInfo.XponInterface.TXPower"
      (by decide), setMapValue_empty]

/-- On a map of the TR-181 data model the block `ZTE fallback` writes
nothing. -/
theorem fromMapZte_tr181 (m : GoMap Value) (params : GoMap String)
    (h : isTr181Map params) : fromMapZte m params = m := by
  unfold fromMapZte
  simp [getParam_tr098 params h
      "InternetGatewayDevice.WANDevice.1.X_ZTE-COM_WANPONInterfaceConfig.RXPower" (by decide),
    getParam_tr098 params h
      "InternetGatewayDevice.WANDevice.2.X_ZTE-COM_WANPONInterfaceConfig.RXPower" (by decide),
    getParam_tr098 params h
      "InternetGatewayDevice.WANDevice.1.X_ZTE-COM_WANPONInterfaceConfig.TXPower" (by decide),
    getParam_tr098 params h
      "InternetGatewayDevice.WANDevice.2.X_ZTE-COM_WANPONInterfaceConfig.TXPower" (by decide),
    setMapValue_empty]

/-- On a map of the TR-181 data model the branch of
`applyVendorSpecificParamsFromMap` for other vendors leaves, at every column
but the three summaries, what its first block leaves. -/
theorem applyGenericParamsFromMap_tr181 (ps : ParamScan) (m : GoMap Value)
    (params : GoMap String) (h : isTr181Map params) (k : String)
    (hk : k ∉ ["wifi_ssid", "wan_info", "lan_clients"]) :
    mapGet (applyGenericParamsFromMap ps m params) k = mapGet (fromMapOnt m params) k := by
  unfold applyGenericParamsFromMap
  simp only
  rw [fromMapSummaries_other _ _ _ _ hk, fromMapZte_tr181 _ _ h, fromMapTr098_tr181 _ _ h,
    fromMapUptimeCpu_tr181 _ _ h]

/-- On an Inform of the TR-181 data model the branch of
`applyVendorSpecificParams` for other vendors leaves, at every column but
`device_type`, what the first block of the other normalizer leaves. -/
theorem applyGenericParams_tr181 (m : GoMap Value) (msg : Inform)
    (h : isTr181Map msg.Params) (k : String) (hk : k ≠ "device_type") :
    mapGet (applyGenericParams m msg) k = mapGet (fromMapOnt m msg.Params) k := by
  have e1 := getInformParam_tr181 msg h "Device.DeviceInfo.ModelName"
    "InternetGatewayDevice.DeviceInfo.ModelName" (by decide)
  have e2 := getInformParam_tr181 msg h "Device.Optical.Interface.1.RxPower"
    "InternetGatewayDevice.DeviceInfo.XponInterface.RXPower" (by decide)
  have e3 := getInformParam_tr181 msg h "Device.Optical.Interface.1.TxPower"
    "InternetGatewayDevice.DeviceInfo.XponInterface.TXPower" (by decide)
  have e4 := getInformParam_tr181 msg h "Device.DeviceInfo.SerialNumber"
    "InternetGatewayDevice.DeviceInfo.SerialNumber" (by decide)
  have e5 := getInformParam_tr181 msg h "Device.Optical.Interface.1.UpperLayers"
    "InternetGatewayDevice.DeviceInfo.XponInterface.OLTInfo" (by decide)
  have e6 : getInformParam msg
      "InternetGatewayDevice.WANDevice.1.X_ZTE-COM_WANPONInterfaceConfig.RXPower"
      "InternetGatewayDevice.WANDevice.2.X_ZTE-COM_WANPONInterfaceConfig.RXPower" = "" := by
    rw [getInformParam_tr181 msg h _ _ (by decide)]
    exact getParam_tr098 _ h _ (by decide)
  have e7 : getInformParam msg
      "InternetGatewayDevice.WANDevice.1.X_ZTE-COM_WANPONInterfaceConfig.TXPower"
      "InternetGatewayDevice.WANDevice.2.X_ZTE-COM_WANPONInterfaceConfig.TXPower" = "" := by
    rw [getInformParam_tr181 msg h _ _ (by decide)]
    exact getParam_tr098 _ h _ (by decide)
  unfold applyGenericParams fromMapOnt
  simp only [e1, e2, e3, e4, e5, e6, e7]
  split_ifs <;> simp only [setMapValue_empty, mapGet_setMapValue_ne _ _ _ _ hk]

/-- Two column maps that agree at a common column still agree there after the
vendor-specific step of each normalizer, on a parameter map of the TR-181 data
model. -/
theorem vendor_agree (ps : ParamScan) (c : CwmpCpe) (msg : Inform) (m1 m2 : GoMap Value)
    (h : isTr181Map msg.Params) (F : String) (hF : F ∈ commonColumns)
    (hm : mapGet m1 F = mapGet m2 F) :
    mapGet (c.applyVendorSpecificParams m1 msg) F =
      mapGet (c.applyVendorSpecificParamsFromMap ps m2 msg.Params) F := by
  have hF1 : F ≠ "device_type" := by
    intro e
    rw [e] at hF
    revert hF
    decide
  have hF2 : F ∉ ["wifi_ssid", "wan_info", "lan_clients"] := by
    intro hx
    simp only [List.mem_cons, List.mem_singleton, List.not_mem_nil, or_false] at hx
    rcases hx with e | e | e <;>
    · rw [e] at hF
      revert hF
      decide
  unfold CwmpCpe.applyVendorSpecificParams CwmpCpe.applyVendorSpecificParamsFromMap
  simp only
  split_ifs
  · simp only [GetParam_eq_getParam]
    exact setMapValue_congr _ _ _ _ _ (setMapValue_congr _ _ _ _ _ hm)
  · rw [applyGenericParams_tr181 _ _ h _ hF1, applyGenericParamsFromMap_tr181 _ _ _ h _ hF2]
    exact fromMapOnt_congr _ _ _ _ hm


/-- C23 (counterexample): for the ZTE device `ABC123` and the TR-098
parameter `InternetGatewayDevice.DeviceInfo.SoftwareVersion` = `V1.0`,
`OnInformUpdate` writes `software_version`, `manufacturer` and `pon_sn_hex`
and `OnParamsUpdate` writes none of them; for the TR-181 parameter
`Device.Optical.Interface.1.RxPower` = `-20`, `OnInformUpdate` writes
`device_type` and `OnParamsUpdate` does not. -/
theorem normalizers_differ_counterexample :
    (mapGet ((sampleInformedCpe 0).informValmap (sampleInform [] 0) 0) "software_version" =
        some (.str "V1.0") ∧
      mapGet ((sampleInformedCpe 0).paramsValmap sampleScan (sampleInform [] 0).Params 0)
        "software_version" = none) ∧
    (mapGet ((sampleInformedCpe 0).informValmap (sampleInform [] 0) 0) "manufacturer" =
        some (.str "ZTE") ∧
      mapGet ((sampleInformedCpe 0).paramsValmap sampleScan (sampleInform [] 0).Params 0)
        "manufacturer" = none) ∧
    (mapGet ((sampleInformedCpe 0).informValmap (sampleInform [] 0) 0) "pon_sn_hex" =
        some (.str "ABC123") ∧
      mapGet ((sampleInformedCpe 0).paramsValmap sampleScan (sampleInform [] 0).Params 0)
        "pon_sn_hex" = none) ∧
    (mapGet ((sampleInformedCpe 0).informValmap
        (sampleInformOf "ZTE" [("Device.Optical.Interface.1.RxPower", "-20")]) 0)
        "device_type" = some (.str "ont") ∧
      mapGet ((sampleInformedCpe 0).paramsValmap sampleScan
        [("Device.Optical.Interface.1.RxPower", "-20")] 0) "device_type" = none) := by
  decide

/-- C23 (amended): for every device and every parameter map of the TR-181
data model (no path begins with `InternetGatewayDevice.`), each of the columns
`cwmp_status`, `cwmp_url`, `software_version`, `hardware_version`, `model`,
`uptime`, `cpu_usage`, `memory_total`, `memory_free`, `arch_name`,
`system_name`, `fiber_rx_power`, `fiber_tx_power` and `olt_uplink` is written
by `OnParamsUpdate` for the map exactly when it is written by `OnInformUpdate`
for an Inform that carries the map, and with the same value. -/
theorem normalizers_agree_tr181 (ps : ParamScan) (c : CwmpCpe) (msg : Inform)
    (now now2 : Time) (h : isTr181Map msg.Params) :
    ∀ F ∈ commonColumns,
      mapGet (c.informValmap msg now) F = mapGet (c.paramsValmap ps msg.Params now2) F := by
  intro F hF
  have e1 := getInformParam_tr181 msg h "Device.ManagementServer.ConnectionRequestURL"
    "InternetGatewayDevice.ManagementServer.ConnectionRequestURL" (by decide)
  have e2 := getInformParam_tr181 msg h "Device.DeviceInfo.SoftwareVersion"
    "InternetGatewayDevice.DeviceInfo.SoftwareVersion" (by decide)
  have e3 := getInformParam_tr181 msg h "Device.DeviceInfo.HardwareVersion"
    "InternetGatewayDevice.DeviceInfo.HardwareVersion" (by decide)
  have e4 := getInformParam_tr181 msg h "Device.DeviceInfo.ModelName"
    "InternetGatewayDevice.DeviceInfo.ModelName" (by decide)
  have e5 := getInformParam_tr181 msg h "Device.DeviceInfo.UpTime"
    "InternetGatewayDevice.DeviceInfo.UpTime" (by decide)
  have e6 := getInformParam_tr181 msg h "Device.DeviceInfo.ProcessStatus.CPUUsage"
    "InternetGatewayDevice.DeviceInfo.ProcessStatus.CPUUsage" (by decide)
  have e7 := getInformParam_tr181 msg h "Device.DeviceInfo.MemoryStatus.Free"
    "InternetGatewayDevice.DeviceInfo.MemoryStatus.Free" (by decide)
  have e8 := getInformParam_tr181 msg h "Device.DeviceInfo.MemoryStatus.Total"
    "InternetGatewayDevice.DeviceInfo.MemoryStatus.Total" (by decide)
  have hpon : F ≠ "pon_sn_hex" := by
    intro e
    rw [e] at hF
    revert hF
    decide
  unfold CwmpCpe.informValmap CwmpCpe.paramsValmap
  simp only [e1, e2, e3, e4, e5, e6, e7, e8]
  have hbase : ∀ m1 m2 : GoMap Value, mapGet m1 F = mapGet m2 F →
      mapGet (if (mapGet (c.applyVendorSpecificParams m1 msg) "pon_sn_hex").isNone = true ∧
            c.Sn ≠ "" then
          mapSet (c.applyVendorSpecificParams m1 msg) "pon_sn_hex" (.str c.Sn)
        else c.applyVendorSpecificParams m1 msg) F =
      mapGet (c.applyVendorSpecificParamsFromMap ps m2 msg.Params) F := by
    intro m1 m2 hm
    split_ifs
    · rw [mapGet_mapSet_ne _ _ _ _ hpon]
      exact vendor_agree ps c msg m1 m2 h F hF hm
    · exact vendor_agree ps c msg m1 m2 h F hF hm
  apply hbase
  simp only [commonColumns, List.mem_cons, List.mem_singleton, List.not_mem_nil,
    or_false] at hF
  rcases hF with e | e | e | e | e | e | e | e | e | e | e | e | e | e <;> subst e <;>
    simp [mapGet_setMapValue, mapGet]

/-- C23 (amended), at a Mikrotik router and a map that gives the software
version `7.1` at its TR-181 path: both normalizers write it. -/
theorem normalizers_agree_tr181_witness :
    mapGet ((sampleMikrotikCpe (sampleInformOf "MikroTik"
        [("Device.DeviceInfo.SoftwareVersion", "7.1")])).informValmap
        (sampleInformOf "MikroTik" [("Device.DeviceInfo.SoftwareVersion", "7.1")]) 0)
        "software_version" =
      mapGet ((sampleMikrotikCpe (sampleInformOf "MikroTik"
        [("Device.DeviceInfo.SoftwareVersion", "7.1")])).paramsValmap sampleScan
        (sampleInformOf "MikroTik" [("Device.DeviceInfo.SoftwareVersion", "7.1")]).Params 5)
        "software_version" ∧
    mapGet ((sampleMikrotikCpe (sampleInformOf "MikroTik"
        [("Device.DeviceInfo.SoftwareVersion", "7.1")])).paramsValmap sampleScan
        (sampleInformOf "MikroTik" [("Device.DeviceInfo.SoftwareVersion", "7.1")]).Params 5)
        "software_version" = some (.str "7.1") :=
  ⟨normalizers_agree_tr181 sampleScan _ _ 0 5 (by
      intro kv hkv
      simp only [sampleInformOf, List.mem_singleton] at hkv
      rw [hkv]
      decide) "software_version" (by decide), by decide⟩

/-! ## Theorems: the parameter records -/

/-- A string contains each of its prefixes. -/
theorem Contains_of_HasPrefix (s pre : String) (h : HasPrefix s pre = true) :
    Contains s pre = true := by
  unfold Contains
  unfold HasPrefix at h
  rw [List.any_eq_true]
  refine ⟨s.toList, ?_, h⟩
  cases s.toList <;> simp [List.tails]

/-- One case of a `switch` over a list of candidates: the first candidate
that passes the test. -/
theorem find_step (p : String → Bool) (g : String) (l : List String) (d r : String)
    (h : r = ((l.find? p).getD d)) :
    (if p g = true then g else r) = (((g :: l).find? p).getD d) := by
  cases hp : p g <;> simp [List.find?, hp, h]

/-- The tag of a path is the first group, in the order of the `switch`, that
occurs in the path, and empty when none occurs. -/
theorem rundataTag_eq_find (k : String) :
    rundataTag k = ((rundataGroups.find? (fun g => Contains k g)).getD "") := by
  unfold rundataTag rundataGroups
  repeat (refine find_step (fun g => Contains k g) _ _ _ _ ?_)
  rfl

/-- The tag of a path is empty or occurs in the path. -/
theorem rundataTag_contains (k : String) :
    rundataTag k = "" ∨ Contains k (rundataTag k) = true := by
  rw [rundataTag_eq_find]
  cases h : rundataGroups.find? (fun g => Contains k g) with
  | none => exact Or.inl rfl
  | some g =>
    right
    simp only [Option.getD_some]
    exact List.find?_some h

/-- A path in which a group occurs, and none of the groups listed before it,
has that group as tag. -/
theorem rundataTag_first (k g : String) (l1 l2 : List String)
    (hl : rundataGroups = l1 ++ g :: l2) (hbefore : ∀ g2 ∈ l1, Contains k g2 = false)
    (hg : Contains k g = true) : rundataTag k = g := by
  rw [rundataTag_eq_find, hl, List.find?_append]
  have h1 : List.find? (fun g => Contains k g) l1 = none := by
    rw [List.find?_eq_none]
    intro x hx
    rw [hbefore x hx]
    exact Bool.false_ne_true
  rw [h1]
  simp [List.find?, hg]

/-- Appending the same string in front is one-to-one. -/
theorem append_left_cancel_string (a b c : String) (h : a ++ b = a ++ c) : b = c := by
  have h2 := congrArg String.data h
  simp only [String.data_append, List.append_cancel_left_eq] at h2
  exact String.ext h2

/-- C22 (counterexample): the TR-098 path
`InternetGatewayDevice.DeviceInfo.UpTime` gets the tag `Device.DeviceInfo.`,
which is not a prefix of the path; and a path that begins with `Device.WiFi.`
and holds `Device.DeviceInfo.` further on gets the tag `Device.DeviceInfo.`. -/
theorem UpdateCwmpCpeRundata_tag_counterexample :
    (UpdateCwmpCpeRundata id (fun _ => 0) "ABC123"
        [("InternetGatewayDevice.DeviceInfo.UpTime", "42")]).map (fun r => (r.Name, r.Tag)) =
        [("InternetGatewayDevice.DeviceInfo.UpTime", "Device.DeviceInfo.")] ∧
      HasPrefix "InternetGatewayDevice.DeviceInfo.UpTime" "Device.DeviceInfo." = false ∧
      HasPrefix "Device.WiFi.X_Device.DeviceInfo.Copy" "Device.WiFi." = true ∧
      rundataTag "Device.WiFi.X_Device.DeviceInfo.Copy" = "Device.DeviceInfo." := by
  decide

/-- The row that the loop of `UpdateCwmpCpeRundata` builds for an entry of the
map. -/
theorem rundataVisit_cases (Md5Hash : String → String) (now : String → Time) (sn : String)
    (st : List String × List NetCpeParam) (kv : String × String) :
    (Md5Hash (sn ++ kv.1) ∈ st.1 ∧ rundataVisit Md5Hash now sn st kv = st) ∨
    (Md5Hash (sn ++ kv.1) ∉ st.1 ∧ rundataVisit Md5Hash now sn st kv =
      (st.1 ++ [Md5Hash (sn ++ kv.1)],
        st.2 ++ [({ ID := Md5Hash (sn ++ kv.1), Sn := sn, Tag := rundataTag kv.1
                    Name := kv.1, Value := kv.2, UpdatedAt := now kv.1 } : NetCpeParam)])) := by
  by_cases h : Md5Hash (sn ++ kv.1) ∈ st.1
  · left
    exact ⟨h, by simp [rundataVisit, InSlice, h]⟩
  · right
    exact ⟨h, by simp [rundataVisit, InSlice, h]⟩

/-- The loop of `UpdateCwmpCpeRundata` with any hash: the rows added are those
of some of the entries visited, in the order of the visit; the slice `pids`
holds the ids of the rows and the hash of every entry visited. -/
theorem rundataFold_rows (Md5Hash : String → String) (now : String → Time) (sn : String)
    (l : GoMap String) (st : List String × List NetCpeParam)
    (hst : st.1 = st.2.map (fun r => r.ID)) :
    (l.foldl (rundataVisit Md5Hash now sn) st).1 =
        (l.foldl (rundataVisit Md5Hash now sn) st).2.map (fun r => r.ID) ∧
      (∀ p ∈ st.1, p ∈ (l.foldl (rundataVisit Md5Hash now sn) st).1) ∧
      (∀ kv ∈ l, Md5Hash (sn ++ kv.1) ∈ (l.foldl (rundataVisit Md5Hash now sn) st).1) ∧
      ∃ l1, List.Sublist l1 l ∧
        (l.foldl (rundataVisit Md5Hash now sn) st).2 =
          st.2 ++ l1.map (fun kv => ({ ID := Md5Hash (sn ++ kv.1), Sn := sn
                                       Tag := rundataTag kv.1, Name := kv.1, Value := kv.2
                                       UpdatedAt := now kv.1 } : NetCpeParam)) := by
  induction l generalizing st with
  | nil => exact ⟨hst, fun _ h => h, fun _ h => absurd h (List.not_mem_nil _), [], List.Sublist.slnil, by simp⟩
  | cons kv rest ih =>
    rw [List.foldl_cons]
    rcases rundataVisit_cases Md5Hash now sn st kv with ⟨hin, hv⟩ | ⟨_, hv⟩
    · rw [hv]
      obtain ⟨h1, h2, h3, l1, hl1, h4⟩ := ih st hst
      refine ⟨h1, h2, ?_, l1, List.Sublist.cons _ hl1, h4⟩
      intro kv2 hkv2
      rcases List.mem_cons.mp hkv2 with he | he
      · subst he
        exact h2 _ hin
      · exact h3 _ he
    · rw [hv]
      have hst2 : (st.1 ++ [Md5Hash (sn ++ kv.1)]) =
          (st.2 ++ [({ ID := Md5Hash (sn ++ kv.1), Sn := sn, Tag := rundataTag kv.1
                       Name := kv.1, Value := kv.2, UpdatedAt := now kv.1 } : NetCpeParam)]).map
            (fun r => r.ID) := by
        simp [hst]
      obtain ⟨h1, h2, h3, l1, hl1, h4⟩ := ih (st.1 ++ [Md5Hash (sn ++ kv.1)],
        st.2 ++ [({ ID := Md5Hash (sn ++ kv.1), Sn := sn, Tag := rundataTag kv.1
                    Name := kv.1, Value := kv.2, UpdatedAt := now kv.1 } : NetCpeParam)]) hst2
      refine ⟨h1, ?_, ?_, kv :: l1, List.Sublist.cons₂ _ hl1, ?_⟩
      · intro p hp
        exact h2 _ (List.mem_append_left _ hp)
      · intro kv2 hkv2
        rcases List.mem_cons.mp hkv2 with he | he
        · subst he
          exact h2 _ (List.mem_append_right _ (List.mem_singleton_self _))
        · exact h3 _ he
      · rw [h4]
        simp

/-- The loop of `UpdateCwmpCpeRundata`, after the entries `done` of a map
with pairwise distinct paths whose hashes with the serial number are pairwise
distinct too, adds one row for each entry that it visits. -/
theorem rundataFold (Md5Hash : String → String) (now : String → Time) (sn : String)
    (l done : GoMap String)
    (hinj : ∀ k1 ∈ mapKeys (done ++ l), ∀ k2 ∈ mapKeys (done ++ l),
      Md5Hash (sn ++ k1) = Md5Hash (sn ++ k2) → k1 = k2)
    (hnd : (mapKeys (done ++ l)).Nodup) :
    l.foldl (rundataVisit Md5Hash now sn)
        (done.map (fun kv => Md5Hash (sn ++ kv.1)),
          done.map (fun kv => ({ ID := Md5Hash (sn ++ kv.1), Sn := sn, Tag := rundataTag kv.1
                                 Name := kv.1, Value := kv.2
                                 UpdatedAt := now kv.1 } : NetCpeParam))) =
      ((done ++ l).map (fun kv => Md5Hash (sn ++ kv.1)),
        (done ++ l).map (fun kv => ({ ID := Md5Hash (sn ++ kv.1), Sn := sn
                                      Tag := rundataTag kv.1, Name := kv.1, Value := kv.2
                                      UpdatedAt := now kv.1 } : NetCpeParam))) := by
  induction l generalizing done with
  | nil => simp
  | cons kv rest ih =>
    rw [List.foldl_cons]
    have hnew : InSlice (Md5Hash (sn ++ kv.1))
        (done.map (fun kv => Md5Hash (sn ++ kv.1))) = false := by
      unfold InSlice
      rw [decide_eq_false_iff_not]
      intro hmem
      obtain ⟨kv2, hkv2, he⟩ := List.mem_map.mp hmem
      have hk : kv2.1 = kv.1 := by
        apply hinj _ _ _ _ he
        · simp only [mapKeys, List.map_append, List.mem_append]
          exact Or.inl (List.mem_map.mpr ⟨kv2, hkv2, rfl⟩)
        · simp only [mapKeys, List.map_append, List.mem_append, List.map_cons]
          exact Or.inr (List.mem_cons_self _ _)
      simp only [mapKeys, List.map_append, List.map_cons] at hnd
      have hd := (List.nodup_append.mp hnd).2.2
      exact hd (List.mem_map.mpr ⟨kv2, hkv2, rfl⟩) (by rw [hk]; exact List.mem_cons_self _ _)
    have hstep : rundataVisit Md5Hash now sn
        (done.map (fun kv => Md5Hash (sn ++ kv.1)),
          done.map (fun kv => ({ ID := Md5Hash (sn ++ kv.1), Sn := sn, Tag := rundataTag kv.1
                                 Name := kv.1, Value := kv.2
                                 UpdatedAt := now kv.1 } : NetCpeParam))) kv =
        ((done ++ [kv]).map (fun kv => Md5Hash (sn ++ kv.1)),
          (done ++ [kv]).map (fun kv => ({ ID := Md5Hash (sn ++ kv.1), Sn := sn
                                           Tag := rundataTag kv.1, Name := kv.1, Value := kv.2
                                           UpdatedAt := now kv.1 } : NetCpeParam))) := by
      unfold rundataVisit
      simp only [hnew, Bool.false_eq_true, if_false, List.map_append, List.map_cons,
        List.map_nil]
    rw [hstep]
    have hnd2 : (mapKeys ((done ++ [kv]) ++ rest)).Nodup := by
      rw [List.append_assoc]
      exact hnd
    have hinj2 : ∀ k1 ∈ mapKeys ((done ++ [kv]) ++ rest), ∀ k2 ∈ mapKeys ((done ++ [kv]) ++ rest),
        Md5Hash (sn ++ k1) = Md5Hash (sn ++ k2) → k1 = k2 := by
      rw [List.append_assoc]
      exact hinj
    have h := ih (done ++ [kv]) hinj2 hnd2
    rw [List.append_assoc] at h
    exact h

/-- C22 (amended): for every hash, serial number and parameter map,
each row built by `UpdateCwmpCpeRundata` carries the serial number, the hash
of serial number and path as its id, a path of the map with its value, and a
tag that is empty or occurs in the path: the first of the listed groups that
occurs in it. So a path in which a listed group occurs, at its beginning or
elsewhere, and no group listed before it, gets that group as tag. The paths of
the rows are paths of the map, in the order of the visit and none twice, and
every path of the map has a row with its hash as id. When the paths of the map
are pairwise distinct and so are their hashes with the serial number, exactly
one row is built per path. -/
theorem UpdateCwmpCpeRundata_records (Md5Hash : String → String) (now : String → Time)
    (sn : String) (vmap : GoMap String) :
    (∀ r ∈ UpdateCwmpCpeRundata Md5Hash now sn vmap,
      r.Sn = sn ∧ r.ID = Md5Hash (sn ++ r.Name) ∧ (r.Name, r.Value) ∈ vmap ∧
      (r.Tag = "" ∨ Contains r.Name r.Tag = true) ∧
      r.Tag = ((rundataGroups.find? (fun g => Contains r.Name g)).getD "")) ∧
    (∀ k g l1 l2, rundataGroups = l1 ++ g :: l2 → (∀ g2 ∈ l1, Contains k g2 = false) →
      (HasPrefix k g = true ∨ Contains k g = true) → rundataTag k = g) ∧
    List.Sublist ((UpdateCwmpCpeRundata Md5Hash now sn vmap).map (fun r => r.Name))
      (mapKeys vmap) ∧
    (∀ kv ∈ vmap, ∃ r ∈ UpdateCwmpCpeRundata Md5Hash now sn vmap,
      r.ID = Md5Hash (sn ++ kv.1)) ∧
    ((mapKeys vmap).Nodup →
      (∀ k1 ∈ mapKeys vmap, ∀ k2 ∈ mapKeys vmap,
        Md5Hash (sn ++ k1) = Md5Hash (sn ++ k2) → k1 = k2) →
      (UpdateCwmpCpeRundata Md5Hash now sn vmap).map (fun r => r.Name) = mapKeys vmap) := by
  obtain ⟨h1, _, h3, l1, hl1, h4⟩ := rundataFold_rows Md5Hash now sn vmap ([], []) rfl
  have hres : UpdateCwmpCpeRundata Md5Hash now sn vmap =
      l1.map (fun kv => ({ ID := Md5Hash (sn ++ kv.1), Sn := sn, Tag := rundataTag kv.1
                           Name := kv.1, Value := kv.2
                           UpdatedAt := now kv.1 } : NetCpeParam)) := by
    unfold UpdateCwmpCpeRundata
    rw [h4]
    rfl
  refine ⟨?_, ?_, ?_, ?_, ?_⟩
  · intro r hr
    rw [hres] at hr
    obtain ⟨kv, hkv, he⟩ := List.mem_map.mp hr
    subst he
    exact ⟨rfl, rfl, hl1.subset hkv, rundataTag_contains kv.1, rundataTag_eq_find kv.1⟩
  · intro k g l1 l2 hl hbefore hg
    apply rundataTag_first k g l1 l2 hl hbefore
    rcases hg with hg | hg
    · exact Contains_of_HasPrefix k g hg
    · exact hg
  · rw [hres, List.map_map]
    exact List.Sublist.map _ hl1
  · intro kv hkv
    have hmem := h3 kv hkv
    rw [h1] at hmem
    obtain ⟨r, hr, he⟩ := List.mem_map.mp hmem
    exact ⟨r, hr, he⟩
  · intro hnd hinj
    have hfold := rundataFold Md5Hash now sn vmap [] (by simpa using hinj) (by simpa using hnd)
    simp only [List.map_nil, List.nil_append] at hfold
    unfold UpdateCwmpCpeRundata
    rw [hfold, List.map_map]
    rfl

/-- C22 (amended), at the three parameters `Device.DeviceInfo.UpTime`,
`Device.DeviceInfo.ModelName` and `Device.WiFi.SSID.1.SSID` of `ABC123`, with a
hash that has collisions but none among these three: three rows, with the
tags `Device.DeviceInfo.`, `Device.DeviceInfo.` and `Device.WiFi.`. -/
theorem UpdateCwmpCpeRundata_records_witness :
    sampleHash "a" = sampleHash "b" ∧
      (UpdateCwmpCpeRundata sampleHash (fun _ => 0) "ABC123" sampleRundataParams).map
        (fun r => r.Tag) = ["Device.DeviceInfo.", "Device.DeviceInfo.", "Device.WiFi."] ∧
      (UpdateCwmpCpeRundata sampleHash (fun _ => 0) "ABC123" sampleRundataParams).map
        (fun r => r.Name) = mapKeys sampleRundataParams :=
  ⟨by decide, by decide,
    (UpdateCwmpCpeRundata_records sampleHash (fun _ => 0) "ABC123" sampleRundataParams).2.2.2.2
      (by decide) (by decide)⟩

/-! ## Theorems: the task-tag cache -/

/-- Assigning a key that is present keeps the number of entries. -/
theorem length_mapSet_present {V : Type} (m : GoMap V) (k : String) (v w : V)
    (h : mapGet m k = some w) : (mapSet m k v).length = m.length := by
  have h2 := congrArg List.length (mapKeys_mapSet_present m k v w h)
  simpa [mapKeys] using h2

/-- C30 (counterexample): on the empty registry `ClearCwmpCpeCache` of
`ABC123` leaves a registry that holds `ABC123`: one entry in place of none. -/
theorem ClearCwmpCpeCache_creates_counterexample :
    ∃ c1, NewCwmpEventTable.ClearCwmpCpeCache sampleEnv "ABC123" = .done c1 ∧
      c1.ListSn = ["ABC123"] ∧ c1.Size = 1 ∧
      NewCwmpEventTable.ListSn = [] ∧ NewCwmpEventTable.Size = 0 :=
  ⟨_, rfl, rfl, rfl, rfl, rfl⟩

/-- C30 (amended): for every registry and every serial number `sn` that
passes the guard of `GetCwmpCpe`: when the registry holds an entry for `sn`,
`ClearCwmpCpeCache(sn)` keeps the serial numbers and the size of the registry
and every entry but that of `sn`, in which only the task-tag list changes, to
nil; when the registry holds no entry for `sn`, the call adds one. -/
theorem ClearCwmpCpeCache_frame (env : Env) (c : CwmpEventTable) (sn : String)
    (hsn : env.IsEmptyOrNA sn = false) :
    (∀ cpe, mapGet c.cpeTable sn = some cpe →
      ∃ c1, c.ClearCwmpCpeCache env sn = .done c1 ∧ c1.ListSn = c.ListSn ∧
        c1.Size = c.Size ∧ mapGet c1.cpeTable sn = some { cpe with taskTags := none } ∧
        ∀ k, k ≠ sn → mapGet c1.cpeTable k = mapGet c.cpeTable k) ∧
    (mapGet c.cpeTable sn = none →
      ∃ c1, c.ClearCwmpCpeCache env sn = .done c1 ∧ c1.ListSn = c.ListSn ++ [sn] ∧
        c1.Size = c.Size + 1 ∧
        ∀ k, k ≠ sn → mapGet c1.cpeTable k = mapGet c.cpeTable k) := by
  constructor
  · intro cpe hget
    refine ⟨⟨mapSet c.cpeTable sn { cpe with taskTags := none }⟩, ?_, ?_, ?_, ?_, ?_⟩
    · simp [CwmpEventTable.ClearCwmpCpeCache, CwmpEventTable.GetCwmpCpe, hsn, hget,
        CwmpEventTable.setCpe]
    · exact mapKeys_mapSet_present _ _ _ _ hget
    · exact length_mapSet_present _ _ _ _ hget
    · exact mapGet_mapSet_self _ _ _
    · intro k hk
      exact mapGet_mapSet_ne _ _ _ _ hk
  · intro hnone
    have hget2 : ∀ v : CwmpCpe, mapGet (mapSet c.cpeTable sn v) sn = some v :=
      fun v => mapGet_mapSet_self _ _ _
    refine ⟨_, by simp only [CwmpEventTable.ClearCwmpCpeCache, CwmpEventTable.GetCwmpCpe, hsn,
      hnone, CwmpEventTable.setCpe]; rfl, ?_, ?_, ?_⟩
    · show mapKeys (mapSet (mapSet c.cpeTable sn _) sn _) = mapKeys c.cpeTable ++ [sn]
      rw [mapKeys_mapSet_present _ _ _ _ (hget2 _), mapKeys_mapSet_absent _ _ _ hnone]
    · show (mapSet (mapSet c.cpeTable sn _) sn _).length = c.cpeTable.length + 1
      rw [length_mapSet_present _ _ _ _ (hget2 _), mapSet_absent _ _ _ hnone]
      simp
    · intro k hk
      show mapGet (mapSet (mapSet c.cpeTable sn _) sn _) k = mapGet c.cpeTable k
      rw [mapGet_mapSet_ne _ _ _ _ hk, mapGet_mapSet_ne _ _ _ _ hk]

/-- C30 (amended), at the registry that holds only `ABC123`: the call keeps
the list of serial numbers and the size. -/
theorem ClearCwmpCpeCache_frame_witness :
    ∃ c1, (sampleTable 0).ClearCwmpCpeCache sampleEnv "ABC123" = .done c1 ∧
      c1.ListSn = (sampleTable 0).ListSn ∧ c1.Size = (sampleTable 0).Size ∧
      mapGet c1.cpeTable "ABC123" = some { sampleInformedCpe 0 with taskTags := none } ∧
      ∀ k, k ≠ "ABC123" → mapGet c1.cpeTable k = mapGet (sampleTable 0).cpeTable k :=
  (ClearCwmpCpeCache_frame sampleEnv (sampleTable 0) "ABC123" (by decide)).1
    (sampleInformedCpe 0) rfl

/-! ## Theorems: the order of the visit of the WAN parameters -/

/-- The string that `parseWanConnections` returns: empty when there is nothing
to encode, the encoding of the list otherwise. -/
theorem parseWanConnections_eq (marshal : List wanEntry → String) (params params2 : GoMap String) :
    parseWanConnections marshal params params2 =
      if wanList params params2 = [] then "" else marshal (wanList params params2) := by
  unfold parseWanConnections wanList
  simp only [List.length_eq_zero]
  by_cases h : List.foldl wanVlanVisit (List.foldl wanVisit ([], []) params).1 params2 = []
  · have hr : wanResult [] (List.foldl wanVisit ([], []) params).2 = [] := by
      unfold wanResult
      rw [List.filterMap_eq_nil_iff]
      intro k _
      rfl
    rw [if_pos h, h, hr, if_pos rfl]
  · rw [if_neg h]

/-- C29 (what the code does): the map of `sampleWanAliasParams`, visited in
the order of the list and in the reverse order, gives two different lists to
encode: the service list is `INTERNET` and the VLAN id `100` in one order,
`TR069` and `200` in the other. -/
theorem parseWanConnections_order_dependent (marshal : List wanEntry → String) :
    sampleWanAliasParams.reverse.Perm sampleWanAliasParams ∧
      parseWanConnections marshal sampleWanAliasParams sampleWanAliasParams =
        marshal [⟨"wan1", "INTERNET", "", "", "", "PPPoE", "", "100", "", "", "-", "1", "1"⟩] ∧
      parseWanConnections marshal sampleWanAliasParams.reverse sampleWanAliasParams.reverse =
        marshal [⟨"wan1", "TR069", "", "", "", "PPPoE", "", "200", "", "", "-", "1", "1"⟩] := by
  have h1 : wanList sampleWanAliasParams sampleWanAliasParams =
      [⟨"wan1", "INTERNET", "", "", "", "PPPoE", "", "100", "", "", "-", "1", "1"⟩] := by
    decide
  have h2 : wanList sampleWanAliasParams.reverse sampleWanAliasParams.reverse =
      [⟨"wan1", "TR069", "", "", "", "PPPoE", "", "200", "", "", "-", "1", "1"⟩] := by
    decide
  refine ⟨List.reverse_perm _, ?_, ?_⟩
  · rw [parseWanConnections_eq, h1]
    simp
  · rw [parseWanConnections_eq, h2]
    simp

/-! ## Theorems: the file routes -/

/-- The cut of a list is never empty. -/
theorem splitAll_ne_nil (sep : Char) (l : List Char) : splitAll sep l ≠ [] := by
  cases l with
  | nil => simp [splitAll]
  | cons c cs =>
    unfold splitAll
    split_ifs
    · simp
    · cases splitAll sep cs <;> simp

/-- The cut of a list in which the separator does not occur is the list. -/
theorem splitAll_no_sep (sep : Char) (l : List Char) (h : sep ∉ l) : splitAll sep l = [l] := by
  induction l with
  | nil => rfl
  | cons c cs ih =>
    simp only [List.mem_cons, not_or] at h
    unfold splitAll
    rw [if_neg (fun e => h.1 e.symm), ih h.2]

/-- The cut of two lists with the separator between them is the cut of the
first followed by the cut of the second. -/
theorem splitAll_append (sep : Char) (a b : List Char) :
    splitAll sep (a ++ sep :: b) = splitAll sep a ++ splitAll sep b := by
  induction a with
  | nil => simp [splitAll]
  | cons c cs ih =>
    have e1 : splitAll sep (c :: (cs ++ sep :: b)) =
        if c = sep then [] :: splitAll sep (cs ++ sep :: b)
        else
          match splitAll sep (cs ++ sep :: b) with
          | [] => [[c]]
          | p :: ps => (c :: p) :: ps := rfl
    have e2 : splitAll sep (c :: cs) =
        if c = sep then [] :: splitAll sep cs
        else
          match splitAll sep cs with
          | [] => [[c]]
          | p :: ps => (c :: p) :: ps := rfl
    rw [List.cons_append, e1, e2, ih]
    by_cases hc : c = sep
    · rw [if_pos hc, if_pos hc]
      rfl
    · rw [if_neg hc, if_neg hc]
      cases hs : splitAll sep cs with
      | nil => exact absurd hs (splitAll_ne_nil sep cs)
      | cons p ps => rfl

/-- The elements written with `/` between them, with one more element at the
end. -/
theorem joinElems_snoc (xs : List String) (e : String) :
    joinElems (xs ++ [e]) = if xs = [] then e else joinElems xs ++ "/" ++ e := by
  induction xs with
  | nil => rfl
  | cons x rest ih =>
    rw [if_neg (List.cons_ne_nil _ _)]
    cases rest with
    | nil => rfl
    | cons y ys =>
      rw [if_neg (List.cons_ne_nil _ _)] at ih
      have e1 : joinElems (x :: y :: ys ++ [e]) = x ++ "/" ++ joinElems (y :: ys ++ [e]) := rfl
      have e2 : joinElems (x :: y :: ys) = x ++ "/" ++ joinElems (y :: ys) := rfl
      rw [e1, e2, ih]
      simp only [String.append_assoc]

/-- A string that holds a character contains the string made of it. -/
theorem Contains_singleton (s : String) (c : Char) (h : c ∈ s.toList) :
    Contains s (String.singleton c) = true := by
  unfold Contains
  rw [List.any_eq_true]
  have hl : ∀ l : List Char, c ∈ l → ∃ t ∈ l.tails, [c].isPrefixOf t = true := by
    intro l
    induction l with
    | nil => intro hm; simp at hm
    | cons x xs ih =>
      intro hm
      rcases List.mem_cons.mp hm with e | hm2
      · exact ⟨x :: xs, by simp [List.tails], by simp [e]⟩
      · obtain ⟨t, ht, hp⟩ := ih hm2
        exact ⟨t, by simp [List.tails, ht], hp⟩
  obtain ⟨t, ht, hp⟩ := hl s.toList h
  exact ⟨t, ht, hp⟩

/-- Whether a path is rooted is seen at its beginning. -/
theorem HasPrefix_slash_append (p q : String) (hp : p ≠ "") :
    HasPrefix (p ++ q) "/" = HasPrefix p "/" := by
  unfold HasPrefix
  have hd : (p ++ q).toList = p.toList ++ q.toList := String.data_append p q
  rw [hd]
  cases hl : p.toList with
  | nil =>
    exfalso
    apply hp
    exact String.ext hl
  | cons c cs =>
    show ['/'].isPrefixOf (c :: (cs ++ q.toList)) = ['/'].isPrefixOf (c :: cs)
    simp [List.isPrefixOf]

/-- The elements kept of a path with one more element at its end, when the
element is neither empty nor `.` nor `..` and holds no `/`. -/
theorem cleanStack_child (p f : String) (hp : p ≠ "") (hf : '/' ∉ f.toList) (h0 : f ≠ "")
    (h1 : f ≠ ".") (h2 : f ≠ "..") :
    cleanStack (p ++ "/" ++ f) = f :: cleanStack p := by
  unfold cleanStack
  have hr : HasPrefix (p ++ "/" ++ f) "/" = HasPrefix p "/" := by
    rw [String.append_assoc]
    exact HasPrefix_slash_append p _ hp
  have hd : (p ++ "/" ++ f).toList = p.toList ++ '/' :: f.toList := by
    show (p ++ "/" ++ f).data = p.data ++ '/' :: f.data
    simp [String.data_append]
  rw [hr, hd, splitAll_append, splitAll_no_sep '/' _ hf, List.map_append, List.foldl_append]
  simp only [List.map_cons, List.map_nil, List.foldl_cons, List.foldl_nil]
  have hmk : String.mk f.toList = f := rfl
  rw [hmk]
  unfold cleanStep
  rw [if_neg (by simp [h0, h1]), if_neg h2]

/-- The clean form of a path with one more element at its end, when the path
ends with a kept element: the element is added after a `/`. -/
theorem pathClean_child (p f : String) (hp : p ≠ "")
    (hout : joinElems (cleanStack p).reverse ≠ "") (hs : cleanStack p ≠ [])
    (hf : '/' ∉ f.toList) (h0 : f ≠ "") (h1 : f ≠ ".") (h2 : f ≠ "..") :
    pathClean (p ++ "/" ++ f) = pathClean p ++ "/" ++ f := by
  have hne : p ++ "/" ++ f ≠ "" := by
    intro e
    have e2 := congrArg String.data e
    simp [String.data_append] at e2
  have hr : HasPrefix (p ++ "/" ++ f) "/" = HasPrefix p "/" := by
    rw [String.append_assoc]
    exact HasPrefix_slash_append p _ hp
  have hrev : (cleanStack p).reverse ≠ [] := by
    simpa using hs
  have hj : joinElems (cleanStack (p ++ "/" ++ f)).reverse =
      joinElems (cleanStack p).reverse ++ "/" ++ f := by
    rw [cleanStack_child p f hp hf h0 h1 h2, List.reverse_cons, joinElems_snoc, if_neg hrev]
  have hj2 : joinElems (cleanStack p).reverse ++ "/" ++ f ≠ "" := by
    intro e
    have e2 := congrArg String.data e
    simp [String.data_append] at e2
  unfold pathClean
  simp only [hne, hp, if_false, hr, hj]
  by_cases hroot : HasPrefix p "/" = true
  · simp only [hroot, if_true, String.append_assoc]
  · simp only [hroot, Bool.false_eq_true, if_false, hout, hj2]


/-- A filename that does not contain `/` holds no `/`. -/
theorem no_slash_of_not_Contains (f : String) (h : Contains f "/" = false) :
    '/' ∉ f.toList := by
  intro hm
  have hc := Contains_singleton f '/' hm
  have hsl : String.singleton '/' = "/" := by decide
  rw [hsl] at hc
  rw [h] at hc
  exact Bool.noConfusion hc

/-- The path of a file of the directory `cwmp` of the work directory is the
path of the directory, a `/` and the filename, when the filename holds no `/`
and is neither empty nor `.` nor `..`. -/
theorem pathJoin_child (W f : String) (hf : '/' ∉ f.toList) (h0 : f ≠ "") (h1 : f ≠ ".")
    (h2 : f ≠ "..") :
    pathJoin [W, "cwmp", f] = pathJoin [W, "cwmp"] ++ "/" ++ f := by
  by_cases hW : W = ""
  · subst hW
    have e1 : pathJoin ["", "cwmp", f] = pathClean ("cwmp" ++ "/" ++ f) := by
      simp [pathJoin, joinElems]
    have e2 : pathJoin ["", "cwmp"] = pathClean "cwmp" := by decide
    rw [e1, e2]
    exact pathClean_child "cwmp" f (by decide) (by decide) (by decide) hf h0 h1 h2
  · have e1 : pathJoin [W, "cwmp", f] = pathClean (W ++ "/" ++ "cwmp" ++ "/" ++ f) := by
      have e0 : pathJoin [W, "cwmp", f] = pathClean (joinElems [W, "cwmp", f]) := by
        simp [pathJoin, hW]
      rw [e0]
      congr 1
      apply String.ext
      simp [joinElems, String.data_append]
    have e2 : pathJoin [W, "cwmp"] = pathClean (W ++ "/" ++ "cwmp") := by
      simp [pathJoin, joinElems, hW]
    rw [e1, e2]
    have hst : cleanStack (W ++ "/" ++ "cwmp") = "cwmp" :: cleanStack W :=
      cleanStack_child W "cwmp" hW (by decide) (by decide) (by decide) (by decide)
    have hne : W ++ "/" ++ "cwmp" ≠ "" := by
      intro e
      have e3 := congrArg String.data e
      simp [String.data_append] at e3
    apply pathClean_child _ f hne _ _ hf h0 h1 h2
    · rw [hst, List.reverse_cons, joinElems_snoc]
      split_ifs
      · decide
      · intro e
        have e3 := congrArg String.data e
        simp [String.data_append] at e3
    · rw [hst]
      exact List.cons_ne_nil _ _

/-- C27: for every filename that contains `..` or `/`, `Tr069FirmwareDownload`
answers 400 `bad request`, serves no file and touches none; for every other
filename it serves the file of the path `path.Join(workdir, "cwmp",
filename)`, which, for a filename that is neither empty nor `.`, is the file
of that name in the directory `cwmp` of the work directory. -/
theorem Tr069FirmwareDownload_guard (cfg : FileConfig) (filename : String) :
    ((Contains filename ".." = true ∨ Contains filename "/" = true) →
        Tr069FirmwareDownload cfg filename = ⟨.String 400 "bad request", none, []⟩) ∧
      (Contains filename ".." = false → Contains filename "/" = false →
        Tr069FirmwareDownload cfg filename =
            ⟨.File (pathJoin [cfg.Workdir, "cwmp", filename]),
              some ("attachment;filename=" ++ filename), []⟩ ∧
          (filename ≠ "" → filename ≠ "." →
            pathJoin [cfg.Workdir, "cwmp", filename] =
              pathJoin [cfg.Workdir, "cwmp"] ++ "/" ++ filename)) := by
  constructor
  · intro h
    unfold Tr069FirmwareDownload
    rcases h with h | h
    · simp [h]
    · simp [h]
  · intro h1 h2
    constructor
    · unfold Tr069FirmwareDownload
      simp [h1, h2]
    · intro h0 hdot
      apply pathJoin_child _ _ (no_slash_of_not_Contains _ h2) h0 hdot
      intro e
      rw [e] at h1
      revert h1
      decide

/-- C27, at the filenames `fw.bin` and `../fw.bin` on a server with the work
directory `/var/teamsacs`. -/
theorem Tr069FirmwareDownload_guard_witness :
    Tr069FirmwareDownload sampleFileConfig "../fw.bin" =
        ⟨.String 400 "bad request", none, []⟩ ∧
      Tr069FirmwareDownload sampleFileConfig "fw.bin" =
        ⟨.File (pathJoin ["/var/teamsacs", "cwmp", "fw.bin"]),
          some ("attachment;filename=" ++ "fw.bin"), []⟩ ∧
      pathJoin ["/var/teamsacs", "cwmp", "fw.bin"] = "/var/teamsacs/cwmp/fw.bin" :=
  ⟨(Tr069FirmwareDownload_guard sampleFileConfig "../fw.bin").1 (Or.inl (by decide)),
    ((Tr069FirmwareDownload_guard sampleFileConfig "fw.bin").2 (by decide) (by decide)).1,
    by decide⟩

/-- With an empty session, an empty token or a token that is not the hash of
session, secret and day, `Tr069Upload` answers 400 and touches no file. -/
theorem Tr069Upload_rejects (cfg : FileConfig) (session token filename : String)
    (body : List Nat)
    (h : session = "" ∨ token = "" ∨
      token ≠ cfg.Md5Hash (session ++ cfg.Secret ++ cfg.Today)) :
    (∃ s, (Tr069Upload cfg session token filename body).reply = .String 400 s) ∧
      (Tr069Upload cfg session token filename body).files = [] := by
  unfold Tr069Upload
  by_cases h1 : session = "" ∨ token = ""
  · rw [if_pos h1]
    exact ⟨⟨_, rfl⟩, rfl⟩
  · rw [if_neg h1]
    have h2 : token ≠ cfg.Md5Hash (session ++ cfg.Secret ++ cfg.Today) := by
      rcases h with h | h | h
      · exact absurd (Or.inl h) h1
      · exact absurd (Or.inr h) h1
      · exact h
    rw [if_pos h2]
    exact ⟨⟨_, rfl⟩, rfl⟩

/-- C28 (what the code does): on a server with the work directory
`/var/teamsacs`, for every session and body, `Tr069Upload` with the token of
the day and the filename `../teamsacs.yml` answers 200 and stores the body in
the file `/var/teamsacs/teamsacs.yml`, which is not under the directory
`/var/teamsacs/cwmp`. -/
theorem Tr069Upload_traversal (cfg : FileConfig) (session : String) (body : List Nat)
    (hw : cfg.Workdir = "/var/teamsacs") (hs : session ≠ "")
    (ht : cfg.Md5Hash (session ++ cfg.Secret ++ cfg.Today) ≠ "")
    (hcreate : ∀ p, cfg.createErr p = none) (hcopy : ∀ p b, cfg.copyErr p b = none) :
    Tr069Upload cfg session (cfg.Md5Hash (session ++ cfg.Secret ++ cfg.Today))
        "../teamsacs.yml" body =
      ⟨.NoContent 200, none,
        [.MkdirAll "/var/teamsacs/cwmp", .Create "/var/teamsacs/teamsacs.yml",
          .Copy "/var/teamsacs/teamsacs.yml" body]⟩ ∧
      isUnder "/var/teamsacs/cwmp" "/var/teamsacs/teamsacs.yml" = false := by
  have e1 : pathJoin ["/var/teamsacs", "cwmp"] = "/var/teamsacs/cwmp" := by decide
  have e2 : pathJoin ["/var/teamsacs", "cwmp/" ++ "../teamsacs.yml"] =
      "/var/teamsacs/teamsacs.yml" := by decide
  refine ⟨?_, by decide⟩
  unfold Tr069Upload
  rw [if_neg (by simp [hs, ht]), if_neg (by simp)]
  simp only [hw, e1, e2, hcreate, hcopy]

/-- C28, at the session `s1` and a body of three bytes. -/
theorem Tr069Upload_traversal_witness :
    Tr069Upload sampleFileConfig "s1" (sampleFileConfig.Md5Hash ("s1" ++ "secret" ++ "20261104"))
        "../teamsacs.yml" [1, 2, 3] =
      ⟨.NoContent 200, none,
        [.MkdirAll "/var/teamsacs/cwmp", .Create "/var/teamsacs/teamsacs.yml",
          .Copy "/var/teamsacs/teamsacs.yml" [1, 2, 3]]⟩ ∧
      isUnder "/var/teamsacs/cwmp" "/var/teamsacs/teamsacs.yml" = false :=
  Tr069Upload_traversal sampleFileConfig "s1" [1, 2, 3] rfl (by decide) (by decide)
    (fun _ => rfl) (fun _ _ => rfl)

/-! ## Theorems: the connection-request client -/

/-- Nothing is dropped from a list whose first element fails the test. -/
theorem dropWhile_head {α : Type} (p : α → Bool) (l : List α) (h : l.head?.any p = false) :
    l.dropWhile p = l := by
  cases l with
  | nil => rfl
  | cons c cs =>
    simp only [List.head?_cons, Option.any_some] at h
    simp [List.dropWhile, h]

/-- A plain value holds no comma. -/
theorem isPlainValue_no_comma (v : String) (h : isPlainValue v = true) : ',' ∉ v.toList := by
  unfold isPlainValue at h
  simp only [Bool.and_eq_true, Bool.not_eq_true', List.contains_eq_any_beq, List.any_eq_false,
    beq_iff_eq] at h
  intro hm
  exact h.1.1 ',' hm rfl

/-- The call `strings.Trim(s, "\" ")` keeps a plain value. -/
theorem TrimCut_plain (v : String) (h : isPlainValue v = true) : TrimCut v = v := by
  unfold isPlainValue at h
  simp only [Bool.and_eq_true, Bool.not_eq_true'] at h
  obtain ⟨⟨_, h1⟩, h2⟩ := h
  unfold TrimCut
  rw [dropWhile_head isCut _ h1, dropWhile_head isCut _ (by rw [List.head?_reverse]; exact h2),
    List.reverse_reverse]
  rfl

/-- The call `strings.Trim(s, "\" ")` takes the quotes off a quoted plain
value. -/
theorem TrimCut_quoted (v : String) (h : isPlainValue v = true) :
    TrimCut ("\"" ++ v ++ "\"") = v := by
  unfold isPlainValue at h
  simp only [Bool.and_eq_true, Bool.not_eq_true'] at h
  obtain ⟨⟨_, h1⟩, h2⟩ := h
  unfold TrimCut
  have hd : ("\"" ++ v ++ "\"").toList = Char.ofNat 34 :: (v.toList ++ [Char.ofNat 34]) := by
    show ("\"" ++ v ++ "\"").data = _
    simp [String.data_append]
  have hq : isCut (Char.ofNat 34) = true := by decide
  rw [hd, List.dropWhile_cons_of_pos hq]
  cases hv : v.toList with
  | nil =>
    have hv2 : v = "" := String.ext hv
    subst hv2
    decide
  | cons c cs =>
    rw [hv] at h1 h2
    have h3 : ((c :: cs) ++ [Char.ofNat 34]).head?.any isCut = false := by
      simpa using h1
    rw [dropWhile_head isCut _ h3, List.reverse_append, List.reverse_singleton,
      List.singleton_append, List.dropWhile_cons_of_pos hq,
      dropWhile_head isCut _ (by rw [List.head?_reverse]; exact h2), List.reverse_reverse,
      ← hv]
    rfl

/-- The cut of a string built from two strings with the separator between
them. -/
theorem Split_append (a b : String) (sep : Char) :
    Split (a ++ String.singleton sep ++ b) sep = Split a sep ++ Split b sep := by
  unfold Split
  have hd : (a ++ String.singleton sep ++ b).toList = a.toList ++ sep :: b.toList := by
    show (a ++ String.singleton sep ++ b).data = a.data ++ sep :: b.data
    simp [String.data_append, String.singleton]
  rw [hd, splitAll_append, List.map_append]

/-- The cut of a string in which the separator does not occur. -/
theorem Split_no_sep (a : String) (sep : Char) (h : sep ∉ a.toList) : Split a sep = [a] := by
  unfold Split
  rw [splitAll_no_sep sep _ h]
  rfl

/-- The visit of a part `key="value"` of a challenge, for a plain value. -/
theorem digestVisit_quoted (result : GoMap String) (lead key v : String)
    (hk : '=' ∉ (lead ++ key).toList) (ht : TrimCut (lead ++ key) = key)
    (hv : isPlainValue v = true) :
    digestVisit result (lead ++ key ++ "=\"" ++ v ++ "\"") = mapSet result key v := by
  unfold digestVisit
  have e : lead ++ key ++ "=\"" ++ v ++ "\"" =
      (lead ++ key) ++ String.singleton '=' ++ ("\"" ++ v ++ "\"") := by
    apply String.ext
    simp [String.data_append, String.singleton]
  rw [e, SplitN2_append '=' _ _ hk]
  simp only
  rw [ht, TrimCut_quoted v hv]

/-- The map that `DigestAuthParams` reads from a challenge with plain
values. -/
theorem DigestAuthParams_challenge (R N O : String) (hR : isPlainValue R = true)
    (hN : isPlainValue N = true) (hO : isPlainValue O = true) :
    DigestAuthParams (digestChallenge R N O) =
      some [("realm", R), ("nonce", N), ("qop", "auth"), ("opaque", O)] := by
  have hcR := isPlainValue_no_comma R hR
  have hcN := isPlainValue_no_comma N hN
  have hcO := isPlainValue_no_comma O hO
  have e : digestChallenge R N O =
      "Digest" ++ String.singleton ' ' ++
        (("" ++ "realm" ++ "=\"" ++ R ++ "\"") ++ String.singleton ',' ++
          ((" " ++ "nonce" ++ "=\"" ++ N ++ "\"") ++ String.singleton ',' ++
            (" qop=auth" ++ String.singleton ',' ++ (" " ++ "opaque" ++ "=\"" ++ O ++ "\"")))) := by
    apply String.ext
    simp [digestChallenge, String.data_append, String.singleton]
  have h1 : ',' ∉ ("" ++ "realm" ++ "=\"" ++ R ++ "\"").toList := by
    show ',' ∉ ("" ++ "realm" ++ "=\"" ++ R ++ "\"").data
    simp only [String.data_append, List.mem_append, not_or]
    exact ⟨⟨⟨⟨by decide, by decide⟩, by decide⟩, hcR⟩, by decide⟩
  have h2 : ',' ∉ (" " ++ "nonce" ++ "=\"" ++ N ++ "\"").toList := by
    show ',' ∉ (" " ++ "nonce" ++ "=\"" ++ N ++ "\"").data
    simp only [String.data_append, List.mem_append, not_or]
    exact ⟨⟨⟨⟨by decide, by decide⟩, by decide⟩, hcN⟩, by decide⟩
  have h3 : ',' ∉ (" qop=auth").toList := by decide
  have h4 : ',' ∉ (" " ++ "opaque" ++ "=\"" ++ O ++ "\"").toList := by
    show ',' ∉ (" " ++ "opaque" ++ "=\"" ++ O ++ "\"").data
    simp only [String.data_append, List.mem_append, not_or]
    exact ⟨⟨⟨⟨by decide, by decide⟩, by decide⟩, hcO⟩, by decide⟩
  unfold DigestAuthParams
  rw [e, SplitN2_append ' ' "Digest" _ (by decide)]
  simp only [ne_eq, not_true_eq_false, if_false]
  rw [Split_append, Split_append, Split_append, Split_no_sep _ _ h1, Split_no_sep _ _ h2,
    Split_no_sep _ _ h3, Split_no_sep _ _ h4]
  simp only [List.singleton_append, List.foldl_cons, List.foldl_nil]
  rw [digestVisit_quoted [] "" "realm" R (by decide) (by decide) hR,
    digestVisit_quoted _ " " "nonce" N (by decide) (by decide) hN]
  have hq : ∀ m : GoMap String, digestVisit m " qop=auth" = mapSet m "qop" "auth" := by
    intro m
    unfold digestVisit
    have hs : SplitN2 " qop=auth" '=' = some (" qop", "auth") := by decide
    rw [hs]
    simp only
    have t1 : TrimCut " qop" = "qop" := by decide
    have t2 : TrimCut "auth" = "auth" := by decide
    rw [t1, t2]
  rw [hq, digestVisit_quoted _ " " "opaque" O (by decide) (by decide) hO]
  simp [mapSet]

/-- A string contains what stands between two parts of it. -/
theorem Contains_mid (a b c : String) : Contains (a ++ b ++ c) b = true := by
  unfold Contains
  rw [List.any_eq_true]
  refine ⟨b.toList ++ c.toList, ?_, ?_⟩
  · have hd : (a ++ b ++ c).toList = a.toList ++ (b.toList ++ c.toList) := by
      show (a ++ b ++ c).data = a.data ++ (b.data ++ c.data)
      simp [String.data_append]
    rw [hd, List.mem_tails]
    exact List.suffix_append _ _
  · rw [List.isPrefixOf_iff_prefix]
    exact List.prefix_append _ _


/-- The parts of the text of an `Authorization` header. -/
theorem digestAuthHeader_parts (U R N p cn resp O : String) :
    Contains (digestAuthHeader U R N p cn "auth" resp O) ("username=\"" ++ U ++ "\"") = true ∧
      Contains (digestAuthHeader U R N p cn "auth" resp O) ("realm=\"" ++ R ++ "\"") = true ∧
      Contains (digestAuthHeader U R N p cn "auth" resp O) ("nonce=\"" ++ N ++ "\"") = true ∧
      Contains (digestAuthHeader U R N p cn "auth" resp O) ("uri=\"" ++ p ++ "\"") = true ∧
      Contains (digestAuthHeader U R N p cn "auth" resp O) ("cnonce=\"" ++ cn ++ "\"") = true ∧
      Contains (digestAuthHeader U R N p cn "auth" resp O) "nc=00000001" = true ∧
      Contains (digestAuthHeader U R N p cn "auth" resp O) "qop=auth" = true ∧
      Contains (digestAuthHeader U R N p cn "auth" resp O) ("response=\"" ++ resp ++ "\"") =
        true := by
  have hc : ∀ a b c : String, digestAuthHeader U R N p cn "auth" resp O = a ++ b ++ c →
      Contains (digestAuthHeader U R N p cn "auth" resp O) b = true := by
    intro a b c e
    rw [e]
    exact Contains_mid a b c
  refine ⟨?_, ?_, ?_, ?_, ?_, ?_, ?_, ?_⟩
  · apply hc
      ("Digest ")
      _
      (", " ++ "realm=\"" ++ R ++ "\"" ++ ", " ++ "nonce=\"" ++ N ++ "\"" ++ ", " ++ "uri=\"" ++
        p ++ "\"" ++ ", " ++ "cnonce=\"" ++ cn ++ "\"" ++ ", " ++ "nc=00000001" ++ ", " ++
        "qop=" ++ "auth" ++ ", " ++ "response=\"" ++ resp ++ "\"" ++ ", opaque=\"" ++ O ++
        "\", algorithm=MD5")
    apply String.ext
    simp [digestAuthHeader, String.data_append]
  · apply hc
      ("Digest " ++ "username=\"" ++ U ++ "\"" ++ ", ")
      _
      (", " ++ "nonce=\"" ++ N ++ "\"" ++ ", " ++ "uri=\"" ++ p ++ "\"" ++ ", " ++ "cnonce=\"" ++
        cn ++ "\"" ++ ", " ++ "nc=00000001" ++ ", " ++ "qop=" ++ "auth" ++ ", " ++ "response=\"" ++
        resp ++ "\"" ++ ", opaque=\"" ++ O ++ "\", algorithm=MD5")
    apply String.ext
    simp [digestAuthHeader, String.data_append]
  · apply hc
      ("Digest " ++ "username=\"" ++ U ++ "\"" ++ ", " ++ "realm=\"" ++ R ++ "\"" ++ ", ")
      _
      (", " ++ "uri=\"" ++ p ++ "\"" ++ ", " ++ "cnonce=\"" ++ cn ++ "\"" ++ ", " ++
        "nc=00000001" ++ ", " ++ "qop=" ++ "auth" ++ ", " ++ "response=\"" ++ resp ++ "\"" ++
        ", opaque=\"" ++ O ++ "\", algorithm=MD5")
    apply String.ext
    simp [digestAuthHeader, String.data_append]
  · apply hc
      ("Digest " ++ "username=\"" ++ U ++ "\"" ++ ", " ++ "realm=\"" ++ R ++ "\"" ++ ", " ++
        "nonce=\"" ++ N ++ "\"" ++ ", ")
      _
      (", " ++ "cnonce=\"" ++ cn ++ "\"" ++ ", " ++ "nc=00000001" ++ ", " ++ "qop=" ++ "auth" ++
        ", " ++ "response=\"" ++ resp ++ "\"" ++ ", opaque=\"" ++ O ++ "\", algorithm=MD5")
    apply String.ext
    simp [digestAuthHeader, String.data_append]
  · apply hc
      ("Digest " ++ "username=\"" ++ U ++ "\"" ++ ", " ++ "realm=\"" ++ R ++ "\"" ++ ", " ++
        "nonce=\"" ++ N ++ "\"" ++ ", " ++ "uri=\"" ++ p ++ "\"" ++ ", ")
      _
      (", " ++ "nc=00000001" ++ ", " ++ "qop=" ++ "auth" ++ ", " ++ "response=\"" ++ resp ++
        "\"" ++ ", opaque=\"" ++ O ++ "\", algorithm=MD5")
    apply String.ext
    simp [digestAuthHeader, String.data_append]
  · apply hc
      ("Digest " ++ "username=\"" ++ U ++ "\"" ++ ", " ++ "realm=\"" ++ R ++ "\"" ++ ", " ++
        "nonce=\"" ++ N ++ "\"" ++ ", " ++ "uri=\"" ++ p ++ "\"" ++ ", " ++ "cnonce=\"" ++ cn ++
        "\"" ++ ", ")
      _
      (", " ++ "qop=" ++ "auth" ++ ", " ++ "response=\"" ++ resp ++ "\"" ++ ", opaque=\"" ++ O ++
        "\", algorithm=MD5")
    apply String.ext
    simp [digestAuthHeader, String.data_append]
  · apply hc
      ("Digest " ++ "username=\"" ++ U ++ "\"" ++ ", " ++ "realm=\"" ++ R ++ "\"" ++ ", " ++
        "nonce=\"" ++ N ++ "\"" ++ ", " ++ "uri=\"" ++ p ++ "\"" ++ ", " ++ "cnonce=\"" ++ cn ++
        "\"" ++ ", " ++ "nc=00000001" ++ ", ")
      _
      (", " ++ "response=\"" ++ resp ++ "\"" ++ ", opaque=\"" ++ O ++ "\", algorithm=MD5")
    apply String.ext
    simp [digestAuthHeader, String.data_append]
  · apply hc
      ("Digest " ++ "username=\"" ++ U ++ "\"" ++ ", " ++ "realm=\"" ++ R ++ "\"" ++ ", " ++
        "nonce=\"" ++ N ++ "\"" ++ ", " ++ "uri=\"" ++ p ++ "\"" ++ ", " ++ "cnonce=\"" ++ cn ++
        "\"" ++ ", " ++ "nc=00000001" ++ ", " ++ "qop=" ++ "auth" ++ ", ")
      _
      (", opaque=\"" ++ O ++ "\", algorithm=MD5")
    apply String.ext
    simp [digestAuthHeader, String.data_append]

/-- The `Authorization` header that `ConnectionRequestAuth` sends on a
challenge with plain values, for a URL that parses to `u`. -/
theorem ConnectionRequestAuth_sent (cl : HttpClient) (U P uri : String) (u : URL)
    (R N O : String)
    (hR : isPlainValue R = true) (hN : isPlainValue N = true) (hO : isPlainValue O = true)
    (hparse : urlParse cl.Parse uri = .ok u) (hreq : cl.NewRequest uri = none)
    (hfirst : cl.Do uri none = .ok ⟨401, digestChallenge R N O⟩) :
    (ConnectionRequestAuth cl U P uri).sent =
      [none, some (digestAuthHeader U R N u.RequestURI cl.RandomKey "auth"
        (cl.Md5Hex (Join [cl.Md5Hex (U ++ ":" ++ R ++ ":" ++ P), N, "00000001",
          cl.RandomKey, "auth", cl.Md5Hex ("GET:" ++ u.RequestURI)] ":")) O)] := by
  unfold ConnectionRequestAuth
  simp only [hparse, hreq, hfirst, if_true, DigestAuthParams_challenge R N O hR hN hO]
  have f1 : digestField (some [("realm", R), ("nonce", N), ("qop", "auth"), ("opaque", O)])
      "realm" = R := by simp [digestField, getParam, mapGet]
  have f2 : digestField (some [("realm", R), ("nonce", N), ("qop", "auth"), ("opaque", O)])
      "nonce" = N := by simp [digestField, getParam, mapGet]
  have f3 : digestField (some [("realm", R), ("nonce", N), ("qop", "auth"), ("opaque", O)])
      "qop" = "auth" := by simp [digestField, getParam, mapGet]
  have f4 : digestField (some [("realm", R), ("nonce", N), ("qop", "auth"), ("opaque", O)])
      "opaque" = O := by simp [digestField, getParam, mapGet]
  simp only [f1, f2, f3, f4, H]
  split <;> rfl

/-- The request URI of a URL that is not opaque and has no query is its
request path. -/
theorem RequestURI_no_query (u : URL) (hop : u.Opaque = "") (hf : u.ForceQuery = false)
    (hq : u.RawQuery = "") : u.RequestURI = u.requestPath := by
  simp [URL.RequestURI, URL.requestPath, hop, hf, hq]

/-- The request URI of a URL that is not opaque and has a query is its request
path, `?` and the query. -/
theorem RequestURI_query (u : URL) (hop : u.Opaque = "") (hq : u.RawQuery ≠ "") :
    u.RequestURI = u.requestPath ++ "?" ++ u.RawQuery := by
  simp [URL.RequestURI, URL.requestPath, hop, hq]

set_option maxRecDepth 8000 in
/-- The `Authorization` header of the examples for the request URI `/acs?x=1`
does not hold the text `uri="/acs"`. -/
theorem sampleDigestHeader_uri :
    Contains (digestAuthHeader "ABC123" "acs" "N" "/acs?x=1" "c2FtcGxlY25vbmNl" "auth"
        "md5(md5(ABC123:acs:P):N:00000001:c2FtcGxlY25vbmNl:auth:md5(GET:/acs?x=1))" "O")
      "uri=\"/acs\"" = false := rfl

/-- C21 (counterexample): from a challenge whose realm is `a,b`
`DigestAuthParams` reads the realm `a`, and from one whose realm is `acs`
followed by a space it reads `acs`. And for the URL
`http://10.0.0.5:7547/acs?x=1`, whose request path is `/acs`, the header of
the second request carries `uri="/acs?x=1"`, not `uri="/acs"`, and the digest
of `GET:/acs?x=1`. -/
theorem ConnectionRequestAuth_digest_counterexample :
    digestField (DigestAuthParams (digestChallenge "a,b" "N" "O")) "realm" = "a" ∧
      digestField (DigestAuthParams (digestChallenge "acs " "N" "O")) "realm" = "acs" ∧
      urlParse sampleHttpClient.Parse "http://10.0.0.5:7547/acs?x=1" =
        .ok ⟨"http", "", "10.0.0.5:7547", "/acs", false, "x=1"⟩ ∧
      (⟨"http", "", "10.0.0.5:7547", "/acs", false, "x=1"⟩ : URL).requestPath = "/acs" ∧
      (ConnectionRequestAuth sampleHttpClient "ABC123" "P"
        "http://10.0.0.5:7547/acs?x=1").sent =
        [none, some (digestAuthHeader "ABC123" "acs" "N" "/acs?x=1" "c2FtcGxlY25vbmNl" "auth"
          "md5(md5(ABC123:acs:P):N:00000001:c2FtcGxlY25vbmNl:auth:md5(GET:/acs?x=1))" "O")] ∧
      Contains (digestAuthHeader "ABC123" "acs" "N" "/acs?x=1" "c2FtcGxlY25vbmNl" "auth"
          "md5(md5(ABC123:acs:P):N:00000001:c2FtcGxlY25vbmNl:auth:md5(GET:/acs?x=1))" "O")
        "uri=\"/acs\"" = false :=
  ⟨by decide, by decide, rfl, rfl, rfl, sampleDigestHeader_uri⟩

/-- C21 (amended): for every username `U`, password `P`, CPE URL that parses
to a URL `u` with a host part (not opaque) and with the request path `p` (the
escaped path, `/` when it is empty), and 401 challenge
`Digest realm="R", nonce="N", qop=auth, opaque="O"` in which `R`, `N` and `O`
hold no comma and neither begin nor end with a double quote or a space,
`DigestAuthParams` yields the realm `R`, the nonce `N`, the qop `auth` and the
opaque `O`; when the URL has no query, the `Authorization` header of the
second request of `ConnectionRequestAuth` contains `username="U"`,
`realm="R"`, `nonce="N"`, `uri="p"`, `nc=00000001`, `qop=auth` and
`response="r"`, where `r` is the digest of `HA1:N:00000001:cnonce:auth:HA2`,
`HA1` the digest of `U:R:P`, `HA2` the digest of `GET:p` and `cnonce` the text
of `cnonce="..."` in the same header; when the URL has the query `q`, the same
holds with `p?q` in place of `p`. -/
theorem ConnectionRequestAuth_digest (cl : HttpClient) (U P uri : String) (u : URL)
    (R N O : String)
    (hR : isPlainValue R = true) (hN : isPlainValue N = true) (hO : isPlainValue O = true)
    (hparse : urlParse cl.Parse uri = .ok u) (hop : u.Opaque = "")
    (hreq : cl.NewRequest uri = none)
    (hfirst : cl.Do uri none = .ok ⟨401, digestChallenge R N O⟩) :
    (digestField (DigestAuthParams (digestChallenge R N O)) "realm" = R ∧
      digestField (DigestAuthParams (digestChallenge R N O)) "nonce" = N ∧
      digestField (DigestAuthParams (digestChallenge R N O)) "qop" = "auth" ∧
      digestField (DigestAuthParams (digestChallenge R N O)) "opaque" = O) ∧
    (u.ForceQuery = false → u.RawQuery = "" →
      ∃ hdr cnonce r, (ConnectionRequestAuth cl U P uri).sent = [none, some hdr] ∧
        r = cl.Md5Hex (Join [cl.Md5Hex (U ++ ":" ++ R ++ ":" ++ P), N, "00000001", cnonce,
          "auth", cl.Md5Hex ("GET:" ++ u.requestPath)] ":") ∧
        Contains hdr ("username=\"" ++ U ++ "\"") = true ∧
        Contains hdr ("realm=\"" ++ R ++ "\"") = true ∧
        Contains hdr ("nonce=\"" ++ N ++ "\"") = true ∧
        Contains hdr ("uri=\"" ++ u.requestPath ++ "\"") = true ∧
        Contains hdr ("cnonce=\"" ++ cnonce ++ "\"") = true ∧
        Contains hdr "nc=00000001" = true ∧
        Contains hdr "qop=auth" = true ∧
        Contains hdr ("response=\"" ++ r ++ "\"") = true) ∧
    (u.RawQuery ≠ "" →
      ∃ hdr cnonce r, (ConnectionRequestAuth cl U P uri).sent = [none, some hdr] ∧
        r = cl.Md5Hex (Join [cl.Md5Hex (U ++ ":" ++ R ++ ":" ++ P), N, "00000001", cnonce,
          "auth", cl.Md5Hex ("GET:" ++ (u.requestPath ++ "?" ++ u.RawQuery))] ":") ∧
        Contains hdr ("username=\"" ++ U ++ "\"") = true ∧
        Contains hdr ("realm=\"" ++ R ++ "\"") = true ∧
        Contains hdr ("nonce=\"" ++ N ++ "\"") = true ∧
        Contains hdr ("uri=\"" ++ (u.requestPath ++ "?" ++ u.RawQuery) ++ "\"") = true ∧
        Contains hdr ("cnonce=\"" ++ cnonce ++ "\"") = true ∧
        Contains hdr "nc=00000001" = true ∧
        Contains hdr "qop=auth" = true ∧
        Contains hdr ("response=\"" ++ r ++ "\"") = true) := by
  have hsent := ConnectionRequestAuth_sent cl U P uri u R N O hR hN hO hparse hreq hfirst
  refine ⟨?_, ?_, ?_⟩
  · rw [DigestAuthParams_challenge R N O hR hN hO]
    simp [digestField, getParam, mapGet]
  · intro hf hq
    rw [RequestURI_no_query u hop hf hq] at hsent
    exact ⟨_, cl.RandomKey, _, hsent, rfl,
      digestAuthHeader_parts U R N u.requestPath cl.RandomKey _ O⟩
  · intro hq
    rw [RequestURI_query u hop hq] at hsent
    exact ⟨_, cl.RandomKey, _, hsent, rfl,
      digestAuthHeader_parts U R N (u.requestPath ++ "?" ++ u.RawQuery) cl.RandomKey _ O⟩

/-- C21 (amended), at the user `ABC123` with the password `P`, the URL
`http://10.0.0.5:7547/acs`, which parses to the host `10.0.0.5:7547` and the
path `/acs`, and the challenge of the realm `acs`, the nonce `N` and the
opaque `O`: the header carries `uri="/acs"`. -/
theorem ConnectionRequestAuth_digest_witness :
    urlParse sampleHttpClient.Parse "http://10.0.0.5:7547/acs" =
        .ok ⟨"http", "", "10.0.0.5:7547", "/acs", false, ""⟩ ∧
    ∃ hdr, (ConnectionRequestAuth sampleHttpClient "ABC123" "P"
        "http://10.0.0.5:7547/acs").sent = [none, some hdr] ∧
      Contains hdr ("username=\"" ++ "ABC123" ++ "\"") = true ∧
      Contains hdr ("realm=\"" ++ "acs" ++ "\"") = true ∧
      Contains hdr ("nonce=\"" ++ "N" ++ "\"") = true ∧
      Contains hdr ("uri=\"" ++ "/acs" ++ "\"") = true ∧
      Contains hdr "nc=00000001" = true ∧
      Contains hdr "qop=auth" = true := by
  obtain ⟨hdr, cnonce, r, h1, _, h3, h4, h5, h6, _, h8, h9, _⟩ :=
    (ConnectionRequestAuth_digest sampleHttpClient "ABC123" "P" "http://10.0.0.5:7547/acs"
      ⟨"http", "", "10.0.0.5:7547", "/acs", false, ""⟩ "acs" "N" "O"
      (by decide) (by decide) (by decide) rfl rfl rfl rfl).2.1 rfl rfl
  exact ⟨rfl, hdr, h1, h3, h4, h5, h6, h8, h9⟩

/-! ## Theorems: the polls of the dispatcher -/

/-- The poll of a non-empty high-priority queue takes its head and leaves the
normal queue as it is. -/
theorem pollQueues_high_entry (cpe : CwmpCpe) (t : Int) (qmsg : CwmpEventData)
    (rest : List CwmpEventData) (hhp : cpe.cwmpHPQueueMap.buf = qmsg :: rest) :
    pollQueues cpe t =
      (some qmsg, { cpe with cwmpHPQueueMap := ⟨cpe.cwmpHPQueueMap.cap, rest⟩ }) := by
  simp [pollQueues, CwmpCpe.RecvCwmpEventData, CwmpCpe.getQueue, CwmpCpe.setQueue, hhp]

/-- The poll takes the head of the normal queue when the high-priority queue
is empty. -/
theorem pollQueues_normal_entry (cpe : CwmpCpe) (t : Int) (qmsg : CwmpEventData)
    (rest : List CwmpEventData) (hhp : cpe.cwmpHPQueueMap.buf = [])
    (hq : cpe.cwmpQueueMap.buf = qmsg :: rest) :
    pollQueues cpe t =
      (some qmsg, { cpe with cwmpQueueMap := ⟨cpe.cwmpQueueMap.cap, rest⟩ }) := by
  simp [pollQueues, CwmpCpe.RecvCwmpEventData, CwmpCpe.getQueue, CwmpCpe.setQueue, hhp, hq]

/-- Sending on the normal queue leaves the high-priority queue as it is. -/
theorem sendAll_high (arrived : List CwmpEventData) (cpe : CwmpCpe) :
    (cpe.sendAll arrived).cwmpHPQueueMap = cpe.cwmpHPQueueMap := by
  induction arrived generalizing cpe with
  | nil => rfl
  | cons a l ih =>
    have h : (cpe.SendCwmpEventData a 1000 false).2.cwmpHPQueueMap = cpe.cwmpHPQueueMap := by
      unfold CwmpCpe.SendCwmpEventData
      split <;> simp [CwmpCpe.setQueue]
    simp only [CwmpCpe.sendAll, List.foldl_cons] at ih ⊢
    rw [ih, h]

/-- Sending on the normal queue puts the messages behind what the queue
holds. -/
theorem sendAll_buf (arrived : List CwmpEventData) (cpe : CwmpCpe) :
    ∃ l, (cpe.sendAll arrived).cwmpQueueMap.buf = cpe.cwmpQueueMap.buf ++ l := by
  induction arrived generalizing cpe with
  | nil => exact ⟨[], by simp [CwmpCpe.sendAll]⟩
  | cons a l ih =>
    have h : ∃ l1, (cpe.SendCwmpEventData a 1000 false).2.cwmpQueueMap.buf =
        cpe.cwmpQueueMap.buf ++ l1 := by
      unfold CwmpCpe.SendCwmpEventData
      split
      · exact ⟨[a], by simp [CwmpCpe.setQueue, CwmpCpe.getQueue]⟩
      · exact ⟨[], by simp⟩
    obtain ⟨l1, h1⟩ := h
    obtain ⟨l2, h2⟩ := ih (cpe.SendCwmpEventData a 1000 false).2
    refine ⟨l1 ++ l2, ?_⟩
    simp only [CwmpCpe.sendAll, List.foldl_cons] at h2 ⊢
    rw [h2, h1, List.append_assoc]

/-- The first message sent on an empty normal queue with room becomes its
head. -/
theorem sendAll_head (a : CwmpEventData) (l : List CwmpEventData) (cpe : CwmpCpe)
    (hq : cpe.cwmpQueueMap.buf = []) (hcap : 0 < cpe.cwmpQueueMap.cap) :
    ∃ l1, (cpe.sendAll (a :: l)).cwmpQueueMap.buf = a :: l1 := by
  have h1 : (cpe.SendCwmpEventData a 1000 false).2.cwmpQueueMap.buf = [a] := by
    simp [CwmpCpe.SendCwmpEventData, CwmpCpe.getQueue, CwmpCpe.setQueue, hq, hcap]
  obtain ⟨l2, h2⟩ := sendAll_buf l (cpe.SendCwmpEventData a 1000 false).2
  refine ⟨l2, ?_⟩
  simp only [CwmpCpe.sendAll, List.foldl_cons] at h2 ⊢
  rw [h2, h1]
  rfl

/-- The reply of `processInform` when the poll finds a message. -/
theorem processInform_found (env : Env) (table table1 : CwmpEventTable) (req : Request)
    (lastInform : Inform) (arrived : List CwmpEventData) (cpe : CwmpCpe) (qmsg : CwmpEventData)
    (hget : table.GetCwmpCpe env lastInform.Sn = .done (cpe, table1))
    (hq : (pollQueues (cpe.sendAll arrived) 100).1 = some qmsg) :
    ∃ h, processInform env table req lastInform arrived = .done h ∧
      h.response = .XMLBlob 200 (.created qmsg.Message) := by
  rcases hp : pollQueues (cpe.sendAll arrived) 100 with ⟨r, cpe1⟩
  rw [hp] at hq
  simp only at hq
  subst hq
  have h1 : processInform env table req lastInform arrived = .done
      { response := xmlCwmpMessage (.created qmsg.Message)
        cookie := some lastInform.Sn
        table := table1.setCpe lastInform.Sn cpe1
        db := []
        spawned := [.processInformEvent req.RealIP lastInform] } := by
    simp only [processInform, hget, hp]
  exact ⟨_, h1, rfl⟩


/-- C6 (counterexample): the serial number `N/A` is not empty, yet it does not
pass the guard of `GetCwmpCpe`: the call panics, returns no entry and the
registry holds none for `N/A`. -/
theorem GetCwmpCpe_na_counterexample :
    "N/A" ≠ "" ∧ sampleEnv.IsEmptyOrNA "N/A" = true ∧
      NewCwmpEventTable.GetCwmpCpe sampleEnv "N/A" = .panicked "key is empty" ∧
      NewCwmpEventTable.ListSn.count "N/A" = 0 := by
  refine ⟨by decide, by decide, rfl, by decide⟩

/-- C7: for an empty-body POST whose cookie resolves to the runtime entry of a
serial number: if the latest pending preset task of that serial number has a
non-empty request, `Tr069Index` replies with exactly that request and the
entry, so both queues, stays as it was; if there is no such task, it polls the
high-priority queue and then the normal queue and replies with the message
found: with the head of the high-priority queue when that queue is not empty,
the normal queue staying as it was, and with the head of the normal queue when
only the high-priority queue is empty; the message is taken off its queue; and
it replies 204 when there is no such task and both queues are empty. -/
theorem Tr069Index_empty_post (env : Env) (cd : Codec) (table table1 : CwmpEventTable)
    (req : Request) (arrived : List CwmpEventData) (sn : String) (cpe : CwmpCpe)
    (hread : req.ReadErr = none) (hbody : req.Body = []) (hcookie : req.Cookie = some sn)
    (hsn : sn ≠ "") (hget : table.GetCwmpCpe env sn = .done (cpe, table1)) :
    (∀ ptask, env.GetLatestCwmpPresetTask sn = (some ptask, none) → ptask.Request ≠ "" →
      Tr069Index env cd table req arrived = .done
        { response := .XMLBlob 200 (.raw ptask.Request)
          cookie := none, table := table1, db := [], spawned := [] } ∧
      mapGet table1.cpeTable sn = some cpe) ∧
    ((∀ ptask, env.GetLatestCwmpPresetTask sn = (some ptask, none) → ptask.Request = "") →
      Tr069Index env cd table req arrived = .done
        { response :=
            match (pollQueues cpe 1000).1 with
            | some qmsg => .XMLBlob 200 (.created qmsg.Message)
            | none => .NoContent 204
          cookie := none, table := table1.setCpe sn (pollQueues cpe 1000).2, db := []
          spawned := [] }) ∧
    ((∀ ptask, env.GetLatestCwmpPresetTask sn = (some ptask, none) → ptask.Request = "") →
      ∀ qmsg rest, cpe.cwmpHPQueueMap.buf = qmsg :: rest →
      Tr069Index env cd table req arrived = .done
        { response := .XMLBlob 200 (.created qmsg.Message)
          cookie := none
          table := table1.setCpe sn
            { cpe with cwmpHPQueueMap := ⟨cpe.cwmpHPQueueMap.cap, rest⟩ }
          db := [], spawned := [] }) ∧
    ((∀ ptask, env.GetLatestCwmpPresetTask sn = (some ptask, none) → ptask.Request = "") →
      ∀ qmsg rest, cpe.cwmpHPQueueMap.buf = [] → cpe.cwmpQueueMap.buf = qmsg :: rest →
      Tr069Index env cd table req arrived = .done
        { response := .XMLBlob 200 (.created qmsg.Message)
          cookie := none
          table := table1.setCpe sn
            { cpe with cwmpQueueMap := ⟨cpe.cwmpQueueMap.cap, rest⟩ }
          db := [], spawned := [] }) ∧
    ((∀ ptask, env.GetLatestCwmpPresetTask sn = (some ptask, none) → ptask.Request = "") →
      cpe.cwmpHPQueueMap.buf = [] → cpe.cwmpQueueMap.buf = [] →
      Tr069Index env cd table req arrived = .done
        { response := .NoContent 204
          cookie := none, table := table1.setCpe sn cpe, db := [], spawned := [] }) := by
  have hidx : Tr069Index env cd table req arrived = nextWork env table sn 1000 [] := by
    simp [Tr069Index, hread, hbody, GetLatestCookieSn, hcookie, hsn]
  refine ⟨?_, ?_, ?_, ?_, ?_⟩
  · intro ptask htask hreq
    exact ⟨by rw [hidx]; exact nextWork_preset env table table1 sn 1000 [] cpe ptask hget htask hreq,
      GetCwmpCpe_stored env table table1 sn cpe hget⟩
  · intro hnone
    rw [hidx]
    exact nextWork_queues env table table1 sn 1000 [] cpe hget hnone
  · intro hnone qmsg rest hhp
    rw [hidx, nextWork_queues env table table1 sn 1000 [] cpe hget hnone,
      pollQueues_high_entry cpe 1000 qmsg rest hhp]
  · intro hnone qmsg rest hhp hq
    rw [hidx, nextWork_queues env table table1 sn 1000 [] cpe hget hnone,
      pollQueues_normal_entry cpe 1000 qmsg rest hhp hq]
  · intro hnone hhp hq
    rw [hidx, nextWork_queues env table table1 sn 1000 [] cpe hget hnone,
      pollQueues_empty cpe 1000 hhp hq]

/-- C7, at empty POSTs with cookie `ABC123`: while a `Reboot` preset task is
pending the reply is the task's request and the entry keeps its queues; with
no task, the message `h1` of the high-priority queue is sent before the
message `n1` of the normal queue, which stays queued; with only `n1` queued
the reply is `n1`; with nothing queued the reply is 204. -/
theorem Tr069Index_empty_post_witness :
    (Tr069Index sampleEnvTask (sampleCodec sampleNoBody)
        ⟨[("ABC123", sampleCpe [sampleEvent "n1"] [sampleEvent "h1"])]⟩
        ⟨some "ABC123", [], none, "10.0.0.5"⟩ [] = .done
        { response := .XMLBlob 200 (.raw "<Reboot/>")
          cookie := none
          table := ⟨[("ABC123", sampleCpe [sampleEvent "n1"] [sampleEvent "h1"])]⟩
          db := [], spawned := [] } ∧
      mapGet (⟨[("ABC123", sampleCpe [sampleEvent "n1"] [sampleEvent "h1"])]⟩ :
        CwmpEventTable).cpeTable "ABC123" =
        some (sampleCpe [sampleEvent "n1"] [sampleEvent "h1"])) ∧
    Tr069Index sampleEnv (sampleCodec sampleNoBody)
        ⟨[("ABC123", sampleCpe [sampleEvent "n1"] [sampleEvent "h1"])]⟩
        ⟨some "ABC123", [], none, "10.0.0.5"⟩ [] = .done
        { response := .XMLBlob 200 (.created (sampleEvent "h1").Message)
          cookie := none
          table := ⟨[("ABC123", sampleCpe [sampleEvent "n1"] [])]⟩
          db := [], spawned := [] } ∧
    Tr069Index sampleEnv (sampleCodec sampleNoBody)
        ⟨[("ABC123", sampleCpe [sampleEvent "n1"] [])]⟩
        ⟨some "ABC123", [], none, "10.0.0.5"⟩ [] = .done
        { response := .XMLBlob 200 (.created (sampleEvent "n1").Message)
          cookie := none
          table := ⟨[("ABC123", sampleCpe [] [])]⟩
          db := [], spawned := [] } ∧
    Tr069Index sampleEnv (sampleCodec sampleNoBody)
        ⟨[("ABC123", sampleCpe [] [])]⟩
        ⟨some "ABC123", [], none, "10.0.0.5"⟩ [] = .done
        { response := .NoContent 204
          cookie := none
          table := ⟨[("ABC123", sampleCpe [] [])]⟩
          db := [], spawned := [] } :=
  have hnone : ∀ ptask : CwmpPresetTask,
      sampleEnv.GetLatestCwmpPresetTask "ABC123" = (some ptask, none) → ptask.Request = "" :=
    fun _ h => nomatch h
  ⟨(Tr069Index_empty_post sampleEnvTask (sampleCodec sampleNoBody)
      ⟨[("ABC123", sampleCpe [sampleEvent "n1"] [sampleEvent "h1"])]⟩
      ⟨[("ABC123", sampleCpe [sampleEvent "n1"] [sampleEvent "h1"])]⟩
      ⟨some "ABC123", [], none, "10.0.0.5"⟩ [] "ABC123"
      (sampleCpe [sampleEvent "n1"] [sampleEvent "h1"]) rfl rfl rfl (by decide) rfl).1
      ⟨"Reboot", "<Reboot/>"⟩ rfl (by decide),
   (Tr069Index_empty_post sampleEnv (sampleCodec sampleNoBody)
      ⟨[("ABC123", sampleCpe [sampleEvent "n1"] [sampleEvent "h1"])]⟩
      ⟨[("ABC123", sampleCpe [sampleEvent "n1"] [sampleEvent "h1"])]⟩
      ⟨some "ABC123", [], none, "10.0.0.5"⟩ [] "ABC123"
      (sampleCpe [sampleEvent "n1"] [sampleEvent "h1"]) rfl rfl rfl (by decide) rfl).2.2.1
      hnone (sampleEvent "h1") [] rfl,
   (Tr069Index_empty_post sampleEnv (sampleCodec sampleNoBody)
      ⟨[("ABC123", sampleCpe [sampleEvent "n1"] [])]⟩
      ⟨[("ABC123", sampleCpe [sampleEvent "n1"] [])]⟩
      ⟨some "ABC123", [], none, "10.0.0.5"⟩ [] "ABC123"
      (sampleCpe [sampleEvent "n1"] []) rfl rfl rfl (by decide) rfl).2.2.2.1
      hnone (sampleEvent "n1") [] rfl rfl,
   (Tr069Index_empty_post sampleEnv (sampleCodec sampleNoBody)
      ⟨[("ABC123", sampleCpe [] [])]⟩
      ⟨[("ABC123", sampleCpe [] [])]⟩
      ⟨some "ABC123", [], none, "10.0.0.5"⟩ [] "ABC123"
      (sampleCpe [] []) rfl rfl rfl (by decide) rfl).2.2.2.2
      hnone rfl rfl⟩

/-- C8 (counterexample): a periodic Inform of `ABC123` (ID `X1`) is received
while both queues of its entry are empty. The goroutine `processInformEvent`
that `processInform` starts before its poll runs to its end and starts the
auto-fetch goroutine, which sends a `GetParameterValues` request on the normal
queue of the entry. When that request is there before the poll ends, the reply
of `processInform` is the request, with its own ID, and not the
`InformResponse`. -/
theorem processInform_race_counterexample :
    (sampleInformedCpe 1000000000000).cwmpHPQueueMap.buf = [] ∧
    (sampleInformedCpe 1000000000000).cwmpQueueMap.buf = [] ∧
    (processInformEvent sampleEnv (sampleTable 1000000000000) "10.0.0.5"
      (sampleInform ["2 PERIODIC"] 0) (sampleClock 1030000000000) "u0").2.2 =
      [.autoFetch (sampleInform ["2 PERIODIC"] 0)] ∧
    (mapGet (processInformEvent sampleEnv (sampleTable 1000000000000) "10.0.0.5"
      (sampleInform ["2 PERIODIC"] 0) (sampleClock 1030000000000) "u0").1.cpeTable "ABC123").map
      (fun c => (autoFetch c (sampleInform ["2 PERIODIC"] 0) "u1").cwmpQueueMap.buf) =
      some [sampleAutoFetch] ∧
    ∃ h, processInform sampleEnv (sampleTable 1000000000000) ⟨none, [60], none, "10.0.0.5"⟩
        (sampleInform ["2 PERIODIC"] 0) [sampleAutoFetch] = .done h ∧
      h.response = .XMLBlob 200 (.created sampleAutoFetch.Message) ∧
      h.response ≠ .XMLBlob 200 (.created ⟨.InformResponse,
        ({ ID := "X1", MaxEnvelopes := 1 } : InformResponse)⟩) := by
  have hget : (sampleTable 1000000000000).GetCwmpCpe sampleEnv "ABC123" =
      .done (sampleInformedCpe 1000000000000, sampleTable 1000000000000) := rfl
  have hnot : ∀ (c : CwmpCpe), c.LastDataNotify = 1000000000000 →
      ¬ Seconds (Time.Sub 1030000000000 c.LastDataNotify) > 300 := by
    intro c hc
    rw [Seconds_gt_300, hc]
    simp [Time.Sub, maxDuration, minDuration]
  have hrun :
      (((sampleInformedCpe 1000000000000).CheckRegister sampleEnv "10.0.0.5"
        (sampleInform ["2 PERIODIC"] 0) 1030000000000).1.UpdateStatus sampleEnv
        (sampleInform ["2 PERIODIC"] 0) 1030000000000).NotifyDataUpdate false
        1030000000000 1030000000000 1030000000000 =
      .done ({ sampleInformedCpe 1000000000000 with
          LastInform := some (sampleInform ["2 PERIODIC"] 0), LastUpdate := 1030000000000 },
        [DbOp.Updates "ABC123"
          [("cwmp_status", .str "online"), ("cwmp_last_inform", .time 1030000000000)]]) := by
    rw [NotifyDataUpdate_online _ _ _ _ (hnot _ rfl)]
    rfl
  have hsn : (sampleInform ["2 PERIODIC"] 0).Sn = "ABC123" := rfl
  refine ⟨rfl, rfl, ?_, ?_, ?_⟩
  · simp only [processInformEvent, hsn, hget, sampleClock]
    rw [hrun]
    rfl
  · simp only [processInformEvent, hsn, hget, sampleClock]
    rw [hrun]
    rfl
  · refine ⟨_, rfl, rfl, ?_⟩
    intro hc
    cases hc

/-- C8 (amended): for an Inform whose serial number resolves to a runtime
entry, `arrived` being the messages that the goroutine started by
`processInform` has sent on the normal queue by the end of the poll: when both
queues of the entry are empty and no such message has arrived, the reply of
`processInform` is the `InformResponse` with the ID and the MaxEnvelopes of
the Inform; when the high-priority queue is non-empty the reply is its head;
when only the normal queue is non-empty the reply is the head of the normal
queue; and when both queues are empty and a message has arrived, the reply is
the first message that arrived. -/
theorem processInform_reply (env : Env) (table table1 : CwmpEventTable) (req : Request)
    (lastInform : Inform) (arrived : List CwmpEventData) (cpe : CwmpCpe)
    (hget : table.GetCwmpCpe env lastInform.Sn = .done (cpe, table1)) :
    (cpe.cwmpHPQueueMap.buf = [] → cpe.cwmpQueueMap.buf = [] → arrived = [] →
      ∃ h, processInform env table req lastInform arrived = .done h ∧
        h.response = .XMLBlob 200 (.created ⟨.InformResponse,
          ({ ID := lastInform.ID, MaxEnvelopes := lastInform.MaxEnvelopes } : InformResponse)⟩)) ∧
    (∀ qmsg rest, cpe.cwmpHPQueueMap.buf = qmsg :: rest →
      ∃ h, processInform env table req lastInform arrived = .done h ∧
        h.response = .XMLBlob 200 (.created qmsg.Message)) ∧
    (∀ qmsg rest, cpe.cwmpHPQueueMap.buf = [] → cpe.cwmpQueueMap.buf = qmsg :: rest →
      ∃ h, processInform env table req lastInform arrived = .done h ∧
        h.response = .XMLBlob 200 (.created qmsg.Message)) ∧
    (∀ qmsg rest, cpe.cwmpHPQueueMap.buf = [] → cpe.cwmpQueueMap.buf = [] →
      0 < cpe.cwmpQueueMap.cap → arrived = qmsg :: rest →
      ∃ h, processInform env table req lastInform arrived = .done h ∧
        h.response = .XMLBlob 200 (.created qmsg.Message)) := by
  refine ⟨?_, ?_, ?_, ?_⟩
  · intro hhp hq harr
    subst harr
    have h1 : processInform env table req lastInform [] = .done
        { response := xmlCwmpMessage (.created ⟨.InformResponse,
            ({ ID := lastInform.ID, MaxEnvelopes := lastInform.MaxEnvelopes } : InformResponse)⟩)
          cookie := some lastInform.Sn
          table := table1.setCpe lastInform.Sn cpe
          db := []
          spawned := [.processInformEvent req.RealIP lastInform] } := by
      have hs : cpe.sendAll [] = cpe := rfl
      simp only [processInform, hget, hs, pollQueues_empty cpe 100 hhp hq]
    exact ⟨_, h1, rfl⟩
  · intro qmsg rest hhp
    apply processInform_found env table table1 req lastInform arrived cpe qmsg hget
    apply pollQueues_high _ 100 qmsg rest
    rw [sendAll_high, hhp]
  · intro qmsg rest hhp hq
    obtain ⟨l, hl⟩ := sendAll_buf arrived cpe
    apply processInform_found env table table1 req lastInform arrived cpe qmsg hget
    apply pollQueues_normal _ 100 qmsg (rest ++ l)
    · rw [sendAll_high, hhp]
    · rw [hl, hq]
      rfl
  · intro qmsg rest hhp hq hcap harr
    subst harr
    obtain ⟨l, hl⟩ := sendAll_head qmsg rest cpe hq hcap
    apply processInform_found env table table1 req lastInform (qmsg :: rest) cpe qmsg hget
    apply pollQueues_normal _ 100 qmsg l
    · rw [sendAll_high, hhp]
    · exact hl

/-- C8 (amended), at Informs of `ABC123` (ID `X1`, MaxEnvelopes 1): on the
empty registry with nothing arrived the reply is `InformResponse` with ID `X1`
and MaxEnvelopes 1; with `h1` in the high-priority queue and `n1` in the
normal queue the reply is `h1`. -/
theorem processInform_reply_witness :
    (∃ h, processInform sampleEnv NewCwmpEventTable ⟨none, [60], none, "10.0.0.5"⟩
        (sampleInform ["2 PERIODIC"] 0) [] = .done h ∧
      h.response = .XMLBlob 200 (.created ⟨.InformResponse,
        ({ ID := "X1", MaxEnvelopes := 1 } : InformResponse)⟩)) ∧
    (∃ h, processInform sampleEnv
        ⟨[("ABC123", sampleCpe [sampleEvent "n1"] [sampleEvent "h1"])]⟩
        ⟨none, [60], none, "10.0.0.5"⟩ (sampleInform ["2 PERIODIC"] 0) [sampleAutoFetch] =
          .done h ∧
      h.response = .XMLBlob 200 (.created (sampleEvent "h1").Message)) :=
  ⟨(processInform_reply sampleEnv NewCwmpEventTable ⟨[("ABC123", sampleCpe [] [])]⟩
      ⟨none, [60], none, "10.0.0.5"⟩ (sampleInform ["2 PERIODIC"] 0) [] (sampleCpe [] []) rfl).1
      rfl rfl rfl,
   (processInform_reply sampleEnv
      ⟨[("ABC123", sampleCpe [sampleEvent "n1"] [sampleEvent "h1"])]⟩
      ⟨[("ABC123", sampleCpe [sampleEvent "n1"] [sampleEvent "h1"])]⟩
      ⟨none, [60], none, "10.0.0.5"⟩ (sampleInform ["2 PERIODIC"] 0) [sampleAutoFetch]
      (sampleCpe [sampleEvent "n1"] [sampleEvent "h1"]) rfl).2.1 (sampleEvent "h1") [] rfl⟩

end TeamsACS
